import Mathlib

/-!
# LuaSTG renderer: batch controller and Lua binding

A shallow embedding of

* `LuaSTG/Core/Graphics/Renderer.hpp` (the `IRenderer` interface: state enumerations,
  `DrawVertex`, `DrawIndex`, the batch operations), and
* `LuaSTG/LuaSTG/LuaBinding/LW_Renderer.cpp` (the Lua binding of the renderer).

`IRenderer` is a pure interface: the class implementing it is not among the sources.  Its
behaviour is modelled from the design document (sections 4.1 to 4.4); every such definition
says so in its doc comment.  Everything else is translated from the C++ text.

Numbers: a Lua number (a C `double`) and a C++ `float` are modelled by a rational number.
In `compat_SetFog` and `lib_setPerspective`, which compare numbers after their conversion to
`float`, the conversion rounds to the nearest single-precision value (`roundFloat`); in the
other functions the rounding is outside the embedding.  Infinities and NaN are outside the
embedding throughout.  Two products with constants that are not rational or not under the
sources stay symbolic (`Rad`, and the image scale factor is a field of the environment).
-/

namespace LuaSTG

/-! ## `Renderer.hpp`: state enumerations

Each `enum class X : uint8_t` is a byte with named values; a C cast from an integer can
produce any byte, so the embedding keeps the byte. -/

/-- The enum `IRenderer::VertexColorBlendState` (Renderer.hpp 32-44). -/
structure VertexColorBlendState where
  raw : Nat
deriving DecidableEq, Repr

namespace VertexColorBlendState
def MIN_INDEX : VertexColorBlendState := ⟨0⟩
def Zero : VertexColorBlendState := MIN_INDEX
def One : VertexColorBlendState := ⟨Zero.raw + 1⟩
def Add : VertexColorBlendState := ⟨One.raw + 1⟩
def Hue : VertexColorBlendState := ⟨Add.raw + 1⟩
def Mul : VertexColorBlendState := ⟨Hue.raw + 1⟩
def MAX_INDEX : VertexColorBlendState := Mul
def MAX_COUNT : VertexColorBlendState := ⟨MAX_INDEX.raw + 1⟩
end VertexColorBlendState

/-- The enum `IRenderer::FogState` (Renderer.hpp 45-56). -/
structure FogState where
  raw : Nat
deriving DecidableEq, Repr

namespace FogState
def MIN_INDEX : FogState := ⟨0⟩
def Disable : FogState := MIN_INDEX
def Linear : FogState := ⟨Disable.raw + 1⟩
def Exp : FogState := ⟨Linear.raw + 1⟩
def Exp2 : FogState := ⟨Exp.raw + 1⟩
def MAX_INDEX : FogState := Exp2
def MAX_COUNT : FogState := ⟨MAX_INDEX.raw + 1⟩
end FogState

/-- The enum `IRenderer::DepthState` (Renderer.hpp 57-66). -/
structure DepthState where
  raw : Nat
deriving DecidableEq, Repr

namespace DepthState
def MIN_INDEX : DepthState := ⟨0⟩
def Disable : DepthState := MIN_INDEX
def Enable : DepthState := ⟨Disable.raw + 1⟩
def MAX_INDEX : DepthState := Enable
def MAX_COUNT : DepthState := ⟨MAX_INDEX.raw + 1⟩
end DepthState

/-- The enum `IRenderer::BlendState` (Renderer.hpp 67-86). -/
structure BlendState where
  raw : Nat
deriving DecidableEq, Repr

namespace BlendState
def MIN_INDEX : BlendState := ⟨0⟩
def Disable : BlendState := MIN_INDEX
def Alpha : BlendState := ⟨Disable.raw + 1⟩
def One : BlendState := ⟨Alpha.raw + 1⟩
def Min : BlendState := ⟨One.raw + 1⟩
def Max : BlendState := ⟨Min.raw + 1⟩
def Mul : BlendState := ⟨Max.raw + 1⟩
def Screen : BlendState := ⟨Mul.raw + 1⟩
def Add : BlendState := ⟨Screen.raw + 1⟩
def Hue : BlendState := ⟨Add.raw + 1⟩
def Sub : BlendState := ⟨Hue.raw + 1⟩
def RevSub : BlendState := ⟨Sub.raw + 1⟩
def Inv : BlendState := ⟨RevSub.raw + 1⟩
def MAX_INDEX : BlendState := Inv
def MAX_COUNT : BlendState := ⟨MAX_INDEX.raw + 1⟩
end BlendState

/-- The enum `IRenderer::SamplerState` (Renderer.hpp 87-102). -/
structure SamplerState where
  raw : Nat
deriving DecidableEq, Repr

namespace SamplerState
def MIN_INDEX : SamplerState := ⟨0⟩
def PointWrap : SamplerState := MIN_INDEX
def PointClamp : SamplerState := ⟨PointWrap.raw + 1⟩
def PointBorderBlack : SamplerState := ⟨PointClamp.raw + 1⟩
def PointBorderWhite : SamplerState := ⟨PointBorderBlack.raw + 1⟩
def LinearWrap : SamplerState := ⟨PointBorderWhite.raw + 1⟩
def LinearClamp : SamplerState := ⟨LinearWrap.raw + 1⟩
def LinearBorderBlack : SamplerState := ⟨LinearClamp.raw + 1⟩
def LinearBorderWhite : SamplerState := ⟨LinearBorderBlack.raw + 1⟩
def MAX_INDEX : SamplerState := LinearBorderWhite
def MAX_COUNT : SamplerState := ⟨MAX_INDEX.raw + 1⟩
end SamplerState

/-- The struct `IRenderer::DrawVertex` (Renderer.hpp 114-127): position, packed colour,
texture coordinate. -/
structure DrawVertex where
  x : ℚ
  y : ℚ
  z : ℚ
  color : Nat
  u : ℚ
  v : ℚ
deriving DecidableEq, Repr

/-- The default constructor `DrawVertex()` (Renderer.hpp 120). -/
def DrawVertex.default : DrawVertex := ⟨0, 0, 0, 0, 0, 0⟩

/-- The type `IRenderer::DrawIndex = uint16_t` (Renderer.hpp 128), kept as a natural number. -/
abbrev DrawIndex := Nat

/-- Handle of a texture object (`ITexture2D*`). -/
abbrev TextureId := Nat

/-! ## The batch controller behind `IRenderer`

The implementing class is not among the sources; this section follows sections 3 and 4.1 to
4.3 of the design document. -/

/-- Modelled from the spec: the Pending Draw State of section 3 (the implementation of
`IRenderer` is missing): vertex-colour blend mode, fog mode with colour and two parameters,
depth test, blend mode, bound texture (nullable) and sampler mode. -/
structure DrawState where
  vertexColorBlend : VertexColorBlendState
  fog : FogState
  fogColor : Nat
  fogNear : ℚ
  fogFar : ℚ
  depth : DepthState
  blend : BlendState
  texture : Option TextureId
  sampler : SamplerState
deriving DecidableEq, Repr

/-- Modelled from the spec: the identity Pending Draw State a scope is opened with in section
4.3 (the implementation of `beginBatch` is missing): blend disabled, fog disabled, depth
disabled, no texture, default sampler. -/
def DrawState.identity : DrawState :=
  { vertexColorBlend := VertexColorBlendState.Zero
    fog := FogState.Disable
    fogColor := 0
    fogNear := 0
    fogFar := 0
    depth := DepthState.Disable
    blend := BlendState.Disable
    texture := none
    sampler := SamplerState.MIN_INDEX }

/-- One draw primitive as handed to the accumulator: its vertices and its indices, the
indices relative to the first vertex of the primitive. -/
structure Primitive where
  vertices : List DrawVertex
  indices : List DrawIndex
deriving DecidableEq, Repr

/-- Modelled from the spec: the Geometry Accumulator contents of section 4.1 (the
implementation of `IRenderer` is missing): vertex and index storage of the open batch. -/
structure Geometry where
  vertices : List DrawVertex
  indices : List DrawIndex
deriving DecidableEq, Repr

/-- The cleared accumulator. -/
def Geometry.empty : Geometry := ⟨[], []⟩

/-- Modelled from the spec: step (3) of a draw in section 4.3 (the implementation is
missing): vertices are written verbatim after the accumulated ones, indices are offset by
the base of the reservation, which is the number of vertices accumulated before. -/
def Geometry.append (g : Geometry) (p : Primitive) : Geometry :=
  { vertices := g.vertices ++ p.vertices
    indices := g.indices ++ p.indices.map (fun i => i + g.vertices.length) }

/-- Modelled from the spec: the capacity of section 4.1 (the implementation is missing):
one batch addresses at most 65536 vertices. -/
def maxBatchVertices : Nat := 65536

/-- Modelled from the spec: `reserve` of section 4.1 (the implementation is missing): it
fails when the requested vertices would make the running total exceed 65536. -/
def Geometry.canReserve (g : Geometry) (nvert : Nat) : Bool :=
  decide (g.vertices.length + nvert ≤ maxBatchVertices)

/-- One device submission: the state it was submitted under and the geometry it carries. -/
structure Submission where
  state : DrawState
  geometry : Geometry
deriving DecidableEq, Repr

/-- Modelled from the spec: the Batch Scope of section 3 together with the Pipeline State
Tracker of section 4.2 (the class implementing `IRenderer` is missing): the open flag, the
Pending Draw State, the state last recorded as submitted, the accumulator, and the
submissions made to the device so far, oldest first. -/
structure Renderer where
  scope : Bool
  pending : DrawState
  submitted : DrawState
  acc : Geometry
  device : List Submission
deriving DecidableEq, Repr

namespace Renderer

/-- Modelled from the spec: `isBatchScope` (implementation missing): the open flag. -/
def isBatchScope (r : Renderer) : Bool := r.scope

/-- Modelled from the spec: `flush()` of section 4.3 (implementation missing): submits all
accumulated geometry as one draw call under the submitted state and clears the accumulator;
with zero accumulated geometry it is a no-op.  Valid whether or not a scope is open. -/
def flush (r : Renderer) : Bool × Renderer :=
  if r.acc = Geometry.empty then (true, r)
  else (true, { r with device := r.device ++ [⟨r.submitted, r.acc⟩], acc := Geometry.empty })

/-- Modelled from the spec: `begin()` of section 4.3 (implementation missing): fails if a
scope is already open; otherwise opens a scope with the identity Pending Draw State. -/
def beginBatch (r : Renderer) : Bool × Renderer :=
  if r.scope then (false, r)
  else (true, { r with scope := true, pending := DrawState.identity })

/-- Modelled from the spec: `end()` of section 4.3 (implementation missing): fails if no
scope is open; flushes any remaining geometry, then closes the scope. -/
def endBatch (r : Renderer) : Bool × Renderer :=
  if r.scope then (true, { (r.flush).2 with scope := false })
  else (false, r)

/-- Modelled from the spec: `setState` of section 4.3 for the vertex-colour axis
(implementation missing): updates the Pending Draw State and does not flush. -/
def setVertexColorBlendState (r : Renderer) (s : VertexColorBlendState) : Renderer :=
  { r with pending := { r.pending with vertexColorBlend := s } }

/-- Modelled from the spec: `setState` of section 4.3 for the fog axis (implementation
missing). -/
def setFogState (r : Renderer) (s : FogState) (color : Nat) (a b : ℚ) : Renderer :=
  { r with pending := { r.pending with fog := s, fogColor := color, fogNear := a, fogFar := b } }

/-- Modelled from the spec: `setState` of section 4.3 for the depth axis (implementation
missing). -/
def setDepthState (r : Renderer) (s : DepthState) : Renderer :=
  { r with pending := { r.pending with depth := s } }

/-- Modelled from the spec: `setState` of section 4.3 for the blend axis (implementation
missing). -/
def setBlendState (r : Renderer) (s : BlendState) : Renderer :=
  { r with pending := { r.pending with blend := s } }

/-- Modelled from the spec: `setState` of section 4.3 for the texture axis (implementation
missing). -/
def setTexture (r : Renderer) (t : Option TextureId) : Renderer :=
  { r with pending := { r.pending with texture := t } }

/-- Modelled from the spec: step (1) of a draw in section 4.3 (implementation missing):
when the Pending Draw State differs from the submitted state, flush, then record the
pending state as submitted. -/
def syncState (r : Renderer) : Renderer :=
  if r.pending = r.submitted then r
  else { (r.flush).2 with submitted := r.pending }

/-- Modelled from the spec: a draw of section 4.3 (implementation missing): valid only
while open; (1) state divergence flushes first; (2) space is reserved, flushing and
retrying once if capacity is exceeded; (3) the primitive is appended. -/
def draw (r : Renderer) (p : Primitive) : Bool × Renderer :=
  if r.scope then
    let r1 := r.syncState
    if r1.acc.canReserve p.vertices.length then
      (true, { r1 with acc := r1.acc.append p })
    else
      let r2 := (r1.flush).2
      if r2.acc.canReserve p.vertices.length then
        (true, { r2 with acc := r2.acc.append p })
      else (false, r2)
  else (false, r)

/-- Modelled from the spec: `drawTriangle(v0,v1,v2)` of section 4.3 (implementation
missing). -/
def drawTriangle (r : Renderer) (v1 v2 v3 : DrawVertex) : Bool × Renderer :=
  r.draw ⟨[v1, v2, v3], [0, 1, 2]⟩

/-- Modelled from the spec: `drawQuad(v0..v3)` of section 4.3 (implementation missing):
two triangles sharing the diagonal v0-v2. -/
def drawQuad (r : Renderer) (v1 v2 v3 v4 : DrawVertex) : Bool × Renderer :=
  r.draw ⟨[v1, v2, v3, v4], [0, 1, 2, 0, 2, 3]⟩

/-- Modelled from the spec: `drawRaw(vertices, indices)` of section 4.3 (implementation
missing). -/
def drawRaw (r : Renderer) (pvert : List DrawVertex) (pidx : List DrawIndex) : Bool × Renderer :=
  r.draw ⟨pvert, pidx⟩

/-- Modelled from the spec: `apply` of section 4.5 (the implementation of `drawPostEffect`
is missing): flushes first, submits the effect outside the batching path, and does not alter
the Pending Draw State. -/
def drawPostEffect (r : Renderer) : Bool × Renderer := r.flush

/-- Modelled from the spec: `drawModel` of section 4.6 (the implementation is missing): the
mesh is submitted directly, independent of the accumulator and of the Pending Draw State. -/
def drawModel (r : Renderer) : Bool × Renderer := (true, r)

end Renderer

/-! ## Draw sequences inside one open scope -/

/-- A call a client makes inside an open scope: one of the five state setters or one of the
three draw operations of `IRenderer` (Renderer.hpp 147-157). -/
inductive Cmd where
  | setVertexColorBlendState (s : VertexColorBlendState)
  | setFogState (s : FogState) (color : Nat) (a b : ℚ)
  | setDepthState (s : DepthState)
  | setBlendState (s : BlendState)
  | setTexture (t : Option TextureId)
  | drawTriangle (v1 v2 v3 : DrawVertex)
  | drawQuad (v1 v2 v3 v4 : DrawVertex)
  | drawRaw (pvert : List DrawVertex) (pidx : List DrawIndex)
deriving DecidableEq, Repr

/-- Running one client call on the batch controller; the success flag of a draw is dropped,
as the binding does. -/
def Renderer.step (r : Renderer) : Cmd → Renderer
  | .setVertexColorBlendState s => r.setVertexColorBlendState s
  | .setFogState s c a b => r.setFogState s c a b
  | .setDepthState s => r.setDepthState s
  | .setBlendState s => r.setBlendState s
  | .setTexture t => r.setTexture t
  | .drawTriangle v1 v2 v3 => (r.drawTriangle v1 v2 v3).2
  | .drawQuad v1 v2 v3 v4 => (r.drawQuad v1 v2 v3 v4).2
  | .drawRaw pvert pidx => (r.drawRaw pvert pidx).2

/-- Running a sequence of client calls, in order. -/
def Renderer.run (r : Renderer) (cmds : List Cmd) : Renderer :=
  cmds.foldl Renderer.step r

/-- The Pending Draw State after a client call, by the words of section 4.3: a setter
replaces its axis, a draw leaves the state alone. -/
def Cmd.onState (c : Cmd) (s : DrawState) : DrawState :=
  match c with
  | .setVertexColorBlendState v => { s with vertexColorBlend := v }
  | .setFogState f c a b => { s with fog := f, fogColor := c, fogNear := a, fogFar := b }
  | .setDepthState d => { s with depth := d }
  | .setBlendState b => { s with blend := b }
  | .setTexture t => { s with texture := t }
  | .drawTriangle _ _ _ => s
  | .drawQuad _ _ _ _ => s
  | .drawRaw _ _ => s

/-- The primitive a draw call contributes; `none` for a setter. -/
def Cmd.primitive? : Cmd → Option Primitive
  | .drawTriangle v1 v2 v3 => some ⟨[v1, v2, v3], [0, 1, 2]⟩
  | .drawQuad v1 v2 v3 v4 => some ⟨[v1, v2, v3, v4], [0, 1, 2, 0, 2, 3]⟩
  | .drawRaw pvert pidx => some ⟨pvert, pidx⟩
  | _ => none

/-- The draws of a call sequence in issue order, each with the snapshot of the Pending Draw
State it was issued under; `s` is the pending state before the first call. -/
def snapshots (s : DrawState) : List Cmd → List (DrawState × Primitive)
  | [] => []
  | c :: cs =>
    match c.primitive? with
    | some p => (s, p) :: snapshots s cs
    | none => snapshots (c.onState s) cs

/-- The maximal runs of consecutive draws sharing one snapshot, in issue order: a draw joins
the run that follows it exactly when that run has the same snapshot. -/
def maximalRuns : List (DrawState × Primitive) → List (DrawState × List Primitive)
  | [] => []
  | (s, p) :: rest =>
    match maximalRuns rest with
    | [] => [(s, [p])]
    | (s1, ps) :: runs =>
      if s = s1 then (s, p :: ps) :: runs else (s, [p]) :: (s1, ps) :: runs

/-- The geometry of a run submitted as one batch: its primitives appended in order to a
cleared accumulator. -/
def batchGeometry (ps : List Primitive) : Geometry :=
  ps.foldl Geometry.append Geometry.empty

/-- The submission that carries exactly one run. -/
def submissionOf (run : DrawState × List Primitive) : Submission :=
  ⟨run.1, batchGeometry run.2⟩

/-- Number of vertices of a list of primitives. -/
def vertexTotal (ps : List Primitive) : Nat :=
  (ps.map (fun p => p.vertices.length)).sum

/-- The vertex of the capacity example. -/
def sampleVertex : DrawVertex := ⟨0, 0, 0, 4294967295, 0, 0⟩

/-- A renderer with an open scope, nothing accumulated and nothing submitted. -/
def Renderer.fresh : Renderer :=
  ⟨true, DrawState.identity, DrawState.identity, Geometry.empty, []⟩

/-- A vertex buffer of 40000 vertices, which one `drawRaw` call can pass (`nvert` is a
`uint16_t`). -/
def largeVertexBuffer : List DrawVertex := List.replicate 40000 sampleVertex

/-- Two raw draws of the same vertex buffer, with no state change between them. -/
def capacityExample (buf : List DrawVertex) : List Cmd :=
  [.drawRaw buf [0, 1, 2], .drawRaw buf [0, 1, 2]]


/-! ## Lua values, the Lua stack and the application objects

The Lua runtime and the application singletons (`LAPP`, `LRESMGR()`, `LRES`) are not part of
`LW_Renderer.cpp`.  The Lua C API functions below follow the Lua 5.1 reference manual; what
the manual leaves to the runtime (text to number conversion and back) and what lives in
other files of the repository (resource lookup, blend-mode translation) are fields of the
environment `Env`, so every statement holds for all of them. -/

/-- The enum `RenderError` (LW_Renderer.cpp 18-23). -/
inductive RenderError where
  | None
  | SpriteNotFound
  | SpriteSequenceNotFound
deriving DecidableEq, Repr

/-- The values of `LuaSTGPlus::BlendMode` named in `translate_blend_3d` (LW_Renderer.cpp
67-109); the declaration of the enum is not among the sources, `other` stands for any value
the switch does not name. -/
inductive BlendMode where
  | MulAlpha | MulAdd | MulRev | MulSub
  | AddAlpha | AddAdd | AddRev | AddSub
  | AlphaBal
  | MulMin | MulMax | MulMutiply | MulScreen
  | AddMin | AddMax | AddMutiply | AddScreen
  | One
  | other (value : Nat)
deriving DecidableEq, Repr

/-- The product `L_DEG_TO_RAD * deg`, kept symbolic. -/
structure Rad where
  deg : ℚ
deriving DecidableEq, Repr

/-- The struct `Core::Vector3F`. -/
structure Vector3F where
  x : ℚ
  y : ℚ
  z : ℚ
deriving DecidableEq, Repr

/-- The struct `Core::Vector4F`. -/
structure Vector4F where
  x : ℚ
  y : ℚ
  z : ℚ
  w : ℚ
deriving DecidableEq, Repr

/-- The struct `Core::Color4B`, as its packed 32-bit value (alpha, red, green, blue from the
most significant byte down). -/
structure Color4B where
  argb : Nat
deriving DecidableEq, Repr

/-- The red channel of a colour. -/
def Color4B.r (c : Color4B) : Nat := c.argb / 65536 % 256

/-- The green channel of a colour. -/
def Color4B.g (c : Color4B) : Nat := c.argb / 256 % 256

/-- The blue channel of a colour. -/
def Color4B.b (c : Color4B) : Nat := c.argb % 256

/-- The alpha channel of a colour. -/
def Color4B.a (c : Color4B) : Nat := c.argb / 16777216 % 256

/-- The packed value `Color4B::color()`. -/
def Color4B.color (c : Color4B) : Nat := c.argb

abbrev SpriteId := Nat
abbrev AnimationId := Nat
abbrev ModelId := Nat
abbrev EffectId := Nat
abbrev MeshId := Nat

/-- The kinds of full userdata the binding casts to. -/
inductive Userdata where
  | color (c : Color4B)
  | mesh (m : MeshId)
  | postEffectShader (e : EffectId)
  | other (tag : Nat)
deriving DecidableEq, Repr

/-- A Lua value.  A table is its list of key/value pairs, in the order `lua_next` visits
them. -/
inductive LuaValue where
  | nil
  | boolean (b : Bool)
  | number (n : ℚ)
  | string (s : String)
  | table (fields : List (LuaValue × LuaValue))
  | userdata (u : Userdata)
deriving Repr

/-- What a binding function can end with besides returning: a Lua error raised by
`luaL_error`, an argument error raised by a `luaL_check*` function or `luaL_argcheck`, a
type error raised by the Lua runtime (indexing a value that is not a table), or a use of
the C API or of a C array that the language leaves undefined. -/
inductive LuaError where
  | raised (msg : String)
  | badArgument (narg : Int) (expected : String)
  | typeError (msg : String)
  | undefinedBehaviour (what : String)
deriving DecidableEq, Repr

/-- A texture resource (`IResourceTexture`): its texture object, whether it is a render
target, and the size of the texture. -/
structure ResourceTexture where
  texture : TextureId
  isRenderTarget : Bool
  width : Nat
  height : Nat
deriving DecidableEq, Repr

/-- The kinds of resource the binding looks up by name. -/
inductive ResourceKind where
  | sprite | animation | texture | model | fx
deriving DecidableEq, Repr

/-- One lookup in the resource manager: what was asked for and whether it resolved. -/
structure Lookup where
  kind : ResourceKind
  name : String
  found : Bool
deriving DecidableEq, Repr

/-- Every call that reaches the renderer, a resource object or the application from the
binding and that is not a pure query.  Queries (`isBatchScope`, `getViewport`,
`IsRenderTarget`, `getSize`) are not recorded; the `Find*` lookups are recorded apart, as
`Lookup`s. -/
inductive Call where
  | beginBatch
  | endBatch
  | flush
  | setViewportAndScissorRect
  | setVertexColorBlendState (s : VertexColorBlendState)
  | setFogState (s : FogState) (color : Color4B) (density_or_znear zfar : ℚ)
  | setDepthState (s : DepthState)
  | setBlendState (s : BlendState)
  | setTexture (t : TextureId)
  | drawTriangle (v1 v2 v3 : DrawVertex)
  | drawQuad (v1 v2 v3 v4 : DrawVertex)
  | drawPostEffect (effect : EffectId) (blend : BlendState)
  | drawPostEffectArrays (effect : EffectId) (blend : BlendState) (tex : TextureId)
      (rtsv : SamplerState) (cv : List Vector4F) (cv_n : Nat)
      (tex_arr : List (Option TextureId)) (sv : List SamplerState) (tv_sv_n : Nat)
  | drawModel (m : ModelId)
  | spriteRender (s : SpriteId) (x y : ℚ) (rot : Rad) (hscale vscale z : ℚ)
  | spriteRenderRect (s : SpriteId) (l r b t z : ℚ)
  | spriteRender4V (s : SpriteId) (x1 y1 z1 x2 y2 z2 x3 y3 z3 x4 y4 z4 : ℚ)
  | spriteRender3D (s : SpriteId) (x y z : ℚ) (rx ry rz : Rad) (sx sy : ℚ)
  | animationRender (a : AnimationId) (ani_timer : Int) (x y : ℚ) (rot : Rad)
      (hscale vscale z : ℚ)
  | meshDraw (m : MeshId)
  | modelSetScaling (m : ModelId) (sx sy sz : ℚ)
  | modelSetRotationRollPitchYaw (m : ModelId) (roll pitch yaw : Rad)
  | modelSetPosition (m : ModelId) (x y z : ℚ)
  | effectSetFloat (e : EffectId) (name : String) (value : ℚ)
  | effectSetFloat4 (e : EffectId) (name : String) (value : Vector4F)
  | effectSetTexture2D (e : EffectId) (name : String) (t : TextureId)
  | updateGraph2DBlendMode (blend : BlendMode)
  | PushRenderTarget (t : TextureId)
  | PopRenderTarget
  | setPerspective (eye lookat headup : Vector3F) (fov aspect znear zfar : ℚ)
deriving DecidableEq, Repr

/-- Whether a call is a draw: a sprite or animation `Render*`, `drawTriangle`, `drawQuad`,
a mesh draw, `drawModel` or `drawPostEffect`. -/
def Call.isDraw : Call → Bool
  | .drawTriangle _ _ _ => true
  | .drawQuad _ _ _ _ => true
  | .drawPostEffect _ _ => true
  | .drawPostEffectArrays _ _ _ _ _ _ _ _ _ => true
  | .drawModel _ => true
  | .spriteRender _ _ _ _ _ _ _ => true
  | .spriteRenderRect _ _ _ _ _ _ => true
  | .spriteRender4V _ _ _ _ _ _ _ _ _ _ _ _ _ => true
  | .spriteRender3D _ _ _ _ _ _ _ _ _ => true
  | .animationRender _ _ _ _ _ _ _ _ => true
  | .meshDraw _ => true
  | _ => false

/-- Whether a call is one of the five setters of the Pending Draw State. -/
def Call.isStateSetter : Call → Bool
  | .setVertexColorBlendState _ => true
  | .setFogState _ _ _ _ => true
  | .setDepthState _ => true
  | .setBlendState _ => true
  | .setTexture _ => true
  | _ => false

/-- What `LW_Renderer.cpp` uses from the Lua runtime and from other files of the repository
without defining it.  All of it is read-only for the binding. -/
structure Env where
  /-- The conversion `lua_str2number` of the Lua runtime. -/
  str2number : String → Option ℚ
  /-- The conversion `lua_number2str` of the Lua runtime. -/
  number2str : ℚ → String
  /-- The function `ResourceMgr::FindSprite`. -/
  FindSprite : String → Option SpriteId
  /-- The function `ResourceMgr::FindAnimation`. -/
  FindAnimation : String → Option AnimationId
  /-- The function `ResourceMgr::FindTexture`. -/
  FindTexture : String → Option ResourceTexture
  /-- The function `ResourceMgr::FindModel`. -/
  FindModel : String → Option ModelId
  /-- The function `ResourceMgr::FindFX`. -/
  FindFX : String → Option EffectId
  /-- The function `ResourceMgr::GetGlobalImageScaleFactor`. -/
  GetGlobalImageScaleFactor : ℚ
  /-- The function `LuaSTGPlus::TranslateBlendMode(L, idx)` on the value at `idx`; `none`
  when it raises an error. -/
  TranslateBlendMode : LuaValue → Option BlendMode
  /-- The effect of `AppFrame::updateGraph2DBlendMode` on the renderer. -/
  updateGraph2DBlendMode : BlendMode → Renderer → Renderer
  /-- Whether `RenderTargetManager::PushRenderTarget` accepts a texture. -/
  pushAccepts : TextureId → Bool
  /-- The value `IRenderer::getViewport` returns, as (a.x, a.y, b.x, b.y). -/
  viewport : Vector4F
  /-- The result of `IPostEffectShader::setFloat(name, value)` on an effect. -/
  effectSetFloat : EffectId → String → ℚ → Bool
  /-- The result of `IPostEffectShader::setFloat4(name, value)` on an effect. -/
  effectSetFloat4 : EffectId → String → Vector4F → Bool
  /-- The result of `IPostEffectShader::setTexture2D(name, p_texture)` on an effect. -/
  effectSetTexture2D : EffectId → String → TextureId → Bool

/-- Modelled from the spec: the Render Target Stack of section 4.4 (the class
`RenderTargetManager` is missing): the render targets of the frames pushed above the
implicit base frame, most recent first.  The viewport and the scissor of a frame are not
part of the embedding. -/
structure RenderTargetManager where
  stack : List TextureId
deriving DecidableEq, Repr

/-- Modelled from the spec: `push` of section 4.4 without its flush and rebinding, which the
binding does itself (`RenderTargetManager::PushRenderTarget` is missing): pushes the frame
unless the manager rejects the texture. -/
def RenderTargetManager.PushRenderTarget (m : RenderTargetManager) (accepts : Bool)
    (t : TextureId) : Bool × RenderTargetManager :=
  if accepts then (true, ⟨t :: m.stack⟩) else (false, m)

/-- Modelled from the spec: `pop` of section 4.4 without its flush and rebinding
(`RenderTargetManager::PopRenderTarget` is missing): fails if only the base frame remains,
otherwise pops. -/
def RenderTargetManager.PopRenderTarget (m : RenderTargetManager) : Bool × RenderTargetManager :=
  match m.stack with
  | [] => (false, m)
  | _ :: rest => (true, ⟨rest⟩)

/-- The state a binding function runs on: the Lua stack (first element is index 1), the
renderer `LR2D()`, the render-target manager, the calls and the resource lookups made so far
(oldest first), and the environment. -/
structure lua_State where
  stack : List LuaValue
  renderer : Renderer
  renderTargets : RenderTargetManager
  calls : List Call
  lookups : List Lookup
  env : Env

/-- The outcome of a binding function, a value or an error, can be compared with another. -/
instance {ε α : Type} [DecidableEq ε] [DecidableEq α] : DecidableEq (Except ε α)
  | .ok a, .ok b =>
    if h : a = b then isTrue (congrArg Except.ok h)
    else isFalse (fun h2 => h (Except.ok.inj h2))
  | .error a, .error b =>
    if h : a = b then isTrue (congrArg Except.error h)
    else isFalse (fun h2 => h (Except.error.inj h2))
  | .ok _, .error _ => isFalse (fun h => Except.noConfusion h)
  | .error _, .ok _ => isFalse (fun h => Except.noConfusion h)

/-- A computation of the binding: it ends with a value or with an error, and in both cases
leaves a state behind (a Lua error does not undo the calls already made). -/
def LuaM (α : Type) : Type := lua_State → Except LuaError α × lua_State

namespace LuaM

/-- Return a value without touching the state. -/
def ret {α : Type} (a : α) : LuaM α := fun L => (.ok a, L)

/-- Sequencing: an error of the first computation ends the whole computation. -/
def andThen {α β : Type} (m : LuaM α) (f : α → LuaM β) : LuaM β := fun L =>
  match m L with
  | (.ok a, L1) => f a L1
  | (.error e, L1) => (.error e, L1)

instance : Monad LuaM where
  pure := ret
  bind := andThen

/-- End the computation with an error. -/
def fail {α : Type} (e : LuaError) : LuaM α := fun L => (.error e, L)

/-- Read the state. -/
def get : LuaM lua_State := fun L => (.ok L, L)

/-- Replace the state. -/
def set (L1 : lua_State) : LuaM Unit := fun _ => (.ok (), L1)

end LuaM


/-! ### The Lua C API (Lua 5.1 reference manual, sections 3 and 4)

Metatables are not modelled: a table is indexed raw. -/

/-- The type tags `LUA_T*` the binding tests for. -/
inductive LuaType where
  | LUA_TNIL | LUA_TBOOLEAN | LUA_TNUMBER | LUA_TSTRING | LUA_TTABLE | LUA_TUSERDATA
deriving DecidableEq, Repr

/-- The type tag of a value. -/
def LuaValue.type : LuaValue → LuaType
  | .nil => .LUA_TNIL
  | .boolean _ => .LUA_TBOOLEAN
  | .number _ => .LUA_TNUMBER
  | .string _ => .LUA_TSTRING
  | .table _ => .LUA_TTABLE
  | .userdata _ => .LUA_TUSERDATA

/-- The value at a stack index: positive indices count from the bottom, negative ones from
the top; an index outside the stack reads as `nil`. -/
def stackValueAt (stack : List LuaValue) (idx : Int) : LuaValue :=
  if 0 < idx then
    (stack[idx.toNat - 1]?).getD LuaValue.nil
  else if idx < 0 ∧ (-idx).toNat ≤ stack.length then
    (stack[stack.length - (-idx).toNat]?).getD LuaValue.nil
  else LuaValue.nil

/-- The value at an index of the Lua stack (`index2adr`). -/
def lua_State.valueAt (L : lua_State) (idx : Int) : LuaValue :=
  stackValueAt L.stack idx

/-- The number a value converts to: a number itself, or a string the runtime can read as a
number. -/
def Env.tonumber? (env : Env) : LuaValue → Option ℚ
  | .number n => some n
  | .string s => env.str2number s
  | _ => none

/-- The string a value converts to: a string itself, or a number printed by the runtime. -/
def Env.tostring? (env : Env) : LuaValue → Option String
  | .string s => some s
  | .number n => some (env.number2str n)
  | _ => none

/-- Raw comparison of two keys; tables and userdata are compared by identity in Lua and are
never equal here. -/
def LuaValue.keyEq : LuaValue → LuaValue → Bool
  | .nil, .nil => true
  | .boolean a, .boolean b => a == b
  | .number a, .number b => a == b
  | .string a, .string b => a == b
  | _, _ => false

/-- Raw table read `t[k]`; an absent key reads as `nil`. -/
def rawget (fields : List (LuaValue × LuaValue)) (k : LuaValue) : LuaValue :=
  match fields.find? (fun kv => kv.1.keyEq k) with
  | some kv => kv.2
  | none => LuaValue.nil

/-- Counting the array part of a table upwards from `n`, with `fuel` as a bound. -/
def arrayLengthFrom (fields : List (LuaValue × LuaValue)) : Nat → Nat → Nat
  | 0, n => n
  | fuel + 1, n =>
    match rawget fields (LuaValue.number (n + 1 : Nat)) with
    | .nil => n
    | _ => arrayLengthFrom fields fuel (n + 1)

/-- Length of the array part of a table: the first `n` with `t[n+1]` equal to `nil`. -/
def arrayLength (fields : List (LuaValue × LuaValue)) : Nat :=
  arrayLengthFrom fields fields.length 0

/-- Truncation of a number towards zero, the C conversion to an integer type. -/
def truncate (q : ℚ) : Int := q.num.tdiv q.den

/-- The C conversion `(uint32_t)` of a number. -/
def toUInt32 (q : ℚ) : Nat := (truncate q % 4294967296).toNat

/-- The C conversion of an integer to an enum over `uint8_t`. -/
def toUInt8 (n : Int) : Nat := (n % 256).toNat

/-- The number of binary digits of `n`, found in at most `fuel` halvings. -/
def binaryDigits : Nat → Nat → Nat
  | 0, _ => 0
  | fuel + 1, n => if n = 0 then 0 else binaryDigits fuel (n / 2) + 1

/-- The exponent `e` with `2^e ≤ num / den < 2^(e+1)`, for positive `num` and `den`. -/
def binaryExponent (num den : Nat) : Int :=
  let e0 : Int := (binaryDigits num num : Int) - (binaryDigits den den : Int)
  if den * 2 ^ e0.toNat ≤ num * 2 ^ (-e0).toNat then e0 else e0 - 1

/-- The quotient `num / den` rounded to the nearest integer, a tie going to the even one. -/
def roundHalfEven (num den : Nat) : Nat :=
  let k := num / den
  let r := num % den
  if 2 * r < den then k
  else if den < 2 * r then k + 1
  else if k % 2 = 0 then k else k + 1

/-- The largest finite value of the type `float`, `(2^24 - 1) * 2^104`. -/
def FLT_MAX : ℚ := 340282346638528859811704183484516925440

/-- The value of the type `float` (IEEE 754 single precision: 24 binary digits, exponents
from -126 to 127, smaller values in steps of `2^-149`) that is nearest to a number within
the range of `float`, a tie going to the value with an even last digit.  This is what a
conversion to `float` gives on the targets of the program (Windows, x86). -/
def roundFloat (q : ℚ) : ℚ :=
  if q = 0 then 0
  else
    let num := q.num.natAbs
    let den := q.den
    let e := max (binaryExponent num den) (-126)
    let p := e - 23
    let n := roundHalfEven (num * 2 ^ (-p).toNat) (den * 2 ^ p.toNat)
    mkRat (q.num.sign * (n * 2 ^ p.toNat : Nat)) (2 ^ (-p).toNat)

/-- The call `luaL_error(L, msg)`. -/
def luaL_error {α : Type} (msg : String) : LuaM α := LuaM.fail (LuaError.raised msg)

/-- The call `lua_gettop(L)`. -/
def lua_gettop : LuaM Nat := fun L => (.ok L.stack.length, L)

/-- The value at an index. -/
def lua_value (idx : Int) : LuaM LuaValue := fun L => (.ok (L.valueAt idx), L)

/-- The call `lua_type(L, idx)`. -/
def lua_type (idx : Int) : LuaM LuaType := fun L => (.ok (L.valueAt idx).type, L)

/-- The call `lua_isnumber(L, idx)`: a number or a string convertible to a number. -/
def lua_isnumber (idx : Int) : LuaM Bool := fun L =>
  (.ok (L.env.tonumber? (L.valueAt idx)).isSome, L)

/-- The call `lua_isstring(L, idx)`: a string or a number. -/
def lua_isstring (idx : Int) : LuaM Bool := fun L =>
  (.ok (L.env.tostring? (L.valueAt idx)).isSome, L)

/-- The call `lua_istable(L, idx)`. -/
def lua_istable (idx : Int) : LuaM Bool := fun L =>
  (.ok (decide ((L.valueAt idx).type = LuaType.LUA_TTABLE)), L)

/-- The call `lua_isuserdata(L, idx)`. -/
def lua_isuserdata (idx : Int) : LuaM Bool := fun L =>
  (.ok (decide ((L.valueAt idx).type = LuaType.LUA_TUSERDATA)), L)

/-- The call `lua_tonumber(L, idx)`: 0 when the value does not convert. -/
def lua_tonumber (idx : Int) : LuaM ℚ := fun L =>
  (.ok ((L.env.tonumber? (L.valueAt idx)).getD 0), L)

/-- The call `lua_tostring(L, idx)`; the empty string stands for the null pointer. -/
def lua_tostring (idx : Int) : LuaM String := fun L =>
  (.ok ((L.env.tostring? (L.valueAt idx)).getD ""), L)

/-- The call `luaL_checknumber(L, narg)`. -/
def luaL_checknumber (narg : Int) : LuaM ℚ := fun L =>
  match L.env.tonumber? (L.valueAt narg) with
  | some n => (.ok n, L)
  | none => (.error (LuaError.badArgument narg "number"), L)

/-- The conversion `static_cast<float>(d)` (written `(float)d` as well) of a Lua number: the
nearest `float` for a number within the range of `float`; for a number outside of it the
language leaves the conversion undefined ([conv.double]). -/
def static_cast_float (d : ℚ) : LuaM ℚ := fun L =>
  if |d| ≤ FLT_MAX then (.ok (roundFloat d), L)
  else (.error (LuaError.undefinedBehaviour
    "conversion to float of a number outside the range of float"), L)

/-- The expression `(float)luaL_checknumber(L, narg)`. -/
def luaL_checkfloat (narg : Int) : LuaM ℚ := do
  static_cast_float (← luaL_checknumber narg)

/-- The number `luaL_optnumber(L, narg, d)` yields on a value: the default for an absent or
`nil` argument, otherwise what `luaL_checknumber` yields. -/
def Env.optnumber? (env : Env) (v : LuaValue) (d : ℚ) : Option ℚ :=
  match v with
  | .nil => some d
  | v => env.tonumber? v

/-- The call `luaL_optnumber(L, narg, d)`. -/
def luaL_optnumber (narg : Int) (d : ℚ) : LuaM ℚ := fun L =>
  match L.env.optnumber? (L.valueAt narg) d with
  | some n => (.ok n, L)
  | none => (.error (LuaError.badArgument narg "number"), L)

/-- The call `luaL_checkinteger(L, narg)`. -/
def luaL_checkinteger (narg : Int) : LuaM Int := fun L =>
  match L.env.tonumber? (L.valueAt narg) with
  | some n => (.ok (truncate n), L)
  | none => (.error (LuaError.badArgument narg "number"), L)

/-- The call `luaL_checkstring(L, narg)`. -/
def luaL_checkstring (narg : Int) : LuaM String := fun L =>
  match L.env.tostring? (L.valueAt narg) with
  | some s => (.ok s, L)
  | none => (.error (LuaError.badArgument narg "string"), L)

/-- The call `luaL_argcheck(L, cond, narg, msg)`. -/
def luaL_argcheck (cond : Bool) (narg : Int) (msg : String) : LuaM Unit := fun L =>
  if cond then (.ok (), L) else (.error (LuaError.badArgument narg msg), L)

/-- Push a value on the stack. -/
def lua_push (v : LuaValue) : LuaM Unit := fun L =>
  (.ok (), { L with stack := L.stack ++ [v] })

/-- The call `lua_pushinteger(L, n)`. -/
def lua_pushinteger (n : Int) : LuaM Unit := lua_push (LuaValue.number n)

/-- The call `lua_pop(L, n)`. -/
def lua_pop (n : Nat) : LuaM Unit := fun L =>
  (.ok (), { L with stack := L.stack.take (L.stack.length - n) })

/-- The call `lua_rawgeti(L, idx, n)`: pushes `t[n]`.  The manual requires a table at `idx`;
anything else is outside the contract of the API. -/
def lua_rawgeti (idx : Int) (n : Int) : LuaM Unit := fun L =>
  match L.valueAt idx with
  | .table fields => lua_push (rawget fields (LuaValue.number n)) L
  | _ => (.error (LuaError.undefinedBehaviour "lua_rawgeti on a value that is not a table"), L)

/-- The call `lua_gettable(L, idx)`: pops the key and pushes `t[key]`; indexing a value that
is not a table raises a Lua error. -/
def lua_gettable (idx : Int) : LuaM Unit := fun L =>
  match L.valueAt idx with
  | .table fields =>
    (.ok (), { L with stack := L.stack.take (L.stack.length - 1) ++ [rawget fields (L.valueAt (-1))] })
  | _ => (.error (LuaError.typeError "attempt to index a value that is not a table"), L)

/-- The call `lua_objlen(L, idx)`: the length of a table or of a string, 0 otherwise. -/
def lua_objlen (idx : Int) : LuaM Nat := fun L =>
  match L.valueAt idx with
  | .table fields => (.ok (arrayLength fields), L)
  | .string s => (.ok s.length, L)
  | _ => (.ok 0, L)

/-- The pairs `lua_next` visits on the table at `idx`, in order: the entries whose value is
not `nil`; no pair when the value at `idx` is not a table. -/
def lua_pairs (idx : Int) : LuaM (List (LuaValue × LuaValue)) := fun L =>
  match L.valueAt idx with
  | .table fields => (.ok (fields.filter (fun kv => decide (kv.2.type ≠ LuaType.LUA_TNIL))), L)
  | _ => (.ok [], L)

/-- The colour inside a colour userdata. -/
def LuaValue.color? : LuaValue → Option Color4B
  | .userdata (.color c) => some c
  | _ => none

/-- The mesh inside a mesh userdata. -/
def LuaValue.mesh? : LuaValue → Option MeshId
  | .userdata (.mesh m) => some m
  | _ => none

/-- The effect inside a post-effect shader userdata. -/
def LuaValue.postEffectShader? : LuaValue → Option EffectId
  | .userdata (.postEffectShader e) => some e
  | _ => none

/-- The cast `LuaWrapper::ColorWrapper::Cast(L, idx)` (declared in LuaWrapper.hpp): the
colour in a colour userdata, an argument error for anything else. -/
def ColorWrapper_Cast (idx : Int) : LuaM Color4B := fun L =>
  match (L.valueAt idx).color? with
  | some c => (.ok c, L)
  | none => (.error (LuaError.badArgument idx "lstg.Color"), L)

/-- The cast `LuaWrapper::MeshBinding::Cast(L, idx)` (declared in LuaWrapper.hpp). -/
def MeshBinding_Cast (idx : Int) : LuaM MeshId := fun L =>
  match (L.valueAt idx).mesh? with
  | some m => (.ok m, L)
  | none => (.error (LuaError.badArgument idx "lstg.Mesh"), L)

/-- The cast `LuaBinding::PostEffectShader::Cast(L, idx)` (declared in
PostEffectShader.hpp). -/
def PostEffectShader_Cast (idx : Int) : LuaM EffectId := fun L =>
  match (L.valueAt idx).postEffectShader? with
  | some e => (.ok e, L)
  | none => (.error (LuaError.badArgument idx "lstg.PostEffectShader"), L)

/-- The call `LuaSTGPlus::TranslateBlendMode(L, idx)`. -/
def TranslateBlendMode (idx : Int) : LuaM BlendMode := fun L =>
  match L.env.TranslateBlendMode (L.valueAt idx) with
  | some b => (.ok b, L)
  | none => (.error (LuaError.raised "invalid blend mode"), L)

/-- A store `arr[i] = v` into a local C array; past the end of the array it is undefined. -/
def storeAt {α : Type} (arr : List α) (i : Nat) (v : α) : LuaM (List α) := fun L =>
  if i < arr.length then (.ok (arr.set i v), L)
  else (.error (LuaError.undefinedBehaviour "store past the end of a local array"), L)

/-- The loop `for (int i = first; ...; i += 1)` running `count` times over a loop state. -/
def forLoop {σ : Type} (first : Nat) : Nat → (Nat → σ → LuaM σ) → σ → LuaM σ
  | 0, _, s => pure s
  | count + 1, body, s => do
    let s1 ← body first s
    forLoop (first + 1) count body s1


/-! ### Calls made by the binding

Each operation records its call and, for the renderer and the render-target manager, runs
the modelled object.  The sprite, animation, mesh, model and effect objects are not among
the sources: their methods are recorded and otherwise leave the state alone. -/

/-- Record a call. -/
def record (c : Call) : LuaM Unit := fun L =>
  (.ok (), { L with calls := L.calls ++ [c] })

/-- Record a call to the renderer `LR2D()` and run it. -/
def onRenderer (c : Call) (f : Renderer → Bool × Renderer) : LuaM Bool := fun L =>
  (.ok (f L.renderer).1, { L with renderer := (f L.renderer).2, calls := L.calls ++ [c] })

namespace LR2D

/-- The query `LR2D()->isBatchScope()`. -/
def isBatchScope : LuaM Bool := fun L => (.ok L.renderer.isBatchScope, L)

/-- The call `LR2D()->beginBatch()`. -/
def beginBatch : LuaM Bool := onRenderer Call.beginBatch Renderer.beginBatch

/-- The call `LR2D()->endBatch()`. -/
def endBatch : LuaM Bool := onRenderer Call.endBatch Renderer.endBatch

/-- The call `LR2D()->flush()`. -/
def flush : LuaM Bool := onRenderer Call.flush Renderer.flush

/-- The call `LR2D()->setViewportAndScissorRect()`; viewport and scissor are not part of the
batch scope. -/
def setViewportAndScissorRect : LuaM Unit := record Call.setViewportAndScissorRect

/-- The query `LR2D()->getViewport()`. -/
def getViewport : LuaM Vector4F := fun L => (.ok L.env.viewport, L)

/-- The call `LR2D()->setVertexColorBlendState(state)`. -/
def setVertexColorBlendState (s : VertexColorBlendState) : LuaM Bool :=
  onRenderer (Call.setVertexColorBlendState s) (fun r => (true, r.setVertexColorBlendState s))

/-- The call `LR2D()->setFogState(state, color, density_or_znear, zfar)`. -/
def setFogState (s : FogState) (color : Color4B) (a b : ℚ) : LuaM Bool :=
  onRenderer (Call.setFogState s color a b) (fun r => (true, r.setFogState s color.argb a b))

/-- The call `LR2D()->setDepthState(state)`. -/
def setDepthState (s : DepthState) : LuaM Bool :=
  onRenderer (Call.setDepthState s) (fun r => (true, r.setDepthState s))

/-- The call `LR2D()->setBlendState(state)`. -/
def setBlendState (s : BlendState) : LuaM Bool :=
  onRenderer (Call.setBlendState s) (fun r => (true, r.setBlendState s))

/-- The call `LR2D()->setTexture(texture)`. -/
def setTexture (t : TextureId) : LuaM Bool :=
  onRenderer (Call.setTexture t) (fun r => (true, r.setTexture (some t)))

/-- The call `LR2D()->drawTriangle(v1, v2, v3)`. -/
def drawTriangle (v1 v2 v3 : DrawVertex) : LuaM Bool :=
  onRenderer (Call.drawTriangle v1 v2 v3) (fun r => r.drawTriangle v1 v2 v3)

/-- The call `LR2D()->drawQuad(v1, v2, v3, v4)`. -/
def drawQuad (v1 v2 v3 v4 : DrawVertex) : LuaM Bool :=
  onRenderer (Call.drawQuad v1 v2 v3 v4) (fun r => r.drawQuad v1 v2 v3 v4)

/-- The call `LR2D()->drawPostEffect(p_effect, blend)`. -/
def drawPostEffect (e : EffectId) (blend : BlendState) : LuaM Bool :=
  onRenderer (Call.drawPostEffect e blend) Renderer.drawPostEffect

/-- The nine-argument call `LR2D()->drawPostEffect(...)`. -/
def drawPostEffectArrays (e : EffectId) (blend : BlendState) (tex : TextureId)
    (rtsv : SamplerState) (cv : List Vector4F) (cv_n : Nat)
    (tex_arr : List (Option TextureId)) (sv : List SamplerState) (tv_sv_n : Nat) : LuaM Bool :=
  onRenderer (Call.drawPostEffectArrays e blend tex rtsv cv cv_n tex_arr sv tv_sv_n)
    Renderer.drawPostEffect

/-- The call `LR2D()->drawModel(p_model)`. -/
def drawModel (m : ModelId) : LuaM Bool :=
  onRenderer (Call.drawModel m) Renderer.drawModel

/-- The call `LR2D()->setPerspective(eye, lookat, headup, fov, aspect, znear, zfar)`
(Renderer.hpp 140); the batch controller keeps no camera, the call is only recorded. -/
def setPerspective (eye lookat headup : Vector3F) (fov aspect znear zfar : ℚ) : LuaM Unit :=
  record (Call.setPerspective eye lookat headup fov aspect znear zfar)

end LR2D

namespace LAPP

/-- The call `LAPP.updateGraph2DBlendMode(blend)`; what it does to the renderer is a field
of the environment. -/
def updateGraph2DBlendMode (blend : BlendMode) : LuaM Unit := fun L =>
  (.ok (), { L with renderer := L.env.updateGraph2DBlendMode blend L.renderer,
                    calls := L.calls ++ [Call.updateGraph2DBlendMode blend] })

/-- The call `LAPP.GetRenderTargetManager()->PushRenderTarget(p)`. -/
def PushRenderTarget (t : TextureId) : LuaM Bool := fun L =>
  (.ok (L.renderTargets.PushRenderTarget (L.env.pushAccepts t) t).1,
    { L with renderTargets := (L.renderTargets.PushRenderTarget (L.env.pushAccepts t) t).2,
             calls := L.calls ++ [Call.PushRenderTarget t] })

/-- The call `LAPP.GetRenderTargetManager()->PopRenderTarget()`. -/
def PopRenderTarget : LuaM Bool := fun L =>
  (.ok L.renderTargets.PopRenderTarget.1,
    { L with renderTargets := L.renderTargets.PopRenderTarget.2,
             calls := L.calls ++ [Call.PopRenderTarget] })

end LAPP

namespace LRESMGR

/-- The lookup `LRESMGR().FindSprite(name)`. -/
def FindSprite (name : String) : LuaM (Option SpriteId) := fun L =>
  (.ok (L.env.FindSprite name),
    { L with lookups := L.lookups ++ [⟨.sprite, name, (L.env.FindSprite name).isSome⟩] })

/-- The lookup `LRESMGR().FindAnimation(name)`. -/
def FindAnimation (name : String) : LuaM (Option AnimationId) := fun L =>
  (.ok (L.env.FindAnimation name),
    { L with lookups := L.lookups ++ [⟨.animation, name, (L.env.FindAnimation name).isSome⟩] })

/-- The lookup `LRESMGR().FindTexture(name)`, also written `LRES.FindTexture(name)`. -/
def FindTexture (name : String) : LuaM (Option ResourceTexture) := fun L =>
  (.ok (L.env.FindTexture name),
    { L with lookups := L.lookups ++ [⟨.texture, name, (L.env.FindTexture name).isSome⟩] })

/-- The lookup `LRESMGR().FindModel(name)`. -/
def FindModel (name : String) : LuaM (Option ModelId) := fun L =>
  (.ok (L.env.FindModel name),
    { L with lookups := L.lookups ++ [⟨.model, name, (L.env.FindModel name).isSome⟩] })

/-- The lookup `LRES.FindFX(name)`. -/
def FindFX (name : String) : LuaM (Option EffectId) := fun L =>
  (.ok (L.env.FindFX name),
    { L with lookups := L.lookups ++ [⟨.fx, name, (L.env.FindFX name).isSome⟩] })

/-- The query `LRESMGR().GetGlobalImageScaleFactor()`. -/
def GetGlobalImageScaleFactor : LuaM ℚ := fun L =>
  (.ok L.env.GetGlobalImageScaleFactor, L)

end LRESMGR

/-- Record a call to a setter of an effect object and return what the effect answers. -/
def onEffect (c : Call) (answer : Env → Bool) : LuaM Bool := fun L =>
  (.ok (answer L.env), { L with calls := L.calls ++ [c] })

namespace IPostEffectShader

/-- The call `p_effect->setFloat(name, value)` (Renderer.hpp 11); the class implementing the
effect is not among the sources, its answer is a field of the environment. -/
def setFloat (e : EffectId) (name : String) (value : ℚ) : LuaM Bool :=
  onEffect (Call.effectSetFloat e name value) (fun env => env.effectSetFloat e name value)

/-- The call `p_effect->setFloat4(name, value)` (Renderer.hpp 14). -/
def setFloat4 (e : EffectId) (name : String) (value : Vector4F) : LuaM Bool :=
  onEffect (Call.effectSetFloat4 e name value) (fun env => env.effectSetFloat4 e name value)

/-- The call `p_effect->setTexture2D(name, p_texture)` (Renderer.hpp 15). -/
def setTexture2D (e : EffectId) (name : String) (t : TextureId) : LuaM Bool :=
  onEffect (Call.effectSetTexture2D e name t) (fun env => env.effectSetTexture2D e name t)

end IPostEffectShader

/-! ## `LW_Renderer.cpp` -/

/-- The macro `validate_render_scope()` (LW_Renderer.cpp 16). -/
def validate_render_scope : LuaM Unit := do
  if !(← LR2D.isBatchScope) then
    luaL_error "invalid render operation"

/-- The function `translate_blend` (LW_Renderer.cpp 63-66). -/
def translate_blend (blend : BlendMode) : LuaM Unit :=
  LAPP.updateGraph2DBlendMode blend

/-- The function `translate_blend_3d` (LW_Renderer.cpp 67-109). -/
def translate_blend_3d : BlendMode → BlendState
  | .MulAlpha => BlendState.Alpha
  | .MulAdd => BlendState.Add
  | .MulRev => BlendState.RevSub
  | .MulSub => BlendState.Sub
  | .AddAlpha => BlendState.Alpha
  | .AddAdd => BlendState.Add
  | .AddRev => BlendState.RevSub
  | .AddSub => BlendState.Sub
  | .AlphaBal => BlendState.Inv
  | .MulMin => BlendState.Min
  | .MulMax => BlendState.Max
  | .MulMutiply => BlendState.Mul
  | .MulScreen => BlendState.Screen
  | .AddMin => BlendState.Min
  | .AddMax => BlendState.Max
  | .AddMutiply => BlendState.Mul
  | .AddScreen => BlendState.Screen
  | .One => BlendState.One
  | .other _ => BlendState.Alpha

/-- The function `api_drawSprite(char const* name, ...)` (LW_Renderer.cpp 111-125). -/
def api_drawSprite (name : String) (x y : ℚ) (rot : Rad) (hscale vscale z : ℚ) :
    LuaM RenderError := do
  match (← LRESMGR.FindSprite name) with
  | none => pure RenderError.SpriteNotFound
  | some pimg2dres =>
    record (Call.spriteRender pimg2dres x y rot hscale vscale z)
    pure RenderError.None

/-- The function `api_drawSpriteRect(char const* name, ...)` (LW_Renderer.cpp 126-140). -/
def api_drawSpriteRect (name : String) (l r b t z : ℚ) : LuaM RenderError := do
  match (← LRESMGR.FindSprite name) with
  | none => pure RenderError.SpriteNotFound
  | some pimg2dres =>
    record (Call.spriteRenderRect pimg2dres l r b t z)
    pure RenderError.None

/-- The function `api_drawSprite4V(char const* name, ...)` (LW_Renderer.cpp 141-155). -/
def api_drawSprite4V (name : String) (x1 y1 z1 x2 y2 z2 x3 y3 z3 x4 y4 z4 : ℚ) :
    LuaM RenderError := do
  match (← LRESMGR.FindSprite name) with
  | none => pure RenderError.SpriteNotFound
  | some pimg2dres =>
    record (Call.spriteRender4V pimg2dres x1 y1 z1 x2 y2 z2 x3 y3 z3 x4 y4 z4)
    pure RenderError.None

/-- The function `api_drawSprite3D(char const* name, ...)` (LW_Renderer.cpp 156-170). -/
def api_drawSprite3D (name : String) (x y z : ℚ) (rx ry rz : Rad) (sx sy : ℚ) :
    LuaM RenderError := do
  match (← LRESMGR.FindSprite name) with
  | none => pure RenderError.SpriteNotFound
  | some pimg2dres =>
    record (Call.spriteRender3D pimg2dres x y z rx ry rz sx sy)
    pure RenderError.None

/-- The function `api_drawSpriteSequence(char const* name, ...)` (LW_Renderer.cpp
172-186). -/
def api_drawSpriteSequence (name : String) (ani_timer : Int) (x y : ℚ) (rot : Rad)
    (hscale vscale z : ℚ) : LuaM RenderError := do
  match (← LRESMGR.FindAnimation name) with
  | none => pure RenderError.SpriteSequenceNotFound
  | some pani2dres =>
    record (Call.animationRender pani2dres ani_timer x y rot hscale vscale z)
    pure RenderError.None

/-- The function `api_setFogState(float start, float end, Core::Color4B color)`
(LW_Renderer.cpp 188-210); its callers pass values of the type `float`. -/
def api_setFogState (start stop : ℚ) (color : Color4B) : LuaM Unit := do
  if start ≠ stop then
    if start = -1 then
      let _ ← LR2D.setFogState FogState.Exp color stop 0
    else if start = -2 then
      let _ ← LR2D.setFogState FogState.Exp2 color stop 0
    else
      let _ ← LR2D.setFogState FogState.Linear color start stop
  else
    let _ ← LR2D.setFogState FogState.Disable ⟨0⟩ 0 0

/-- The function `lib_beginScene` (LW_Renderer.cpp 212-217). -/
def lib_beginScene : LuaM Nat := do
  if !(← LR2D.beginBatch) then
    luaL_error "[luastg] lstg.Renderer.BeginScene failed"
  else
    pure 0

/-- The function `lib_endScene` (LW_Renderer.cpp 218-223). -/
def lib_endScene : LuaM Nat := do
  if !(← LR2D.endBatch) then
    luaL_error "[luastg] lstg.Renderer.endScene failed"
  else
    pure 0

/-- The text `lua_pushvfstring` puts in place of a `%f`: the number as the runtime prints
it. -/
def lua_number2str (n : ℚ) : LuaM String := fun L => (.ok (L.env.number2str n), L)

/-- The function `lib_setPerspective` (LW_Renderer.cpp 273-298).  There is no
`validate_render_scope()` in it.  Every argument is converted to `float` when it is read;
the depth range is tested on the converted values.  Arguments 10 and 11 are read inside the
call expression, after the test of the depth range; C++ leaves the order of these two reads
open, they are read here in the order they are written. -/
def lib_setPerspective : LuaM Nat := do
  let eye_x ← luaL_checkfloat 1
  let eye_y ← luaL_checkfloat 2
  let eye_z ← luaL_checkfloat 3
  let lookat_x ← luaL_checkfloat 4
  let lookat_y ← luaL_checkfloat 5
  let lookat_z ← luaL_checkfloat 6
  let headup_x ← luaL_checkfloat 7
  let headup_y ← luaL_checkfloat 8
  let headup_z ← luaL_checkfloat 9
  let zrange_x ← luaL_checkfloat 12
  let zrange_y ← luaL_checkfloat 13
  if zrange_x ≤ 0 ∨ zrange_y ≤ zrange_x then
    luaL_error ("invalid parameters, require (0 < znear < far), receive (znear = "
      ++ (← lua_number2str zrange_x) ++ ", zfar = " ++ (← lua_number2str zrange_y) ++ ")")
  else
    let fov ← luaL_checkfloat 10
    let aspect ← luaL_checkfloat 11
    LR2D.setPerspective ⟨eye_x, eye_y, eye_z⟩ ⟨lookat_x, lookat_y, lookat_z⟩
      ⟨headup_x, headup_y, headup_z⟩ fov aspect zrange_x zrange_y
    pure 0

/-- The function `lib_setVertexColorBlendState` (LW_Renderer.cpp 339-344). -/
def lib_setVertexColorBlendState : LuaM Nat := do
  validate_render_scope
  let _ ← LR2D.setVertexColorBlendState ⟨toUInt8 (← luaL_checkinteger 1)⟩
  pure 0

/-- The function `lib_setFogState` (LW_Renderer.cpp 345-363); the arguments of the renderer
call are read left to right. -/
def lib_setFogState : LuaM Nat := do
  validate_render_scope
  let color ←
    if (← lua_isnumber 2) then
      pure (Color4B.mk (toUInt32 (← lua_tonumber 2)))
    else
      ColorWrapper_Cast 2
  let state ← luaL_checkinteger 1
  let a ← luaL_checknumber 3
  let b ← luaL_optnumber 4 0
  let _ ← LR2D.setFogState ⟨toUInt8 state⟩ color a b
  pure 0

/-- The function `lib_setDepthState` (LW_Renderer.cpp 364-369). -/
def lib_setDepthState : LuaM Nat := do
  validate_render_scope
  let _ ← LR2D.setDepthState ⟨toUInt8 (← luaL_checkinteger 1)⟩
  pure 0

/-- The function `lib_setBlendState` (LW_Renderer.cpp 370-375). -/
def lib_setBlendState : LuaM Nat := do
  validate_render_scope
  let _ ← LR2D.setBlendState ⟨toUInt8 (← luaL_checkinteger 1)⟩
  pure 0

/-- The function `lib_setTexture` (LW_Renderer.cpp 376-389); `check_rendertarget_usage` is an
assertion of debug builds and is left out. -/
def lib_setTexture : LuaM Nat := do
  validate_render_scope
  let name ← luaL_checkstring 1
  match (← LRESMGR.FindTexture name) with
  | none => luaL_error ("can't find texture '" ++ name ++ "'")
  | some p =>
    let _ ← LR2D.setTexture p.texture
    pure 0


/-- The block repeated in `lib_drawTriangle` and `lib_drawQuad`: six `lua_rawgeti(L, t, k)`
for k = 1..6, six reads at the absolute indices `base .. base + 5`, then `lua_pop(L, 6)`. -/
def readVertexAt (t : Int) (base : Int) : LuaM DrawVertex := do
  lua_rawgeti t 1
  lua_rawgeti t 2
  lua_rawgeti t 3
  lua_rawgeti t 4
  lua_rawgeti t 5
  lua_rawgeti t 6
  let x ← luaL_checknumber base
  let y ← luaL_checknumber (base + 1)
  let z ← luaL_checknumber (base + 2)
  let u ← luaL_checknumber (base + 3)
  let v ← luaL_checknumber (base + 4)
  let color ← luaL_checknumber (base + 5)
  lua_pop 6
  pure ⟨x, y, z, toUInt32 color, u, v⟩

/-- The function `lib_drawTriangle` (LW_Renderer.cpp 391-441). -/
def lib_drawTriangle : LuaM Nat := do
  validate_render_scope
  let v0 ← readVertexAt 1 4
  let v1 ← readVertexAt 2 4
  let v2 ← readVertexAt 3 4
  let _ ← LR2D.drawTriangle v0 v1 v2
  pure 0

/-- The function `lib_drawQuad` (LW_Renderer.cpp 442-506). -/
def lib_drawQuad : LuaM Nat := do
  validate_render_scope
  let v0 ← readVertexAt 1 5
  let v1 ← readVertexAt 2 5
  let v2 ← readVertexAt 3 5
  let v3 ← readVertexAt 4 5
  let _ ← LR2D.drawQuad v0 v1 v2 v3
  pure 0

/-- The function `lib_drawSprite` (LW_Renderer.cpp 508-523); the arguments of
`api_drawSprite` are read left to right. -/
def lib_drawSprite : LuaM Nat := do
  validate_render_scope
  let hscale ← luaL_optnumber 5 1
  let name ← luaL_checkstring 1
  let x ← luaL_checknumber 2
  let y ← luaL_checknumber 3
  let rot ← luaL_optnumber 4 0
  let factor ← LRESMGR.GetGlobalImageScaleFactor
  let vscale ← luaL_optnumber 6 hscale
  let z ← luaL_optnumber 7 (1 / 2)
  let re ← api_drawSprite name x y ⟨rot⟩ (hscale * factor) (vscale * factor) z
  if re = RenderError.SpriteNotFound then
    luaL_error ("can't find sprite '" ++ (← luaL_checkstring 1) ++ "'")
  else
    pure 0

/-- The function `lib_drawSpriteRect` (LW_Renderer.cpp 524-537). -/
def lib_drawSpriteRect : LuaM Nat := do
  validate_render_scope
  let name ← luaL_checkstring 1
  let l ← luaL_checknumber 2
  let r ← luaL_checknumber 3
  let b ← luaL_checknumber 4
  let t ← luaL_checknumber 5
  let z ← luaL_optnumber 6 (1 / 2)
  let re ← api_drawSpriteRect name l r b t z
  if re = RenderError.SpriteNotFound then
    luaL_error ("can't find sprite '" ++ (← luaL_checkstring 1) ++ "'")
  else
    pure 0

/-- The function `lib_drawSprite4V` (LW_Renderer.cpp 538-552). -/
def lib_drawSprite4V : LuaM Nat := do
  validate_render_scope
  let name ← luaL_checkstring 1
  let x1 ← luaL_checknumber 2
  let y1 ← luaL_checknumber 3
  let z1 ← luaL_checknumber 4
  let x2 ← luaL_checknumber 5
  let y2 ← luaL_checknumber 6
  let z2 ← luaL_checknumber 7
  let x3 ← luaL_checknumber 8
  let y3 ← luaL_checknumber 9
  let z3 ← luaL_checknumber 10
  let x4 ← luaL_checknumber 11
  let y4 ← luaL_checknumber 12
  let z4 ← luaL_checknumber 13
  let re ← api_drawSprite4V name x1 y1 z1 x2 y2 z2 x3 y3 z3 x4 y4 z4
  if re = RenderError.SpriteNotFound then
    luaL_error ("can't find sprite '" ++ (← luaL_checkstring 1) ++ "'")
  else
    pure 0

/-- The function `lib_drawSprite3D` (LW_Renderer.cpp 553-566).  There is no
`validate_render_scope()` in it. -/
def lib_drawSprite3D : LuaM Nat := do
  let name ← luaL_checkstring 1
  let x ← luaL_checknumber 2
  let y ← luaL_checknumber 3
  let z ← luaL_checknumber 4
  let rx ← luaL_checknumber 5
  let ry ← luaL_checknumber 6
  let rz ← luaL_checknumber 7
  let sx ← luaL_optnumber 8 1
  let sy ← luaL_optnumber 9 (← luaL_optnumber 8 1)
  let re ← api_drawSprite3D name x y z ⟨rx⟩ ⟨ry⟩ ⟨rz⟩ sx sy
  if re = RenderError.SpriteNotFound then
    luaL_error ("can't find sprite '" ++ (← luaL_checkstring 1) ++ "'")
  else
    pure 0

/-- The function `lib_drawSpriteSequence` (LW_Renderer.cpp 567-583).  The result is compared
with `RenderError::SpriteNotFound`, as in the C++ text. -/
def lib_drawSpriteSequence : LuaM Nat := do
  validate_render_scope
  let hscale ← luaL_optnumber 6 1
  let name ← luaL_checkstring 1
  let ani_timer ← luaL_checkinteger 2
  let x ← luaL_checknumber 3
  let y ← luaL_checknumber 4
  let rot ← luaL_optnumber 5 0
  let factor ← LRESMGR.GetGlobalImageScaleFactor
  let vscale ← luaL_optnumber 7 hscale
  let z ← luaL_optnumber 8 (1 / 2)
  let re ← api_drawSpriteSequence name ani_timer x y ⟨rot⟩ (hscale * factor) (vscale * factor) z
  if re = RenderError.SpriteNotFound then
    luaL_error ("can't find animation '" ++ (← luaL_checkstring 1) ++ "'")
  else
    pure 0

/-- One field read of the vertex loop of `lib_drawTexture`: `lua_pushinteger(L, k)`, then
`lua_gettable(L, 3 + i)`. -/
def pushField (i : Nat) (k : Int) : LuaM Unit := do
  lua_pushinteger k
  lua_gettable (3 + (i : Int))

/-- The body of the vertex loop of `lib_drawTexture` (LW_Renderer.cpp 593-627). -/
def readTextureVertex (i : Nat) : LuaM DrawVertex := do
  pushField i 1
  let x ← lua_tonumber (-1)
  pushField i 2
  let y ← lua_tonumber (-1)
  pushField i 3
  let z ← lua_tonumber (-1)
  pushField i 4
  let u ← lua_tonumber (-1)
  pushField i 5
  let v ← lua_tonumber (-1)
  pushField i 6
  let color ←
    if (← lua_isnumber (-1)) then
      pure (toUInt32 (← lua_tonumber (-1)))
    else
      pure (← ColorWrapper_Cast (-1)).color
  lua_pop 6
  pure ⟨x, y, z, color, u, v⟩

/-- The scaling of a texture coordinate by `1.0f / size` in `lib_drawTexture`. -/
def scaleUV (p : ResourceTexture) (vert : DrawVertex) : DrawVertex :=
  { vert with u := vert.u * (1 / (p.width : ℚ)), v := vert.v * (1 / (p.height : ℚ)) }

/-- The function `lib_drawTexture` (LW_Renderer.cpp 585-653). -/
def lib_drawTexture : LuaM Nat := do
  validate_render_scope
  let name ← luaL_checkstring 1
  let blend ← TranslateBlendMode 2
  let v0 ← readTextureVertex 0
  let v1 ← readTextureVertex 1
  let v2 ← readTextureVertex 2
  let v3 ← readTextureVertex 3
  translate_blend blend
  match (← LRESMGR.FindTexture name) with
  | none => luaL_error ("can't find texture '" ++ name ++ "'")
  | some ptex2dres =>
    let _ ← LR2D.setTexture ptex2dres.texture
    let _ ← LR2D.drawQuad (scaleUV ptex2dres v0) (scaleUV ptex2dres v1)
      (scaleUV ptex2dres v2) (scaleUV ptex2dres v3)
    pure 0

/-- The function `lib_drawMesh` (LW_Renderer.cpp 654-678). -/
def lib_drawMesh : LuaM Nat := do
  validate_render_scope
  let tex_name ← luaL_checkstring 1
  let blend ← TranslateBlendMode 2
  let mesh ← MeshBinding_Cast 3
  translate_blend blend
  match (← LRESMGR.FindTexture tex_name) with
  | none => luaL_error ("can't find texture '" ++ tex_name ++ "'")
  | some ptex2dres =>
    let _ ← LR2D.setTexture ptex2dres.texture
    record (Call.meshDraw mesh)
    pure 0

/-- The function `lib_drawModel` (LW_Renderer.cpp 680-709).  On an unknown model it executes
`return false;`, which returns 0 results to Lua. -/
def lib_drawModel : LuaM Nat := do
  let name ← luaL_checkstring 1
  let x ← luaL_checknumber 2
  let y ← luaL_checknumber 3
  let z ← luaL_checknumber 4
  let roll ← luaL_optnumber 5 0
  let pitch ← luaL_optnumber 6 0
  let yaw ← luaL_optnumber 7 0
  let sx ← luaL_optnumber 8 1
  let sy ← luaL_optnumber 9 1
  let sz ← luaL_optnumber 10 1
  match (← LRESMGR.FindModel name) with
  | none => pure 0
  | some pmodres =>
    record (Call.modelSetScaling pmodres sx sy sz)
    record (Call.modelSetRotationRollPitchYaw pmodres ⟨roll⟩ ⟨pitch⟩ ⟨yaw⟩)
    record (Call.modelSetPosition pmodres x y z)
    let _ ← LR2D.drawModel pmodres
    pure 0

/-- The function `compat_SetFog` (LW_Renderer.cpp 792-816).  There is no
`validate_render_scope()` in it.  The two numbers are converted with `static_cast<float>`
before `api_setFogState` compares them. -/
def compat_SetFog : LuaM Nat := do
  let argc ← lua_gettop
  if argc ≥ 3 then
    let start ← luaL_checkfloat 1
    let stop ← luaL_checkfloat 2
    let color ← ColorWrapper_Cast 3
    api_setFogState start stop color
  else if argc = 2 then
    let start ← luaL_checkfloat 1
    let stop ← luaL_checkfloat 2
    api_setFogState start stop ⟨0xFF000000⟩
  else
    api_setFogState 0 0 ⟨0x00000000⟩
  pure 0

/-- The function `compat_SetZBufferEnable` (LW_Renderer.cpp 817-822). -/
def compat_SetZBufferEnable : LuaM Nat := do
  validate_render_scope
  let _ ← LR2D.setDepthState ⟨toUInt8 (← luaL_checkinteger 1)⟩
  pure 0

/-- The function `compat_PushRenderTarget` (LW_Renderer.cpp 829-843). -/
def compat_PushRenderTarget : LuaM Nat := do
  validate_render_scope
  let _ ← LR2D.flush
  match (← LRESMGR.FindTexture (← luaL_checkstring 1)) with
  | none => luaL_error ("rendertarget '" ++ (← luaL_checkstring 1) ++ "' not found.")
  | some p =>
    if !p.isRenderTarget then
      luaL_error ("'" ++ (← luaL_checkstring 1) ++ "' is not a rendertarget.")
    else if !(← LAPP.PushRenderTarget p.texture) then
      luaL_error ("push rendertarget '" ++ (← luaL_checkstring 1) ++ "' failed.")
    else
      LR2D.setViewportAndScissorRect
      pure 0

/-- The function `compat_PopRenderTarget` (LW_Renderer.cpp 844-852). -/
def compat_PopRenderTarget : LuaM Nat := do
  validate_render_scope
  let _ ← LR2D.flush
  if !(← LAPP.PopRenderTarget) then
    luaL_error "pop rendertarget failed."
  else
    LR2D.setViewportAndScissorRect
    pure 0


/-- The body of the `lua_next` loop of `compat_PostEffect` (LW_Renderer.cpp 895-926) for one
key/value pair, which `lua_next` has pushed; the trailing `lua_pop` calls stand for the
`lua_pop(L, 1)` of the body and for the key the next `lua_next` consumes.  The results of
the effect setters are dropped (`let _ ←`), as in the C++ text. -/
def postEffectParameter (p_effect : EffectId) (rt_name : String) (kv : LuaValue × LuaValue) :
    LuaM Unit := do
  lua_push kv.1
  lua_push kv.2
  let key ← luaL_checkstring (-2)
  if (← lua_isnumber (-1)) then
    let _ ← IPostEffectShader.setFloat p_effect key (← lua_tonumber (-1))
  else if (← lua_isstring (-1)) then
    match (← LRESMGR.FindTexture (← lua_tostring (-1))) with
    | none => luaL_error ("texture '" ++ rt_name ++ "' not found.")
    | some ptex =>
      let _ ← IPostEffectShader.setTexture2D p_effect key ptex.texture
  else if (← lua_isuserdata (-1)) then
    let color ← ColorWrapper_Cast (-1)
    let _ ← IPostEffectShader.setFloat4 p_effect key
      ⟨(color.r : ℚ) / 255, (color.g : ℚ) / 255, (color.b : ℚ) / 255, (color.a : ℚ) / 255⟩
  else
    luaL_error "PostEffect: invalid data type."
  lua_pop 1
  lua_pop 1

/-- The `while (0 != lua_next(L, 4))` loop of `compat_PostEffect` over the pairs of the
parameter table. -/
def postEffectParameters (p_effect : EffectId) (rt_name : String) :
    List (LuaValue × LuaValue) → LuaM Unit
  | [] => pure ()
  | kv :: rest => do
    postEffectParameter p_effect rt_name kv
    postEffectParameters p_effect rt_name rest

/-- The body of the constant loop of `compat_PostEffect` (LW_Renderer.cpp 965-978). -/
def postEffectConstant (i : Nat) (cbdata : List Vector4F) : LuaM (List Vector4F) := do
  lua_rawgeti 5 i
  luaL_argcheck (← lua_istable (-1)) 5
    "shader constant values must be an array of lua table, each table contains 4 lua numbers"
  lua_rawgeti (-1) 1
  lua_rawgeti (-2) 2
  lua_rawgeti (-3) 3
  lua_rawgeti (-4) 4
  let x ← luaL_checknumber (-4)
  let y ← luaL_checknumber (-3)
  let z ← luaL_checknumber (-2)
  let w ← luaL_checknumber (-1)
  let cbdata1 ← storeAt cbdata (i - 1) ⟨x, y, z, w⟩
  lua_pop 5
  pure cbdata1

/-- The body of the texture loop of `compat_PostEffect` (LW_Renderer.cpp 981-994) on the
arrays `tdata` and `tsdata`. -/
def postEffectTexture (i : Nat) (arrays : List (Option TextureId) × List SamplerState) :
    LuaM (List (Option TextureId) × List SamplerState) := do
  lua_rawgeti 6 i
  luaL_argcheck (← lua_istable (-1)) 6
    "shader resources must be an array of lua table, each table contains the name of texture and sampler type"
  lua_rawgeti (-1) 1
  lua_rawgeti (-2) 2
  let tx_name ← luaL_checkstring (-2)
  match (← LRESMGR.FindTexture tx_name) with
  | none => luaL_error ("texture '" ++ tx_name ++ "' not found.")
  | some ptex =>
    let tdata ← storeAt arrays.1 (i - 1) (some ptex.texture)
    let tsdata ← storeAt arrays.2 (i - 1) ⟨toUInt8 (← luaL_checkinteger (-1))⟩
    pure (tdata, tsdata)

/-- The function `compat_PostEffect` (LW_Renderer.cpp 853-999), with its three calling
styles: an effect object, names with a keyed parameter table, names with positional
arrays. -/
def compat_PostEffect : LuaM Nat := do
  validate_render_scope
  if (← lua_isuserdata 1) then
    let p_effect ← PostEffectShader_Cast 1
    let blend := translate_blend_3d (← TranslateBlendMode 2)
    let _ ← LR2D.drawPostEffect p_effect blend
    pure 0
  else if (← lua_type 1) = LuaType.LUA_TSTRING ∧ (← lua_type 2) = LuaType.LUA_TSTRING
      ∧ (← lua_type 3) = LuaType.LUA_TSTRING ∧ (← lua_type 3) ≠ LuaType.LUA_TNUMBER then
    let rt_name ← luaL_checkstring 1
    let ps_name ← luaL_checkstring 2
    let blend := translate_blend_3d (← TranslateBlendMode 3)
    match (← LRESMGR.FindTexture rt_name) with
    | none => luaL_error ("texture '" ++ rt_name ++ "' not found.")
    | some prt =>
      match (← LRESMGR.FindFX ps_name) with
      | none => luaL_error ("posteffect '" ++ ps_name ++ "' not found.")
      | some pfx =>
        let _ ← IPostEffectShader.setTexture2D pfx "screen_texture" prt.texture
        let _ ← IPostEffectShader.setFloat4 pfx "screen_texture_size"
          ⟨prt.width, prt.height, 0, 0⟩
        let vp ← LR2D.getViewport
        let _ ← IPostEffectShader.setFloat4 pfx "viewport" vp
        if (← lua_istable 4) then
          postEffectParameters pfx rt_name (← lua_pairs 4)
        let _ ← LR2D.drawPostEffect pfx blend
        pure 0
  else
    let ps_name ← luaL_checkstring 1
    let rt_name ← luaL_checkstring 2
    let rtsv : SamplerState := ⟨toUInt8 (← luaL_checkinteger 3)⟩
    let blend := translate_blend_3d (← TranslateBlendMode 4)
    match (← LRESMGR.FindFX ps_name) with
    | none => luaL_error ("posteffect '" ++ ps_name ++ "' not found.")
    | some pfx =>
      match (← LRESMGR.FindTexture rt_name) with
      | none => luaL_error ("texture '" ++ rt_name ++ "' not found.")
      | some prt =>
        let cbdata : List Vector4F := List.replicate 8 ⟨0, 0, 0, 0⟩
        let tdata : List (Option TextureId) := List.replicate 4 none
        let tsdata : List SamplerState := List.replicate 4 ⟨0⟩
        let cbdata_n0 ← lua_objlen 5
        let cbdata_n := if cbdata_n0 ≤ 8 then cbdata_n0 else 8
        let cbdata1 ← forLoop 1 cbdata_n postEffectConstant cbdata
        let tdata_n0 ← lua_objlen 6
        let tdata_n := if tdata_n0 ≤ 8 then tdata_n0 else 4
        let arrays ← forLoop 1 tdata_n postEffectTexture (tdata, tsdata)
        let _ ← LR2D.drawPostEffectArrays pfx blend prt.texture rtsv cbdata1 cbdata_n
          arrays.1 arrays.2 tdata_n
        pure 0


/-! ## Entry points, observations and sample states -/

/-- The draw entry points of the binding. -/
inductive DrawEntry where
  | drawTriangle | drawQuad | drawSprite | drawSpriteRect | drawSprite4V | drawSprite3D
  | drawSpriteSequence | drawTexture | drawMesh
deriving DecidableEq, Repr

/-- The binding function behind a draw entry point (tables `lib_func` and `lib_compat`,
LW_Renderer.cpp 713-745 and 1001-1024). -/
def DrawEntry.run : DrawEntry → LuaM Nat
  | .drawTriangle => lib_drawTriangle
  | .drawQuad => lib_drawQuad
  | .drawSprite => lib_drawSprite
  | .drawSpriteRect => lib_drawSpriteRect
  | .drawSprite4V => lib_drawSprite4V
  | .drawSprite3D => lib_drawSprite3D
  | .drawSpriteSequence => lib_drawSpriteSequence
  | .drawTexture => lib_drawTexture
  | .drawMesh => lib_drawMesh

/-- The state-setting entry points of the binding. -/
inductive StateEntry where
  | setVertexColorBlendState | setFogState | setDepthState | setBlendState | setTexture
  | SetFog | SetZBufferEnable
deriving DecidableEq, Repr

/-- The binding function behind a state-setting entry point. -/
def StateEntry.run : StateEntry → LuaM Nat
  | .setVertexColorBlendState => lib_setVertexColorBlendState
  | .setFogState => lib_setFogState
  | .setDepthState => lib_setDepthState
  | .setBlendState => lib_setBlendState
  | .setTexture => lib_setTexture
  | .SetFog => compat_SetFog
  | .SetZBufferEnable => compat_SetZBufferEnable

/-- The binding operations that take a resource name and can end in a draw. -/
inductive ResourceDraw where
  | drawSprite | drawSpriteRect | drawSprite4V | drawSprite3D | drawSpriteSequence
  | drawTexture | drawMesh | drawModel | PostEffect
deriving DecidableEq, Repr

/-- The binding function behind such an operation. -/
def ResourceDraw.run : ResourceDraw → LuaM Nat
  | .drawSprite => lib_drawSprite
  | .drawSpriteRect => lib_drawSpriteRect
  | .drawSprite4V => lib_drawSprite4V
  | .drawSprite3D => lib_drawSprite3D
  | .drawSpriteSequence => lib_drawSpriteSequence
  | .drawTexture => lib_drawTexture
  | .drawMesh => lib_drawMesh
  | .drawModel => lib_drawModel
  | .PostEffect => compat_PostEffect

/-- The two render-target switches of the binding. -/
inductive TargetSwitch where
  | PushRenderTarget | PopRenderTarget
deriving DecidableEq, Repr

/-- The binding function behind a render-target switch. -/
def TargetSwitch.run : TargetSwitch → LuaM Nat
  | .PushRenderTarget => compat_PushRenderTarget
  | .PopRenderTarget => compat_PopRenderTarget

/-- The stack mutation a render-target switch performs. -/
def TargetSwitch.isStackMutation (s : TargetSwitch) (c : Call) : Bool :=
  match s, c with
  | .PushRenderTarget, .PushRenderTarget _ => true
  | .PopRenderTarget, .PopRenderTarget => true
  | _, _ => false

/-- The calls a run from `L` to `L1` has made. -/
def callsSince (L L1 : lua_State) : List Call := L1.calls.drop L.calls.length

/-- The resource lookups a run from `L` to `L1` has made. -/
def lookupsSince (L L1 : lua_State) : List Lookup := L1.lookups.drop L.lookups.length

/-- Whether a result is a Lua error raised with the given message. -/
def raisedWith (res : Except LuaError Nat) (msg : String) : Prop :=
  res = .error (LuaError.raised msg)

/-- Whether a binding function ended with an error instead of returning. -/
def isError {α : Type} : Except LuaError α → Bool
  | .error _ => true
  | .ok _ => false

/-- A sample environment: one sprite `img`, one plain texture `tex`, one render target `rt`,
one effect `fx`; the blend mode `mul+add` is known; for `updateGraph2DBlendMode`, which is
not part of the repository, the sample takes a function that forwards the translated blend
mode to `setBlendState`; every effect declares the float parameter `time` besides the three
parameters the binding always sets. -/
def sampleEnv : Env :=
  { str2number := fun _ => none
    number2str := fun _ => "0"
    FindSprite := fun n => if n = "img" then some 7 else none
    FindAnimation := fun _ => none
    FindTexture := fun n =>
      if n = "tex" then some ⟨4, false, 64, 64⟩
      else if n = "rt" then some ⟨5, true, 640, 480⟩
      else none
    FindModel := fun _ => none
    FindFX := fun n => if n = "fx" then some 9 else none
    GetGlobalImageScaleFactor := 1
    TranslateBlendMode := fun v =>
      match v with
      | .string s => if s = "mul+add" then some BlendMode.MulAdd else some BlendMode.MulAlpha
      | _ => some BlendMode.MulAlpha
    updateGraph2DBlendMode := fun b r => r.setBlendState (translate_blend_3d b)
    pushAccepts := fun _ => true
    viewport := ⟨0, 0, 640, 480⟩
    effectSetFloat := fun _ n _ => n == "time"
    effectSetFloat4 := fun _ n _ => n == "screen_texture_size" || n == "viewport"
    effectSetTexture2D := fun _ n _ => n == "screen_texture" }

/-- A renderer with no open scope, nothing accumulated and nothing submitted. -/
def Renderer.closed : Renderer :=
  ⟨false, DrawState.identity, DrawState.identity, Geometry.empty, []⟩

/-- A renderer with an open scope and one triangle accumulated. -/
def Renderer.busy : Renderer :=
  (Renderer.fresh.drawTriangle sampleVertex sampleVertex sampleVertex).2

/-- The state a Lua call starts in: the arguments on the stack, a renderer, only the base
frame on the render-target stack, no call and no lookup made yet. -/
def luaCall (r : Renderer) (args : List LuaValue) : lua_State :=
  ⟨args, r, ⟨[]⟩, [], [], sampleEnv⟩


/-- The arguments of `Render3D("img", 1, 2, 3, 0, 0, 0)`. -/
def sprite3DArgs : List LuaValue :=
  [.string "img", .number 1, .number 2, .number 3, .number 0, .number 0, .number 0]

/-- The arguments of `SetFog(1, 10)`. -/
def setFogArgs : List LuaValue := [.number 1, .number 10]


/-- The arguments of a call that names a resource the sample environment does not know,
followed by three zeros. -/
def unknownNameArgs : List LuaValue := [.string "nope", .number 0, .number 0, .number 0]

/-- The state after `compat_PushRenderTarget` or `compat_PopRenderTarget` has passed the
scope check and flushed. -/
def lua_State.flushed (L : lua_State) : lua_State :=
  { L with renderer := (L.renderer.flush).2, calls := L.calls ++ [Call.flush] }

/-- The state after a lookup has been recorded. -/
def lua_State.lookedUp (L : lua_State) (q : Lookup) : lua_State :=
  { L with lookups := L.lookups ++ [q] }


/-- The call `PushRenderTarget("nope")` inside a scope with one triangle accumulated. -/
def unknownTargetCall : lua_State := luaCall Renderer.busy [.string "nope"]

/-- The call `PushRenderTarget("rt")` inside a scope with one triangle accumulated. -/
def knownTargetCall : lua_State := luaCall Renderer.busy [.string "rt"]

/-- The call `PopRenderTarget()` inside a scope with one triangle accumulated and only the
base frame on the render-target stack. -/
def popAtBaseCall : lua_State := luaCall Renderer.busy []


/-- A vertex table `{x, y, z, u, v, color}` as `drawTexture` reads it. -/
def vertexTable (x y z u v color : ℚ) : LuaValue :=
  .table [(.number 1, .number x), (.number 2, .number y), (.number 3, .number z),
    (.number 4, .number u), (.number 5, .number v), (.number 6, .number color)]

/-- Two states agree on everything a binding function can do to the application: renderer,
render-target stack, calls made and environment.  The Lua stack and the record of lookups
may differ. -/
def lua_State.untouched (L L1 : lua_State) : Prop :=
  L1.renderer = L.renderer ∧ L1.renderTargets = L.renderTargets ∧ L1.calls = L.calls
    ∧ L1.env = L.env

/-- A computation that only reads arguments and moves the Lua stack. -/
def UntouchedM {α : Type} (m : LuaM α) : Prop :=
  ∀ L : lua_State, L.untouched (m L).2

/-- A run from `L` that issued no draw and, if it returned a value, resolved every name it
looked up. -/
def Guarded {α : Type} (L : lua_State) (out : Except LuaError α × lua_State) : Prop :=
  ∃ cs qs, out.2.calls = L.calls ++ cs ∧ out.2.lookups = L.lookups ++ qs
    ∧ (∀ c ∈ cs, c.isDraw = false) ∧ (isError out.1 = false → ∀ q ∈ qs, q.found = true)

/-- A run from `L` that issued no draw or resolved every name it looked up. -/
def Settled {α : Type} (L : lua_State) (out : Except LuaError α × lua_State) : Prop :=
  ∃ cs qs, out.2.calls = L.calls ++ cs ∧ out.2.lookups = L.lookups ++ qs
    ∧ ((∀ c ∈ cs, c.isDraw = false) ∨ (∀ q ∈ qs, q.found = true))

/-- A computation all of whose runs are guarded. -/
def GuardedM {α : Type} (m : LuaM α) : Prop :=
  ∀ L : lua_State, Guarded L (m L)

/-- A computation all of whose runs are settled. -/
def SettledM {α : Type} (m : LuaM α) : Prop :=
  ∀ L : lua_State, Settled L (m L)


/-- How a texture draw on an unknown texture leaves the application: the call has failed;
either no call was made and the renderer is as before, or the one call made is
`updateGraph2DBlendMode(blend)` with the blend mode of argument 2 and the renderer is as that
call left it.  In both cases neither `setTexture` nor a draw has been issued. -/
def blendAppliedOnly (L : lua_State) (out : Except LuaError Nat × lua_State) : Prop :=
  isError out.1 = true
  ∧ ((out.2.renderer = L.renderer ∧ out.2.calls = L.calls)
    ∨ ∃ b, L.env.TranslateBlendMode (L.valueAt 2) = some b
        ∧ out.2.renderer = L.env.updateGraph2DBlendMode b L.renderer
        ∧ out.2.calls = L.calls ++ [Call.updateGraph2DBlendMode b])


/-- A computation that makes no call and no lookup. -/
def QuietM {α : Type} (m : LuaM α) : Prop :=
  ∀ L : lua_State, (m L).2.calls = L.calls ∧ (m L).2.lookups = L.lookups


/-- The scenario of section 8: three quads, a change of the blend state, two quads. -/
def orderingScenario : List Cmd :=
  [.drawQuad sampleVertex sampleVertex sampleVertex sampleVertex,
   .drawQuad sampleVertex sampleVertex sampleVertex sampleVertex,
   .drawQuad sampleVertex sampleVertex sampleVertex sampleVertex,
   .setBlendState BlendState.Add,
   .drawQuad sampleVertex sampleVertex sampleVertex sampleVertex,
   .drawQuad sampleVertex sampleVertex sampleVertex sampleVertex]

/-- The call `PostEffect("rt", "fx", "mul+add", { tex2 = "nope" })` inside an open scope: the
render target and the effect are known, the texture parameter is not. -/
def unknownParameterCall : lua_State :=
  luaCall Renderer.fresh
    [.string "rt", .string "fx", .string "mul+add", .table [(.string "tex2", .string "nope")]]


/-! ## Integer widths of the interface and the names of the enumerators -/

/-- The C conversion of an integer to `uint16_t`, the type of `DrawIndex` and of the counts
`nvert` and `nidx` (Renderer.hpp 128, 157, 158). -/
def toUInt16 (n : Int) : Nat := (n % 65536).toNat

/-- The counts a `drawRaw` or `drawRequest` call receives when the caller passes the integers
`nvert` and `nidx`: both parameters are `uint16_t` in both functions (Renderer.hpp 157-158). -/
def requestedCounts (nvert nidx : Int) : Nat × Nat := (toUInt16 nvert, toUInt16 nidx)

/-- The call `drawRaw(pvert, nvert, pidx, nidx)` with the parameter types of Renderer.hpp 157:
the counts arrive as `uint16_t`, every index is a `DrawIndex`, and `nvert` vertices and `nidx`
indices are read from the two arrays, which hold at least that many elements.  What the
renderer does with them is `Renderer.drawRaw`. -/
def IRenderer.drawRaw (r : Renderer) (pvert : List DrawVertex) (nvert : Int) (pidx : List Int)
    (nidx : Int) : Bool × Renderer :=
  r.drawRaw (pvert.take (requestedCounts nvert nidx).1)
    ((pidx.take (requestedCounts nvert nidx).2).map toUInt16)

/-- The filter half of the name of a sampler mode (Renderer.hpp 91-98). -/
inductive SamplerFilter where
  | Point | Linear
deriving DecidableEq, Repr

/-- The address-mode half of the name of a sampler mode (Renderer.hpp 91-98). -/
inductive SamplerAddress where
  | Wrap | Clamp | BorderBlack | BorderWhite
deriving DecidableEq, Repr

/-- Position of a filter: 0 for Point, 1 for Linear. -/
def SamplerFilter.index : SamplerFilter → Nat
  | .Point => 0
  | .Linear => 1

/-- Position of an address mode: 0, 1, 2, 3 for Wrap, Clamp, BorderBlack, BorderWhite. -/
def SamplerAddress.index : SamplerAddress → Nat
  | .Wrap => 0
  | .Clamp => 1
  | .BorderBlack => 2
  | .BorderWhite => 3

/-- The enumerator of `SamplerState` that carries a filter and an address mode in its name. -/
def SamplerState.named : SamplerFilter → SamplerAddress → SamplerState
  | .Point, .Wrap => SamplerState.PointWrap
  | .Point, .Clamp => SamplerState.PointClamp
  | .Point, .BorderBlack => SamplerState.PointBorderBlack
  | .Point, .BorderWhite => SamplerState.PointBorderWhite
  | .Linear, .Wrap => SamplerState.LinearWrap
  | .Linear, .Clamp => SamplerState.LinearClamp
  | .Linear, .BorderBlack => SamplerState.LinearBorderBlack
  | .Linear, .BorderWhite => SamplerState.LinearBorderWhite

/-- The enumerators of `SamplerState` in the order of their declaration, the aliases
`MIN_INDEX` and `MAX_INDEX` and the count `MAX_COUNT` left out (Renderer.hpp 91-98). -/
def SamplerState.enumerators : List SamplerState :=
  [SamplerState.PointWrap, SamplerState.PointClamp, SamplerState.PointBorderBlack,
   SamplerState.PointBorderWhite, SamplerState.LinearWrap, SamplerState.LinearClamp,
   SamplerState.LinearBorderBlack, SamplerState.LinearBorderWhite]

/-- The enumerators of `VertexColorBlendState` in declaration order (Renderer.hpp 36-40). -/
def VertexColorBlendState.enumerators : List VertexColorBlendState :=
  [VertexColorBlendState.Zero, VertexColorBlendState.One, VertexColorBlendState.Add,
   VertexColorBlendState.Hue, VertexColorBlendState.Mul]

/-- The enumerators of `FogState` in declaration order (Renderer.hpp 49-52). -/
def FogState.enumerators : List FogState :=
  [FogState.Disable, FogState.Linear, FogState.Exp, FogState.Exp2]

/-- The enumerators of `DepthState` in declaration order (Renderer.hpp 61-62). -/
def DepthState.enumerators : List DepthState := [DepthState.Disable, DepthState.Enable]

/-- The enumerators of `BlendState` in declaration order (Renderer.hpp 71-82). -/
def BlendState.enumerators : List BlendState :=
  [BlendState.Disable, BlendState.Alpha, BlendState.One, BlendState.Min, BlendState.Max,
   BlendState.Mul, BlendState.Screen, BlendState.Add, BlendState.Hue, BlendState.Sub,
   BlendState.RevSub, BlendState.Inv]

/-- The four binding functions that forward an integer argument as an enumeration value
(LW_Renderer.cpp 339-375). -/
inductive EnumSetter where
  | setVertexColorBlendState | setFogState | setDepthState | setBlendState
deriving DecidableEq, Repr

/-- The binding function behind such a setter. -/
def EnumSetter.run : EnumSetter → LuaM Nat
  | .setVertexColorBlendState => lib_setVertexColorBlendState
  | .setFogState => lib_setFogState
  | .setDepthState => lib_setDepthState
  | .setBlendState => lib_setBlendState

/-- The enumeration value a call forwards to the renderer, as its underlying byte, for the
call of a given enumeration setter; `none` for any other call. -/
def EnumSetter.forwarded? : EnumSetter → Call → Option Nat
  | .setVertexColorBlendState, .setVertexColorBlendState s => some s.raw
  | .setFogState, .setFogState s _ _ _ => some s.raw
  | .setDepthState, .setDepthState s => some s.raw
  | .setBlendState, .setBlendState s => some s.raw
  | _, _ => none

/-- The call `setBlendState(200)` inside an open scope. -/
def blendState200Call : lua_State := luaCall Renderer.fresh [.number 200]

/-- The call `setDepthState(-1)` inside an open scope. -/
def depthStateMinusOneCall : lua_State := luaCall Renderer.fresh [.number (-1)]


/-! ## Sample calls of `PostEffect` and `drawModel` -/

/-- One entry `{ "tex", 0 }` of the texture table of the positional `PostEffect` style. -/
def textureEntry : LuaValue := .table [(.number 1, .string "tex"), (.number 2, .number 0)]

/-- One entry `{ 1, 2, 3, 4 }` of the constant table of the positional `PostEffect` style. -/
def constantEntry : LuaValue :=
  .table [(.number 1, .number 1), (.number 2, .number 2), (.number 3, .number 3),
    (.number 4, .number 4)]

/-- A Lua array holding the given values at the keys 1, 2, ... -/
def luaArray (vs : List LuaValue) : LuaValue :=
  .table (vs.enum.map (fun iv => (.number ((iv.1 + 1 : Nat) : ℚ), iv.2)))

/-- The call `PostEffect("fx", "rt", 0, "mul+add", {}, { t, t, t, t, t })` inside an open scope
with five texture entries `t = { "tex", 0 }`. -/
def fiveTexturesCall : lua_State :=
  luaCall Renderer.fresh
    [.string "fx", .string "rt", .number 0, .string "mul+add", luaArray [],
      luaArray (List.replicate 5 textureEntry)]

/-- The call `PostEffect("fx", "rt", 0, "mul+add", { c, c, c, c, c, c, c, c, c }, {})` inside
an open scope with nine constant entries `c = { 1, 2, 3, 4 }`. -/
def nineConstantsCall : lua_State :=
  luaCall Renderer.fresh
    [.string "fx", .string "rt", .number 0, .string "mul+add",
      luaArray (List.replicate 9 constantEntry), luaArray []]

/-- The call `PostEffect("fx", "rt", 0, "mul+add", {}, { t, t, t, t, t, t, t, t, t })` inside
an open scope with nine texture entries `t = { "tex", 0 }`. -/
def nineTexturesCall : lua_State :=
  luaCall Renderer.fresh
    [.string "fx", .string "rt", .number 0, .string "mul+add", luaArray [],
      luaArray (List.replicate 9 textureEntry)]

/-- The call `PostEffect("rt", "fx", "mul+add", { strength = 1 })` inside an open scope: the
sample effect has no parameter `strength`, so `setFloat` answers false. -/
def unknownSetterCall : lua_State :=
  luaCall Renderer.fresh
    [.string "rt", .string "fx", .string "mul+add", .table [(.string "strength", .number 1)]]

/-- The call `PostEffect("rt", "fx", "mul+add")` inside an open scope, with no parameter
table. -/
def plainEffectCall : lua_State :=
  luaCall Renderer.fresh [.string "rt", .string "fx", .string "mul+add"]

/-- The sample environment with one model, `ship`. -/
def modelEnv : Env :=
  { sampleEnv with FindModel := fun n => if n = "ship" then some 3 else none }

/-- The call `RenderModel("ship", 1, 2, 3)` with no batch scope open: the three rotation
angles and the three scales are omitted. -/
def shipCall : lua_State :=
  { luaCall Renderer.closed [.string "ship", .number 1, .number 2, .number 3] with
    env := modelEnv }

/-- The two operations that draw outside the batching path. -/
inductive DirectDraw where
  | PostEffect | drawModel
deriving DecidableEq, Repr

/-- The binding function behind such an operation. -/
def DirectDraw.run : DirectDraw → LuaM Nat
  | .PostEffect => compat_PostEffect
  | .drawModel => lib_drawModel

/-- The blend argument of a `drawPostEffect` call, of either overload; `none` for any other
call. -/
def Call.postEffectBlend? : Call → Option BlendState
  | .drawPostEffect _ b => some b
  | .drawPostEffectArrays _ b _ _ _ _ _ _ _ => some b
  | _ => none

/-- The stack index at which `PostEffect` reads the blend mode, by calling style
(LW_Renderer.cpp 858-861, 867-871, 939): 2 for an effect object, 3 for the name-keyed style,
4 for the positional style. -/
def postEffectBlendIndex (L : lua_State) : Int :=
  if (L.valueAt 1).type = LuaType.LUA_TUSERDATA then 2
  else if (L.valueAt 1).type = LuaType.LUA_TSTRING ∧ (L.valueAt 2).type = LuaType.LUA_TSTRING
      ∧ (L.valueAt 3).type = LuaType.LUA_TSTRING ∧ (L.valueAt 3).type ≠ LuaType.LUA_TNUMBER
    then 3
  else 4


/-! ## Sequences of render-target switches -/

/-- A Lua call of a binding function: it runs with the arguments as its stack. -/
def lua_State.call (L : lua_State) (f : LuaM Nat) (args : List LuaValue) :
    Except LuaError Nat × lua_State :=
  f { L with stack := args }

/-- One `PushRenderTarget` call per argument list, in order; `none` as soon as one of them
fails. -/
def pushTargets : List (List LuaValue) → lua_State → Option lua_State
  | [], L => some L
  | args :: rest, L =>
    match L.call compat_PushRenderTarget args with
    | (.ok _, L1) => pushTargets rest L1
    | (.error _, _) => none

/-- The call `PopRenderTarget()` made `n` times; `none` as soon as one of them fails. -/
def popTargets : Nat → lua_State → Option lua_State
  | 0, L => some L
  | n + 1, L =>
    match L.call compat_PopRenderTarget [] with
    | (.ok _, L1) => popTargets n L1
    | (.error _, _) => none


/-! ## Observations on `PostEffect` and `drawModel` -/

/-- A computation that invokes none of the five setters of the Pending Draw State and leaves
the Pending Draw State as it was. -/
def LeavesPendingM {α : Type} (m : LuaM α) : Prop :=
  ∀ L : lua_State, (m L).2.renderer.pending = L.renderer.pending
    ∧ ∃ cs, (m L).2.calls = L.calls ++ cs ∧ ∀ c ∈ cs, c.isStateSetter = false

/-- A computation that issues no draw. -/
def NoDrawM {α : Type} (m : LuaM α) : Prop :=
  ∀ L : lua_State, ∃ cs, (m L).2.calls = L.calls ++ cs ∧ ∀ c ∈ cs, c.isDraw = false

/-- A computation that, when it returns normally, has issued exactly one draw, as its last
call: a `drawPostEffect` with the blend state `bs`. -/
def EndsWithEffect {α : Type} (bs : BlendState) (m : LuaM α) : Prop :=
  ∀ L : lua_State, isError (m L).1 = false →
    ∃ pre c, (m L).2.calls = L.calls ++ pre ++ [c] ∧ (∀ x ∈ pre, x.isDraw = false)
      ∧ c.postEffectBlend? = some bs

/-- What the three parameter setters of the effect objects answer. -/
structure EffectAnswers where
  setFloat : EffectId → String → ℚ → Bool
  setFloat4 : EffectId → String → Vector4F → Bool
  setTexture2D : EffectId → String → TextureId → Bool

/-- The environment with other answers of the effect setters. -/
def Env.withAnswers (env : Env) (s : EffectAnswers) : Env :=
  { env with
    effectSetFloat := s.setFloat
    effectSetFloat4 := s.setFloat4
    effectSetTexture2D := s.setTexture2D }

/-- The state with other answers of the effect setters. -/
def lua_State.withAnswers (L : lua_State) (s : EffectAnswers) : lua_State :=
  { L with env := L.env.withAnswers s }

/-- A computation on which the answers of the effect setters have no influence: with other
answers it yields the same result and the same state. -/
def AnswerBlindM {α : Type} (m : LuaM α) : Prop :=
  ∀ (s : EffectAnswers) (L : lua_State), m (L.withAnswers s) = ((m L).1, (m L).2.withAnswers s)

/-- A computation that always returns and on whose state the answers of the effect setters
have no influence; the value it returns may depend on them. -/
def AnswerBlindStateM {α : Type} (m : LuaM α) : Prop :=
  ∀ (s : EffectAnswers) (L : lua_State),
    (m (L.withAnswers s)).2 = (m L).2.withAnswers s
    ∧ isError (m (L.withAnswers s)).1 = false ∧ isError (m L).1 = false


/-! ## Sample calls of the vertex draws and of the name-keyed `PostEffect` -/

/-- The call `drawTriangle(v1, v2, v3)` inside an open scope, with three tables of six
numbers. -/
def triangleCall : lua_State :=
  luaCall Renderer.fresh
    [vertexTable 1 2 3 4 5 6, vertexTable 11 12 13 14 15 16, vertexTable 21 22 23 24 25 26]

/-- The call `drawTriangle(v1, v2, v3, 0)` inside an open scope: the same three tables,
followed by one more argument. -/
def triangleWithExtraArgument : lua_State :=
  luaCall Renderer.fresh
    [vertexTable 1 2 3 4 5 6, vertexTable 11 12 13 14 15 16, vertexTable 21 22 23 24 25 26,
      .number 0]

/-- The call `drawQuad(v1, v2, v3, v4, "tail")` inside an open scope: four tables of six
numbers, followed by a string. -/
def quadWithExtraArgument : lua_State :=
  luaCall Renderer.fresh
    [vertexTable 1 2 3 4 5 6, vertexTable 11 12 13 14 15 16, vertexTable 21 22 23 24 25 26,
      vertexTable 31 32 33 34 35 36, .string "tail"]

/-- The setter call the parameter rule gives an entry: `setFloat` with the number for a
number and for a string the runtime converts to a number, `setTexture2D` with the texture
of that name for any other string that names a texture, `setFloat4` with the channels
divided by 255 for a colour object, and no call for anything else. -/
def parameterSetter? (env : Env) (e : EffectId) (key : String) : LuaValue → Option Call
  | .number n => some (Call.effectSetFloat e key n)
  | .string s =>
    match env.str2number s with
    | some n => some (Call.effectSetFloat e key n)
    | none => (env.FindTexture s).map (fun p => Call.effectSetTexture2D e key p.texture)
  | .userdata (.color c) =>
    some (Call.effectSetFloat4 e key
      ⟨(c.r : ℚ) / 255, (c.g : ℚ) / 255, (c.b : ℚ) / 255, (c.a : ℚ) / 255⟩)
  | _ => none

/-- The error the parameter rule gives an entry that gets no setter call: a string names no
texture, a userdata is no colour object, and every other kind of value is an invalid data
type. -/
def parameterError (rt_name : String) : LuaValue → LuaError
  | .string _ => LuaError.raised ("texture '" ++ rt_name ++ "' not found.")
  | .userdata _ => LuaError.badArgument (-1) "lstg.Color"
  | _ => LuaError.raised "PostEffect: invalid data type."

/-- The sample environment with a runtime that reads the text `5` as the number 5, and with
one more texture, whose name is `5`. -/
def numericNameEnv : Env :=
  { sampleEnv with
    str2number := fun s => if s = "5" then some 5 else none
    FindTexture := fun n =>
      if n = "5" then some ⟨6, false, 8, 8⟩ else sampleEnv.FindTexture n }

/-- The call `PostEffect("rt", "fx", "mul+add", { mask = "5" })` inside an open scope, where
a texture named `5` exists. -/
def numericStringCall : lua_State :=
  { luaCall Renderer.fresh
      [.string "rt", .string "fx", .string "mul+add",
        .table [(.string "mask", .string "5")]] with env := numericNameEnv }

/-- The call `PostEffect("rt", "fx", "mul+add", { mask = mesh })` inside an open scope, the
value being a mesh object. -/
def meshParameterCall : lua_State :=
  luaCall Renderer.fresh
    [.string "rt", .string "fx", .string "mul+add",
      .table [(.string "mask", .userdata (.mesh 2))]]

/-- A parameter table with a number and the name of a texture. -/
def sampleParameters : List (String × LuaValue) :=
  [("time", .number 2), ("mask", .string "tex")]

/-- Thirteen numbers as the arguments of `setPerspective`, the depth range being
(`znear`, `zfar`). -/
def perspectiveArgs (znear zfar : ℚ) : List LuaValue :=
  [.number 1, .number 2, .number 3, .number 4, .number 5, .number 6, .number 7, .number 8,
    .number 9, .number 10, .number 11, .number znear, .number zfar]

/-! ## `Device_D3D11.cpp`: feature levels and adapters

`D3D11CreateDevice`, the DXGI objects and the constants of the Windows SDK headers are not
part of the repository.  What a call answers is a parameter of the functions below, so every
statement holds whatever the system answers. -/

/-- The feature levels named in `target_levels` (Device_D3D11.cpp 278-286 and 691-699); the
enum is declared in d3dcommon.h. -/
inductive D3D_FEATURE_LEVEL where
  | LEVEL_12_2
  | LEVEL_12_1
  | LEVEL_12_0
  | LEVEL_11_1
  | LEVEL_11_0
  | LEVEL_10_1
  | LEVEL_10_0
deriving DecidableEq, Repr

/-- The version a feature level is named after, as ten times the major number plus the
minor number. -/
def D3D_FEATURE_LEVEL.version : D3D_FEATURE_LEVEL → Nat
  | .LEVEL_12_2 => 122
  | .LEVEL_12_1 => 121
  | .LEVEL_12_0 => 120
  | .LEVEL_11_1 => 111
  | .LEVEL_11_0 => 110
  | .LEVEL_10_1 => 101
  | .LEVEL_10_0 => 100

/-- The array `target_levels` (Device_D3D11.cpp 278-286 and 691-699). -/
def target_levels : List D3D_FEATURE_LEVEL :=
  [.LEVEL_12_2, .LEVEL_12_1, .LEVEL_12_0, .LEVEL_11_1, .LEVEL_11_0, .LEVEL_10_1, .LEVEL_10_0]

/-- What a call of `D3D11CreateDevice` answers, given the feature levels offered to it: the
level of the device it has created, or nothing when it failed. -/
abbrev CreateDevice := List D3D_FEATURE_LEVEL → Option D3D_FEATURE_LEVEL

/-- What the loop over the offsets leaves behind: the lists of levels it has offered, in
order, and the level of the created device if an attempt succeeded. -/
structure DeviceAttempts where
  offered : List (List D3D_FEATURE_LEVEL)
  level : Option D3D_FEATURE_LEVEL
deriving DecidableEq, Repr

/-- The loop `for (UINT offset = 0; offset < 5; offset += 1)` around
`D3D11CreateDevice(..., target_levels + offset, std::size(target_levels) - offset, ...)`
with its `break` on success (Device_D3D11.cpp 305-325 and 705-724), from `offset` on with
`count` iterations left. -/
def createDeviceLoop (D3D11CreateDevice : CreateDevice) : Nat → Nat → DeviceAttempts
  | _, 0 => ⟨[], none⟩
  | offset, count + 1 =>
    match D3D11CreateDevice (target_levels.drop offset) with
    | some level => ⟨[target_levels.drop offset], some level⟩
    | none =>
      let rest := createDeviceLoop D3D11CreateDevice (offset + 1) count
      ⟨target_levels.drop offset :: rest.offered, rest.level⟩

/-- The device creation at the start of `createD3D11` (Device_D3D11.cpp 680-727): the loop,
then `return false` when `d3d11_device` is still null, which it is before the loop.  The
rest of the function (728-891) checks features, writes the log and returns true. -/
def createD3D11 (D3D11CreateDevice : CreateDevice) : Bool × DeviceAttempts :=
  let attempts := createDeviceLoop D3D11CreateDevice 0 5
  if attempts.level.isNone then (false, attempts) else (true, attempts)

/-- Whether an answer of `D3D11CreateDevice` is the highest level of the offered list that
the system supports: a created device has a supported level of the list and no supported
level of the list is higher; a failure means that the first level of the list, its highest,
is not supported.  The call fails as a whole when it is offered a level the system does not
know (the comments at `target_levels`: Windows 7, 8 and 8.1 have no level 12, Windows 7 has
no 11.1), which is what the loop over the offsets is for.  An attempt that fails only when
no level of its list is supported is a case of this. -/
def yieldsHighestSupported (supports : D3D_FEATURE_LEVEL → Bool)
    (offered : List D3D_FEATURE_LEVEL) : Option D3D_FEATURE_LEVEL → Bool
  | some level =>
    offered.contains level && supports level
      && offered.all (fun l => !supports l || decide (l.version ≤ level.version))
  | none =>
    match offered with
    | [] => true
    | highest :: _ => !supports highest

/-- A system whose `D3D11CreateDevice` picks the first supported level of the offered list,
the device supporting the levels up to 11.0. -/
def level_11_0_system : CreateDevice :=
  fun offered => offered.find? (fun l => decide (l.version ≤ 110))

/-- A system like Windows 7, which knows the levels up to 11.0: `D3D11CreateDevice` fails
when a higher level is offered, and otherwise creates a device of the first level
offered. -/
def windows_7_system : CreateDevice :=
  fun offered =>
    if offered.all (fun l => decide (l.version ≤ 110)) then offered.head? else none

/-- The fields of `DXGI_ADAPTER_DESC1` that `selectAdapter` uses for the choice. -/
structure DXGI_ADAPTER_DESC1 where
  Description : String
  Flags : Nat
deriving DecidableEq, Repr

/-- The two constants of the enum `DXGI_ADAPTER_FLAG` (dxgi.h) that `selectAdapter` tests. -/
structure DXGI_ADAPTER_FLAG where
  REMOTE : Nat
  SOFTWARE : Nat

/-- An enumerated adapter, as what the calls made on it answer: `D3D11CreateDevice` with
this adapter, `GetDesc1` (nothing when it fails), and for every output that `EnumOutputs`
yields whether one of the descriptions of the output could be read. -/
structure IDXGIAdapter1 where
  D3D11CreateDevice : CreateDevice
  GetDesc1 : Option DXGI_ADAPTER_DESC1
  outputs : List Bool

/-- The local struct `AdapterCandidate` (Device_D3D11.cpp 292-299); the adapter is named by
its index in the enumeration, the copy of the description is left out. -/
structure AdapterCandidate where
  adapter : Nat
  adapter_name : String
  feature_level : D3D_FEATURE_LEVEL
  link_to_output : Bool
deriving DecidableEq, Repr

/-- The members of `Device_D3D11` that `selectAdapter` reads and writes. -/
structure Device_D3D11 where
  preferred_adapter_name : String
  dxgi_adapter : Option Nat
  dxgi_adapter_name : String
  dxgi_adapter_names : List String
deriving DecidableEq, Repr

/-- The body of the enumeration loop of `selectAdapter` for one adapter (Device_D3D11.cpp
303-446): the probe of the feature level, the description, the outputs, and the candidate
it appends, if any. -/
def probeAdapter (flag : DXGI_ADAPTER_FLAG) (idx : Nat) (a : IDXGIAdapter1) :
    Option AdapterCandidate :=
  let probe := createDeviceLoop a.D3D11CreateDevice 0 5
  let supported_d3d11 := probe.level.isSome
  let level_info := probe.level.getD D3D_FEATURE_LEVEL.LEVEL_10_0
  let described : String × Bool :=
    match a.GetDesc1 with
    | some desc_ =>
      let soft_dev_type :=
        desc_.Flags &&& flag.SOFTWARE ≠ 0 ∨ desc_.Flags &&& flag.REMOTE ≠ 0
      (desc_.Description, if soft_dev_type then false else supported_d3d11)
    | none => ("<NULL>", false)
  let has_linked_output := a.outputs.any id
  if described.2 then some ⟨idx, described.1, level_info, has_linked_output⟩ else none

/-- The enumeration loop of `selectAdapter` (Device_D3D11.cpp 302-447) over the adapters
that `EnumAdapters1` yields, from index `idx` on: the list `adapter_candidate`. -/
def enumerateCandidates (flag : DXGI_ADAPTER_FLAG) : Nat → List IDXGIAdapter1 →
    List AdapterCandidate
  | _, [] => []
  | idx, a :: rest =>
    match probeAdapter flag idx a with
    | some candidate => candidate :: enumerateCandidates flag (idx + 1) rest
    | none => enumerateCandidates flag (idx + 1) rest

/-- The first selection loop of `selectAdapter` (Device_D3D11.cpp 451-460): the first
candidate named like the preferred adapter is taken, and the loop is left. -/
def selectPreferred (d : Device_D3D11) : List AdapterCandidate → Device_D3D11
  | [] => d
  | v :: rest =>
    if v.adapter_name = d.preferred_adapter_name then
      { d with dxgi_adapter := some v.adapter, dxgi_adapter_name := v.adapter_name }
    else selectPreferred d rest

/-- The function `selectAdapter` (Device_D3D11.cpp 267-492) on the adapters that
`EnumAdapters1` yields; the log is left out. -/
def selectAdapter (flag : DXGI_ADAPTER_FLAG) (adapters : List IDXGIAdapter1)
    (d : Device_D3D11) : Bool × Device_D3D11 :=
  let adapter_candidate := enumerateCandidates flag 0 adapters
  let d1 := selectPreferred d adapter_candidate
  let d2 :=
    match adapter_candidate with
    | v :: _ =>
      if d1.dxgi_adapter.isNone then
        { d1 with dxgi_adapter := some v.adapter, dxgi_adapter_name := v.adapter_name }
      else d1
    | [] => d1
  let d3 := { d2 with dxgi_adapter_names := adapter_candidate.map (fun v => v.adapter_name) }
  if d3.dxgi_adapter.isSome then (true, d3) else (false, d3)

/-- Whether an enumerated adapter is a candidate in the words of the specification: one of
the five attempts creates a Direct3D 11 device for it, its description can be read, and the
description carries neither the SOFTWARE nor the REMOTE flag. -/
def IDXGIAdapter1.isCandidate (flag : DXGI_ADAPTER_FLAG) (a : IDXGIAdapter1) : Bool :=
  (List.range 5).any (fun offset => (a.D3D11CreateDevice (target_levels.drop offset)).isSome)
    && match a.GetDesc1 with
      | some desc_ =>
        decide (desc_.Flags &&& flag.SOFTWARE = 0) && decide (desc_.Flags &&& flag.REMOTE = 0)
      | none => false

/-- The name in the description of an adapter, after the conversion to UTF-8. -/
def IDXGIAdapter1.name (a : IDXGIAdapter1) : String :=
  match a.GetDesc1 with
  | some desc_ => desc_.Description
  | none => "<NULL>"

/-- The candidates in the words of the specification, each with its index in the
enumeration, in enumeration order. -/
def candidateAdapters (flag : DXGI_ADAPTER_FLAG) (adapters : List IDXGIAdapter1) :
    List (Nat × IDXGIAdapter1) :=
  (adapters.enumFrom 0).filter (fun ia => ia.2.isCandidate flag)

/-- The adapter the specification selects among the candidates: the first one named like
the preferred adapter, the first one at all when there is none of that name. -/
def specifiedAdapter (preferred : String) (candidates : List (Nat × IDXGIAdapter1)) :
    Option (Nat × IDXGIAdapter1) :=
  match candidates.find? (fun ia => ia.2.name = preferred) with
  | some ia => some ia
  | none => candidates.head?

/-- The values of `DXGI_ADAPTER_FLAG_REMOTE` and `DXGI_ADAPTER_FLAG_SOFTWARE` in dxgi.h. -/
def DXGI_ADAPTER_FLAG.sdk : DXGI_ADAPTER_FLAG := ⟨1, 2⟩

/-- A system with four adapters: a software adapter, two graphics cards, and an adapter
whose description cannot be read. -/
def sampleAdapters : List IDXGIAdapter1 :=
  [ ⟨level_11_0_system, some ⟨"Basic Render Driver", 2⟩, []⟩,
    ⟨level_11_0_system, some ⟨"Card A", 0⟩, [true]⟩,
    ⟨level_11_0_system, some ⟨"Card B", 0⟩, []⟩,
    ⟨level_11_0_system, none, []⟩ ]

/-- A device object before `selectAdapter` has run, as the constructor leaves it. -/
def Device_D3D11.initial (prefered_gpu : String) : Device_D3D11 := ⟨prefered_gpu, none, "", []⟩

/-! ## `ShaderCompiler.cpp` -/

/-- An opened `std::ifstream` in binary mode: the bytes of the file and the read position. -/
structure ifstream where
  contents : List Nat
  position : Nat
deriving DecidableEq, Repr

/-- The call `file.read(buffer.data(), count)`: the next `count` bytes of the file, or what
is left of it, overwrite the start of the buffer. -/
def ifstream.read (file : ifstream) (buffer : List Nat) (count : Nat) : ifstream × List Nat :=
  let chunk := (file.contents.drop file.position).take count
  (⟨file.contents, file.position + chunk.length⟩, chunk ++ buffer.drop chunk.length)

/-- What `read_file` leaves behind: its result, the storage, and the sizes asked of
`file.read`, in order. -/
structure ReadOutcome where
  result : Bool
  storage : List Nat
  reads : List Nat
deriving DecidableEq, Repr

/-- The loop `while (size_to_read > 0)` of `read_file` (ShaderCompiler.cpp 55-75). -/
def read_file_loop (file : ifstream) (buffer storage reads : List Nat) (size_to_read : Nat) :
    List Nat × List Nat :=
  if size_to_read > 0 then
    if size_to_read > 64 then
      let step := file.read buffer 64
      read_file_loop step.1 step.2 (storage ++ step.2.take 64) (reads ++ [64])
        (size_to_read - 64)
    else
      let step := file.read buffer size_to_read
      read_file_loop step.1 step.2 (storage ++ step.2.take size_to_read)
        (reads ++ [size_to_read]) (size_to_read - size_to_read)
  else (storage, reads)
termination_by size_to_read
decreasing_by
  all_goals simp_wf
  all_goals omega

/-- The function `std::files::read_file` (ShaderCompiler.cpp 36-78).  The file system is a
parameter: `open? path` is the content of the file when it can be opened.  With a file that
cannot be opened the function returns false (after `assert(false)`). -/
def read_file (open? : String → Option (List Nat)) (path : String) (storage : List Nat) :
    ReadOutcome :=
  match open? path with
  | none => ⟨false, storage, []⟩
  | some contents =>
    let file : ifstream := ⟨contents, 0⟩
    let file_size := contents.length
    let buffer : List Nat := List.replicate 64 0
    let done := read_file_loop file buffer storage [] file_size
    ⟨true, done.1, done.2⟩

/-- The sizes of the reads in the words of the specification: 64 while more than 64 bytes
remain, then one read of what remains; no read for an empty file. -/
def chunkSizes (n : Nat) : List Nat :=
  if n = 0 then [] else List.replicate ((n - 1) / 64) 64 ++ [n - 64 * ((n - 1) / 64)]

/-- A file system with one file, `shader.hlsl`, of 130 bytes. -/
def sampleFiles : String → Option (List Nat) :=
  fun path => if path = "shader.hlsl" then some (List.range 130) else none

/-- The struct `output_config_t` (ShaderCompiler.cpp 133-138). -/
structure output_config_t where
  namespace_name : String
  value_name : String
  file_path : String
deriving DecidableEq, Repr

/-- The text `std::format` produces for `{:#04x}` on an unsigned integer (C++20,
[format.string.std]): lowercase hexadecimal digits, the prefix `0x` in front of them, and
zeros between the prefix and the digits up to a width of four characters. -/
def format_hex (v : Nat) : List Char :=
  let digits := Nat.toDigits 16 v
  '0' :: 'x' :: (List.replicate (4 - (2 + digits.length)) '0' ++ digits)

/-- The text `std::format_to` writes for four bytes (ShaderCompiler.cpp 156-158). -/
def format_row (a b c d : Nat) : List Char :=
  "        ".toList ++ format_hex a ++ ", ".toList ++ format_hex b ++ ", ".toList
    ++ format_hex c ++ ", ".toList ++ format_hex d ++ ",\n".toList

/-- The loop `for (size_t index = 0; index < bytes.size(); index += 4)` of
`write_blob_to_file` (ShaderCompiler.cpp 153-159), on the bytes from `index` on: the lines
it writes.  `bytes.subspan(index, 4)` with fewer than four bytes left is outside the
contract of `std::span`. -/
def write_blob_rows : List Nat → Except String (List (List Char))
  | [] => .ok []
  | a :: b :: c :: d :: rest =>
    match write_blob_rows rest with
    | .ok rows => .ok (format_row a b c d :: rows)
    | .error e => .error e
  | _ => .error "subspan past the end of the span"

/-- The lines `write_blob_to_file` writes before the data lines (ShaderCompiler.cpp
145-149); the last one opens the array. -/
def blob_header_lines (config : output_config_t) : List (List Char) :=
  [ "// This is a file generated by the compiler, DO NOT directly modify this file\n".toList,
    "#pragma once\n".toList,
    ("namespace " ++ config.namespace_name ++ "\n").toList,
    "\x7b\n".toList,
    ("    static unsigned char const " ++ config.value_name ++ "[] = \x7b\n").toList ]

/-- The lines `write_blob_to_file` writes after the data lines (ShaderCompiler.cpp 161-162);
the first one closes the array. -/
def blob_footer_lines : List (List Char) :=
  [ "    \x7d;\n".toList, "\x7d\n".toList ]

/-- The function `write_blob_to_file(blob, config, file)` (ShaderCompiler.cpp 140-165) on
the bytes of the blob: its result and the lines written to the stream, in order. -/
def write_blob_to_file (blob : List Nat) (config : output_config_t) :
    Except String (Bool × List (List Char)) :=
  match write_blob_rows blob with
  | .ok rows => .ok (true, blob_header_lines config ++ rows ++ blob_footer_lines)
  | .error e => .error e

/-- The value of a hexadecimal digit. -/
def hexValue? (c : Char) : Option Nat :=
  if '0' ≤ c ∧ c ≤ '9' then some (c.toNat - 48)
  else if 'a' ≤ c ∧ c ≤ 'f' then some (c.toNat - 87)
  else if 'A' ≤ c ∧ c ≤ 'F' then some (c.toNat - 55)
  else none

/-- What separates the literals of an initializer list: blanks, line ends and commas. -/
def isSeparator (c : Char) : Bool := c = ' ' || c = '\n' || c = ','

/-- Where the reader of an initializer list is: between two literals, after the `0` of a
prefix, or inside the digits of a literal with the value read so far. -/
inductive LiteralReader where
  | between
  | zero
  | digits (value : Option Nat)
deriving DecidableEq, Repr

/-- Read the hexadecimal literals of an initializer list back: the values of the literals
`0x...`, in order; nothing when the text is not such a list. -/
def readLiteralsFrom : LiteralReader → List Char → Option (List Nat)
  | .between, [] => some []
  | .between, c :: cs =>
    if isSeparator c then readLiteralsFrom .between cs
    else if c = '0' then readLiteralsFrom .zero cs
    else none
  | .zero, [] => none
  | .zero, c :: cs => if c = 'x' then readLiteralsFrom (.digits none) cs else none
  | .digits value, [] => value.map (fun n => [n])
  | .digits value, c :: cs =>
    match hexValue? c with
    | some v => readLiteralsFrom (.digits (some (16 * value.getD 0 + v))) cs
    | none =>
      if isSeparator c then
        match value with
        | some n => (readLiteralsFrom .between cs).map (fun ns => n :: ns)
        | none => none
      else none

/-- Read the literals of the data lines back. -/
def readLiterals (rows : List (List Char)) : Option (List Nat) :=
  readLiteralsFrom .between rows.flatten

/-- The enum `optimization_level` (ShaderCompiler.cpp 180-187), over `uint8_t`. -/
structure optimization_level where
  raw : Nat
deriving DecidableEq, Repr

namespace optimization_level
def unspecified : optimization_level := ⟨255⟩
def level0 : optimization_level := ⟨0⟩
def level1 : optimization_level := ⟨1⟩
def level2 : optimization_level := ⟨2⟩
def level3 : optimization_level := ⟨3⟩
end optimization_level

/-- The constants of d3dcompiler.h that `to_flags` uses; the header belongs to the Windows
SDK. -/
structure D3DCOMPILE where
  DEBUG : Nat
  SKIP_VALIDATION : Nat
  SKIP_OPTIMIZATION : Nat
  PACK_MATRIX_ROW_MAJOR : Nat
  PACK_MATRIX_COLUMN_MAJOR : Nat
  PARTIAL_PRECISION : Nat
  AVOID_FLOW_CONTROL : Nat
  ENABLE_STRICTNESS : Nat
  IEEE_STRICTNESS : Nat
  WARNINGS_ARE_ERRORS : Nat
  OPTIMIZATION_LEVEL0 : Nat
  OPTIMIZATION_LEVEL1 : Nat
  OPTIMIZATION_LEVEL2 : Nat
  OPTIMIZATION_LEVEL3 : Nat
deriving DecidableEq, Repr

/-- The struct `compile_profile_t` (ShaderCompiler.cpp 196-229): ten one-bit fields and the
optimization level. -/
structure compile_profile_t where
  debug : Bool
  skip_validation : Bool
  skip_optimization : Bool
  pack_matrix_row_major : Bool
  pack_matrix_column_major : Bool
  partial_precision : Bool
  avoid_control_flow : Bool
  strictness : Bool
  ieee_strictness : Bool
  warnings_are_errors : Bool
  optimization_level : optimization_level
deriving DecidableEq, Repr

namespace compile_profile_t

/-- The function `compile_profile_t::to_flags` (ShaderCompiler.cpp 231-253); the result is
a `uint32_t`. -/
def to_flags (K : D3DCOMPILE) (p : compile_profile_t) : Nat :=
  let flags := 0
  let flags := if p.debug then flags ||| K.DEBUG else flags
  let flags := if p.skip_validation then flags ||| K.SKIP_VALIDATION else flags
  let flags := if p.skip_optimization then flags ||| K.SKIP_OPTIMIZATION else flags
  let flags := if p.pack_matrix_row_major then flags ||| K.PACK_MATRIX_ROW_MAJOR else flags
  let flags :=
    if p.pack_matrix_column_major then flags ||| K.PACK_MATRIX_COLUMN_MAJOR else flags
  let flags := if p.partial_precision then flags ||| K.PARTIAL_PRECISION else flags
  let flags := if p.avoid_control_flow then flags ||| K.AVOID_FLOW_CONTROL else flags
  let flags := if p.strictness then flags ||| K.ENABLE_STRICTNESS else flags
  let flags := if p.ieee_strictness then flags ||| K.IEEE_STRICTNESS else flags
  let flags := if p.warnings_are_errors then flags ||| K.WARNINGS_ARE_ERRORS else flags
  let flags :=
    if p.optimization_level = optimization_level.level0 then
      flags ||| K.OPTIMIZATION_LEVEL0
    else if p.optimization_level = optimization_level.level1 then
      flags ||| K.OPTIMIZATION_LEVEL1
    else if p.optimization_level = optimization_level.level2 then
      flags ||| K.OPTIMIZATION_LEVEL2
    else if p.optimization_level = optimization_level.level3 then
      flags ||| K.OPTIMIZATION_LEVEL3
    else flags
  flags % 4294967296

/-- The function `compile_profile_t::standard_debug` (ShaderCompiler.cpp 255-270). -/
def standard_debug : compile_profile_t :=
  { debug := true
    skip_validation := false
    skip_optimization := true
    pack_matrix_row_major := false
    pack_matrix_column_major := false
    partial_precision := false
    avoid_control_flow := false
    strictness := true
    ieee_strictness := false
    warnings_are_errors := true
    optimization_level := optimization_level.unspecified }

/-- The function `compile_profile_t::standard_release` (ShaderCompiler.cpp 272-287). -/
def standard_release : compile_profile_t :=
  { debug := false
    skip_validation := false
    skip_optimization := false
    pack_matrix_row_major := false
    pack_matrix_column_major := false
    partial_precision := false
    avoid_control_flow := true
    strictness := true
    ieee_strictness := false
    warnings_are_errors := true
    optimization_level := optimization_level.level3 }

end compile_profile_t

/-- The ten boolean options of a compile profile. -/
inductive CompileOption where
  | debug
  | skip_validation
  | skip_optimization
  | pack_matrix_row_major
  | pack_matrix_column_major
  | partial_precision
  | avoid_control_flow
  | strictness
  | ieee_strictness
  | warnings_are_errors
deriving DecidableEq, Repr

/-- The ten boolean options, in the order `to_flags` tests them. -/
def CompileOption.all : List CompileOption :=
  [.debug, .skip_validation, .skip_optimization, .pack_matrix_row_major,
    .pack_matrix_column_major, .partial_precision, .avoid_control_flow, .strictness,
    .ieee_strictness, .warnings_are_errors]

/-- Whether a boolean option is enabled in a profile. -/
def compile_profile_t.enabled (p : compile_profile_t) : CompileOption → Bool
  | .debug => p.debug
  | .skip_validation => p.skip_validation
  | .skip_optimization => p.skip_optimization
  | .pack_matrix_row_major => p.pack_matrix_row_major
  | .pack_matrix_column_major => p.pack_matrix_column_major
  | .partial_precision => p.partial_precision
  | .avoid_control_flow => p.avoid_control_flow
  | .strictness => p.strictness
  | .ieee_strictness => p.ieee_strictness
  | .warnings_are_errors => p.warnings_are_errors

/-- The flag `to_flags` sets for a boolean option. -/
def D3DCOMPILE.optionFlag (K : D3DCOMPILE) : CompileOption → Nat
  | .debug => K.DEBUG
  | .skip_validation => K.SKIP_VALIDATION
  | .skip_optimization => K.SKIP_OPTIMIZATION
  | .pack_matrix_row_major => K.PACK_MATRIX_ROW_MAJOR
  | .pack_matrix_column_major => K.PACK_MATRIX_COLUMN_MAJOR
  | .partial_precision => K.PARTIAL_PRECISION
  | .avoid_control_flow => K.AVOID_FLOW_CONTROL
  | .strictness => K.ENABLE_STRICTNESS
  | .ieee_strictness => K.IEEE_STRICTNESS
  | .warnings_are_errors => K.WARNINGS_ARE_ERRORS

/-- The flag of an optimization level: a constant for each of the four levels, no flag for
`unspecified` and for every other value. -/
def D3DCOMPILE.levelFlag (K : D3DCOMPILE) (level : optimization_level) : Nat :=
  if level = optimization_level.level0 then K.OPTIMIZATION_LEVEL0
  else if level = optimization_level.level1 then K.OPTIMIZATION_LEVEL1
  else if level = optimization_level.level2 then K.OPTIMIZATION_LEVEL2
  else if level = optimization_level.level3 then K.OPTIMIZATION_LEVEL3
  else 0

/-- The four flags of the optimization levels. -/
def D3DCOMPILE.levelFlags (K : D3DCOMPILE) : List Nat :=
  [K.OPTIMIZATION_LEVEL0, K.OPTIMIZATION_LEVEL1, K.OPTIMIZATION_LEVEL2, K.OPTIMIZATION_LEVEL3]

/-- The constants are 32-bit values, the flag of every boolean option has a bit, and no bit
of it belongs to the flag of another option or of an optimization level. -/
def D3DCOMPILE.separate (K : D3DCOMPILE) : Bool :=
  CompileOption.all.all (fun o =>
    decide (K.optionFlag o ≠ 0) && decide (K.optionFlag o < 4294967296)
      && CompileOption.all.all (fun o1 =>
        decide (o1 = o) || decide (K.optionFlag o &&& K.optionFlag o1 = 0))
      && K.levelFlags.all (fun f => decide (K.optionFlag o &&& f = 0)))
    && K.levelFlags.all (fun f => decide (f < 4294967296))

/-- The values of the constants in d3dcompiler.h. -/
def D3DCOMPILE.sdk : D3DCOMPILE :=
  { DEBUG := 1 <<< 0
    SKIP_VALIDATION := 1 <<< 1
    SKIP_OPTIMIZATION := 1 <<< 2
    PACK_MATRIX_ROW_MAJOR := 1 <<< 3
    PACK_MATRIX_COLUMN_MAJOR := 1 <<< 4
    PARTIAL_PRECISION := 1 <<< 5
    AVOID_FLOW_CONTROL := 1 <<< 9
    ENABLE_STRICTNESS := 1 <<< 11
    IEEE_STRICTNESS := 1 <<< 13
    WARNINGS_ARE_ERRORS := 1 <<< 18
    OPTIMIZATION_LEVEL0 := 1 <<< 14
    OPTIMIZATION_LEVEL1 := 0
    OPTIMIZATION_LEVEL2 := (1 <<< 14) ||| (1 <<< 15)
    OPTIMIZATION_LEVEL3 := 1 <<< 15 }

/-! ## Properties of the batch controller -/

theorem largeVertexBuffer_length : largeVertexBuffer.length = 40000 :=
  List.length_replicate _ _

theorem Renderer.flush_of_empty (r : Renderer) (h : r.acc = Geometry.empty) :
    r.flush = (true, r) := by
  simp [Renderer.flush, h]

theorem Renderer.flush_of_nonempty (r : Renderer) (h : r.acc ≠ Geometry.empty) :
    r.flush = (true, { r with device := r.device ++ [⟨r.submitted, r.acc⟩],
                              acc := Geometry.empty }) := by
  simp [Renderer.flush, h]

theorem Renderer.draw_fits (r : Renderer) (p : Primitive) (hs : r.scope = true)
    (hp : r.pending = r.submitted)
    (hc : r.acc.vertices.length + p.vertices.length ≤ maxBatchVertices) :
    r.draw p = (true, { r with acc := r.acc.append p }) := by
  simp [Renderer.draw, hs, Renderer.syncState, hp, Geometry.canReserve, hc]

theorem Renderer.draw_overflow (r : Renderer) (p : Primitive) (hs : r.scope = true)
    (hp : r.pending = r.submitted) (hne : r.acc ≠ Geometry.empty)
    (hc : maxBatchVertices < r.acc.vertices.length + p.vertices.length)
    (hc2 : p.vertices.length ≤ maxBatchVertices) :
    r.draw p = (true, { r with device := r.device ++ [⟨r.submitted, r.acc⟩],
                               acc := Geometry.empty.append p }) := by
  have h1 : ¬ (r.acc.vertices.length + p.vertices.length ≤ maxBatchVertices) := by omega
  have h2 : (Geometry.empty).vertices.length + p.vertices.length ≤ maxBatchVertices := by
    simpa [Geometry.empty] using hc2
  simp [Renderer.draw, hs, Renderer.syncState, hp, Geometry.canReserve, h1,
    Renderer.flush_of_nonempty r hne, h2]

theorem capacity_submissions (buf : List DrawVertex) (hlen : buf.length = 40000) :
    ((Renderer.fresh.run (capacityExample buf)).endBatch).2.device.length = 2 := by
  have h1 : Renderer.fresh.draw ⟨buf, [0, 1, 2]⟩
      = (true, { Renderer.fresh with acc := Renderer.fresh.acc.append ⟨buf, [0, 1, 2]⟩ }) :=
    Renderer.draw_fits _ _ rfl rfl (by
      simp [Renderer.fresh, Geometry.empty, hlen, maxBatchVertices])
  simp only [capacityExample, Renderer.run, List.foldl, Renderer.step, Renderer.drawRaw, h1]
  rw [Renderer.draw_overflow _ _ rfl rfl (by simp [Geometry.append, Geometry.empty]) (by
    simp [Geometry.append, Renderer.fresh, Geometry.empty, hlen, maxBatchVertices]) (by
    simp [hlen, maxBatchVertices])]
  simp [Renderer.endBatch, Renderer.fresh, Renderer.flush, Geometry.append, Geometry.empty]

theorem capacity_runs (buf : List DrawVertex) :
    (maximalRuns (snapshots Renderer.fresh.pending (capacityExample buf))).length = 1 := by
  simp [capacityExample, snapshots, maximalRuns, Cmd.primitive?]

/-! ### Runs -/

theorem maximalRuns_cons_shape (s : DrawState) (p : Primitive) (l : List (DrawState × Primitive)) :
    ∃ ps runs, maximalRuns ((s, p) :: l) = (s, p :: ps) :: runs := by
  rw [maximalRuns]
  split
  · exact ⟨[], [], rfl⟩
  · split
    · exact ⟨_, _, rfl⟩
    · exact ⟨[], _, rfl⟩

theorem maximalRuns_map_append_shape (s : DrawState) (pre : List Primitive) (hpre : pre ≠ [])
    (l : List (DrawState × Primitive)) :
    ∃ ps runs, maximalRuns (pre.map (fun p => (s, p)) ++ l) = (s, pre ++ ps) :: runs := by
  induction pre with
  | nil => exact absurd rfl hpre
  | cons p pre ih =>
    by_cases h : pre = []
    · subst h
      simpa using maximalRuns_cons_shape s p l
    · obtain ⟨ps, runs, e⟩ := ih h
      refine ⟨ps, runs, ?_⟩
      simp only [List.map_cons, List.cons_append]
      rw [maximalRuns, e]
      simp

theorem maximalRuns_map_append_of_ne (s t : DrawState) (hst : s ≠ t) (pre : List Primitive)
    (hpre : pre ≠ []) (p : Primitive) (l : List (DrawState × Primitive)) :
    maximalRuns (pre.map (fun q => (s, q)) ++ (t, p) :: l)
      = (s, pre) :: maximalRuns ((t, p) :: l) := by
  induction pre with
  | nil => exact absurd rfl hpre
  | cons q pre ih =>
    by_cases h : pre = []
    · subst h
      obtain ⟨ps, runs, e⟩ := maximalRuns_cons_shape t p l
      simp only [List.map_cons, List.map_nil, List.nil_append, List.cons_append]
      rw [maximalRuns, e]
      simp [hst]
    · simp only [List.map_cons, List.cons_append]
      rw [maximalRuns, ih h]
      simp

theorem maximalRuns_map (s : DrawState) (pre : List Primitive) (hpre : pre ≠ []) :
    maximalRuns (pre.map (fun q => (s, q))) = [(s, pre)] := by
  induction pre with
  | nil => exact absurd rfl hpre
  | cons q pre ih =>
    by_cases h : pre = []
    · subst h
      simp [maximalRuns]
    · simp only [List.map_cons]
      rw [maximalRuns, ih h]
      simp


/-! ### Accumulated geometry -/

theorem batchGeometry_snoc (ps : List Primitive) (p : Primitive) :
    batchGeometry (ps ++ [p]) = (batchGeometry ps).append p := by
  simp [batchGeometry, List.foldl_append]

theorem batchGeometry_vertices_length (ps : List Primitive) :
    (batchGeometry ps).vertices.length = vertexTotal ps := by
  induction ps using List.reverseRecOn with
  | nil => rfl
  | append_singleton ps p ih =>
    rw [batchGeometry_snoc]
    simp [Geometry.append, ih, vertexTotal]

theorem batchGeometry_ne_empty (ps : List Primitive) (hps : ps ≠ [])
    (hne : ∀ p ∈ ps, p.vertices ≠ []) : batchGeometry ps ≠ Geometry.empty := by
  induction ps using List.reverseRecOn with
  | nil => exact absurd rfl hps
  | append_singleton ps p _ =>
    rw [batchGeometry_snoc]
    have hp : p.vertices ≠ [] := hne p (by simp)
    intro h
    have hv := congrArg Geometry.vertices h
    simp [Geometry.append, Geometry.empty, hp] at hv

theorem vertexTotal_append (ps qs : List Primitive) :
    vertexTotal (ps ++ qs) = vertexTotal ps + vertexTotal qs := by
  simp [vertexTotal]

/-! ### Single steps of the batch controller -/

theorem Renderer.step_of_setter (r : Renderer) (c : Cmd) (h : c.primitive? = none) :
    r.step c = { r with pending := c.onState r.pending } := by
  cases c <;> simp [Cmd.primitive?] at h <;> rfl

theorem Renderer.step_of_draw (r : Renderer) (c : Cmd) (p : Primitive)
    (h : c.primitive? = some p) : r.step c = (r.draw p).2 := by
  cases c <;> simp [Cmd.primitive?] at h <;> subst h <;> rfl

theorem Renderer.draw_after_change_empty (r : Renderer) (p : Primitive) (hs : r.scope = true)
    (hp : r.pending ≠ r.submitted) (he : r.acc = Geometry.empty)
    (hc : p.vertices.length ≤ maxBatchVertices) :
    r.draw p = (true, { r with submitted := r.pending, acc := Geometry.empty.append p }) := by
  have h2 : (Geometry.empty).vertices.length + p.vertices.length ≤ maxBatchVertices := by
    simpa [Geometry.empty] using hc
  simp [Renderer.draw, hs, Renderer.syncState, hp, Geometry.canReserve,
    Renderer.flush_of_empty r he, he, h2]

theorem Renderer.draw_after_change (r : Renderer) (p : Primitive) (hs : r.scope = true)
    (hp : r.pending ≠ r.submitted) (hne : r.acc ≠ Geometry.empty)
    (hc : p.vertices.length ≤ maxBatchVertices) :
    r.draw p = (true, { r with submitted := r.pending,
                               device := r.device ++ [⟨r.submitted, r.acc⟩],
                               acc := Geometry.empty.append p }) := by
  have h2 : (Geometry.empty).vertices.length + p.vertices.length ≤ maxBatchVertices := by
    simpa [Geometry.empty] using hc
  simp [Renderer.draw, hs, Renderer.syncState, hp, Geometry.canReserve,
    Renderer.flush_of_nonempty r hne, h2]

theorem Renderer.endBatch_device_of_empty (r : Renderer) (hs : r.scope = true)
    (he : r.acc = Geometry.empty) : (r.endBatch).2.device = r.device := by
  simp [Renderer.endBatch, hs, Renderer.flush_of_empty r he]

theorem Renderer.endBatch_device_of_nonempty (r : Renderer) (hs : r.scope = true)
    (hne : r.acc ≠ Geometry.empty) :
    (r.endBatch).2.device = r.device ++ [⟨r.submitted, r.acc⟩] := by
  simp [Renderer.endBatch, hs, Renderer.flush_of_nonempty r hne]


/-! ### The ordering guarantee -/

theorem run_endBatch_device_aux (cmds : List Cmd) :
    ∀ (r : Renderer) (cur : List Primitive),
      r.scope = true → r.acc = batchGeometry cur →
      (∀ p ∈ cur, p.vertices ≠ []) →
      (∀ c ∈ cmds, ∀ p, c.primitive? = some p → p.vertices ≠ []) →
      (∀ run ∈ maximalRuns (cur.map (fun p => (r.submitted, p)) ++ snapshots r.pending cmds),
          vertexTotal run.2 ≤ maxBatchVertices) →
      ((r.run cmds).endBatch).2.device
        = r.device ++ (maximalRuns (cur.map (fun p => (r.submitted, p))
            ++ snapshots r.pending cmds)).map submissionOf := by
  induction cmds with
  | nil =>
    intro r cur hs hacc hcur _ _
    simp only [Renderer.run, List.foldl, snapshots, List.append_nil]
    by_cases hc : cur = []
    · subst hc
      rw [Renderer.endBatch_device_of_empty r hs (by rw [hacc]; rfl)]
      simp [maximalRuns]
    · rw [Renderer.endBatch_device_of_nonempty r hs
        (by rw [hacc]; exact batchGeometry_ne_empty cur hc hcur)]
      rw [maximalRuns_map _ _ hc]
      simp [submissionOf, hacc]
  | cons c cmds ih =>
    intro r cur hs hacc hcur hcmds hcap
    have hrun : r.run (c :: cmds) = (r.step c).run cmds := rfl
    rw [hrun]
    cases hprim : c.primitive? with
    | none =>
      have hstep := Renderer.step_of_setter r c hprim
      have hsnap : snapshots r.pending (c :: cmds) = snapshots (c.onState r.pending) cmds := by
        simp [snapshots, hprim]
      rw [hsnap] at hcap ⊢
      have := ih (r.step c) cur (by rw [hstep]; exact hs) (by rw [hstep]; exact hacc) hcur
        (fun c1 hc1 => hcmds c1 (List.mem_cons_of_mem _ hc1))
        (by rw [hstep]; exact hcap)
      rw [this, hstep]
    | some p =>
      have hstep := Renderer.step_of_draw r c p hprim
      have hpne : p.vertices ≠ [] := hcmds c (List.mem_cons_self _ _) p hprim
      have hsnap : snapshots r.pending (c :: cmds) = (r.pending, p) :: snapshots r.pending cmds := by
        simp [snapshots, hprim]
      rw [hsnap] at hcap ⊢
      have hrest : ∀ c1 ∈ cmds, ∀ q, c1.primitive? = some q → q.vertices ≠ [] :=
        fun c1 hc1 => hcmds c1 (List.mem_cons_of_mem _ hc1)
      by_cases hp : r.pending = r.submitted
      · -- same state: the draw joins the accumulated run
        have hlist : cur.map (fun q => (r.submitted, q)) ++ (r.pending, p) :: snapshots r.pending cmds
            = (cur ++ [p]).map (fun q => (r.submitted, q)) ++ snapshots r.pending cmds := by
          simp [hp]
        rw [hlist] at hcap ⊢
        obtain ⟨ps, runs, e⟩ := maximalRuns_map_append_shape r.submitted (cur ++ [p]) (by simp)
          (snapshots r.pending cmds)
        have hfit : r.acc.vertices.length + p.vertices.length ≤ maxBatchVertices := by
          have h1 := hcap (r.submitted, (cur ++ [p]) ++ ps) (by rw [e]; simp)
          simp only [vertexTotal_append] at h1
          rw [hacc, batchGeometry_vertices_length]
          simp only [vertexTotal, List.map_cons, List.map_nil, List.sum_cons, List.sum_nil] at h1 ⊢
          omega
        have hdraw := Renderer.draw_fits r p hs hp hfit
        have := ih (r.step c) (cur ++ [p]) (by rw [hstep, hdraw]; exact hs)
          (by rw [hstep, hdraw, batchGeometry_snoc, hacc])
          (by
            intro q hq
            rcases List.mem_append.mp hq with h | h
            · exact hcur q h
            · simp at h; subst h; exact hpne)
          hrest (by rw [hstep, hdraw]; exact hcap)
        rw [this, hstep, hdraw]
      · -- state changed: the accumulated run is submitted first
        have hone : p.vertices.length ≤ maxBatchVertices := by
          obtain ⟨ps, runs, e⟩ := maximalRuns_cons_shape r.pending p (snapshots r.pending cmds)
          by_cases hc : cur = []
          · subst hc
            have h1 := hcap (r.pending, p :: ps) (by simp [e])
            simp only [vertexTotal, List.map_cons, List.sum_cons] at h1
            omega
          · rw [maximalRuns_map_append_of_ne _ _ (Ne.symm hp) _ hc] at hcap
            have h1 := hcap (r.pending, p :: ps) (by simp [e])
            simp only [vertexTotal, List.map_cons, List.sum_cons] at h1
            omega
        by_cases hc : cur = []
        · subst hc
          have he : r.acc = Geometry.empty := by rw [hacc]; rfl
          have hdraw := Renderer.draw_after_change_empty r p hs hp he hone
          have := ih (r.step c) [p] (by rw [hstep, hdraw]; exact hs)
            (by rw [hstep, hdraw]; rfl)
            (by intro q hq; simp at hq; subst hq; exact hpne)
            hrest (by rw [hstep, hdraw]; simpa using hcap)
          rw [this, hstep, hdraw]
          simp
        · have hne : r.acc ≠ Geometry.empty := by
            rw [hacc]; exact batchGeometry_ne_empty cur hc hcur
          have hdraw := Renderer.draw_after_change r p hs hp hne hone
          rw [maximalRuns_map_append_of_ne _ _ (Ne.symm hp) _ hc] at hcap ⊢
          have := ih (r.step c) [p] (by rw [hstep, hdraw]; exact hs)
            (by rw [hstep, hdraw]; rfl)
            (by intro q hq; simp at hq; subst hq; exact hpne)
            hrest (by
              rw [hstep, hdraw]
              intro run hrun
              exact hcap run (List.mem_cons_of_mem _ (by simpa using hrun)))
          rw [this, hstep, hdraw]
          simp [submissionOf, hacc]

/-- C1 as stated fails: two `drawRaw` calls of 40000 vertices each, issued in one open scope
with no state change between them, form a single maximal run, yet the second draw does not
fit the 65536-vertex batch and the run is split into two submissions. -/
theorem capacity_splits_a_run :
    ((Renderer.fresh.run (capacityExample largeVertexBuffer)).endBatch).2.device.length = 2
    ∧ (maximalRuns (snapshots Renderer.fresh.pending
        (capacityExample largeVertexBuffer))).length = 1
    ∧ ((Renderer.fresh.run (capacityExample largeVertexBuffer)).endBatch).2.device
      ≠ (maximalRuns (snapshots Renderer.fresh.pending
          (capacityExample largeVertexBuffer))).map submissionOf := by
  have h1 := capacity_submissions largeVertexBuffer largeVertexBuffer_length
  have h2 := capacity_runs largeVertexBuffer
  refine ⟨h1, h2, ?_⟩
  intro h
  rw [h, List.length_map, h2] at h1
  exact absurd h1 (by decide)

/-- C1, amended: for every sequence of setters and draws issued in an open scope whose
accumulator starts empty, if every draw carries at least one vertex and no maximal run of
consecutive draws with one Pending Draw State snapshot carries more than 65536 vertices,
then closing the scope leaves on the device, after what was there before, exactly one
submission per maximal run, in issue order, each holding the draws of its run in issue
order under the snapshot of the run. -/
theorem batch_order_guarantee (r : Renderer) (cmds : List Cmd)
    (hs : r.scope = true) (hacc : r.acc = Geometry.empty)
    (hne : ∀ c ∈ cmds, ∀ p, c.primitive? = some p → p.vertices ≠ [])
    (hcap : ∀ run ∈ maximalRuns (snapshots r.pending cmds),
      vertexTotal run.2 ≤ maxBatchVertices) :
    ((r.run cmds).endBatch).2.device
      = r.device ++ (maximalRuns (snapshots r.pending cmds)).map submissionOf := by
  have h := run_endBatch_device_aux cmds r [] hs (by rw [hacc]; rfl) (by simp) hne
    (by simpa using hcap)
  simpa using h

/-- C1 amended, on the scenario of section 8: three quads, a blend change, two quads give
exactly two submissions, of 12 and of 8 vertices. -/
theorem batch_order_guarantee_witness :
    ((Renderer.fresh.run orderingScenario).endBatch).2.device
      = Renderer.fresh.device
          ++ (maximalRuns (snapshots Renderer.fresh.pending orderingScenario)).map submissionOf
    ∧ (((Renderer.fresh.run orderingScenario).endBatch).2.device.map
        (fun s => s.geometry.vertices.length)) = [12, 8] :=
  ⟨batch_order_guarantee Renderer.fresh orderingScenario rfl rfl
    (by
      intro c hc p hp
      simp only [orderingScenario, List.mem_cons, List.mem_singleton, List.not_mem_nil,
        or_false] at hc
      rcases hc with rfl | rfl | rfl | rfl | rfl | rfl <;> simp [Cmd.primitive?] at hp <;>
        subst hp <;> simp)
    (by decide),
   by decide⟩


/-! ## Properties -/

/-! ### The computation type -/

theorem luaM_bind_apply {α β : Type} (m : LuaM α) (f : α → LuaM β) (L : lua_State) :
    (m >>= f) L = match m L with
      | (.ok a, L1) => f a L1
      | (.error e, L1) => (.error e, L1) := rfl

theorem luaM_pure_apply {α : Type} (a : α) (L : lua_State) :
    (pure a : LuaM α) L = (.ok a, L) := rfl

theorem luaM_bind_of_error {α β : Type} (m : LuaM α) (f : α → LuaM β) (L L1 : lua_State)
    (e : LuaError) (h : m L = (.error e, L1)) : (m >>= f) L = (.error e, L1) := by
  rw [luaM_bind_apply, h]

theorem luaM_bind_of_ok {α β : Type} (m : LuaM α) (f : α → LuaM β) (L L1 : lua_State)
    (a : α) (h : m L = (.ok a, L1)) : (m >>= f) L = f a L1 := by
  rw [luaM_bind_apply, h]

/-- Outside a batch scope `validate_render_scope()` raises the error and touches nothing. -/
theorem validate_render_scope_closed (L : lua_State) (h : L.renderer.scope = false) :
    validate_render_scope L = (.error (LuaError.raised "invalid render operation"), L) := by
  simp [validate_render_scope, luaM_bind_apply, LR2D.isBatchScope, Renderer.isBatchScope, h,
    luaL_error, LuaM.fail]

/-- Inside a batch scope `validate_render_scope()` passes and touches nothing. -/
theorem validate_render_scope_open (L : lua_State) (h : L.renderer.scope = true) :
    validate_render_scope L = (.ok (), L) := by
  simp [validate_render_scope, luaM_bind_apply, LR2D.isBatchScope, Renderer.isBatchScope, h,
    luaM_pure_apply]

/-! ### Reads: the argument checks and lookups leave the state alone -/

theorem valueAt_mk (s : List LuaValue) (r : Renderer) (t : RenderTargetManager)
    (c : List Call) (q : List Lookup) (e : Env) (i : Int) :
    (lua_State.mk s r t c q e).valueAt i = stackValueAt s i := rfl

theorem luaL_checknumber_bind {β : Type} (i : Int) (f : ℚ → LuaM β) (L : lua_State) :
    (luaL_checknumber i >>= f) L = match L.env.tonumber? (L.valueAt i) with
      | some n => f n L
      | none => (.error (LuaError.badArgument i "number"), L) := by
  rw [luaM_bind_apply, luaL_checknumber]
  cases L.env.tonumber? (L.valueAt i) <;> rfl

theorem luaL_checkinteger_bind {β : Type} (i : Int) (f : Int → LuaM β) (L : lua_State) :
    (luaL_checkinteger i >>= f) L = match L.env.tonumber? (L.valueAt i) with
      | some n => f (truncate n) L
      | none => (.error (LuaError.badArgument i "number"), L) := by
  rw [luaM_bind_apply, luaL_checkinteger]
  cases L.env.tonumber? (L.valueAt i) <;> rfl

theorem luaL_checkstring_bind {β : Type} (i : Int) (f : String → LuaM β) (L : lua_State) :
    (luaL_checkstring i >>= f) L = match L.env.tostring? (L.valueAt i) with
      | some s => f s L
      | none => (.error (LuaError.badArgument i "string"), L) := by
  rw [luaM_bind_apply, luaL_checkstring]
  cases L.env.tostring? (L.valueAt i) <;> rfl

theorem luaL_optnumber_bind {β : Type} (i : Int) (d : ℚ) (f : ℚ → LuaM β) (L : lua_State) :
    (luaL_optnumber i d >>= f) L = match L.env.optnumber? (L.valueAt i) d with
      | some n => f n L
      | none => (.error (LuaError.badArgument i "number"), L) := by
  rw [luaM_bind_apply, luaL_optnumber]
  cases L.env.optnumber? (L.valueAt i) d <;> rfl

theorem TranslateBlendMode_bind {β : Type} (i : Int) (f : BlendMode → LuaM β) (L : lua_State) :
    (TranslateBlendMode i >>= f) L = match L.env.TranslateBlendMode (L.valueAt i) with
      | some b => f b L
      | none => (.error (LuaError.raised "invalid blend mode"), L) := by
  rw [luaM_bind_apply, TranslateBlendMode]
  cases L.env.TranslateBlendMode (L.valueAt i) <;> rfl

theorem MeshBinding_Cast_bind {β : Type} (i : Int) (f : MeshId → LuaM β) (L : lua_State) :
    (MeshBinding_Cast i >>= f) L = match (L.valueAt i).mesh? with
      | some m => f m L
      | none => (.error (LuaError.badArgument i "lstg.Mesh"), L) := by
  rw [luaM_bind_apply, MeshBinding_Cast]
  cases (L.valueAt i).mesh? <;> rfl

theorem ColorWrapper_Cast_bind {β : Type} (i : Int) (f : Color4B → LuaM β) (L : lua_State) :
    (ColorWrapper_Cast i >>= f) L = match (L.valueAt i).color? with
      | some c => f c L
      | none => (.error (LuaError.badArgument i "lstg.Color"), L) := by
  rw [luaM_bind_apply, ColorWrapper_Cast]
  cases (L.valueAt i).color? <;> rfl

theorem PostEffectShader_Cast_bind {β : Type} (i : Int) (f : EffectId → LuaM β)
    (L : lua_State) :
    (PostEffectShader_Cast i >>= f) L = match (L.valueAt i).postEffectShader? with
      | some e => f e L
      | none => (.error (LuaError.badArgument i "lstg.PostEffectShader"), L) := by
  rw [luaM_bind_apply, PostEffectShader_Cast]
  cases (L.valueAt i).postEffectShader? <;> rfl

theorem FindSprite_bind {β : Type} (name : String) (f : Option SpriteId → LuaM β)
    (L : lua_State) :
    (LRESMGR.FindSprite name >>= f) L = f (L.env.FindSprite name)
      { L with lookups := L.lookups ++ [⟨.sprite, name, (L.env.FindSprite name).isSome⟩] } :=
  rfl

theorem FindAnimation_bind {β : Type} (name : String) (f : Option AnimationId → LuaM β)
    (L : lua_State) :
    (LRESMGR.FindAnimation name >>= f) L = f (L.env.FindAnimation name)
      { L with lookups := L.lookups
          ++ [⟨.animation, name, (L.env.FindAnimation name).isSome⟩] } :=
  rfl

theorem FindTexture_bind {β : Type} (name : String) (f : Option ResourceTexture → LuaM β)
    (L : lua_State) :
    (LRESMGR.FindTexture name >>= f) L = f (L.env.FindTexture name)
      { L with lookups := L.lookups ++ [⟨.texture, name, (L.env.FindTexture name).isSome⟩] } :=
  rfl

theorem FindModel_bind {β : Type} (name : String) (f : Option ModelId → LuaM β)
    (L : lua_State) :
    (LRESMGR.FindModel name >>= f) L = f (L.env.FindModel name)
      { L with lookups := L.lookups ++ [⟨.model, name, (L.env.FindModel name).isSome⟩] } :=
  rfl

theorem FindFX_bind {β : Type} (name : String) (f : Option EffectId → LuaM β)
    (L : lua_State) :
    (LRESMGR.FindFX name >>= f) L = f (L.env.FindFX name)
      { L with lookups := L.lookups ++ [⟨.fx, name, (L.env.FindFX name).isSome⟩] } :=
  rfl

theorem GetGlobalImageScaleFactor_bind {β : Type} (f : ℚ → LuaM β) (L : lua_State) :
    (LRESMGR.GetGlobalImageScaleFactor >>= f) L = f L.env.GetGlobalImageScaleFactor L := rfl

theorem isBatchScope_bind {β : Type} (f : Bool → LuaM β) (L : lua_State) :
    (LR2D.isBatchScope >>= f) L = f L.renderer.scope L := rfl

theorem validate_render_scope_bind {β : Type} (f : Unit → LuaM β) (L : lua_State) :
    (validate_render_scope >>= f) L =
      if L.renderer.scope = true then f () L
      else (.error (LuaError.raised "invalid render operation"), L) := by
  by_cases h : L.renderer.scope = true
  · rw [luaM_bind_of_ok _ _ _ _ _ (validate_render_scope_open L h), if_pos h]
  · rw [luaM_bind_of_error _ _ _ _ _ (validate_render_scope_closed L (by simpa using h)),
      if_neg h]

theorem lua_gettop_bind {β : Type} (f : Nat → LuaM β) (L : lua_State) :
    (lua_gettop >>= f) L = f L.stack.length L := rfl

theorem lua_type_bind {β : Type} (i : Int) (f : LuaType → LuaM β) (L : lua_State) :
    (lua_type i >>= f) L = f (L.valueAt i).type L := rfl

theorem lua_isuserdata_bind {β : Type} (i : Int) (f : Bool → LuaM β) (L : lua_State) :
    (lua_isuserdata i >>= f) L
      = f (decide ((L.valueAt i).type = LuaType.LUA_TUSERDATA)) L := rfl

theorem lua_istable_bind {β : Type} (i : Int) (f : Bool → LuaM β) (L : lua_State) :
    (lua_istable i >>= f) L = f (decide ((L.valueAt i).type = LuaType.LUA_TTABLE)) L := rfl

theorem lua_isnumber_bind {β : Type} (i : Int) (f : Bool → LuaM β) (L : lua_State) :
    (lua_isnumber i >>= f) L = f (L.env.tonumber? (L.valueAt i)).isSome L := rfl

theorem lua_isstring_bind {β : Type} (i : Int) (f : Bool → LuaM β) (L : lua_State) :
    (lua_isstring i >>= f) L = f (L.env.tostring? (L.valueAt i)).isSome L := rfl

theorem lua_tonumber_bind {β : Type} (i : Int) (f : ℚ → LuaM β) (L : lua_State) :
    (lua_tonumber i >>= f) L = f ((L.env.tonumber? (L.valueAt i)).getD 0) L := rfl

theorem lua_tostring_bind {β : Type} (i : Int) (f : String → LuaM β) (L : lua_State) :
    (lua_tostring i >>= f) L = f ((L.env.tostring? (L.valueAt i)).getD "") L := rfl

theorem record_bind {β : Type} (c : Call) (f : Unit → LuaM β) (L : lua_State) :
    (record c >>= f) L = f () { L with calls := L.calls ++ [c] } := rfl

theorem onRenderer_bind {β : Type} (c : Call) (g : Renderer → Bool × Renderer)
    (f : Bool → LuaM β) (L : lua_State) :
    (onRenderer c g >>= f) L
      = f (g L.renderer).1 { L with renderer := (g L.renderer).2, calls := L.calls ++ [c] } :=
  rfl

theorem PushRenderTarget_bind {β : Type} (t : TextureId) (f : Bool → LuaM β) (L : lua_State) :
    (LAPP.PushRenderTarget t >>= f) L
      = f (L.renderTargets.PushRenderTarget (L.env.pushAccepts t) t).1
          { L with
            renderTargets := (L.renderTargets.PushRenderTarget (L.env.pushAccepts t) t).2
            calls := L.calls ++ [Call.PushRenderTarget t] } := rfl

theorem PopRenderTarget_bind {β : Type} (f : Bool → LuaM β) (L : lua_State) :
    (LAPP.PopRenderTarget >>= f) L
      = f L.renderTargets.PopRenderTarget.1
          { L with
            renderTargets := L.renderTargets.PopRenderTarget.2
            calls := L.calls ++ [Call.PopRenderTarget] } := rfl

theorem updateGraph2DBlendMode_bind {β : Type} (b : BlendMode) (f : Unit → LuaM β)
    (L : lua_State) :
    (LAPP.updateGraph2DBlendMode b >>= f) L
      = f () { L with
          renderer := L.env.updateGraph2DBlendMode b L.renderer
          calls := L.calls ++ [Call.updateGraph2DBlendMode b] } := rfl

theorem luaL_error_apply {α : Type} (msg : String) (L : lua_State) :
    (luaL_error msg : LuaM α) L = (.error (LuaError.raised msg), L) := rfl


/-! ### The sprite helpers -/

theorem api_drawSprite_apply (name : String) (x y : ℚ) (rot : Rad) (hscale vscale z : ℚ)
    (L : lua_State) :
    api_drawSprite name x y rot hscale vscale z L = match L.env.FindSprite name with
      | none => (.ok RenderError.SpriteNotFound,
          { L with lookups := L.lookups ++ [⟨.sprite, name, false⟩] })
      | some s => (.ok RenderError.None,
          { L with lookups := L.lookups ++ [⟨.sprite, name, true⟩],
                   calls := L.calls ++ [Call.spriteRender s x y rot hscale vscale z] }) := by
  simp only [api_drawSprite, FindSprite_bind]
  cases L.env.FindSprite name <;> rfl

theorem api_drawSpriteRect_apply (name : String) (l r b t z : ℚ) (L : lua_State) :
    api_drawSpriteRect name l r b t z L = match L.env.FindSprite name with
      | none => (.ok RenderError.SpriteNotFound,
          { L with lookups := L.lookups ++ [⟨.sprite, name, false⟩] })
      | some s => (.ok RenderError.None,
          { L with lookups := L.lookups ++ [⟨.sprite, name, true⟩],
                   calls := L.calls ++ [Call.spriteRenderRect s l r b t z] }) := by
  simp only [api_drawSpriteRect, FindSprite_bind]
  cases L.env.FindSprite name <;> rfl

theorem api_drawSprite4V_apply (name : String) (x1 y1 z1 x2 y2 z2 x3 y3 z3 x4 y4 z4 : ℚ)
    (L : lua_State) :
    api_drawSprite4V name x1 y1 z1 x2 y2 z2 x3 y3 z3 x4 y4 z4 L
      = match L.env.FindSprite name with
        | none => (.ok RenderError.SpriteNotFound,
            { L with lookups := L.lookups ++ [⟨.sprite, name, false⟩] })
        | some s => (.ok RenderError.None,
            { L with lookups := L.lookups ++ [⟨.sprite, name, true⟩],
                     calls := L.calls
                       ++ [Call.spriteRender4V s x1 y1 z1 x2 y2 z2 x3 y3 z3 x4 y4 z4] }) := by
  simp only [api_drawSprite4V, FindSprite_bind]
  cases L.env.FindSprite name <;> rfl

theorem api_drawSprite3D_apply (name : String) (x y z : ℚ) (rx ry rz : Rad) (sx sy : ℚ)
    (L : lua_State) :
    api_drawSprite3D name x y z rx ry rz sx sy L = match L.env.FindSprite name with
      | none => (.ok RenderError.SpriteNotFound,
          { L with lookups := L.lookups ++ [⟨.sprite, name, false⟩] })
      | some s => (.ok RenderError.None,
          { L with lookups := L.lookups ++ [⟨.sprite, name, true⟩],
                   calls := L.calls ++ [Call.spriteRender3D s x y z rx ry rz sx sy] }) := by
  simp only [api_drawSprite3D, FindSprite_bind]
  cases L.env.FindSprite name <;> rfl

theorem api_drawSpriteSequence_apply (name : String) (ani_timer : Int) (x y : ℚ) (rot : Rad)
    (hscale vscale z : ℚ) (L : lua_State) :
    api_drawSpriteSequence name ani_timer x y rot hscale vscale z L
      = match L.env.FindAnimation name with
        | none => (.ok RenderError.SpriteSequenceNotFound,
            { L with lookups := L.lookups ++ [⟨.animation, name, false⟩] })
        | some a => (.ok RenderError.None,
            { L with lookups := L.lookups ++ [⟨.animation, name, true⟩],
                     calls := L.calls
                       ++ [Call.animationRender a ani_timer x y rot hscale vscale z] }) := by
  simp only [api_drawSpriteSequence, FindAnimation_bind]
  cases L.env.FindAnimation name <;> rfl


/-! ### C2: draws and the batch scope -/

/-- Every draw entry point other than `drawSprite3D` starts with `validate_render_scope()`:
outside a batch scope it raises 'invalid render operation' and leaves the whole state,
calls included, as it was. -/
theorem draw_entry_validates_scope (e : DrawEntry) (he : e ≠ DrawEntry.drawSprite3D)
    (L : lua_State) (h : L.renderer.isBatchScope = false) :
    e.run L = (.error (LuaError.raised "invalid render operation"), L) := by
  have hv := validate_render_scope_closed L h
  cases e
  case drawSprite3D => exact absurd rfl he
  all_goals exact luaM_bind_of_error _ _ _ _ _ hv

/-- C2, at the failing input: `drawSprite3D("img", 1, 2, 3, 0, 0, 0)` with no batch scope
open returns normally and `Render3D` has reached the sprite. -/
theorem drawSprite3D_draws_outside_scope :
    (luaCall Renderer.closed sprite3DArgs).renderer.isBatchScope = false
    ∧ (lib_drawSprite3D (luaCall Renderer.closed sprite3DArgs)).1 = .ok 0
    ∧ (lib_drawSprite3D (luaCall Renderer.closed sprite3DArgs)).2.calls
        = [Call.spriteRender3D 7 1 2 3 ⟨0⟩ ⟨0⟩ ⟨0⟩ 1 1] := by
  refine ⟨rfl, ?_, ?_⟩ <;> rfl

/-! ### C3: state changes and the batch scope -/

/-- Every state-setting entry point other than `SetFog` starts with
`validate_render_scope()`: outside a batch scope it raises 'invalid render operation' and
forwards nothing. -/
theorem state_entry_validates_scope (e : StateEntry) (he : e ≠ StateEntry.SetFog)
    (L : lua_State) (h : L.renderer.isBatchScope = false) :
    e.run L = (.error (LuaError.raised "invalid render operation"), L) := by
  have hv := validate_render_scope_closed L h
  cases e
  case SetFog => exact absurd rfl he
  all_goals exact luaM_bind_of_error _ _ _ _ _ hv

/-- C3, at the failing input: `SetFog(1, 10)` with no batch scope open returns normally and
has forwarded a linear fog state to the renderer, whose pending fog mode is changed. -/
theorem SetFog_sets_state_outside_scope :
    (luaCall Renderer.closed setFogArgs).renderer.isBatchScope = false
    ∧ (compat_SetFog (luaCall Renderer.closed setFogArgs)).1 = .ok 0
    ∧ (compat_SetFog (luaCall Renderer.closed setFogArgs)).2.calls
        = [Call.setFogState FogState.Linear ⟨0xFF000000⟩ 1 10]
    ∧ (compat_SetFog (luaCall Renderer.closed setFogArgs)).2.renderer.pending.fog
        = FogState.Linear
    ∧ (luaCall Renderer.closed setFogArgs).renderer.pending.fog = FogState.Disable := by
  decide!


/-! ### C4: opening and closing the scope -/

theorem lib_beginScene_apply (L : lua_State) :
    lib_beginScene L =
      (if (L.renderer.beginBatch).1 = true then .ok 0
        else .error (LuaError.raised "[luastg] lstg.Renderer.BeginScene failed"),
       { L with renderer := (L.renderer.beginBatch).2, calls := L.calls ++ [Call.beginBatch] }) := by
  simp only [lib_beginScene, LR2D.beginBatch, onRenderer_bind]
  cases (L.renderer.beginBatch).1 <;> rfl

theorem lib_endScene_apply (L : lua_State) :
    lib_endScene L =
      (if (L.renderer.endBatch).1 = true then .ok 0
        else .error (LuaError.raised "[luastg] lstg.Renderer.endScene failed"),
       { L with renderer := (L.renderer.endBatch).2, calls := L.calls ++ [Call.endBatch] }) := by
  simp only [lib_endScene, LR2D.endBatch, onRenderer_bind]
  cases (L.renderer.endBatch).1 <;> rfl

/-- C4: `beginBatch()` returns false on an open scope and leaves the renderer (scope flag and
accumulated geometry included) as it was, and otherwise opens the scope; `endBatch()`
returns false when no scope is open and leaves the renderer as it was, and otherwise
flushes (the accumulator is empty, the device has received what a flush submits) and closes
the scope; `beginScene` / `endScene` make exactly one call, `beginBatch` resp. `endBatch`,
leave the renderer as that call left it, and raise their Lua error exactly when that call
returned false. -/
theorem scope_opening_and_closing (L : lua_State) :
    (L.renderer.isBatchScope = true →
        L.renderer.beginBatch = (false, L.renderer)
        ∧ (L.renderer.endBatch).1 = true
        ∧ (L.renderer.endBatch).2.isBatchScope = false
        ∧ (L.renderer.endBatch).2.acc = Geometry.empty
        ∧ (L.renderer.endBatch).2.device = (L.renderer.flush).2.device
        ∧ (lib_beginScene L).2.renderer = L.renderer)
    ∧ (L.renderer.isBatchScope = false →
        (L.renderer.beginBatch).1 = true
        ∧ (L.renderer.beginBatch).2.isBatchScope = true
        ∧ (L.renderer.beginBatch).2.acc = L.renderer.acc
        ∧ L.renderer.endBatch = (false, L.renderer)
        ∧ (lib_endScene L).2.renderer = L.renderer)
    ∧ (raisedWith (lib_beginScene L).1 "[luastg] lstg.Renderer.BeginScene failed"
        ↔ (L.renderer.beginBatch).1 = false)
    ∧ ((lib_beginScene L).1 = .ok 0 ↔ (L.renderer.beginBatch).1 = true)
    ∧ (lib_beginScene L).2.renderer = (L.renderer.beginBatch).2
    ∧ (lib_beginScene L).2.calls = L.calls ++ [Call.beginBatch]
    ∧ (raisedWith (lib_endScene L).1 "[luastg] lstg.Renderer.endScene failed"
        ↔ (L.renderer.endBatch).1 = false)
    ∧ ((lib_endScene L).1 = .ok 0 ↔ (L.renderer.endBatch).1 = true)
    ∧ (lib_endScene L).2.renderer = (L.renderer.endBatch).2
    ∧ (lib_endScene L).2.calls = L.calls ++ [Call.endBatch] := by
  rw [lib_beginScene_apply, lib_endScene_apply]
  refine ⟨?_, ?_, ?_, ?_, rfl, rfl, ?_, ?_, rfl, rfl⟩
  · intro h
    have h1 : L.renderer.scope = true := h
    refine ⟨?_, ?_, ?_, ?_, ?_, ?_⟩
    · simp [Renderer.beginBatch, h1]
    · simp [Renderer.endBatch, h1]
    · simp [Renderer.endBatch, h1, Renderer.isBatchScope]
    · simp only [Renderer.endBatch, h1, if_true, Renderer.flush]
      split <;> simp_all
    · simp [Renderer.endBatch, h1]
    · simp [Renderer.beginBatch, h1]
  · intro h
    have h1 : L.renderer.scope = false := h
    simp [Renderer.beginBatch, Renderer.endBatch, h1, Renderer.isBatchScope]
  · cases h : (L.renderer.beginBatch).1 <;> simp [raisedWith]
  · cases h : (L.renderer.beginBatch).1 <;> simp
  · cases h : (L.renderer.endBatch).1 <;> simp [raisedWith]
  · cases h : (L.renderer.endBatch).1 <;> simp

/-- C4 on two concrete states: a scope with one triangle accumulated, where `beginScene`
fails and changes nothing while `endBatch` submits the triangle and closes; and no scope,
where `endScene` fails and opens nothing. -/
theorem scope_opening_and_closing_witness :
    ((luaCall Renderer.busy []).renderer.isBatchScope = true
      ∧ isError (lib_beginScene (luaCall Renderer.busy [])).1 = true
      ∧ (lib_beginScene (luaCall Renderer.busy [])).2.renderer = Renderer.busy
      ∧ (Renderer.busy.endBatch).2.device.length = 1)
    ∧ ((luaCall Renderer.closed []).renderer.isBatchScope = false
      ∧ isError (lib_endScene (luaCall Renderer.closed [])).1 = true
      ∧ (lib_endScene (luaCall Renderer.closed [])).2.renderer = Renderer.closed) := by
  refine ⟨⟨rfl, by decide, ?_, by decide⟩, ⟨rfl, by decide, ?_⟩⟩
  · exact ((scope_opening_and_closing (luaCall Renderer.busy [])).1 rfl).2.2.2.2.2
  · exact ((scope_opening_and_closing (luaCall Renderer.closed [])).2.1 rfl).2.2.2.2


/-! ### C5: unknown resource names -/

/-- C5, at the failing inputs: inside a batch scope `drawSpriteSequence("nope", 0, 0, 0)` and
`drawModel("nope", 0, 0, 0)` look the name up, do not find it, and return normally with no
result instead of raising a Lua error. -/
theorem unknown_animation_and_model_return_normally :
    (lib_drawSpriteSequence (luaCall Renderer.fresh unknownNameArgs)).1 = .ok 0
    ∧ (lib_drawSpriteSequence (luaCall Renderer.fresh unknownNameArgs)).2.lookups
        = [⟨ResourceKind.animation, "nope", false⟩]
    ∧ (lib_drawModel (luaCall Renderer.fresh unknownNameArgs)).1 = .ok 0
    ∧ (lib_drawModel (luaCall Renderer.fresh unknownNameArgs)).2.lookups
        = [⟨ResourceKind.model, "nope", false⟩] := by
  refine ⟨?_, ?_, ?_, ?_⟩ <;> rfl

/-- The sibling sprite operations do raise: `drawSprite` on a name that is not a sprite ends
with an error and without any call. -/
theorem drawSprite_unknown_raises (L : lua_State)
    (hname : ∀ name, L.env.tostring? (L.valueAt 1) = some name → L.env.FindSprite name = none) :
    isError (lib_drawSprite L).1 = true ∧ (lib_drawSprite L).2.calls = L.calls := by
  simp only [lib_drawSprite, validate_render_scope_bind, luaL_optnumber_bind,
    luaL_checknumber_bind, luaL_checkstring_bind, GetGlobalImageScaleFactor_bind]
  repeat' split
  all_goals try simp [isError]
  simp_all [luaM_bind_apply, api_drawSprite_apply, luaM_pure_apply, luaL_checkstring,
    luaL_error_apply, lua_State.valueAt, isError]

/-- The sibling texture setter does raise: `setTexture` on a name that is not a texture ends
with an error and without any call. -/
theorem setTexture_unknown_raises (L : lua_State)
    (hname : ∀ name, L.env.tostring? (L.valueAt 1) = some name → L.env.FindTexture name = none) :
    isError (lib_setTexture L).1 = true ∧ (lib_setTexture L).2.calls = L.calls := by
  simp only [lib_setTexture, validate_render_scope_bind, luaL_checkstring_bind, FindTexture_bind]
  repeat' split
  all_goals try simp [isError]
  all_goals simp_all [luaL_error_apply, isError, LR2D.setTexture, onRenderer_bind]

/-! ### C8, C9, C10: render-target switches -/

theorem compat_PushRenderTarget_apply (L : lua_State) :
    compat_PushRenderTarget L =
      if L.renderer.scope = true then
        match L.env.tostring? (L.valueAt 1) with
        | none => (.error (LuaError.badArgument 1 "string"), L.flushed)
        | some name =>
          match L.env.FindTexture name with
          | none =>
            (.error (LuaError.raised ("rendertarget '" ++ name ++ "' not found.")),
              L.flushed.lookedUp ⟨.texture, name, false⟩)
          | some p =>
            if p.isRenderTarget = true then
              if L.env.pushAccepts p.texture = true then
                (.ok 0,
                  { L.flushed.lookedUp ⟨.texture, name, true⟩ with
                    renderTargets := ⟨p.texture :: L.renderTargets.stack⟩
                    calls := L.calls ++ [Call.flush, Call.PushRenderTarget p.texture,
                      Call.setViewportAndScissorRect] })
              else
                (.error (LuaError.raised ("push rendertarget '" ++ name ++ "' failed.")),
                  { L.flushed.lookedUp ⟨.texture, name, true⟩ with
                    calls := L.calls ++ [Call.flush, Call.PushRenderTarget p.texture] })
            else
              (.error (LuaError.raised ("'" ++ name ++ "' is not a rendertarget.")),
                L.flushed.lookedUp ⟨.texture, name, true⟩)
      else (.error (LuaError.raised "invalid render operation"), L) := by
  by_cases hs : L.renderer.scope = true
  · cases hn : L.env.tostring? (stackValueAt L.stack 1) with
    | none =>
      simp [compat_PushRenderTarget, validate_render_scope_bind, LR2D.flush, onRenderer_bind,
        luaL_checkstring_bind, lua_State.valueAt, hs, hn, lua_State.flushed]
    | some name =>
      cases hf : L.env.FindTexture name with
      | none =>
        simp [compat_PushRenderTarget, validate_render_scope_bind, LR2D.flush, onRenderer_bind,
          luaL_checkstring_bind, FindTexture_bind, lua_State.valueAt, hs, hn, hf,
          lua_State.flushed, lua_State.lookedUp, luaL_error_apply]
      | some p =>
        cases hrt : p.isRenderTarget
        · simp [compat_PushRenderTarget, validate_render_scope_bind, LR2D.flush,
            onRenderer_bind, luaL_checkstring_bind, FindTexture_bind, lua_State.valueAt, hs,
            hn, hf, hrt, lua_State.flushed, lua_State.lookedUp, luaL_error_apply]
        · cases hacc : L.env.pushAccepts p.texture
          · simp [compat_PushRenderTarget, validate_render_scope_bind, LR2D.flush,
              onRenderer_bind, luaL_checkstring_bind, FindTexture_bind, lua_State.valueAt, hs,
              hn, hf, hrt, hacc, lua_State.flushed, lua_State.lookedUp, luaL_error_apply,
              PushRenderTarget_bind, RenderTargetManager.PushRenderTarget]
          · simp [compat_PushRenderTarget, validate_render_scope_bind, LR2D.flush,
              onRenderer_bind, luaL_checkstring_bind, FindTexture_bind, lua_State.valueAt, hs,
              hn, hf, hrt, hacc, lua_State.flushed, lua_State.lookedUp, luaL_error_apply,
              PushRenderTarget_bind, RenderTargetManager.PushRenderTarget,
              LR2D.setViewportAndScissorRect, record_bind, luaM_pure_apply]
  · simp [compat_PushRenderTarget, validate_render_scope_bind, hs]

theorem compat_PopRenderTarget_apply (L : lua_State) :
    compat_PopRenderTarget L =
      if L.renderer.scope = true then
        match L.renderTargets.stack with
        | [] =>
          (.error (LuaError.raised "pop rendertarget failed."),
            { L.flushed with calls := L.calls ++ [Call.flush, Call.PopRenderTarget] })
        | _ :: rest =>
          (.ok 0,
            { L.flushed with
              renderTargets := ⟨rest⟩
              calls := L.calls ++ [Call.flush, Call.PopRenderTarget,
                Call.setViewportAndScissorRect] })
      else (.error (LuaError.raised "invalid render operation"), L) := by
  by_cases hs : L.renderer.scope = true
  · cases hst : L.renderTargets.stack <;>
      simp [compat_PopRenderTarget, validate_render_scope_bind, LR2D.flush, onRenderer_bind,
        hs, PopRenderTarget_bind, RenderTargetManager.PopRenderTarget, hst,
        luaL_error_apply, lua_State.flushed, LR2D.setViewportAndScissorRect, record_bind,
        luaM_pure_apply]
  · simp [compat_PopRenderTarget, validate_render_scope_bind, hs]


/-- C8 as stated fails: inside a batch scope with one triangle accumulated,
`PushRenderTarget("nope")` (unknown name) and `PopRenderTarget()` (only the base frame
left) both fail, yet each has issued `flush()` and the accumulator is no longer what it
was: the triangle has been submitted. -/
theorem failed_target_switch_flushes_anyway :
    isError (compat_PushRenderTarget unknownTargetCall).1 = true
    ∧ callsSince unknownTargetCall (compat_PushRenderTarget unknownTargetCall).2 = [Call.flush]
    ∧ (compat_PushRenderTarget unknownTargetCall).2.renderer.acc
        ≠ unknownTargetCall.renderer.acc
    ∧ isError (compat_PopRenderTarget popAtBaseCall).1 = true
    ∧ callsSince popAtBaseCall (compat_PopRenderTarget popAtBaseCall).2
        = [Call.flush, Call.PopRenderTarget]
    ∧ (compat_PopRenderTarget popAtBaseCall).2.renderer.acc ≠ popAtBaseCall.renderer.acc := by
  refine ⟨by decide, by decide, by decide, by decide, by decide, by decide⟩

/-- C8, amended: a failing `PushRenderTarget` / `PopRenderTarget` either was made outside a
batch scope and has made no call at all, or has issued `flush()` exactly once, as its first
call, followed by nothing but the rejected stack operation: the renderer is as that flush
left it, `setViewportAndScissorRect()` has not been called and the render-target stack is as
it was. -/
theorem failed_target_switch_flushes_once (s : TargetSwitch) (L : lua_State)
    (hfail : isError (s.run L).1 = true) :
    (L.renderer.isBatchScope = false ∧ (s.run L).2.calls = L.calls
        ∧ (s.run L).2.renderer = L.renderer
        ∧ (s.run L).2.renderTargets = L.renderTargets)
    ∨ (L.renderer.isBatchScope = true
        ∧ (s.run L).2.renderer = (L.renderer.flush).2
        ∧ (s.run L).2.renderTargets = L.renderTargets
        ∧ ∃ cs, (s.run L).2.calls = L.calls ++ Call.flush :: cs
            ∧ ∀ c ∈ cs, s.isStackMutation c = true) := by
  cases s with
  | PushRenderTarget =>
    simp only [TargetSwitch.run] at hfail ⊢
    rw [compat_PushRenderTarget_apply] at hfail ⊢
    by_cases hs : L.renderer.scope = true
    · right
      refine ⟨hs, ?_⟩
      cases hn : L.env.tostring? (L.valueAt 1) with
      | none =>
        simp only [hs, hn, if_true]
        exact ⟨rfl, rfl, [], rfl, by simp⟩
      | some name =>
        cases hf : L.env.FindTexture name with
        | none =>
          simp only [hs, hn, hf, if_true]
          exact ⟨rfl, rfl, [], rfl, by simp⟩
        | some p =>
          cases hrt : p.isRenderTarget
          · simp only [hs, hn, hf, hrt, Bool.false_eq_true, if_false, if_true]
            exact ⟨rfl, rfl, [], rfl, by simp⟩
          · cases hacc : L.env.pushAccepts p.texture
            · simp only [hs, hn, hf, hrt, hacc, Bool.false_eq_true, if_false, if_true]
              exact ⟨rfl, rfl, [Call.PushRenderTarget p.texture], rfl,
                by simp [TargetSwitch.isStackMutation]⟩
            · simp [hs, hn, hf, hrt, hacc, isError] at hfail
    · left
      have hs1 : L.renderer.scope = false := by simpa using hs
      simp [hs1, Renderer.isBatchScope]
  | PopRenderTarget =>
    simp only [TargetSwitch.run] at hfail ⊢
    rw [compat_PopRenderTarget_apply] at hfail ⊢
    by_cases hs : L.renderer.scope = true
    · right
      refine ⟨hs, ?_⟩
      cases hst : L.renderTargets.stack with
      | nil =>
        simp only [hs, if_true]
        exact ⟨rfl, rfl, [Call.PopRenderTarget], rfl, by simp [TargetSwitch.isStackMutation]⟩
      | cons t rest => simp [hs, hst, isError] at hfail
    · left
      have hs1 : L.renderer.scope = false := by simpa using hs
      simp [hs1, Renderer.isBatchScope]

/-- C8 amended, on the failing push of an unknown name inside a busy scope: exactly one
flush, the triangle submitted, the stack untouched. -/
theorem failed_target_switch_flushes_once_witness :
    isError (TargetSwitch.PushRenderTarget.run unknownTargetCall).1 = true
    ∧ ((unknownTargetCall.renderer.isBatchScope = false
          ∧ (TargetSwitch.PushRenderTarget.run unknownTargetCall).2.calls
              = unknownTargetCall.calls
          ∧ (TargetSwitch.PushRenderTarget.run unknownTargetCall).2.renderer
              = unknownTargetCall.renderer
          ∧ (TargetSwitch.PushRenderTarget.run unknownTargetCall).2.renderTargets
              = unknownTargetCall.renderTargets)
      ∨ (unknownTargetCall.renderer.isBatchScope = true
          ∧ (TargetSwitch.PushRenderTarget.run unknownTargetCall).2.renderer
              = (unknownTargetCall.renderer.flush).2
          ∧ (TargetSwitch.PushRenderTarget.run unknownTargetCall).2.renderTargets
              = unknownTargetCall.renderTargets
          ∧ ∃ cs, (TargetSwitch.PushRenderTarget.run unknownTargetCall).2.calls
              = unknownTargetCall.calls ++ Call.flush :: cs
              ∧ ∀ c ∈ cs, TargetSwitch.PushRenderTarget.isStackMutation c = true)) :=
  ⟨by decide, failed_target_switch_flushes_once TargetSwitch.PushRenderTarget
    unknownTargetCall (by decide)⟩

/-- C9: a successful `PushRenderTarget` resp. `PopRenderTarget` makes exactly three calls, in
this order: `flush()`, the push resp. pop on the render-target stack, and
`setViewportAndScissorRect()`; no draw is among them. -/
theorem target_switch_call_order (s : TargetSwitch) (L : lua_State)
    (hok : isError (s.run L).1 = false) :
    ∃ c, s.isStackMutation c = true ∧ c.isDraw = false
      ∧ (s.run L).2.calls = L.calls ++ [Call.flush, c, Call.setViewportAndScissorRect] := by
  cases s with
  | PushRenderTarget =>
    simp only [TargetSwitch.run] at hok ⊢
    rw [compat_PushRenderTarget_apply] at hok ⊢
    by_cases hs : L.renderer.scope = true
    · cases hn : L.env.tostring? (L.valueAt 1) with
      | none => simp [hs, hn, isError] at hok
      | some name =>
        cases hf : L.env.FindTexture name with
        | none => simp [hs, hn, hf, isError] at hok
        | some p =>
          cases hrt : p.isRenderTarget
          · simp [hs, hn, hf, hrt, isError] at hok
          · cases hacc : L.env.pushAccepts p.texture
            · simp [hs, hn, hf, hrt, hacc, isError] at hok
            · simp only [hs, hn, hf, hrt, hacc, if_true]
              exact ⟨Call.PushRenderTarget p.texture, rfl, rfl, rfl⟩
    · simp [hs, isError] at hok
  | PopRenderTarget =>
    simp only [TargetSwitch.run] at hok ⊢
    rw [compat_PopRenderTarget_apply] at hok ⊢
    by_cases hs : L.renderer.scope = true
    · cases hst : L.renderTargets.stack with
      | nil => simp [hs, hst, isError] at hok
      | cons t rest =>
        simp only [hs, if_true]
        exact ⟨Call.PopRenderTarget, rfl, rfl, rfl⟩
    · simp [hs, isError] at hok

/-- C9 on a successful push of the render target `rt` inside a busy scope. -/
theorem target_switch_call_order_witness :
    isError (TargetSwitch.PushRenderTarget.run knownTargetCall).1 = false
    ∧ ∃ c, TargetSwitch.PushRenderTarget.isStackMutation c = true ∧ c.isDraw = false
      ∧ (TargetSwitch.PushRenderTarget.run knownTargetCall).2.calls
          = knownTargetCall.calls ++ [Call.flush, c, Call.setViewportAndScissorRect] :=
  ⟨by decide, target_switch_call_order TargetSwitch.PushRenderTarget knownTargetCall
    (by decide)⟩

theorem Renderer.flush_scope (r : Renderer) : (r.flush).2.scope = r.scope := by
  unfold Renderer.flush
  split <;> rfl

/-- C10: whatever its outcome, a `PushRenderTarget` / `PopRenderTarget` call issues neither
`beginBatch()` nor `endBatch()`, and the batch scope is open after the call exactly when it
was open before it. -/
theorem target_switch_keeps_scope (s : TargetSwitch) (L : lua_State) :
    (s.run L).2.renderer.isBatchScope = L.renderer.isBatchScope
    ∧ ∃ cs, (s.run L).2.calls = L.calls ++ cs
        ∧ Call.beginBatch ∉ cs ∧ Call.endBatch ∉ cs := by
  cases s with
  | PushRenderTarget =>
    simp only [TargetSwitch.run]
    rw [compat_PushRenderTarget_apply]
    by_cases hs : L.renderer.scope = true
    · cases hn : L.env.tostring? (L.valueAt 1) with
      | none =>
        simp only [hs, if_true]
        exact ⟨Renderer.flush_scope _, [Call.flush], rfl, by simp, by simp⟩
      | some name =>
        cases hf : L.env.FindTexture name with
        | none =>
          simp only [hs, hf, if_true]
          exact ⟨Renderer.flush_scope _, [Call.flush], rfl, by simp, by simp⟩
        | some p =>
          cases hrt : p.isRenderTarget
          · simp only [hs, hf, hrt, Bool.false_eq_true, if_false, if_true]
            exact ⟨Renderer.flush_scope _, [Call.flush], rfl, by simp, by simp⟩
          · cases hacc : L.env.pushAccepts p.texture
            · simp only [hs, hf, hrt, hacc, Bool.false_eq_true, if_false, if_true]
              exact ⟨Renderer.flush_scope _, _, rfl, by simp, by simp⟩
            · simp only [hs, hf, hrt, hacc, if_true]
              exact ⟨Renderer.flush_scope _, _, rfl, by simp, by simp⟩
    · simp only [hs, if_false]
      exact ⟨rfl, [], by simp, by simp, by simp⟩
  | PopRenderTarget =>
    simp only [TargetSwitch.run]
    rw [compat_PopRenderTarget_apply]
    by_cases hs : L.renderer.scope = true
    · cases hst : L.renderTargets.stack with
      | nil =>
        simp only [hs, if_true]
        exact ⟨Renderer.flush_scope _, _, rfl, by simp, by simp⟩
      | cons t rest =>
        simp only [hs, if_true]
        exact ⟨Renderer.flush_scope _, _, rfl, by simp, by simp⟩
    · simp only [hs, if_false]
      exact ⟨rfl, [], by simp, by simp, by simp⟩


/-! ### Computations that leave the application alone -/

theorem lua_State.untouched_refl (L : lua_State) : L.untouched L := ⟨rfl, rfl, rfl, rfl⟩

theorem lua_State.untouched_trans {L L1 L2 : lua_State} (h1 : L.untouched L1)
    (h2 : L1.untouched L2) : L.untouched L2 :=
  ⟨h2.1.trans h1.1, h2.2.1.trans h1.2.1, h2.2.2.1.trans h1.2.2.1, h2.2.2.2.trans h1.2.2.2⟩

theorem untouchedM_pure {α : Type} (a : α) : UntouchedM (pure a : LuaM α) :=
  fun L => L.untouched_refl

theorem untouchedM_bind {α β : Type} {m : LuaM α} {f : α → LuaM β} (hm : UntouchedM m)
    (hf : ∀ a, UntouchedM (f a)) : UntouchedM (m >>= f) := by
  intro L
  rw [luaM_bind_apply]
  have h1 := hm L
  rcases hmL : m L with ⟨res, L1⟩
  rw [hmL] at h1
  cases res with
  | error e => exact h1
  | ok a => exact lua_State.untouched_trans h1 (hf a L1)

theorem untouchedM_ite {α : Type} (c : Prop) [Decidable c] {m1 m2 : LuaM α}
    (h1 : UntouchedM m1) (h2 : UntouchedM m2) : UntouchedM (if c then m1 else m2) := by
  split
  · exact h1
  · exact h2

theorem untouchedM_of_stack {α : Type} (g : lua_State → Except LuaError α)
    (s : lua_State → List LuaValue) :
    UntouchedM (fun L => (g L, { L with stack := s L })) :=
  fun _ => ⟨rfl, rfl, rfl, rfl⟩

theorem untouched_lua_push (v : LuaValue) : UntouchedM (lua_push v) :=
  fun _ => ⟨rfl, rfl, rfl, rfl⟩

theorem untouched_lua_pushinteger (n : Int) : UntouchedM (lua_pushinteger n) :=
  fun _ => ⟨rfl, rfl, rfl, rfl⟩

theorem untouched_lua_pop (n : Nat) : UntouchedM (lua_pop n) :=
  fun _ => ⟨rfl, rfl, rfl, rfl⟩

theorem untouched_lua_gettable (i : Int) : UntouchedM (lua_gettable i) := by
  intro L
  unfold lua_gettable
  split
  · exact ⟨rfl, rfl, rfl, rfl⟩
  · exact L.untouched_refl

theorem untouched_lua_rawgeti (i n : Int) : UntouchedM (lua_rawgeti i n) := by
  intro L
  unfold lua_rawgeti
  split
  · exact ⟨rfl, rfl, rfl, rfl⟩
  · exact L.untouched_refl

theorem untouched_lua_tonumber (i : Int) : UntouchedM (lua_tonumber i) :=
  fun L => L.untouched_refl

theorem untouched_lua_isnumber (i : Int) : UntouchedM (lua_isnumber i) :=
  fun L => L.untouched_refl

theorem untouched_luaL_checknumber (i : Int) : UntouchedM (luaL_checknumber i) := by
  intro L
  unfold luaL_checknumber
  split <;> exact L.untouched_refl

theorem untouched_ColorWrapper_Cast (i : Int) : UntouchedM (ColorWrapper_Cast i) := by
  intro L
  unfold ColorWrapper_Cast
  split <;> exact L.untouched_refl

theorem untouched_pushField (i : Nat) (k : Int) : UntouchedM (pushField i k) :=
  untouchedM_bind (untouched_lua_pushinteger k) (fun _ => untouched_lua_gettable _)

theorem untouched_readTextureVertex (i : Nat) : UntouchedM (readTextureVertex i) := by
  unfold readTextureVertex
  repeat' first
    | exact untouched_pushField _ _
    | exact untouched_lua_tonumber _
    | exact untouched_lua_isnumber _
    | exact untouched_lua_pop _
    | exact untouched_ColorWrapper_Cast _
    | exact untouchedM_pure _
    | refine untouchedM_bind ?_ (fun _ => ?_)
    | refine untouchedM_ite _ ?_ ?_

/-- Running a computation that leaves the application alone, then a continuation: either it
fails in a state that still agrees with the start, or the continuation runs in such a
state. -/
theorem untouchedM_bind_elim {α β : Type} {m : LuaM α} (hm : UntouchedM m) (f : α → LuaM β)
    (L0 L : lua_State) (hL : L0.untouched L)
    (P : Except LuaError β × lua_State → Prop)
    (herr : ∀ e L1, L0.untouched L1 → P (.error e, L1))
    (hok : ∀ a L1, L0.untouched L1 → P (f a L1)) : P ((m >>= f) L) := by
  rw [luaM_bind_apply]
  have h1 := hm L
  rcases hmL : m L with ⟨res, L1⟩
  rw [hmL] at h1
  cases res with
  | error e => exact herr e L1 (lua_State.untouched_trans hL h1)
  | ok a => exact hok a L1 (lua_State.untouched_trans hL h1)


/-! ### Texture draws on an unknown texture -/

theorem drawTexture_tail (L L4 : lua_State) (h4 : L.untouched L4) (name : String)
    (b : BlendMode) (hb : L.env.TranslateBlendMode (L.valueAt 2) = some b)
    (hname : L.env.FindTexture name = none) (k : ResourceTexture → LuaM Nat) :
    blendAppliedOnly L ((translate_blend b >>= fun _ =>
      LRESMGR.FindTexture name >>= fun r =>
        match r with
        | none => luaL_error ("can't find texture '" ++ name ++ "'")
        | some p => k p) L4) := by
  obtain ⟨hr, _, hc, he⟩ := h4
  simp only [translate_blend, updateGraph2DBlendMode_bind, FindTexture_bind, he, hname,
    luaL_error_apply]
  exact ⟨rfl, Or.inr ⟨b, hb, by simp [hr], by simp [hc]⟩⟩

/-- The order of the calls in `lib_drawTexture` and `lib_drawMesh`: when the texture name
does not resolve, the call fails; either it has made no call and the renderer is as before
(the scope check or an argument check failed first), or the one call it has made is
`updateGraph2DBlendMode(blend)`, made by `translate_blend` before the texture is looked up,
and the renderer is whatever that function, which is not part of the repository, has made of
it. -/
theorem unknown_texture_applies_blend_only (L : lua_State)
    (hname : ∀ name, L.env.tostring? (L.valueAt 1) = some name → L.env.FindTexture name = none) :
    blendAppliedOnly L (lib_drawTexture L) ∧ blendAppliedOnly L (lib_drawMesh L) := by
  have hquiet : ∀ (e : LuaError) (L1 : lua_State), L.untouched L1 →
      blendAppliedOnly L ((.error e, L1) : Except LuaError Nat × lua_State) :=
    fun e L1 h => ⟨rfl, Or.inl ⟨h.1, h.2.2.1⟩⟩
  constructor
  · simp only [lib_drawTexture, validate_render_scope_bind, luaL_checkstring_bind,
      TranslateBlendMode_bind]
    split
    · cases hn : L.env.tostring? (L.valueAt 1) with
      | none => exact hquiet _ _ L.untouched_refl
      | some name =>
        cases hb : L.env.TranslateBlendMode (L.valueAt 2) with
        | none => exact hquiet _ _ L.untouched_refl
        | some b =>
          simp only []
          refine untouchedM_bind_elim (untouched_readTextureVertex 0) _ L L L.untouched_refl _
            hquiet (fun v0 L1 h1 => ?_)
          refine untouchedM_bind_elim (untouched_readTextureVertex 1) _ L L1 h1 _
            hquiet (fun v1 L2 h2 => ?_)
          refine untouchedM_bind_elim (untouched_readTextureVertex 2) _ L L2 h2 _
            hquiet (fun v2 L3 h3 => ?_)
          refine untouchedM_bind_elim (untouched_readTextureVertex 3) _ L L3 h3 _
            hquiet (fun v3 L4 h4 => ?_)
          exact drawTexture_tail L L4 h4 name b hb (hname name hn) _
    · exact hquiet _ _ L.untouched_refl
  · simp only [lib_drawMesh, validate_render_scope_bind, luaL_checkstring_bind,
      TranslateBlendMode_bind, MeshBinding_Cast_bind]
    split
    · cases hn : L.env.tostring? (L.valueAt 1) with
      | none => exact hquiet _ _ L.untouched_refl
      | some name =>
        cases hb : L.env.TranslateBlendMode (L.valueAt 2) with
        | none => exact hquiet _ _ L.untouched_refl
        | some b =>
          cases hm : (L.valueAt 3).mesh? with
          | none => exact hquiet _ _ L.untouched_refl
          | some mesh =>
            exact drawTexture_tail L L L.untouched_refl name b hb (hname name hn) _
    · exact hquiet _ _ L.untouched_refl



/-! ### Computations that make no call and no lookup -/

@[simp] theorem quietM_pure {α : Type} (a : α) : QuietM (pure a : LuaM α) :=
  fun _ => ⟨rfl, rfl⟩

theorem quietM_bind {α β : Type} {m : LuaM α} {f : α → LuaM β} (hm : QuietM m)
    (hf : ∀ a, QuietM (f a)) : QuietM (m >>= f) := by
  intro L
  rw [luaM_bind_apply]
  have h1 := hm L
  rcases hmL : m L with ⟨res, L1⟩
  rw [hmL] at h1
  cases res with
  | error e => exact h1
  | ok a => exact ⟨(hf a L1).1.trans h1.1, (hf a L1).2.trans h1.2⟩

theorem quietM_ite {α : Type} (c : Prop) [Decidable c] {m1 m2 : LuaM α}
    (h1 : QuietM m1) (h2 : QuietM m2) : QuietM (if c then m1 else m2) := by
  split
  · exact h1
  · exact h2

@[simp] theorem quiet_luaL_error {α : Type} (msg : String) : QuietM (luaL_error msg : LuaM α) :=
  fun _ => ⟨rfl, rfl⟩

@[simp] theorem quiet_isBatchScope : QuietM LR2D.isBatchScope := fun _ => ⟨rfl, rfl⟩

@[simp] theorem quiet_validate_render_scope : QuietM validate_render_scope := by
  intro L
  by_cases h : L.renderer.scope = true
  · rw [validate_render_scope_open L h]; exact ⟨rfl, rfl⟩
  · rw [validate_render_scope_closed L (by simpa using h)]; exact ⟨rfl, rfl⟩

@[simp] theorem quiet_lua_gettop : QuietM lua_gettop := fun _ => ⟨rfl, rfl⟩

@[simp] theorem quiet_lua_value (i : Int) : QuietM (lua_value i) := fun _ => ⟨rfl, rfl⟩

@[simp] theorem quiet_lua_type (i : Int) : QuietM (lua_type i) := fun _ => ⟨rfl, rfl⟩

@[simp] theorem quiet_lua_isnumber (i : Int) : QuietM (lua_isnumber i) := fun _ => ⟨rfl, rfl⟩

@[simp] theorem quiet_lua_isstring (i : Int) : QuietM (lua_isstring i) := fun _ => ⟨rfl, rfl⟩

@[simp] theorem quiet_lua_istable (i : Int) : QuietM (lua_istable i) := fun _ => ⟨rfl, rfl⟩

@[simp] theorem quiet_lua_isuserdata (i : Int) : QuietM (lua_isuserdata i) :=
  fun _ => ⟨rfl, rfl⟩

@[simp] theorem quiet_lua_tonumber (i : Int) : QuietM (lua_tonumber i) := fun _ => ⟨rfl, rfl⟩

@[simp] theorem quiet_lua_tostring (i : Int) : QuietM (lua_tostring i) := fun _ => ⟨rfl, rfl⟩

@[simp] theorem quiet_luaL_checknumber (i : Int) : QuietM (luaL_checknumber i) := by
  intro L
  unfold luaL_checknumber
  split <;> exact ⟨rfl, rfl⟩

@[simp] theorem quiet_luaL_optnumber (i : Int) (d : ℚ) : QuietM (luaL_optnumber i d) := by
  intro L
  unfold luaL_optnumber
  split <;> exact ⟨rfl, rfl⟩

@[simp] theorem quiet_luaL_checkinteger (i : Int) : QuietM (luaL_checkinteger i) := by
  intro L
  unfold luaL_checkinteger
  split <;> exact ⟨rfl, rfl⟩

@[simp] theorem quiet_luaL_checkstring (i : Int) : QuietM (luaL_checkstring i) := by
  intro L
  unfold luaL_checkstring
  split <;> exact ⟨rfl, rfl⟩

@[simp] theorem quiet_luaL_argcheck (c : Bool) (i : Int) (msg : String) :
    QuietM (luaL_argcheck c i msg) := by
  intro L
  unfold luaL_argcheck
  split <;> exact ⟨rfl, rfl⟩

@[simp] theorem quiet_lua_push (v : LuaValue) : QuietM (lua_push v) := fun _ => ⟨rfl, rfl⟩

@[simp] theorem quiet_lua_pushinteger (n : Int) : QuietM (lua_pushinteger n) :=
  fun _ => ⟨rfl, rfl⟩

@[simp] theorem quiet_lua_pop (n : Nat) : QuietM (lua_pop n) := fun _ => ⟨rfl, rfl⟩

@[simp] theorem quiet_lua_rawgeti (i n : Int) : QuietM (lua_rawgeti i n) := by
  intro L
  unfold lua_rawgeti
  split <;> exact ⟨rfl, rfl⟩

@[simp] theorem quiet_lua_gettable (i : Int) : QuietM (lua_gettable i) := by
  intro L
  unfold lua_gettable
  split <;> exact ⟨rfl, rfl⟩

@[simp] theorem quiet_lua_objlen (i : Int) : QuietM (lua_objlen i) := by
  intro L
  unfold lua_objlen
  split <;> exact ⟨rfl, rfl⟩

@[simp] theorem quiet_lua_pairs (i : Int) : QuietM (lua_pairs i) := by
  intro L
  unfold lua_pairs
  split <;> exact ⟨rfl, rfl⟩

@[simp] theorem quiet_ColorWrapper_Cast (i : Int) : QuietM (ColorWrapper_Cast i) := by
  intro L
  unfold ColorWrapper_Cast
  split <;> exact ⟨rfl, rfl⟩

@[simp] theorem quiet_MeshBinding_Cast (i : Int) : QuietM (MeshBinding_Cast i) := by
  intro L
  unfold MeshBinding_Cast
  split <;> exact ⟨rfl, rfl⟩

@[simp] theorem quiet_PostEffectShader_Cast (i : Int) : QuietM (PostEffectShader_Cast i) := by
  intro L
  unfold PostEffectShader_Cast
  split <;> exact ⟨rfl, rfl⟩

@[simp] theorem quiet_TranslateBlendMode (i : Int) : QuietM (TranslateBlendMode i) := by
  intro L
  unfold TranslateBlendMode
  split <;> exact ⟨rfl, rfl⟩

@[simp] theorem quiet_storeAt {α : Type} (arr : List α) (i : Nat) (v : α) :
    QuietM (storeAt arr i v) := by
  intro L
  unfold storeAt
  split <;> exact ⟨rfl, rfl⟩

@[simp] theorem quiet_GetGlobalImageScaleFactor : QuietM LRESMGR.GetGlobalImageScaleFactor :=
  fun _ => ⟨rfl, rfl⟩

@[simp] theorem quiet_getViewport : QuietM LR2D.getViewport := fun _ => ⟨rfl, rfl⟩

theorem quiet_readVertexAt (t base : Int) : QuietM (readVertexAt t base) := by
  unfold readVertexAt
  repeat' first
    | refine quietM_bind ?_ (fun _ => ?_)
    | refine quietM_ite _ ?_ ?_
    | simp

theorem quiet_readTextureVertex (i : Nat) : QuietM (readTextureVertex i) := by
  unfold readTextureVertex pushField
  repeat' first
    | refine quietM_bind ?_ (fun _ => ?_)
    | refine quietM_ite _ ?_ ?_
    | simp


/-! ### Guarded and settled computations -/

theorem quietM_guarded {α : Type} {m : LuaM α} (h : QuietM m) : GuardedM m :=
  fun L => ⟨[], [], by simp [(h L).1], by simp [(h L).2], by simp, by simp⟩

theorem guardedM_settled {α : Type} {m : LuaM α} (h : GuardedM m) : SettledM m := by
  intro L
  obtain ⟨cs, qs, hc, hq, hd, _⟩ := h L
  exact ⟨cs, qs, hc, hq, Or.inl hd⟩

theorem guardedM_bind {α β : Type} {m : LuaM α} {f : α → LuaM β} (hm : GuardedM m)
    (hf : ∀ a, GuardedM (f a)) : GuardedM (m >>= f) := by
  intro L
  rw [luaM_bind_apply]
  obtain ⟨cs, qs, hc, hq, hd, hfound⟩ := hm L
  rcases hmL : m L with ⟨res, L1⟩
  rw [hmL] at hc hq hfound
  cases res with
  | error e => exact ⟨cs, qs, hc, hq, hd, by simp [isError]⟩
  | ok a =>
    obtain ⟨cs2, qs2, hc2, hq2, hd2, hfound2⟩ := hf a L1
    refine ⟨cs ++ cs2, qs ++ qs2, ?_, ?_, ?_, ?_⟩
    · rw [hc2, hc, List.append_assoc]
    · rw [hq2, hq, List.append_assoc]
    · intro c hcmem
      rcases List.mem_append.mp hcmem with h | h
      · exact hd c h
      · exact hd2 c h
    · intro hok q hqmem
      rcases List.mem_append.mp hqmem with h | h
      · exact hfound rfl q h
      · exact hfound2 hok q h

theorem settledM_bind {α β : Type} {m : LuaM α} {f : α → LuaM β} (hm : GuardedM m)
    (hf : ∀ a, SettledM (f a)) : SettledM (m >>= f) := by
  intro L
  rw [luaM_bind_apply]
  obtain ⟨cs, qs, hc, hq, hd, hfound⟩ := hm L
  rcases hmL : m L with ⟨res, L1⟩
  rw [hmL] at hc hq hfound
  cases res with
  | error e => exact ⟨cs, qs, hc, hq, Or.inl hd⟩
  | ok a =>
    obtain ⟨cs2, qs2, hc2, hq2, h2⟩ := hf a L1
    refine ⟨cs ++ cs2, qs ++ qs2, ?_, ?_, ?_⟩
    · rw [hc2, hc, List.append_assoc]
    · rw [hq2, hq, List.append_assoc]
    · rcases h2 with hd2 | hf2
      · left
        intro c hcmem
        rcases List.mem_append.mp hcmem with h | h
        · exact hd c h
        · exact hd2 c h
      · right
        intro q hqmem
        rcases List.mem_append.mp hqmem with h | h
        · exact hfound rfl q h
        · exact hf2 q h

theorem settledM_bind_quiet {α β : Type} {m : LuaM α} {f : α → LuaM β} (hm : SettledM m)
    (hf : ∀ a, QuietM (f a)) : SettledM (m >>= f) := by
  intro L
  rw [luaM_bind_apply]
  obtain ⟨cs, qs, hc, hq, h⟩ := hm L
  rcases hmL : m L with ⟨res, L1⟩
  rw [hmL] at hc hq
  cases res with
  | error e => exact ⟨cs, qs, hc, hq, h⟩
  | ok a => exact ⟨cs, qs, (hf a L1).1.trans hc, (hf a L1).2.trans hq, h⟩

theorem guardedM_ite {α : Type} (c : Prop) [Decidable c] {m1 m2 : LuaM α}
    (h1 : GuardedM m1) (h2 : GuardedM m2) : GuardedM (if c then m1 else m2) := by
  split
  · exact h1
  · exact h2

theorem settledM_ite {α : Type} (c : Prop) [Decidable c] {m1 m2 : LuaM α}
    (h1 : SettledM m1) (h2 : SettledM m2) : SettledM (if c then m1 else m2) := by
  split
  · exact h1
  · exact h2

theorem guarded_record (c : Call) (h : c.isDraw = false) : GuardedM (record c) :=
  fun L => ⟨[c], [], rfl, by simp [record], by simpa using h, by simp⟩

theorem guarded_onRenderer (c : Call) (g : Renderer → Bool × Renderer) (h : c.isDraw = false) :
    GuardedM (onRenderer c g) :=
  fun L => ⟨[c], [], rfl, by simp [onRenderer], by simpa using h, by simp⟩

theorem guarded_translate_blend (b : BlendMode) : GuardedM (translate_blend b) :=
  fun L => ⟨[Call.updateGraph2DBlendMode b], [], rfl,
    by simp [translate_blend, LAPP.updateGraph2DBlendMode], by simp [Call.isDraw], by simp⟩

theorem guarded_onEffect (c : Call) (g : Env → Bool) (h : c.isDraw = false) :
    GuardedM (onEffect c g) :=
  fun L => ⟨[c], [], rfl, by simp [onEffect], by simpa using h, by simp⟩

theorem settled_record (c : Call) : SettledM (record c) :=
  fun L => ⟨[c], [], rfl, by simp [record], Or.inr (by simp)⟩

theorem settled_onRenderer (c : Call) (g : Renderer → Bool × Renderer) :
    SettledM (onRenderer c g) :=
  fun L => ⟨[c], [], rfl, by simp [onRenderer], Or.inr (by simp)⟩

/-- A lookup whose failure ends the run with an error, inside a guarded run. -/
theorem guarded_lookup {ρ β : Type} (kind : ResourceKind) (name : String)
    (find : Env → Option ρ) (k : Option ρ → LuaM β) (L : lua_State)
    (hsome : ∀ p, GuardedM (k (some p))) (hnone : GuardedM (k none))
    (hfail : ∀ L1, isError (k none L1).1 = true) :
    Guarded L (k (find L.env)
      { L with lookups := L.lookups ++ [⟨kind, name, (find L.env).isSome⟩] }) := by
  cases hf : find L.env with
  | none =>
    obtain ⟨cs, qs, hc, hq, hd, _⟩ := hnone
      { L with lookups := L.lookups ++ [⟨kind, name, (none : Option ρ).isSome⟩] }
    refine ⟨cs, _ :: qs, hc, by simpa using hq, hd, ?_⟩
    intro hok
    rw [hfail] at hok
    exact absurd hok (by simp)
  | some p =>
    obtain ⟨cs, qs, hc, hq, hd, hfound⟩ := hsome p
      { L with lookups := L.lookups ++ [⟨kind, name, (some p).isSome⟩] }
    refine ⟨cs, _ :: qs, hc, by simpa using hq, hd, ?_⟩
    intro hok q hqmem
    rcases List.mem_cons.mp hqmem with h | h
    · subst h; rfl
    · exact hfound hok q h

/-- A lookup inside a settled run: if it fails, the rest of the run issues no draw. -/
theorem settled_lookup {ρ β : Type} (kind : ResourceKind) (name : String)
    (find : Env → Option ρ) (k : Option ρ → LuaM β) (L : lua_State)
    (hsome : ∀ p, SettledM (k (some p))) (hnone : GuardedM (k none)) :
    Settled L (k (find L.env)
      { L with lookups := L.lookups ++ [⟨kind, name, (find L.env).isSome⟩] }) := by
  cases hf : find L.env with
  | none =>
    obtain ⟨cs, qs, hc, hq, hd, _⟩ := hnone
      { L with lookups := L.lookups ++ [⟨kind, name, (none : Option ρ).isSome⟩] }
    exact ⟨cs, _ :: qs, hc, by simpa using hq, Or.inl hd⟩
  | some p =>
    obtain ⟨cs, qs, hc, hq, h⟩ := hsome p
      { L with lookups := L.lookups ++ [⟨kind, name, (some p).isSome⟩] }
    refine ⟨cs, _ :: qs, hc, by simpa using hq, ?_⟩
    rcases h with hd | hfound
    · exact Or.inl hd
    · right
      intro q hqmem
      rcases List.mem_cons.mp hqmem with h | h
      · subst h; rfl
      · exact hfound q h

theorem guarded_FindTexture_bind {β : Type} (name : String)
    (k : Option ResourceTexture → LuaM β) (hsome : ∀ p, GuardedM (k (some p)))
    (hnone : GuardedM (k none)) (hfail : ∀ L1, isError (k none L1).1 = true) :
    GuardedM (LRESMGR.FindTexture name >>= k) :=
  fun L => guarded_lookup .texture name (fun e => e.FindTexture name) k L hsome hnone hfail

theorem settled_FindTexture_bind {β : Type} (name : String)
    (k : Option ResourceTexture → LuaM β) (hsome : ∀ p, SettledM (k (some p)))
    (hnone : GuardedM (k none)) : SettledM (LRESMGR.FindTexture name >>= k) :=
  fun L => settled_lookup .texture name (fun e => e.FindTexture name) k L hsome hnone

theorem settled_FindFX_bind {β : Type} (name : String)
    (k : Option EffectId → LuaM β) (hsome : ∀ p, SettledM (k (some p)))
    (hnone : GuardedM (k none)) : SettledM (LRESMGR.FindFX name >>= k) :=
  fun L => settled_lookup .fx name (fun e => e.FindFX name) k L hsome hnone

theorem settled_FindModel_bind {β : Type} (name : String)
    (k : Option ModelId → LuaM β) (hsome : ∀ p, SettledM (k (some p)))
    (hnone : GuardedM (k none)) : SettledM (LRESMGR.FindModel name >>= k) :=
  fun L => settled_lookup .model name (fun e => e.FindModel name) k L hsome hnone

theorem settled_FindSprite_bind {β : Type} (name : String)
    (k : Option SpriteId → LuaM β) (hsome : ∀ p, SettledM (k (some p)))
    (hnone : GuardedM (k none)) : SettledM (LRESMGR.FindSprite name >>= k) :=
  fun L => settled_lookup .sprite name (fun e => e.FindSprite name) k L hsome hnone

theorem settled_FindAnimation_bind {β : Type} (name : String)
    (k : Option AnimationId → LuaM β) (hsome : ∀ p, SettledM (k (some p)))
    (hnone : GuardedM (k none)) : SettledM (LRESMGR.FindAnimation name >>= k) :=
  fun L => settled_lookup .animation name (fun e => e.FindAnimation name) k L hsome hnone

theorem guarded_forLoop {σ : Type} (body : Nat → σ → LuaM σ)
    (hbody : ∀ i s, GuardedM (body i s)) (count : Nat) :
    ∀ (first : Nat) (s : σ), GuardedM (forLoop first count body s) := by
  induction count with
  | zero => exact fun _ _ => quietM_guarded (quietM_pure _)
  | succ n ih => exact fun first s => guardedM_bind (hbody first s) (fun s1 => ih (first + 1) s1)


/-! ### C7: an unknown resource name stops the draw -/

/-- The loop bodies of `compat_PostEffect` issue no draw, and return normally only if every
texture they looked up resolved. -/
theorem guarded_postEffect_bodies :
    (∀ (e : EffectId) (rt : String) (kv : LuaValue × LuaValue),
        GuardedM (postEffectParameter e rt kv))
    ∧ (∀ (i : Nat) (cb : List Vector4F), GuardedM (postEffectConstant i cb))
    ∧ (∀ (i : Nat) (arrays : List (Option TextureId) × List SamplerState),
        GuardedM (postEffectTexture i arrays)) := by
  refine ⟨fun e rt kv => ?_, fun i cb => ?_, fun i arrays => ?_⟩
  all_goals
    first
      | unfold postEffectParameter
      | unfold postEffectConstant
      | unfold postEffectTexture
    try simp only [IPostEffectShader.setFloat, IPostEffectShader.setFloat4,
      IPostEffectShader.setTexture2D]
    repeat' first
      | fail_if_no_progress dsimp only
      | with_reducible refine guarded_FindTexture_bind _ _ (fun _ => ?_) ?_ ?_
      | with_reducible refine guardedM_bind ?_ (fun _ => ?_)
      | with_reducible refine guardedM_ite _ ?_ ?_
      | exact guarded_record _ rfl
      | exact guarded_onEffect _ _ rfl
      | with_reducible refine quietM_guarded ?_
      | with_reducible refine quietM_bind ?_ (fun _ => ?_)
      | with_reducible refine quietM_ite _ ?_ ?_
      | exact fun _ => rfl
      | simp

theorem guarded_postEffectParameters (e : EffectId) (rt : String)
    (ps : List (LuaValue × LuaValue)) : GuardedM (postEffectParameters e rt ps) := by
  induction ps with
  | nil => exact quietM_guarded (quietM_pure _)
  | cons kv rest ih =>
    exact guardedM_bind (guarded_postEffect_bodies.1 e rt kv) (fun _ => ih)

/-- The sprite helpers are settled: `Render*` is called only on a sprite that was found. -/
theorem settled_api :
    (∀ name x y rot hscale vscale z, SettledM (api_drawSprite name x y rot hscale vscale z))
    ∧ (∀ name l r b t z, SettledM (api_drawSpriteRect name l r b t z))
    ∧ (∀ name x1 y1 z1 x2 y2 z2 x3 y3 z3 x4 y4 z4,
        SettledM (api_drawSprite4V name x1 y1 z1 x2 y2 z2 x3 y3 z3 x4 y4 z4))
    ∧ (∀ name x y z rx ry rz sx sy, SettledM (api_drawSprite3D name x y z rx ry rz sx sy))
    ∧ (∀ name t x y rot hscale vscale z,
        SettledM (api_drawSpriteSequence name t x y rot hscale vscale z)) := by
  refine ⟨?_, ?_, ?_, ?_, ?_⟩
  all_goals
    intros
    first
      | unfold api_drawSpriteSequence
      | unfold api_drawSpriteRect
      | unfold api_drawSprite4V
      | unfold api_drawSprite3D
      | unfold api_drawSprite
    repeat' first
      | fail_if_no_progress dsimp only
      | with_reducible refine settled_FindSprite_bind _ _ (fun _ => ?_) ?_
      | with_reducible refine settled_FindAnimation_bind _ _ (fun _ => ?_) ?_
      | with_reducible exact settledM_bind_quiet (settled_record _) (fun _ => quietM_pure _)
      | with_reducible exact quietM_guarded (quietM_pure _)

set_option maxHeartbeats 1000000 in
/-- Every binding operation that takes a resource name and can draw is settled: a run of it
has issued no draw, or has resolved every name it looked up. -/
theorem settled_run (op : ResourceDraw) : SettledM op.run := by
  cases op
  all_goals
    dsimp only [ResourceDraw.run]
    first
      | unfold lib_drawTexture
      | unfold lib_drawMesh
      | unfold lib_drawModel
      | unfold compat_PostEffect
      | unfold lib_drawSpriteSequence
      | unfold lib_drawSpriteRect
      | unfold lib_drawSprite4V
      | unfold lib_drawSprite3D
      | unfold lib_drawSprite
    try simp only [LR2D.setTexture, LR2D.drawQuad, LR2D.drawPostEffect,
      LR2D.drawPostEffectArrays, LR2D.drawModel, IPostEffectShader.setFloat,
      IPostEffectShader.setFloat4, IPostEffectShader.setTexture2D]
    repeat' first
      | fail_if_no_progress dsimp only
      | with_reducible exact guarded_postEffectParameters _ _ _
      | with_reducible exact guarded_forLoop _ (fun _ _ => guarded_postEffect_bodies.2.1 _ _) _ _ _
      | with_reducible exact guarded_forLoop _ (fun _ _ => guarded_postEffect_bodies.2.2 _ _) _ _ _
      | with_reducible refine settled_FindTexture_bind _ _ (fun _ => ?_) ?_
      | with_reducible refine settled_FindFX_bind _ _ (fun _ => ?_) ?_
      | with_reducible refine settled_FindModel_bind _ _ (fun _ => ?_) ?_
      | with_reducible exact settledM_bind_quiet (settled_onRenderer _ _) (fun _ => quietM_pure _)
      | with_reducible exact settledM_bind_quiet (settled_record _) (fun _ => quietM_pure _)
      | with_reducible refine settledM_bind_quiet (settled_api.1 _ _ _ _ _ _ _) (fun _ => ?_)
      | with_reducible refine settledM_bind_quiet (settled_api.2.1 _ _ _ _ _ _) (fun _ => ?_)
      | with_reducible refine
          settledM_bind_quiet (settled_api.2.2.1 _ _ _ _ _ _ _ _ _ _ _ _ _) (fun _ => ?_)
      | with_reducible refine
          settledM_bind_quiet (settled_api.2.2.2.1 _ _ _ _ _ _ _ _ _) (fun _ => ?_)
      | with_reducible refine
          settledM_bind_quiet (settled_api.2.2.2.2 _ _ _ _ _ _ _ _) (fun _ => ?_)
      | with_reducible refine settledM_bind ?_ (fun _ => ?_)
      | with_reducible refine settledM_ite _ ?_ ?_
      | with_reducible refine guardedM_bind ?_ (fun _ => ?_)
      | with_reducible refine guardedM_ite _ ?_ ?_
      | focus
          with_reducible refine guarded_record _ ?_
          rfl
      | focus
          with_reducible refine guarded_onRenderer _ _ ?_
          rfl
      | focus
          with_reducible refine guarded_onEffect _ _ ?_
          rfl
      | with_reducible exact guarded_translate_blend _
      | with_reducible refine guardedM_settled ?_
      | with_reducible refine quietM_guarded ?_
      | with_reducible refine quietM_bind ?_ (fun _ => ?_)
      | with_reducible refine quietM_ite _ ?_ ?_
      | exact quiet_readTextureVertex _
      | simp


/-- C7: for every binding operation that takes a resource name and can end in a draw, if a
name the call looked up did not resolve, then the call has issued no draw call (`Render*`,
`drawQuad`, mesh draw, `drawModel`, `drawPostEffect`); the calls of the run extend the calls
made before it. -/
theorem unknown_resource_issues_no_draw (op : ResourceDraw) (L : lua_State)
    (h : ∃ q ∈ lookupsSince L (op.run L).2, q.found = false) :
    (∃ cs, (op.run L).2.calls = L.calls ++ cs)
    ∧ ∀ c ∈ callsSince L (op.run L).2, c.isDraw = false := by
  obtain ⟨cs, qs, hc, hq, hd⟩ := settled_run op L
  refine ⟨⟨cs, hc⟩, ?_⟩
  have hcs : callsSince L (op.run L).2 = cs := by
    simp [callsSince, hc]
  have hqs : lookupsSince L (op.run L).2 = qs := by
    simp [lookupsSince, hq]
  rw [hcs]
  rw [hqs] at h
  rcases hd with hd | hfound
  · exact hd
  · obtain ⟨q, hqmem, hqf⟩ := h
    rw [hfound q hqmem] at hqf
    exact absurd hqf (by simp)

/-- C7 on `PostEffect("rt", "fx", "mul+add", { tex2 = "nope" })`: the texture parameter does
not resolve, three effect parameters have been bound and no draw has been issued. -/
theorem unknown_resource_issues_no_draw_witness :
    (∃ q ∈ lookupsSince unknownParameterCall
        (ResourceDraw.PostEffect.run unknownParameterCall).2, q.found = false)
    ∧ (callsSince unknownParameterCall
        (ResourceDraw.PostEffect.run unknownParameterCall).2).length = 3
    ∧ ((∃ cs, (ResourceDraw.PostEffect.run unknownParameterCall).2.calls
          = unknownParameterCall.calls ++ cs)
      ∧ ∀ c ∈ callsSince unknownParameterCall
          (ResourceDraw.PostEffect.run unknownParameterCall).2, c.isDraw = false) :=
  ⟨by decide, by decide,
    unknown_resource_issues_no_draw ResourceDraw.PostEffect unknownParameterCall (by decide)⟩


/-! ### More on the computation type -/

theorem luaM_pure_bind {α β : Type} (a : α) (f : α → LuaM β) (L : lua_State) :
    ((pure a : LuaM α) >>= f) L = f a L := rfl

theorem luaM_ite_apply {α : Type} (c : Prop) [Decidable c] (m1 m2 : LuaM α) (L : lua_State) :
    (if c then m1 else m2) L = if c then m1 L else m2 L := by
  split <;> rfl


/-! ### Computations that leave the application alone, continued -/

@[simp] theorem untouched_luaL_error {α : Type} (msg : String) :
    UntouchedM (luaL_error msg : LuaM α) := fun L => L.untouched_refl

@[simp] theorem untouched_isBatchScope : UntouchedM LR2D.isBatchScope :=
  fun L => L.untouched_refl

@[simp] theorem untouched_validate_render_scope : UntouchedM validate_render_scope := by
  intro L
  by_cases h : L.renderer.scope = true
  · rw [validate_render_scope_open L h]; exact L.untouched_refl
  · rw [validate_render_scope_closed L (by simpa using h)]; exact L.untouched_refl

@[simp] theorem untouched_lua_type (i : Int) : UntouchedM (lua_type i) :=
  fun L => L.untouched_refl

@[simp] theorem untouched_lua_isstring (i : Int) : UntouchedM (lua_isstring i) :=
  fun L => L.untouched_refl

@[simp] theorem untouched_lua_istable (i : Int) : UntouchedM (lua_istable i) :=
  fun L => L.untouched_refl

@[simp] theorem untouched_lua_isuserdata (i : Int) : UntouchedM (lua_isuserdata i) :=
  fun L => L.untouched_refl

@[simp] theorem untouched_lua_tostring (i : Int) : UntouchedM (lua_tostring i) :=
  fun L => L.untouched_refl

@[simp] theorem untouched_luaL_optnumber (i : Int) (d : ℚ) : UntouchedM (luaL_optnumber i d) := by
  intro L
  unfold luaL_optnumber
  split <;> exact L.untouched_refl

@[simp] theorem untouched_luaL_checkinteger (i : Int) : UntouchedM (luaL_checkinteger i) := by
  intro L
  unfold luaL_checkinteger
  split <;> exact L.untouched_refl

@[simp] theorem untouched_luaL_checkstring (i : Int) : UntouchedM (luaL_checkstring i) := by
  intro L
  unfold luaL_checkstring
  split <;> exact L.untouched_refl

@[simp] theorem untouched_luaL_argcheck (c : Bool) (i : Int) (msg : String) :
    UntouchedM (luaL_argcheck c i msg) := by
  intro L
  unfold luaL_argcheck
  split <;> exact L.untouched_refl

@[simp] theorem untouched_lua_objlen (i : Int) : UntouchedM (lua_objlen i) := by
  intro L
  unfold lua_objlen
  split <;> exact L.untouched_refl

@[simp] theorem untouched_lua_pairs (i : Int) : UntouchedM (lua_pairs i) := by
  intro L
  unfold lua_pairs
  split <;> exact L.untouched_refl

@[simp] theorem untouched_PostEffectShader_Cast (i : Int) :
    UntouchedM (PostEffectShader_Cast i) := by
  intro L
  unfold PostEffectShader_Cast
  split <;> exact L.untouched_refl

@[simp] theorem untouched_TranslateBlendMode (i : Int) : UntouchedM (TranslateBlendMode i) := by
  intro L
  unfold TranslateBlendMode
  split <;> exact L.untouched_refl

@[simp] theorem untouched_storeAt {α : Type} (arr : List α) (i : Nat) (v : α) :
    UntouchedM (storeAt arr i v) := by
  intro L
  unfold storeAt
  split <;> exact L.untouched_refl

@[simp] theorem untouched_getViewport : UntouchedM LR2D.getViewport :=
  fun L => L.untouched_refl

@[simp] theorem untouched_FindTexture (name : String) : UntouchedM (LRESMGR.FindTexture name) :=
  fun _ => ⟨rfl, rfl, rfl, rfl⟩

@[simp] theorem untouched_FindFX (name : String) : UntouchedM (LRESMGR.FindFX name) :=
  fun _ => ⟨rfl, rfl, rfl, rfl⟩

@[simp] theorem untouched_FindModel (name : String) : UntouchedM (LRESMGR.FindModel name) :=
  fun _ => ⟨rfl, rfl, rfl, rfl⟩

/-- Every argument read and every stack move the post-effect and model operations use
leaves the application alone. -/
theorem untouched_atoms :
    (∀ v, UntouchedM (lua_push v)) ∧ (∀ n, UntouchedM (lua_pop n))
    ∧ (∀ i n, UntouchedM (lua_rawgeti i n)) ∧ (∀ i, UntouchedM (lua_tonumber i))
    ∧ (∀ i, UntouchedM (lua_isnumber i)) ∧ (∀ i, UntouchedM (luaL_checknumber i))
    ∧ (∀ i, UntouchedM (ColorWrapper_Cast i)) ∧ (∀ (α : Type) (a : α), UntouchedM (pure a : LuaM α)) :=
  ⟨untouched_lua_push, untouched_lua_pop, untouched_lua_rawgeti, untouched_lua_tonumber,
    untouched_lua_isnumber, untouched_luaL_checknumber, untouched_ColorWrapper_Cast,
    fun _ a => untouchedM_pure a⟩


/-! ### C11: what the effect setters answer -/

theorem withAnswers_valueAt (L : lua_State) (s : EffectAnswers) (i : Int) :
    (L.withAnswers s).valueAt i = L.valueAt i := rfl

theorem withAnswers_tonumber (env : Env) (s : EffectAnswers) (v : LuaValue) :
    (env.withAnswers s).tonumber? v = env.tonumber? v := by
  cases v <;> rfl

theorem withAnswers_tostring (env : Env) (s : EffectAnswers) (v : LuaValue) :
    (env.withAnswers s).tostring? v = env.tostring? v := by
  cases v <;> rfl

theorem withAnswers_env (L : lua_State) (s : EffectAnswers) :
    (L.withAnswers s).env = L.env.withAnswers s := rfl

theorem answerBlindM_pure {α : Type} (a : α) : AnswerBlindM (pure a : LuaM α) :=
  fun _ _ => rfl

theorem answerBlindM_bind {α β : Type} {m : LuaM α} {f : α → LuaM β} (hm : AnswerBlindM m)
    (hf : ∀ a, AnswerBlindM (f a)) : AnswerBlindM (m >>= f) := by
  intro s L
  rw [luaM_bind_apply, luaM_bind_apply, hm s L]
  rcases m L with ⟨res, L1⟩
  cases res with
  | error e => rfl
  | ok a => exact hf a s L1

theorem answerBlindM_discard {α β : Type} {m : LuaM α} {k : LuaM β}
    (hm : AnswerBlindStateM m) (hk : AnswerBlindM k) : AnswerBlindM (m >>= fun _ => k) := by
  intro s L
  rw [luaM_bind_apply, luaM_bind_apply]
  obtain ⟨hst, hok1, hok2⟩ := hm s L
  rcases h1 : m (L.withAnswers s) with ⟨res1, L1⟩
  rcases h2 : m L with ⟨res2, L2⟩
  rw [h1] at hst hok1
  rw [h2] at hst hok2
  cases res1 with
  | error e => exact absurd hok1 (by simp [isError])
  | ok a =>
    cases res2 with
    | error e => exact absurd hok2 (by simp [isError])
    | ok b =>
      simp only at hst ⊢
      rw [hst]
      exact hk s L2

theorem answerBlindM_option_bind {ρ β : Type} {m : LuaM (Option ρ)} {k : Option ρ → LuaM β}
    (hm : AnswerBlindM m) (hnone : AnswerBlindM (k none))
    (hsome : ∀ p, AnswerBlindM (k (some p))) : AnswerBlindM (m >>= k) :=
  answerBlindM_bind hm (fun r => by cases r; exact hnone; exact hsome _)

theorem answerBlindM_ite {α : Type} (c : Prop) [Decidable c] {m1 m2 : LuaM α}
    (h1 : AnswerBlindM m1) (h2 : AnswerBlindM m2) : AnswerBlindM (if c then m1 else m2) := by
  split
  · exact h1
  · exact h2

theorem answerBlindState_onEffect (c : Call) (g : Env → Bool) :
    AnswerBlindStateM (onEffect c g) :=
  fun _ _ => ⟨rfl, rfl, rfl⟩

@[simp] theorem blind_record (c : Call) : AnswerBlindM (record c) := fun _ _ => rfl

@[simp] theorem blind_onRenderer (c : Call) (g : Renderer → Bool × Renderer) :
    AnswerBlindM (onRenderer c g) := fun _ _ => rfl

@[simp] theorem blind_luaL_error {α : Type} (msg : String) :
    AnswerBlindM (luaL_error msg : LuaM α) := fun _ _ => rfl

@[simp] theorem blind_validate_render_scope : AnswerBlindM validate_render_scope := by
  intro s L
  by_cases h : L.renderer.scope = true
  · rw [validate_render_scope_open L h, validate_render_scope_open (L.withAnswers s) h]
  · rw [validate_render_scope_closed L (by simpa using h),
      validate_render_scope_closed (L.withAnswers s) (by simpa using h)]

@[simp] theorem blind_lua_type (i : Int) : AnswerBlindM (lua_type i) := fun _ _ => rfl

@[simp] theorem blind_lua_isnumber (i : Int) : AnswerBlindM (lua_isnumber i) := by
  intro s L
  simp only [lua_isnumber, withAnswers_valueAt, withAnswers_env, withAnswers_tonumber]

@[simp] theorem blind_lua_isstring (i : Int) : AnswerBlindM (lua_isstring i) := by
  intro s L
  simp only [lua_isstring, withAnswers_valueAt, withAnswers_env, withAnswers_tostring]

@[simp] theorem blind_lua_istable (i : Int) : AnswerBlindM (lua_istable i) := fun _ _ => rfl

@[simp] theorem blind_lua_isuserdata (i : Int) : AnswerBlindM (lua_isuserdata i) :=
  fun _ _ => rfl

@[simp] theorem blind_lua_tonumber (i : Int) : AnswerBlindM (lua_tonumber i) := by
  intro s L
  simp only [lua_tonumber, withAnswers_valueAt, withAnswers_env, withAnswers_tonumber]

@[simp] theorem blind_lua_tostring (i : Int) : AnswerBlindM (lua_tostring i) := by
  intro s L
  simp only [lua_tostring, withAnswers_valueAt, withAnswers_env, withAnswers_tostring]

@[simp] theorem blind_luaL_checknumber (i : Int) : AnswerBlindM (luaL_checknumber i) := by
  intro s L
  simp only [luaL_checknumber, withAnswers_valueAt, withAnswers_env, withAnswers_tonumber]
  split <;> rfl

@[simp] theorem blind_luaL_checkinteger (i : Int) : AnswerBlindM (luaL_checkinteger i) := by
  intro s L
  simp only [luaL_checkinteger, withAnswers_valueAt, withAnswers_env, withAnswers_tonumber]
  split <;> rfl

@[simp] theorem blind_luaL_checkstring (i : Int) : AnswerBlindM (luaL_checkstring i) := by
  intro s L
  simp only [luaL_checkstring, withAnswers_valueAt, withAnswers_env, withAnswers_tostring]
  split <;> rfl

@[simp] theorem blind_luaL_argcheck (c : Bool) (i : Int) (msg : String) :
    AnswerBlindM (luaL_argcheck c i msg) := by
  intro s L
  unfold luaL_argcheck
  split <;> rfl

@[simp] theorem blind_lua_push (v : LuaValue) : AnswerBlindM (lua_push v) := fun _ _ => rfl

@[simp] theorem blind_lua_pop (n : Nat) : AnswerBlindM (lua_pop n) := fun _ _ => rfl

@[simp] theorem blind_lua_rawgeti (i n : Int) : AnswerBlindM (lua_rawgeti i n) := by
  intro s L
  simp only [lua_rawgeti, withAnswers_valueAt]
  split <;> rfl

@[simp] theorem blind_lua_objlen (i : Int) : AnswerBlindM (lua_objlen i) := by
  intro s L
  simp only [lua_objlen, withAnswers_valueAt]
  split <;> rfl

@[simp] theorem blind_lua_pairs (i : Int) : AnswerBlindM (lua_pairs i) := by
  intro s L
  simp only [lua_pairs, withAnswers_valueAt]
  split <;> rfl

@[simp] theorem blind_ColorWrapper_Cast (i : Int) : AnswerBlindM (ColorWrapper_Cast i) := by
  intro s L
  simp only [ColorWrapper_Cast, withAnswers_valueAt]
  split <;> rfl

@[simp] theorem blind_PostEffectShader_Cast (i : Int) :
    AnswerBlindM (PostEffectShader_Cast i) := by
  intro s L
  simp only [PostEffectShader_Cast, withAnswers_valueAt]
  split <;> rfl

@[simp] theorem blind_TranslateBlendMode (i : Int) : AnswerBlindM (TranslateBlendMode i) := by
  intro s L
  have h : (L.withAnswers s).env.TranslateBlendMode = L.env.TranslateBlendMode := rfl
  simp only [TranslateBlendMode, withAnswers_valueAt, h]
  split <;> rfl

@[simp] theorem blind_storeAt {α : Type} (arr : List α) (i : Nat) (v : α) :
    AnswerBlindM (storeAt arr i v) := by
  intro s L
  unfold storeAt
  split <;> rfl

@[simp] theorem blind_getViewport : AnswerBlindM LR2D.getViewport := fun _ _ => rfl

@[simp] theorem blind_FindTexture (name : String) : AnswerBlindM (LRESMGR.FindTexture name) :=
  fun _ _ => rfl

@[simp] theorem blind_FindFX (name : String) : AnswerBlindM (LRESMGR.FindFX name) :=
  fun _ _ => rfl

theorem answerBlind_forLoop {σ : Type} (body : Nat → σ → LuaM σ)
    (hbody : ∀ i s, AnswerBlindM (body i s)) (count : Nat) :
    ∀ (first : Nat) (s : σ), AnswerBlindM (forLoop first count body s) := by
  induction count with
  | zero => exact fun _ _ => answerBlindM_pure _
  | succ n ih =>
    exact fun first s => answerBlindM_bind (hbody first s) (fun s1 => ih (first + 1) s1)


theorem answerBlind_postEffect_bodies :
    (∀ (e : EffectId) (rt : String) (kv : LuaValue × LuaValue),
        AnswerBlindM (postEffectParameter e rt kv))
    ∧ (∀ (i : Nat) (cb : List Vector4F), AnswerBlindM (postEffectConstant i cb))
    ∧ (∀ (i : Nat) (arrays : List (Option TextureId) × List SamplerState),
        AnswerBlindM (postEffectTexture i arrays)) := by
  refine ⟨fun e rt kv => ?_, fun i cb => ?_, fun i arrays => ?_⟩
  all_goals
    first
      | unfold postEffectParameter
      | unfold postEffectConstant
      | unfold postEffectTexture
    try simp only [IPostEffectShader.setFloat, IPostEffectShader.setFloat4,
      IPostEffectShader.setTexture2D]
    repeat' first
      | fail_if_no_progress dsimp only
      | with_reducible refine answerBlindM_discard (answerBlindState_onEffect _ _) ?_
      | with_reducible refine answerBlindM_option_bind ?_ ?_ (fun _ => ?_)
      | with_reducible refine answerBlindM_bind ?_ (fun _ => ?_)
      | with_reducible refine answerBlindM_ite _ ?_ ?_
      | exact answerBlindM_pure _
      | simp

theorem answerBlind_postEffectParameters (e : EffectId) (rt : String)
    (ps : List (LuaValue × LuaValue)) : AnswerBlindM (postEffectParameters e rt ps) := by
  induction ps with
  | nil => exact answerBlindM_pure _
  | cons kv rest ih =>
    exact answerBlindM_bind (answerBlind_postEffect_bodies.1 e rt kv) (fun _ => ih)

set_option maxHeartbeats 1000000 in
/-- The answers of the effect setters have no influence on `compat_PostEffect`. -/
theorem answerBlind_PostEffect : AnswerBlindM compat_PostEffect := by
  unfold compat_PostEffect
  simp only [LR2D.drawPostEffect, LR2D.drawPostEffectArrays, IPostEffectShader.setFloat,
    IPostEffectShader.setFloat4, IPostEffectShader.setTexture2D]
  repeat' first
    | fail_if_no_progress dsimp only
    | with_reducible exact answerBlind_postEffectParameters _ _ _
    | with_reducible exact
        answerBlind_forLoop _ (fun _ _ => answerBlind_postEffect_bodies.2.1 _ _) _ _ _
    | with_reducible exact
        answerBlind_forLoop _ (fun _ _ => answerBlind_postEffect_bodies.2.2 _ _) _ _ _
    | with_reducible refine answerBlindM_discard (answerBlindState_onEffect _ _) ?_
    | with_reducible refine answerBlindM_option_bind ?_ ?_ (fun _ => ?_)
    | with_reducible refine answerBlindM_bind ?_ (fun _ => ?_)
    | with_reducible refine answerBlindM_ite _ ?_ ?_
    | exact answerBlindM_pure _
    | simp

/-- C11, amended: what the parameter setters of the effect (`setFloat`, `setFloat4`,
`setTexture2D`) answer has no influence on a `PostEffect` call: with any other answers the
call ends the same way (normal return or the same error) after the same calls, the
`drawPostEffect` included, the same lookups and with the same renderer and Lua stack.  A
setter that answers false is not reported. -/
theorem setter_answers_are_ignored (s : EffectAnswers) (L : lua_State) :
    (compat_PostEffect (L.withAnswers s)).1 = (compat_PostEffect L).1
    ∧ (compat_PostEffect (L.withAnswers s)).2.calls = (compat_PostEffect L).2.calls
    ∧ (compat_PostEffect (L.withAnswers s)).2.renderer = (compat_PostEffect L).2.renderer
    ∧ (compat_PostEffect (L.withAnswers s)).2.lookups = (compat_PostEffect L).2.lookups
    ∧ (compat_PostEffect (L.withAnswers s)).2.stack = (compat_PostEffect L).2.stack := by
  rw [answerBlind_PostEffect s L]
  exact ⟨rfl, rfl, rfl, rfl, rfl⟩


/-- C11 as stated fails: inside an open scope `PostEffect("rt", "fx", "mul+add",
{ strength = 1 })` calls `setFloat("strength", 1)`, the effect answers false, and the call
still returns normally with `drawPostEffect` as its last call, the only draw. -/
theorem rejected_parameter_is_dropped :
    unknownSetterCall.env.effectSetFloat 9 "strength" 1 = false
    ∧ (IPostEffectShader.setFloat 9 "strength" 1 unknownSetterCall).1 = .ok false
    ∧ isError (compat_PostEffect unknownSetterCall).1 = false
    ∧ Call.effectSetFloat 9 "strength" 1
        ∈ callsSince unknownSetterCall (compat_PostEffect unknownSetterCall).2
    ∧ (callsSince unknownSetterCall (compat_PostEffect unknownSetterCall).2).getLast?
        = some (Call.drawPostEffect 9 BlendState.Add)
    ∧ (callsSince unknownSetterCall (compat_PostEffect unknownSetterCall).2).map Call.isDraw
        = [false, false, false, false, true] := by
  refine ⟨by decide!, by decide!, by decide!, by decide!, by decide!, by decide!⟩


/-! ### C12: one `drawPostEffect` per call -/

theorem noDrawM_of_guarded {α : Type} {m : LuaM α} (h : GuardedM m) : NoDrawM m := by
  intro L
  obtain ⟨cs, _, hc, _, hd, _⟩ := h L
  exact ⟨cs, hc, hd⟩

theorem noDrawM_of_untouched {α : Type} {m : LuaM α} (h : UntouchedM m) : NoDrawM m :=
  fun L => ⟨[], by simp [(h L).2.2.1], by simp⟩

theorem noDraw_onEffect (c : Call) (g : Env → Bool) (h : c.isDraw = false) :
    NoDrawM (onEffect c g) :=
  noDrawM_of_guarded (guarded_onEffect c g h)

theorem noDraw_postEffectParameters (e : EffectId) (rt : String)
    (ps : List (LuaValue × LuaValue)) : NoDrawM (postEffectParameters e rt ps) :=
  noDrawM_of_guarded (guarded_postEffectParameters e rt ps)

theorem noDraw_postEffectConstant (i : Nat) (cb : List Vector4F) :
    NoDrawM (postEffectConstant i cb) :=
  noDrawM_of_guarded (guarded_postEffect_bodies.2.1 i cb)

theorem noDraw_postEffectTexture (i : Nat)
    (arrays : List (Option TextureId) × List SamplerState) :
    NoDrawM (postEffectTexture i arrays) :=
  noDrawM_of_guarded (guarded_postEffect_bodies.2.2 i arrays)

theorem noDrawM_forLoop {σ : Type} (body : Nat → σ → LuaM σ)
    (hbody : ∀ i s, NoDrawM (body i s)) (count : Nat) :
    ∀ (first : Nat) (s : σ), NoDrawM (forLoop first count body s) := by
  induction count with
  | zero => exact fun _ _ => noDrawM_of_untouched (untouchedM_pure _)
  | succ n ih =>
    intro first s L
    show ∃ cs, ((body first s >>= fun s1 => forLoop (first + 1) n body s1) L).2.calls = _ ∧ _
    rw [luaM_bind_apply]
    obtain ⟨cs, hc, hd⟩ := hbody first s L
    rcases hmL : body first s L with ⟨res, L1⟩
    rw [hmL] at hc
    cases res with
    | error e => exact ⟨cs, hc, hd⟩
    | ok a =>
      obtain ⟨cs2, hc2, hd2⟩ := ih (first + 1) a L1
      refine ⟨cs ++ cs2, by rw [hc2, hc, List.append_assoc], ?_⟩
      intro c hcmem
      rcases List.mem_append.mp hcmem with h | h
      · exact hd c h
      · exact hd2 c h

theorem postEffectBlend_isDraw (c : Call) (b : BlendState) (h : c.postEffectBlend? = some b) :
    c.isDraw = true := by
  cases c <;> simp [Call.postEffectBlend?] at h <;> rfl

theorem endsWithEffect_of_error {α : Type} (bs : BlendState) (m : LuaM α)
    (h : ∀ L, isError (m L).1 = true) : EndsWithEffect bs m := by
  intro L hok
  rw [h L] at hok
  exact absurd hok (by simp)

theorem endsWithEffect_luaL_error {α : Type} (bs : BlendState) (msg : String) :
    EndsWithEffect bs (luaL_error msg : LuaM α) :=
  endsWithEffect_of_error bs _ (fun _ => rfl)

theorem endsWithEffect_bind {α β : Type} {bs : BlendState} {m : LuaM α} {f : α → LuaM β}
    (hm : NoDrawM m) (hf : ∀ a, EndsWithEffect bs (f a)) : EndsWithEffect bs (m >>= f) := by
  intro L
  rw [luaM_bind_apply]
  obtain ⟨cs, hc, hd⟩ := hm L
  rcases hmL : m L with ⟨res, L1⟩
  rw [hmL] at hc
  cases res with
  | error e => intro hok; exact absurd hok (by simp [isError])
  | ok a =>
    intro hok
    obtain ⟨pre, c, hc2, hd2, hb⟩ := hf a L1 hok
    refine ⟨cs ++ pre, c, by rw [hc2, hc]; simp [List.append_assoc], ?_, hb⟩
    intro x hx
    rcases List.mem_append.mp hx with h | h
    · exact hd x h
    · exact hd2 x h

theorem endsWithEffect_option_bind {ρ β : Type} {bs : BlendState} {m : LuaM (Option ρ)}
    {k : Option ρ → LuaM β} (hm : NoDrawM m) (hnone : EndsWithEffect bs (k none))
    (hsome : ∀ p, EndsWithEffect bs (k (some p))) : EndsWithEffect bs (m >>= k) :=
  endsWithEffect_bind hm (fun r => by cases r; exact hnone; exact hsome _)

theorem endsWithEffect_ite {α : Type} {bs : BlendState} (c : Prop) [Decidable c]
    {m1 m2 : LuaM α} (h1 : EndsWithEffect bs m1) (h2 : EndsWithEffect bs m2) :
    EndsWithEffect bs (if c then m1 else m2) := by
  split
  · exact h1
  · exact h2

theorem endsWithEffect_draw {bs : BlendState} (c : Call) (g : Renderer → Bool × Renderer)
    (k : Nat) (h : c.postEffectBlend? = some bs) :
    EndsWithEffect bs (onRenderer c g >>= fun _ => (pure k : LuaM Nat)) :=
  fun L _ => ⟨[], c, by simp [onRenderer_bind, luaM_pure_apply], by simp, h⟩

theorem endsWithEffect_elim {bs : BlendState} {m : LuaM Nat} (h : EndsWithEffect bs m)
    (L : lua_State) (k : Nat) (hok : (m L).1 = .ok k) :
    ∃ pre c, (m L).2.calls = L.calls ++ pre ++ [c]
      ∧ (∀ x ∈ pre, x.postEffectBlend? = none) ∧ c.postEffectBlend? = some bs := by
  obtain ⟨pre, c, hc, hd, hb⟩ := h L (by rw [hok]; rfl)
  refine ⟨pre, c, hc, ?_, hb⟩
  intro x hx
  cases hx2 : x.postEffectBlend? with
  | none => rfl
  | some b =>
    have := postEffectBlend_isDraw x b hx2
    rw [hd x hx] at this
    exact absurd this (by simp)

theorem endsWithEffect_blend {b : BlendMode} {m : LuaM Nat}
    (h : EndsWithEffect (translate_blend_3d b) m) (L : lua_State) (k : Nat)
    (hok : (m L).1 = .ok k) :
    ∃ b1 pre c, some b = some b1 ∧ (m L).2.calls = L.calls ++ pre ++ [c]
      ∧ (∀ x ∈ pre, x.postEffectBlend? = none)
      ∧ c.postEffectBlend? = some (translate_blend_3d b1) := by
  obtain ⟨pre, c, h1, h2, h3⟩ := endsWithEffect_elim h L k hok
  exact ⟨b, pre, c, rfl, h1, h2, h3⟩

set_option maxHeartbeats 1000000 in
/-- C12: a `PostEffect` call that returns normally, in any of its three calling styles, has
issued exactly one `drawPostEffect` call, as its last call, and the blend argument of that
call is `translate_blend_3d` applied to the blend mode the caller passed (argument 2 with an
effect object, argument 3 in the name-keyed style, argument 4 in the positional style). -/
theorem postEffect_single_submission (L : lua_State) (k : Nat)
    (hok : (compat_PostEffect L).1 = .ok k) :
    ∃ b pre c, L.env.TranslateBlendMode (L.valueAt (postEffectBlendIndex L)) = some b
      ∧ (compat_PostEffect L).2.calls = L.calls ++ pre ++ [c]
      ∧ (∀ x ∈ pre, x.postEffectBlend? = none)
      ∧ c.postEffectBlend? = some (translate_blend_3d b) := by
  by_cases hs : L.renderer.scope = true
  swap
  · simp [compat_PostEffect, validate_render_scope_bind, hs] at hok
  by_cases hu : (L.valueAt 1).type = LuaType.LUA_TUSERDATA
  · have hidx : postEffectBlendIndex L = 2 := by simp [postEffectBlendIndex, hu]
    rw [hidx]
    simp only [compat_PostEffect, validate_render_scope_bind, lua_isuserdata_bind, hs, hu,
      decide_True, if_true, luaM_ite_apply, PostEffectShader_Cast_bind,
      TranslateBlendMode_bind, LR2D.drawPostEffect] at hok ⊢
    cases he : (L.valueAt 1).postEffectShader? with
    | none => simp [he] at hok
    | some e =>
      cases hb : L.env.TranslateBlendMode (L.valueAt 2) with
      | none => simp [he, hb] at hok
      | some b =>
        simp only [he, hb] at hok ⊢
        refine endsWithEffect_blend ?_ L k hok
        refine endsWithEffect_draw _ _ _ ?_
        rfl
  · have hud : decide ((L.valueAt 1).type = LuaType.LUA_TUSERDATA) = false := by simpa using hu
    by_cases hk : (L.valueAt 1).type = LuaType.LUA_TSTRING ∧ (L.valueAt 2).type = LuaType.LUA_TSTRING
        ∧ (L.valueAt 3).type = LuaType.LUA_TSTRING ∧ (L.valueAt 3).type ≠ LuaType.LUA_TNUMBER
    · have hidx : postEffectBlendIndex L = 3 := by
        unfold postEffectBlendIndex
        rw [if_neg hu, if_pos hk]
      rw [hidx]
      simp only [compat_PostEffect, validate_render_scope_bind, lua_isuserdata_bind, hs, hud,
        if_true, luaM_ite_apply, lua_type_bind, luaL_checkstring_bind,
        TranslateBlendMode_bind, Bool.false_eq_true, if_false, if_pos hk,
        LR2D.drawPostEffect, IPostEffectShader.setFloat, IPostEffectShader.setFloat4,
        IPostEffectShader.setTexture2D] at hok ⊢
      cases h1 : L.env.tostring? (L.valueAt 1) with
      | none => simp [h1] at hok
      | some rt_name =>
        cases h2 : L.env.tostring? (L.valueAt 2) with
        | none => simp [h1, h2] at hok
        | some ps_name =>
          cases hb : L.env.TranslateBlendMode (L.valueAt 3) with
          | none => simp [h1, h2, hb] at hok
          | some b =>
            simp only [h1, h2, hb] at hok ⊢
            refine endsWithEffect_blend ?_ L k hok
            clear hok
            repeat' first
              | fail_if_no_progress dsimp only
              | with_reducible refine endsWithEffect_option_bind ?_ ?_ (fun _ => ?_)
              | focus
                  with_reducible refine endsWithEffect_draw _ _ _ ?_
                  rfl
              | with_reducible refine endsWithEffect_bind ?_ (fun _ => ?_)
              | with_reducible refine endsWithEffect_ite _ ?_ ?_
              | with_reducible exact endsWithEffect_luaL_error _ _
              | with_reducible exact noDraw_postEffectParameters _ _ _
              | focus
                  with_reducible refine noDraw_onEffect _ _ ?_
                  rfl
              | with_reducible refine noDrawM_of_untouched ?_
              | simp [untouched_atoms]
    · have hidx : postEffectBlendIndex L = 4 := by
        unfold postEffectBlendIndex
        rw [if_neg hu, if_neg hk]
      rw [hidx]
      simp only [compat_PostEffect, validate_render_scope_bind, lua_isuserdata_bind, hs, hud,
        if_true, luaM_ite_apply, lua_type_bind, luaL_checkstring_bind, luaL_checkinteger_bind,
        TranslateBlendMode_bind, Bool.false_eq_true, if_false, if_neg hk,
        LR2D.drawPostEffectArrays] at hok ⊢
      cases h1 : L.env.tostring? (L.valueAt 1) with
      | none => simp [h1] at hok
      | some ps_name =>
        cases h2 : L.env.tostring? (L.valueAt 2) with
        | none => simp [h1, h2] at hok
        | some rt_name =>
          cases h3 : L.env.tonumber? (L.valueAt 3) with
          | none => simp [h1, h2, h3] at hok
          | some n =>
            cases hb : L.env.TranslateBlendMode (L.valueAt 4) with
            | none => simp [h1, h2, h3, hb] at hok
            | some b =>
              simp only [h1, h2, h3, hb] at hok ⊢
              refine endsWithEffect_blend ?_ L k hok
              clear hok
              repeat' first
                | fail_if_no_progress dsimp only
                | with_reducible refine endsWithEffect_option_bind ?_ ?_ (fun _ => ?_)
                | focus
                    with_reducible refine endsWithEffect_draw _ _ _ ?_
                    rfl
                | with_reducible refine endsWithEffect_bind ?_ (fun _ => ?_)
                | with_reducible exact endsWithEffect_luaL_error _ _
                | with_reducible exact noDrawM_forLoop _ (fun _ _ => noDraw_postEffectConstant _ _) _ _ _
                | with_reducible exact noDrawM_forLoop _ (fun _ _ => noDraw_postEffectTexture _ _) _ _ _
                | with_reducible refine noDrawM_of_untouched ?_
                | simp [untouched_atoms]

/-- C12 on `PostEffect("rt", "fx", "mul+add")` inside an open scope: the blend mode is read at
index 3, three parameters are bound and the one draw carries the blend state `Add`. -/
theorem postEffect_single_submission_witness :
    postEffectBlendIndex plainEffectCall = 3
    ∧ (callsSince plainEffectCall (compat_PostEffect plainEffectCall).2).map Call.postEffectBlend?
        = [none, none, none, some BlendState.Add]
    ∧ ∃ b pre c,
      plainEffectCall.env.TranslateBlendMode
          (plainEffectCall.valueAt (postEffectBlendIndex plainEffectCall)) = some b
      ∧ (compat_PostEffect plainEffectCall).2.calls = plainEffectCall.calls ++ pre ++ [c]
      ∧ (∀ x ∈ pre, x.postEffectBlend? = none)
      ∧ c.postEffectBlend? = some (translate_blend_3d b) :=
  ⟨by decide!, by decide!, postEffect_single_submission plainEffectCall 0 (by decide!)⟩


/-! ### C13: the transform of a model draw -/

/-- C13: for every model name that resolves and every numeric position, with or without an
open batch scope, `drawModel` returns normally after exactly four calls, in this order:
`setScaling(sx, sy, sz)`, `setRotationRollPitchYaw(roll, pitch, yaw)`, `setPosition(x, y, z)`
and `drawModel`, all on that model; the renderer is as before; an omitted (nil) rotation angle
is 0 and an omitted scale is 1. -/
theorem drawModel_transform_order (L : lua_State) (name : String) (m : ModelId)
    (x y z roll pitch yaw sx sy sz : ℚ)
    (hname : L.env.tostring? (L.valueAt 1) = some name)
    (hm : L.env.FindModel name = some m)
    (hx : L.env.tonumber? (L.valueAt 2) = some x)
    (hy : L.env.tonumber? (L.valueAt 3) = some y)
    (hz : L.env.tonumber? (L.valueAt 4) = some z)
    (hroll : L.env.optnumber? (L.valueAt 5) 0 = some roll)
    (hpitch : L.env.optnumber? (L.valueAt 6) 0 = some pitch)
    (hyaw : L.env.optnumber? (L.valueAt 7) 0 = some yaw)
    (hsx : L.env.optnumber? (L.valueAt 8) 1 = some sx)
    (hsy : L.env.optnumber? (L.valueAt 9) 1 = some sy)
    (hsz : L.env.optnumber? (L.valueAt 10) 1 = some sz) :
    (lib_drawModel L).1 = .ok 0
    ∧ (lib_drawModel L).2.calls = L.calls ++
        [Call.modelSetScaling m sx sy sz,
         Call.modelSetRotationRollPitchYaw m ⟨roll⟩ ⟨pitch⟩ ⟨yaw⟩,
         Call.modelSetPosition m x y z,
         Call.drawModel m]
    ∧ (lib_drawModel L).2.renderer = L.renderer
    ∧ ((L.valueAt 5).type = LuaType.LUA_TNIL → roll = 0)
    ∧ ((L.valueAt 6).type = LuaType.LUA_TNIL → pitch = 0)
    ∧ ((L.valueAt 7).type = LuaType.LUA_TNIL → yaw = 0)
    ∧ ((L.valueAt 8).type = LuaType.LUA_TNIL → sx = 1)
    ∧ ((L.valueAt 9).type = LuaType.LUA_TNIL → sy = 1)
    ∧ ((L.valueAt 10).type = LuaType.LUA_TNIL → sz = 1) := by
  have hdef : ∀ (v : LuaValue) (d q : ℚ), L.env.optnumber? v d = some q →
      v.type = LuaType.LUA_TNIL → q = d := by
    intro v d q h hv
    cases v <;> simp [LuaValue.type] at hv
    simpa [Env.optnumber?] using h.symm
  refine ⟨?_, ?_, ?_, hdef _ _ _ hroll, hdef _ _ _ hpitch, hdef _ _ _ hyaw, hdef _ _ _ hsx,
    hdef _ _ _ hsy, hdef _ _ _ hsz⟩
  all_goals
    simp only [lib_drawModel, luaL_checkstring_bind, luaL_checknumber_bind, luaL_optnumber_bind,
      FindModel_bind, record_bind, LR2D.drawModel, onRenderer_bind, luaM_pure_apply, hname, hm,
      hx, hy, hz, hroll, hpitch, hyaw, hsx, hsy, hsz, Renderer.drawModel, List.append_assoc,
      List.singleton_append, List.cons_append, List.nil_append]

/-- C13 on `RenderModel("ship", 1, 2, 3)` with no batch scope open: scale (1, 1, 1), then
rotation (0, 0, 0), then position (1, 2, 3), then the draw. -/
theorem drawModel_transform_order_witness :
    shipCall.renderer.isBatchScope = false
    ∧ (lib_drawModel shipCall).1 = .ok 0
    ∧ (lib_drawModel shipCall).2.calls = shipCall.calls ++
        [Call.modelSetScaling 3 1 1 1,
         Call.modelSetRotationRollPitchYaw 3 ⟨0⟩ ⟨0⟩ ⟨0⟩,
         Call.modelSetPosition 3 1 2 3,
         Call.drawModel 3]
    ∧ (lib_drawModel shipCall).2.renderer = shipCall.renderer
    ∧ ((shipCall.valueAt 5).type = LuaType.LUA_TNIL → (0 : ℚ) = 0)
    ∧ ((shipCall.valueAt 6).type = LuaType.LUA_TNIL → (0 : ℚ) = 0)
    ∧ ((shipCall.valueAt 7).type = LuaType.LUA_TNIL → (0 : ℚ) = 0)
    ∧ ((shipCall.valueAt 8).type = LuaType.LUA_TNIL → (1 : ℚ) = 1)
    ∧ ((shipCall.valueAt 9).type = LuaType.LUA_TNIL → (1 : ℚ) = 1)
    ∧ ((shipCall.valueAt 10).type = LuaType.LUA_TNIL → (1 : ℚ) = 1) :=
  ⟨rfl, drawModel_transform_order shipCall "ship" 3 1 2 3 0 0 0 1 1 1 rfl rfl rfl rfl rfl rfl
    rfl rfl rfl rfl rfl⟩


/-! ### C14: the Pending Draw State under `PostEffect` and `drawModel` -/

theorem leavesPendingM_of_untouched {α : Type} {m : LuaM α} (h : UntouchedM m) :
    LeavesPendingM m :=
  fun L => ⟨by rw [(h L).1], [], by simp [(h L).2.2.1], by simp⟩

theorem leavesPendingM_bind {α β : Type} {m : LuaM α} {f : α → LuaM β}
    (hm : LeavesPendingM m) (hf : ∀ a, LeavesPendingM (f a)) : LeavesPendingM (m >>= f) := by
  intro L
  rw [luaM_bind_apply]
  obtain ⟨hp, cs, hc, hd⟩ := hm L
  rcases hmL : m L with ⟨res, L1⟩
  rw [hmL] at hp hc
  cases res with
  | error e => exact ⟨hp, cs, hc, hd⟩
  | ok a =>
    obtain ⟨hp2, cs2, hc2, hd2⟩ := hf a L1
    refine ⟨hp2.trans hp, cs ++ cs2, by rw [hc2, hc, List.append_assoc], ?_⟩
    intro c hcmem
    rcases List.mem_append.mp hcmem with h | h
    · exact hd c h
    · exact hd2 c h

theorem leavesPendingM_option_bind {ρ β : Type} {m : LuaM (Option ρ)} {k : Option ρ → LuaM β}
    (hm : LeavesPendingM m) (hnone : LeavesPendingM (k none))
    (hsome : ∀ p, LeavesPendingM (k (some p))) : LeavesPendingM (m >>= k) :=
  leavesPendingM_bind hm (fun r => by cases r; exact hnone; exact hsome _)

theorem leavesPendingM_ite {α : Type} (c : Prop) [Decidable c] {m1 m2 : LuaM α}
    (h1 : LeavesPendingM m1) (h2 : LeavesPendingM m2) :
    LeavesPendingM (if c then m1 else m2) := by
  split
  · exact h1
  · exact h2

theorem leaves_record (c : Call) (h : c.isStateSetter = false) : LeavesPendingM (record c) :=
  fun L => ⟨rfl, [c], rfl, by simpa using h⟩

theorem leaves_onEffect (c : Call) (g : Env → Bool) (h : c.isStateSetter = false) :
    LeavesPendingM (onEffect c g) :=
  fun L => ⟨rfl, [c], rfl, by simpa using h⟩

theorem leaves_onRenderer (c : Call) (g : Renderer → Bool × Renderer)
    (h : c.isStateSetter = false) (hg : ∀ r, (g r).2.pending = r.pending) :
    LeavesPendingM (onRenderer c g) :=
  fun L => ⟨hg L.renderer, [c], rfl, by simpa using h⟩

theorem Renderer.flush_pending (r : Renderer) : (r.flush).2.pending = r.pending := by
  unfold Renderer.flush
  split <;> rfl

theorem leaves_forLoop {σ : Type} (body : Nat → σ → LuaM σ)
    (hbody : ∀ i s, LeavesPendingM (body i s)) (count : Nat) :
    ∀ (first : Nat) (s : σ), LeavesPendingM (forLoop first count body s) := by
  induction count with
  | zero => exact fun _ _ => leavesPendingM_of_untouched (untouchedM_pure _)
  | succ n ih =>
    exact fun first s => leavesPendingM_bind (hbody first s) (fun s1 => ih (first + 1) s1)

theorem leaves_postEffect_bodies :
    (∀ (e : EffectId) (rt : String) (kv : LuaValue × LuaValue),
        LeavesPendingM (postEffectParameter e rt kv))
    ∧ (∀ (i : Nat) (cb : List Vector4F), LeavesPendingM (postEffectConstant i cb))
    ∧ (∀ (i : Nat) (arrays : List (Option TextureId) × List SamplerState),
        LeavesPendingM (postEffectTexture i arrays)) := by
  refine ⟨fun e rt kv => ?_, fun i cb => ?_, fun i arrays => ?_⟩
  all_goals
    first
      | unfold postEffectParameter
      | unfold postEffectConstant
      | unfold postEffectTexture
    try simp only [IPostEffectShader.setFloat, IPostEffectShader.setFloat4,
      IPostEffectShader.setTexture2D]
    repeat' first
      | fail_if_no_progress dsimp only
      | with_reducible refine leavesPendingM_option_bind ?_ ?_ (fun _ => ?_)
      | with_reducible refine leavesPendingM_bind ?_ (fun _ => ?_)
      | with_reducible refine leavesPendingM_ite _ ?_ ?_
      | exact leaves_onEffect _ _ rfl
      | with_reducible refine leavesPendingM_of_untouched ?_
      | simp [untouched_atoms]


theorem leaves_postEffectParameters (e : EffectId) (rt : String)
    (ps : List (LuaValue × LuaValue)) : LeavesPendingM (postEffectParameters e rt ps) := by
  induction ps with
  | nil => exact leavesPendingM_of_untouched (untouchedM_pure _)
  | cons kv rest ih =>
    exact leavesPendingM_bind (leaves_postEffect_bodies.1 e rt kv) (fun _ => ih)

set_option maxHeartbeats 1000000 in
/-- The binding functions `compat_PostEffect` and `lib_drawModel` invoke no setter of the
Pending Draw State and leave it as it was. -/
theorem leaves_run (op : DirectDraw) : LeavesPendingM op.run := by
  cases op
  all_goals
    dsimp only [DirectDraw.run]
    first
      | unfold lib_drawModel
      | unfold compat_PostEffect
    try simp only [LR2D.drawPostEffect, LR2D.drawPostEffectArrays, LR2D.drawModel,
      IPostEffectShader.setFloat, IPostEffectShader.setFloat4, IPostEffectShader.setTexture2D]
    repeat' first
      | fail_if_no_progress dsimp only
      | with_reducible exact leaves_postEffectParameters _ _ _
      | with_reducible exact leaves_forLoop _ (fun _ _ => leaves_postEffect_bodies.2.1 _ _) _ _ _
      | with_reducible exact leaves_forLoop _ (fun _ _ => leaves_postEffect_bodies.2.2 _ _) _ _ _
      | with_reducible refine leavesPendingM_option_bind ?_ ?_ (fun _ => ?_)
      | with_reducible refine leavesPendingM_bind ?_ (fun _ => ?_)
      | with_reducible refine leavesPendingM_ite _ ?_ ?_
      | focus
          with_reducible refine leaves_record _ ?_
          rfl
      | focus
          with_reducible refine leaves_onEffect _ _ ?_
          rfl
      | focus
          with_reducible refine leaves_onRenderer _ Renderer.drawPostEffect ?_ ?_
          · rfl
          · exact fun r => Renderer.flush_pending r
      | focus
          with_reducible refine leaves_onRenderer _ Renderer.drawModel ?_ ?_
          · rfl
          · exact fun _ => rfl
      | with_reducible refine leavesPendingM_of_untouched ?_
      | simp [untouched_atoms]

/-- C14: a `PostEffect` call and a `drawModel` call, whatever their arguments and outcome,
invoke none of the five setters of the Pending Draw State (`setVertexColorBlendState`,
`setFogState`, `setDepthState`, `setBlendState`, `setTexture`), and the Pending Draw State,
each of its five settable axes included, is the same after the call as before it. -/
theorem direct_draws_leave_pending_state (op : DirectDraw) (L : lua_State) :
    (∃ cs, (op.run L).2.calls = L.calls ++ cs ∧ ∀ c ∈ cs, c.isStateSetter = false)
    ∧ (op.run L).2.renderer.pending = L.renderer.pending
    ∧ (op.run L).2.renderer.pending.vertexColorBlend = L.renderer.pending.vertexColorBlend
    ∧ (op.run L).2.renderer.pending.fog = L.renderer.pending.fog
    ∧ (op.run L).2.renderer.pending.depth = L.renderer.pending.depth
    ∧ (op.run L).2.renderer.pending.blend = L.renderer.pending.blend
    ∧ (op.run L).2.renderer.pending.texture = L.renderer.pending.texture := by
  obtain ⟨hp, hcs⟩ := leaves_run op L
  exact ⟨hcs, hp, by rw [hp], by rw [hp], by rw [hp], by rw [hp], by rw [hp]⟩


/-! ### C15: flushing twice -/

/-- C15: for every renderer state, a second `flush()` right after a first one returns true
and changes nothing: the submissions are exactly those after the first call (which added at
most one, the accumulated geometry under the submitted state), the accumulator stays at zero
vertices and zero indices, and the Pending Draw State is the one before the first call. -/
theorem flush_idempotent (r : Renderer) :
    (r.flush).2.flush = (true, (r.flush).2)
    ∧ ((r.flush).2.flush).2.device = (r.flush).2.device
    ∧ (r.flush).2.acc.vertices.length = 0 ∧ (r.flush).2.acc.indices.length = 0
    ∧ ((r.flush).2.flush).2.acc = (r.flush).2.acc
    ∧ ((r.flush).2.flush).2.pending = (r.flush).2.pending
    ∧ (r.flush).2.pending = r.pending
    ∧ ((r.flush).2.device = r.device
        ∨ (r.flush).2.device = r.device ++ [⟨r.submitted, r.acc⟩]) := by
  have hacc : (r.flush).2.acc = Geometry.empty := by
    unfold Renderer.flush
    split
    · assumption
    · rfl
  have h2 : (r.flush).2.flush = (true, (r.flush).2) := Renderer.flush_of_empty _ hacc
  refine ⟨h2, by rw [h2], by rw [hacc]; rfl, by rw [hacc]; rfl, by rw [h2], by rw [h2], ?_, ?_⟩
  · unfold Renderer.flush
    split <;> rfl
  · unfold Renderer.flush
    split
    · exact Or.inl rfl
    · exact Or.inr rfl


/-! ### Pushes followed by as many pops -/

/-- A successful push was made inside a scope, keeps the scope open and puts one frame on
top of the render-target stack. -/
theorem push_ok_stack (L L1 : lua_State) (args : List LuaValue) (k : Nat)
    (h : L.call compat_PushRenderTarget args = (.ok k, L1)) :
    L1.renderer.scope = true
    ∧ ∃ t, L1.renderTargets.stack = t :: L.renderTargets.stack := by
  unfold lua_State.call at h
  rw [compat_PushRenderTarget_apply] at h
  simp only [lua_State.valueAt] at h
  repeat' split at h
  all_goals first
    | (simp only [Prod.mk.injEq, reduceCtorEq, false_and] at h; done)
    | skip
  all_goals
    rename_i hs _ _ _ _ p _ _ _
    have h2 := (Prod.mk.inj h).2
    subst h2
    exact ⟨by simpa [lua_State.flushed, lua_State.lookedUp, Renderer.flush_scope] using hs,
      p.texture, rfl⟩

/-- Inside a scope a pop with a frame above the base frame succeeds, keeps the scope open and
removes that frame. -/
theorem pop_ok_stack (L : lua_State) (t : TextureId) (rest : List TextureId)
    (hs : L.renderer.scope = true) (hst : L.renderTargets.stack = t :: rest) :
    ∃ L1, L.call compat_PopRenderTarget [] = (.ok 0, L1)
      ∧ L1.renderer.scope = true ∧ L1.renderTargets.stack = rest := by
  unfold lua_State.call
  rw [compat_PopRenderTarget_apply]
  simp only [hs, hst, if_true]
  exact ⟨_, rfl, by simpa [lua_State.flushed, Renderer.flush_scope] using hs, rfl⟩


/-- Successful pushes put one frame each on top of the stack and, if there was any, leave the
scope open. -/
theorem pushTargets_stack (argss : List (List LuaValue)) :
    ∀ (L L1 : lua_State), pushTargets argss L = some L1 →
      (argss ≠ [] → L1.renderer.scope = true)
      ∧ ∃ ts, ts.length = argss.length
          ∧ L1.renderTargets.stack = ts ++ L.renderTargets.stack := by
  induction argss with
  | nil =>
    intro L L1 h
    simp only [pushTargets, Option.some.injEq] at h
    subst h
    exact ⟨fun hne => absurd rfl hne, [], rfl, rfl⟩
  | cons args rest ih =>
    intro L L1 h
    simp only [pushTargets] at h
    rcases hcall : L.call compat_PushRenderTarget args with ⟨res, L2⟩
    rw [hcall] at h
    cases res with
    | error e => simp at h
    | ok k =>
      simp only at h
      obtain ⟨hs2, t, ht⟩ := push_ok_stack L L2 args k hcall
      obtain ⟨hscope, ts, hlen, hts⟩ := ih L2 L1 h
      refine ⟨fun _ => ?_, ts ++ [t], by simp [hlen], by simp [hts, ht]⟩
      cases rest with
      | nil =>
        simp only [pushTargets, Option.some.injEq] at h
        subst h
        exact hs2
      | cons a r => exact hscope (by simp)

/-- Inside a scope, as many pops as there are frames above a given part of the stack all
succeed and leave exactly that part. -/
theorem popTargets_stack (ts : List TextureId) :
    ∀ (L : lua_State) (rest : List TextureId), (ts ≠ [] → L.renderer.scope = true) →
      L.renderTargets.stack = ts ++ rest →
      ∃ L2, popTargets ts.length L = some L2 ∧ L2.renderTargets.stack = rest
        ∧ L2.renderer.scope = L.renderer.scope := by
  induction ts with
  | nil =>
    intro L rest _ hst
    exact ⟨L, rfl, by simpa using hst, rfl⟩
  | cons t ts ih =>
    intro L rest hs hst
    have hs1 : L.renderer.scope = true := hs (by simp)
    obtain ⟨L1, hcall, hs2, hst1⟩ := pop_ok_stack L t (ts ++ rest) hs1 (by simpa using hst)
    obtain ⟨L2, hpop, hrest, hsc⟩ := ih L1 rest (fun _ => hs2) hst1
    refine ⟨L2, ?_, hrest, by rw [hsc, hs2, hs1]⟩
    simp only [List.length_cons, popTargets, hcall]
    exact hpop

/-- The stack of render targets: for every sequence of successful `PushRenderTarget` calls,
of any length, followed by as many `PopRenderTarget` calls, every pop succeeds and the stack
of render targets after the last pop is the stack before the first push; each push has put
one target on it.  Viewport and scissor are not part of this stack: what the calls
`setViewportAndScissorRect()` make of them is not part of the repository. -/
theorem pops_restore_render_targets (argss : List (List LuaValue)) (L L1 : lua_State)
    (hpush : pushTargets argss L = some L1) :
    ∃ L2, popTargets argss.length L1 = some L2
      ∧ L2.renderTargets = L.renderTargets
      ∧ L1.renderTargets.stack.length = L.renderTargets.stack.length + argss.length := by
  obtain ⟨hscope, ts, hlen, hts⟩ := pushTargets_stack argss L L1 hpush
  have hne : ts ≠ [] → L1.renderer.scope = true := by
    intro h
    apply hscope
    intro h0
    rw [h0] at hlen
    exact h (List.length_eq_zero.mp hlen)
  obtain ⟨L2, hpop, hrest, _⟩ := popTargets_stack ts L1 L.renderTargets.stack hne hts
  rw [hlen] at hpop
  have heq : L2.renderTargets = L.renderTargets := by
    cases h2 : L2.renderTargets
    cases h0 : L.renderTargets
    rw [h2, h0] at hrest
    simpa using hrest
  refine ⟨L2, hpop, heq, ?_⟩
  rw [hts, List.length_append, hlen, Nat.add_comm]


/-! ### C17: the 16-bit counts and indices -/

theorem toUInt16_le (n : Int) : toUInt16 n ≤ 65535 := by
  unfold toUInt16
  have h1 : n % 65536 < 65536 := Int.emod_lt_of_pos n (by norm_num)
  have h2 : 0 ≤ n % 65536 := Int.emod_nonneg n (by norm_num)
  omega

/-- A draw whose vertices fit one batch succeeds exactly when a scope is open. -/
theorem Renderer.draw_succeeds (r : Renderer) (p : Primitive)
    (hp : p.vertices.length ≤ maxBatchVertices) : (r.draw p).1 = r.scope := by
  unfold Renderer.draw
  cases hs : r.scope
  · rfl
  · simp only [if_true]
    split
    · rfl
    · have hemp : (r.syncState.flush).2.acc = Geometry.empty := by
        unfold Renderer.flush
        split
        · assumption
        · rfl
      have hfit : (r.syncState.flush).2.acc.canReserve p.vertices.length = true := by
        rw [hemp]
        simpa [Geometry.canReserve, Geometry.empty] using hp
      simp only [hfit, if_true]

/-- C17: every value of type `DrawIndex` (`uint16_t`) is at most 65535; whatever integers a
caller passes as `nvert` and `nidx` to `drawRaw` or `drawRequest`, the counts the call
receives are each at most 65535, below the batch capacity of 65536 vertices; so the
requested vertices can always be reserved in an empty accumulator and a `drawRaw` call
succeeds whenever a scope is open: no single draw exceeds the capacity by itself. -/
theorem uint16_counts_fit_one_batch (r : Renderer) (pvert : List DrawVertex) (nvert : Int)
    (pidx : List Int) (nidx : Int) :
    (∀ i : Int, toUInt16 i ≤ 65535)
    ∧ (requestedCounts nvert nidx).1 ≤ 65535
    ∧ (requestedCounts nvert nidx).2 ≤ 65535
    ∧ (requestedCounts nvert nidx).1 < maxBatchVertices
    ∧ Geometry.empty.canReserve (requestedCounts nvert nidx).1 = true
    ∧ (IRenderer.drawRaw r pvert nvert pidx nidx).1 = r.scope := by
  have hv : (requestedCounts nvert nidx).1 ≤ 65535 := toUInt16_le nvert
  refine ⟨toUInt16_le, hv, toUInt16_le nidx, ?_, ?_, ?_⟩
  · unfold maxBatchVertices; omega
  · simp only [Geometry.canReserve, Geometry.empty, List.length_nil, Nat.zero_add,
      decide_eq_true_eq]
    unfold maxBatchVertices; omega
  · unfold IRenderer.drawRaw Renderer.drawRaw
    apply Renderer.draw_succeeds
    simp only [List.length_take]
    unfold maxBatchVertices
    omega


/-! ### C18: the enumeration values forwarded by the setters -/

/-- C18 as stated fails: inside an open scope `setBlendState(200)` returns normally and
forwards the byte 200, above `BlendState::MAX_INDEX` = 11, which becomes the pending blend
state; `setDepthState(-1)` forwards the byte 255, above `DepthState::MAX_INDEX` = 1. -/
theorem out_of_range_state_is_forwarded :
    (lib_setBlendState blendState200Call).1 = .ok 0
    ∧ callsSince blendState200Call (lib_setBlendState blendState200Call).2
        = [Call.setBlendState ⟨200⟩]
    ∧ BlendState.MAX_INDEX.raw < 200
    ∧ (lib_setBlendState blendState200Call).2.renderer.pending.blend.raw = 200
    ∧ (lib_setDepthState depthStateMinusOneCall).1 = .ok 0
    ∧ callsSince depthStateMinusOneCall (lib_setDepthState depthStateMinusOneCall).2
        = [Call.setDepthState ⟨255⟩]
    ∧ DepthState.MAX_INDEX.raw < 255 := by
  refine ⟨rfl, by decide, by decide, by decide, rfl, by decide, by decide⟩


/-- C18, amended: when `setVertexColorBlendState`, `setFogState`, `setDepthState` or
`setBlendState` returns normally, its first argument converts to a number `n`, the call has
made exactly one call, its setter of the renderer, and the enumeration value forwarded is
the integer part of `n` reduced modulo 256, with no range check. -/
theorem enum_setter_forwards_cast (s : EnumSetter) (L : lua_State) (k : Nat)
    (hok : (s.run L).1 = .ok k) :
    ∃ n c, L.env.tonumber? (L.valueAt 1) = some n
      ∧ (s.run L).2.calls = L.calls ++ [c]
      ∧ s.forwarded? c = some (toUInt8 (truncate n)) := by
  cases hn : L.env.tonumber? (L.valueAt 1) with
  | none =>
    exfalso
    cases s
    all_goals
      simp only [EnumSetter.run, lib_setVertexColorBlendState, lib_setFogState, lib_setDepthState,
        lib_setBlendState, validate_render_scope_bind,
        lua_isnumber_bind, lua_tonumber_bind, ColorWrapper_Cast_bind, luaM_pure_bind,
        luaM_ite_apply, luaL_checkinteger_bind, luaL_checknumber_bind,
        luaL_optnumber_bind, hn] at hok
      repeat' split at hok
      all_goals simp at hok
  | some n =>
    refine ⟨n, ?_⟩
    cases s
    all_goals
      simp only [EnumSetter.run, lib_setVertexColorBlendState, lib_setFogState, lib_setDepthState,
        lib_setBlendState, validate_render_scope_bind,
        lua_isnumber_bind, lua_tonumber_bind, ColorWrapper_Cast_bind, luaM_pure_bind,
        luaM_ite_apply, luaL_checkinteger_bind, luaL_checknumber_bind,
        luaL_optnumber_bind, LR2D.setVertexColorBlendState, LR2D.setFogState,
        LR2D.setDepthState, LR2D.setBlendState, onRenderer_bind, luaM_pure_apply, hn] at hok ⊢
      repeat' split
      all_goals first
        | exact ⟨_, trivial, rfl, rfl⟩
        | (exfalso; simp_all)


/-- C18 amended, on `setBlendState(200)` inside an open scope. -/
theorem enum_setter_forwards_cast_witness :
    (EnumSetter.setBlendState.run blendState200Call).1 = .ok 0
    ∧ ∃ n c, blendState200Call.env.tonumber? (blendState200Call.valueAt 1) = some n
      ∧ (EnumSetter.setBlendState.run blendState200Call).2.calls
          = blendState200Call.calls ++ [c]
      ∧ EnumSetter.setBlendState.forwarded? c = some (toUInt8 (truncate n)) :=
  ⟨rfl, enum_setter_forwards_cast EnumSetter.setBlendState blendState200Call 0 rfl⟩


/-! ### C19: the numbering of the enumerations -/

/-- C19: `SamplerState` has exactly the eight enumerators numbered 0 to 7, with `MIN_INDEX`
0, `MAX_INDEX` 7 and `MAX_COUNT` 8; the enumerator named by filter `f` and address mode `a`
has the number `4 * f + a`, and the eight enumerators are exactly these products in order;
`VertexColorBlendState`, `FogState`, `DepthState` and `BlendState` have the enumerators
0 to 4, 0 to 3, 0 to 1 and 0 to 11, `MAX_COUNT` 5, 4, 2 and 12, and `MAX_INDEX` one less. -/
theorem sampler_state_is_filter_times_address :
    SamplerState.enumerators.map (fun s => s.raw) = List.range 8
    ∧ SamplerState.MIN_INDEX.raw = 0 ∧ SamplerState.MAX_INDEX.raw = 7
    ∧ SamplerState.MAX_COUNT.raw = 8
    ∧ (∀ f a, (SamplerState.named f a).raw = 4 * f.index + a.index)
    ∧ SamplerState.enumerators
        = [SamplerFilter.Point, SamplerFilter.Linear].flatMap (fun f =>
            [SamplerAddress.Wrap, SamplerAddress.Clamp, SamplerAddress.BorderBlack,
              SamplerAddress.BorderWhite].map (fun a => SamplerState.named f a))
    ∧ VertexColorBlendState.enumerators.map (fun s => s.raw) = List.range 5
    ∧ VertexColorBlendState.MAX_COUNT.raw = 5
    ∧ VertexColorBlendState.MAX_INDEX.raw = VertexColorBlendState.MAX_COUNT.raw - 1
    ∧ FogState.enumerators.map (fun s => s.raw) = List.range 4
    ∧ FogState.MAX_COUNT.raw = 4
    ∧ FogState.MAX_INDEX.raw = FogState.MAX_COUNT.raw - 1
    ∧ DepthState.enumerators.map (fun s => s.raw) = List.range 2
    ∧ DepthState.MAX_COUNT.raw = 2
    ∧ DepthState.MAX_INDEX.raw = DepthState.MAX_COUNT.raw - 1
    ∧ BlendState.enumerators.map (fun s => s.raw) = List.range 12
    ∧ BlendState.MAX_COUNT.raw = 12
    ∧ BlendState.MAX_INDEX.raw = BlendState.MAX_COUNT.raw - 1 := by
  have hnamed : ∀ f a, (SamplerState.named f a).raw = 4 * f.index + a.index := by
    intro f a
    cases f <;> cases a <;> rfl
  and_intros
  all_goals first
    | exact hnamed
    | decide


/-! ### C20: the fixed arrays of the positional style -/

/-- C20, at the failing input: inside an open scope the positional `PostEffect` call with
five texture entries (`lua_objlen` 5, which `tdata_n <= 8` lets through) looks up all five
textures and ends in the store past the end of the 4-element arrays, before any call is
made; with nine texture entries the count is cut to 4 and the call draws, as the sibling
constant loop does for nine constants, whose count is cut to 8. -/
theorem positional_textures_overrun :
    (lua_objlen 6 fiveTexturesCall).1 = .ok 5
    ∧ (compat_PostEffect fiveTexturesCall).1
        = .error (LuaError.undefinedBehaviour "store past the end of a local array")
    ∧ lookupsSince fiveTexturesCall (compat_PostEffect fiveTexturesCall).2
        = [⟨.fx, "fx", true⟩, ⟨.texture, "rt", true⟩, ⟨.texture, "tex", true⟩,
            ⟨.texture, "tex", true⟩, ⟨.texture, "tex", true⟩, ⟨.texture, "tex", true⟩,
            ⟨.texture, "tex", true⟩]
    ∧ callsSince fiveTexturesCall (compat_PostEffect fiveTexturesCall).2 = []
    ∧ (compat_PostEffect nineTexturesCall).1 = .ok 0
    ∧ callsSince nineTexturesCall (compat_PostEffect nineTexturesCall).2
        = [Call.drawPostEffectArrays 9 BlendState.Add 5 ⟨0⟩ (List.replicate 8 ⟨0, 0, 0, 0⟩) 0
            (List.replicate 4 (some 4)) (List.replicate 4 ⟨0⟩) 4]
    ∧ (compat_PostEffect nineConstantsCall).1 = .ok 0
    ∧ callsSince nineConstantsCall (compat_PostEffect nineConstantsCall).2
        = [Call.drawPostEffectArrays 9 BlendState.Add 5 ⟨0⟩ (List.replicate 8 ⟨1, 2, 3, 4⟩) 8
            (List.replicate 4 none) (List.replicate 4 ⟨0⟩) 0] := by
  refine ⟨by decide!, by decide!, by decide!, by decide!, by decide!, by decide!, by decide!,
    by decide!⟩


/-! ### Pushes, pops and the values on top of the stack -/

theorem stackValueAt_last (s : List LuaValue) (a : LuaValue) :
    stackValueAt (s ++ [a]) (-1) = a := by
  simp [stackValueAt]

theorem stackValueAt_last_but_one (s : List LuaValue) (a b : LuaValue) :
    stackValueAt (s ++ [a, b]) (-2) = a := by
  simp [stackValueAt, List.getElem_append_right]

theorem stackValueAt_last_of_two (s : List LuaValue) (a b : LuaValue) :
    stackValueAt (s ++ [a, b]) (-1) = b := by
  simp [stackValueAt, List.getElem_append_right]

theorem lua_push_bind {β : Type} (v : LuaValue) (f : Unit → LuaM β) (L : lua_State) :
    (lua_push v >>= f) L = f () { L with stack := L.stack ++ [v] } := rfl

theorem onEffect_bind {β : Type} (c : Call) (answer : Env → Bool) (f : Bool → LuaM β)
    (L : lua_State) :
    (onEffect c answer >>= f) L = f (answer L.env) { L with calls := L.calls ++ [c] } := rfl

theorem lua_pop_bind {β : Type} (n : Nat) (f : Unit → LuaM β) (L : lua_State) :
    (lua_pop n >>= f) L = f () { L with stack := L.stack.take (L.stack.length - n) } := rfl

theorem luaL_error_bind {α β : Type} (msg : String) (f : α → LuaM β) (L : lua_State) :
    ((luaL_error msg : LuaM α) >>= f) L = (.error (LuaError.raised msg), L) := rfl

theorem luaM_fail_bind {α β : Type} (e : LuaError) (f : α → LuaM β) (L : lua_State) :
    ((LuaM.fail e : LuaM α) >>= f) L = (.error e, L) := rfl

theorem lua_rawgeti_bind {β : Type} (idx n : Int) (f : Unit → LuaM β) (L : lua_State) :
    (lua_rawgeti idx n >>= f) L
      = match L.valueAt idx with
        | .table fields =>
          f () { L with stack := L.stack ++ [rawget fields (LuaValue.number n)] }
        | _ => (.error (LuaError.undefinedBehaviour
            "lua_rawgeti on a value that is not a table"), L) := by
  rw [luaM_bind_apply, lua_rawgeti]
  cases L.valueAt idx <;> rfl

/-- A positive index inside the stack reads the same value after a push. -/
theorem stackValueAt_append_left (s more : List LuaValue) (idx : Int) (h0 : 0 < idx)
    (h : idx.toNat ≤ s.length) :
    stackValueAt (s ++ more) idx = stackValueAt s idx := by
  unfold stackValueAt
  rw [if_pos h0, if_pos h0, List.getElem?_append_left (by omega)]

/-- The index just above the stack reads the values pushed, in order. -/
theorem stackValueAt_append_right (s more : List LuaValue) (j : Nat) :
    stackValueAt (s ++ more) ((s.length : Int) + 1 + j) = (more[j]?).getD LuaValue.nil := by
  unfold stackValueAt
  have h0 : (0 : Int) < (s.length : Int) + 1 + j := by omega
  rw [if_pos h0]
  have hidx : ((s.length : Int) + 1 + j).toNat - 1 = s.length + j := by omega
  rw [hidx, List.getElem?_append_right (by omega)]
  simp

theorem valueAt_table_inside (L : lua_State) (idx : Int) (h0 : 0 < idx)
    (fields : List (LuaValue × LuaValue)) (h : L.valueAt idx = .table fields) :
    idx.toNat ≤ L.stack.length := by
  unfold lua_State.valueAt stackValueAt at h
  rw [if_pos h0] at h
  by_contra hn
  rw [List.getElem?_eq_none (by omega)] at h
  simp at h

theorem lua_number2str_bind {β : Type} (n : ℚ) (f : String → LuaM β) (L : lua_State) :
    (lua_number2str n >>= f) L = f (L.env.number2str n) L := rfl


/-! ### C21: the parameters of the name-keyed `PostEffect` -/

theorem postEffectParameter_string_key (e : EffectId) (rt_name key : String) (v : LuaValue)
    (L : lua_State) :
    (postEffectParameter e rt_name (.string key, v) L).2.env = L.env
    ∧ match parameterSetter? L.env e key v with
      | some c =>
        (postEffectParameter e rt_name (.string key, v) L).1 = .ok ()
        ∧ (postEffectParameter e rt_name (.string key, v) L).2.calls = L.calls ++ [c]
      | none =>
        (postEffectParameter e rt_name (.string key, v) L).1 = .error (parameterError rt_name v)
        ∧ (postEffectParameter e rt_name (.string key, v) L).2.calls = L.calls := by
  unfold postEffectParameter
  cases v with
  | string s =>
    cases hn : L.env.str2number s with
    | some n =>
      simp [lua_push_bind, luaL_checkstring_bind, lua_State.valueAt, stackValueAt_last,
        stackValueAt_last_but_one, stackValueAt_last_of_two, Env.tostring?, lua_isnumber_bind, lua_isstring_bind,
        lua_tonumber_bind, lua_tostring_bind, lua_isuserdata_bind, ColorWrapper_Cast_bind,
        Env.tonumber?, parameterSetter?, parameterError, hn, IPostEffectShader.setFloat,
        onEffect_bind, luaM_pure_bind, lua_pop_bind, luaL_error_bind, lua_pop, luaM_ite_apply]
    | none =>
      cases hf : L.env.FindTexture s with
      | some p =>
        simp [lua_push_bind, luaL_checkstring_bind, lua_State.valueAt, stackValueAt_last,
          stackValueAt_last_but_one, stackValueAt_last_of_two, Env.tostring?, lua_isnumber_bind, lua_isstring_bind,
          lua_tonumber_bind, lua_tostring_bind, lua_isuserdata_bind, ColorWrapper_Cast_bind,
          Env.tonumber?, parameterSetter?, parameterError, hn, hf,
          IPostEffectShader.setTexture2D, FindTexture_bind,
          onEffect_bind, luaM_pure_bind, lua_pop_bind, luaL_error_bind, lua_pop, luaM_ite_apply]
      | none =>
        simp [lua_push_bind, luaL_checkstring_bind, lua_State.valueAt, stackValueAt_last,
          stackValueAt_last_but_one, stackValueAt_last_of_two, Env.tostring?, lua_isnumber_bind, lua_isstring_bind,
          lua_tonumber_bind, lua_tostring_bind, lua_isuserdata_bind, ColorWrapper_Cast_bind,
          Env.tonumber?, parameterSetter?, parameterError, hn, hf, FindTexture_bind,
          onEffect_bind, luaM_pure_bind, lua_pop_bind, luaL_error_bind, lua_pop, luaM_ite_apply, luaL_error, luaM_fail_bind]
  | userdata u =>
    cases u <;>
    simp [lua_push_bind, luaL_checkstring_bind, lua_State.valueAt, stackValueAt_last,
      stackValueAt_last_but_one, stackValueAt_last_of_two, Env.tostring?, lua_isnumber_bind, lua_isstring_bind,
      lua_tonumber_bind, lua_tostring_bind, lua_isuserdata_bind, ColorWrapper_Cast_bind,
      Env.tonumber?, parameterSetter?, parameterError, IPostEffectShader.setFloat4,
      LuaValue.type, LuaValue.color?,
      onEffect_bind, luaM_pure_bind, lua_pop_bind, luaL_error_bind, lua_pop, luaM_ite_apply, luaL_error, luaM_fail_bind]
  | _ =>
    simp [lua_push_bind, luaL_checkstring_bind, lua_State.valueAt, stackValueAt_last,
      stackValueAt_last_but_one, stackValueAt_last_of_two, Env.tostring?, lua_isnumber_bind, lua_isstring_bind,
      lua_tonumber_bind, lua_tostring_bind, lua_isuserdata_bind, ColorWrapper_Cast_bind,
      Env.tonumber?, parameterSetter?, parameterError, IPostEffectShader.setFloat,
      LuaValue.type,
      onEffect_bind, luaM_pure_bind, lua_pop_bind, luaL_error_bind, lua_pop, luaM_ite_apply, luaL_error, luaM_fail_bind]

theorem postEffectParameters_cons (e : EffectId) (rt_name : String)
    (kv : LuaValue × LuaValue) (rest : List (LuaValue × LuaValue)) (L : lua_State) :
    postEffectParameters e rt_name (kv :: rest) L
      = match postEffectParameter e rt_name kv L with
        | (.ok _, L1) => postEffectParameters e rt_name rest L1
        | (.error err, L1) => (.error err, L1) := by
  rw [postEffectParameters, luaM_bind_apply]
  cases postEffectParameter e rt_name kv L with
  | mk res L1 => cases res <;> rfl

/-- The entries that get a setter call are run through one after the other: the loop goes on
with the rest of the table, the calls made so far being the setters of those entries. -/
theorem postEffectParameters_prefix (e : EffectId) (rt_name : String)
    (pre : List (String × LuaValue)) (rest : List (LuaValue × LuaValue)) :
    ∀ (L : lua_State) (cs : List Call),
      pre.map (fun kv => parameterSetter? L.env e kv.1 kv.2) = cs.map some →
      ∃ L1 : lua_State, L1.env = L.env ∧ L1.calls = L.calls ++ cs
        ∧ postEffectParameters e rt_name
            (pre.map (fun kv => (LuaValue.string kv.1, kv.2)) ++ rest) L
          = postEffectParameters e rt_name rest L1 := by
  induction pre with
  | nil =>
    intro L cs h
    cases cs with
    | nil => exact ⟨L, rfl, by simp, rfl⟩
    | cons c cs => simp at h
  | cons kv pre ih =>
    intro L cs h
    cases cs with
    | nil => simp at h
    | cons c cs =>
      simp only [List.map_cons, List.cons.injEq] at h
      obtain ⟨hc, hrest⟩ := h
      have hstep := postEffectParameter_string_key e rt_name kv.1 kv.2 L
      rw [hc] at hstep
      obtain ⟨henv, hres, hcalls⟩ := hstep
      simp only [List.map_cons, List.cons_append, postEffectParameters_cons]
      revert henv hres hcalls
      cases postEffectParameter e rt_name (LuaValue.string kv.1, kv.2) L with
      | mk res L0 =>
        intro henv hres hcalls
        simp only at henv hres hcalls
        subst hres
        simp only
        rw [← henv] at hrest
        obtain ⟨L1, h1, h2, h3⟩ := ih L0 cs hrest
        exact ⟨L1, h1.trans henv, by rw [h2, hcalls, List.append_assoc]; rfl, h3⟩

/-- C21, amended: in the name-keyed style the loop over a parameter table with string keys
makes one setter call per entry, in order and with the key of the entry, as long as the
value is a number or a string the runtime converts to a number (`setFloat` with that
number), another string that names a texture (`setTexture2D` with that texture) or a colour
object (`setFloat4` with the channels divided by 255); when every entry is of these kinds
the loop returns.  The first entry of another kind stops the loop after the setters of the
entries before it: with the 'texture not found' error for a string that names no texture,
with an argument error for a userdata that is no colour, and with 'PostEffect: invalid data
type.' for everything else. -/
theorem postEffect_parameters_by_kind (e : EffectId) (rt_name : String)
    (ps : List (String × LuaValue)) (L : lua_State) :
    (∀ cs : List Call,
      ps.map (fun kv => parameterSetter? L.env e kv.1 kv.2) = cs.map some →
      (postEffectParameters e rt_name
          (ps.map (fun kv => (LuaValue.string kv.1, kv.2))) L).1 = .ok ()
      ∧ (postEffectParameters e rt_name
          (ps.map (fun kv => (LuaValue.string kv.1, kv.2))) L).2.calls = L.calls ++ cs)
    ∧ (∀ (pre post : List (String × LuaValue)) (kv : String × LuaValue) (cs : List Call),
      ps = pre ++ kv :: post →
      pre.map (fun kv => parameterSetter? L.env e kv.1 kv.2) = cs.map some →
      parameterSetter? L.env e kv.1 kv.2 = none →
      (postEffectParameters e rt_name
          (ps.map (fun kv => (LuaValue.string kv.1, kv.2))) L).1
        = .error (parameterError rt_name kv.2)
      ∧ (postEffectParameters e rt_name
          (ps.map (fun kv => (LuaValue.string kv.1, kv.2))) L).2.calls = L.calls ++ cs) := by
  constructor
  · intro cs h
    obtain ⟨L1, _, h2, h3⟩ := postEffectParameters_prefix e rt_name ps [] L cs h
    rw [List.append_nil] at h3
    rw [h3]
    exact ⟨rfl, h2⟩
  · intro pre post kv cs hps hpre hkv
    subst hps
    obtain ⟨L1, h1, h2, h3⟩ := postEffectParameters_prefix e rt_name pre
      ((LuaValue.string kv.1, kv.2) :: post.map (fun kv => (LuaValue.string kv.1, kv.2)))
      L cs hpre
    rw [List.map_append, List.map_cons, h3, postEffectParameters_cons]
    have hstep := postEffectParameter_string_key e rt_name kv.1 kv.2 L1
    rw [h1, hkv] at hstep
    obtain ⟨_, hres, hcalls⟩ := hstep
    revert hres hcalls
    cases postEffectParameter e rt_name (LuaValue.string kv.1, kv.2) L1 with
    | mk res L0 =>
      intro hres hcalls
      simp only at hres hcalls
      subst hres
      exact ⟨rfl, hcalls.trans h2⟩

/-- The theorem `postEffect_parameters_by_kind` on a table with a number and the name of a
texture: one `setFloat` and one `setTexture2D`, in the order of the table. -/
theorem postEffect_parameters_by_kind_witness :
    sampleParameters.map (fun kv => parameterSetter? sampleEnv 9 kv.1 kv.2)
        = [Call.effectSetFloat 9 "time" 2, Call.effectSetTexture2D 9 "mask" 4].map some
    ∧ (postEffectParameters 9 "rt"
        (sampleParameters.map (fun kv => (LuaValue.string kv.1, kv.2)))
        (luaCall Renderer.fresh [])).1 = .ok ()
    ∧ (postEffectParameters 9 "rt"
        (sampleParameters.map (fun kv => (LuaValue.string kv.1, kv.2)))
        (luaCall Renderer.fresh [])).2.calls
      = [] ++ [Call.effectSetFloat 9 "time" 2, Call.effectSetTexture2D 9 "mask" 4] :=
  ⟨by decide,
    (postEffect_parameters_by_kind 9 "rt" sampleParameters (luaCall Renderer.fresh [])).1
      [Call.effectSetFloat 9 "time" 2, Call.effectSetTexture2D 9 "mask" 4] (by decide)⟩

/-- C21, the counterexample: in `PostEffect("rt", "fx", "mul+add", { mask = "5" })` the
value is a string and a texture of that name exists, yet the runtime reads the string as a
number, so the parameter is set with `setFloat("mask", 5)` and no texture is bound to it.
And a value that is a mesh object is refused with an argument error, not with 'PostEffect:
invalid data type.'. -/
theorem numeric_string_is_set_as_float :
    numericNameEnv.FindTexture "5" = some ⟨6, false, 8, 8⟩
    ∧ (compat_PostEffect numericStringCall).1 = .ok 0
    ∧ Call.effectSetFloat 9 "mask" 5 ∈ (compat_PostEffect numericStringCall).2.calls
    ∧ (compat_PostEffect numericStringCall).2.calls.any
        (fun c => match c with
          | Call.effectSetTexture2D _ name _ => name == "mask"
          | _ => false) = false
    ∧ (compat_PostEffect meshParameterCall).1
        = .error (LuaError.badArgument (-1) "lstg.Color") := by
  decide!


/-! ### C22: the negotiation of the feature level -/

theorem createDeviceLoop_succ (create : CreateDevice) (offset count : Nat) :
    createDeviceLoop create offset (count + 1)
      = match create (target_levels.drop offset) with
        | some level => ⟨[target_levels.drop offset], some level⟩
        | none =>
          ⟨target_levels.drop offset :: (createDeviceLoop create (offset + 1) count).offered,
            (createDeviceLoop create (offset + 1) count).level⟩ := by
  rw [createDeviceLoop]

/-- The loop offers the suffixes from `offset` on, one after the other, stops at the first
attempt that succeeds, and ends without a device only if every attempt failed. -/
theorem createDeviceLoop_spec (create : CreateDevice) (count : Nat) :
    ∀ offset : Nat,
      (∃ k : Nat, k ≤ count
        ∧ (createDeviceLoop create offset count).offered
            = (List.range k).map (fun j => target_levels.drop (offset + j))
        ∧ (∀ j : Nat, j + 1 < k → create (target_levels.drop (offset + j)) = none)
        ∧ ((createDeviceLoop create offset count).level = none →
            k = count ∧ ∀ j : Nat, j < count → create (target_levels.drop (offset + j)) = none)
        ∧ (∀ level, (createDeviceLoop create offset count).level = some level →
            0 < k ∧ create (target_levels.drop (offset + (k - 1))) = some level)) := by
  induction count with
  | zero =>
    intro offset
    refine ⟨0, le_refl _, rfl, fun j hj => by omega, fun _ => ⟨rfl, fun j hj => by omega⟩, ?_⟩
    intro level h
    simp [createDeviceLoop] at h
  | succ count ih =>
    intro offset
    rw [createDeviceLoop_succ]
    cases hc : create (target_levels.drop offset) with
    | some level =>
      refine ⟨1, by omega, by simp [List.range_succ], fun j hj => by omega,
        fun h => by simp at h, ?_⟩
      intro level1 h
      simp only [Option.some.injEq] at h
      exact ⟨by omega, by simpa [hc] using h⟩
    | none =>
      obtain ⟨k, hk, hoff, hfail, hnone, hsome⟩ := ih (offset + 1)
      refine ⟨k + 1, by omega, ?_, ?_, ?_, ?_⟩
      · simp only [hoff, List.range_succ_eq_map, List.map_cons, List.map_map, add_zero]
        congr 1
        apply List.map_congr_left
        intro j _
        simp only [Function.comp, Nat.succ_eq_add_one]
        congr 1
        omega
      · intro j hj
        cases j with
        | zero => simpa using hc
        | succ j =>
          have := hfail j (by omega)
          rw [show offset + (j + 1) = offset + 1 + j by omega]
          exact this
      · intro h
        obtain ⟨h1, h2⟩ := hnone h
        refine ⟨by omega, ?_⟩
        intro j hj
        cases j with
        | zero => simpa using hc
        | succ j =>
          rw [show offset + (j + 1) = offset + 1 + j by omega]
          exact h2 j (by omega)
      · intro level h
        obtain ⟨h1, h2⟩ := hsome level h
        refine ⟨by omega, ?_⟩
        rw [show offset + (k + 1 - 1) = offset + 1 + (k - 1) by omega]
        exact h2

theorem yieldsHighestSupported_some (supports : D3D_FEATURE_LEVEL → Bool)
    (offered : List D3D_FEATURE_LEVEL) (level : D3D_FEATURE_LEVEL)
    (h : yieldsHighestSupported supports offered (some level) = true) :
    level ∈ offered ∧ supports level = true
      ∧ ∀ l ∈ offered, supports l = true → l.version ≤ level.version := by
  simp only [yieldsHighestSupported, Bool.and_eq_true, List.contains_iff_exists_mem_beq,
    List.all_eq_true, Bool.or_eq_true, Bool.not_eq_true', decide_eq_true_eq] at h
  obtain ⟨⟨⟨x, hx, hxl⟩, hs⟩, hall⟩ := h
  have hxe : level = x := by simpa using hxl
  subst hxe
  refine ⟨hx, hs, fun l hl hsl => ?_⟩
  rcases hall l hl with h1 | h1
  · rw [h1] at hsl
    exact absurd hsl (by decide)
  · exact h1

/-- A failed attempt under the assumption: the level at the offset is not supported. -/
theorem yieldsHighestSupported_none (supports : D3D_FEATURE_LEVEL → Bool)
    (j : Nat) (l : D3D_FEATURE_LEVEL) (hl : target_levels[j]? = some l)
    (h : yieldsHighestSupported supports (target_levels.drop j) none = true) :
    supports l = false := by
  obtain ⟨hj, hget⟩ := List.getElem?_eq_some_iff.mp hl
  have hd : target_levels.drop j = l :: target_levels.drop (j + 1) := by
    rw [← hget]
    exact List.drop_eq_getElem_cons hj
  rw [hd] at h
  simpa [yieldsHighestSupported] using h

/-- The levels of `target_levels` are in strictly descending order. -/
theorem target_levels_descending :
    target_levels.Pairwise (fun a b => b.version < a.version) := by
  decide

/-- An attempt that answers with the first supported level of a descending list, and fails
when the list has none, yields the highest supported level in the sense of
`yieldsHighestSupported`. -/
theorem yieldsHighestSupported_find (supports : D3D_FEATURE_LEVEL → Bool) :
    ∀ offered : List D3D_FEATURE_LEVEL,
      offered.Pairwise (fun a b => b.version < a.version) →
      yieldsHighestSupported supports offered (offered.find? (fun l => supports l)) = true := by
  intro offered
  induction offered with
  | nil => intro _; rfl
  | cons a rest ih =>
    intro hp
    obtain ⟨ha, hrest⟩ := List.pairwise_cons.mp hp
    cases hs : supports a with
    | true =>
      rw [List.find?_cons_of_pos _ hs]
      simp only [yieldsHighestSupported, List.contains_cons, beq_self_eq_true, Bool.true_or,
        hs, Bool.true_and, List.all_cons, Bool.not_true, Bool.false_or, le_refl, decide_True,
        List.all_eq_true, Bool.or_eq_true, Bool.not_eq_true', decide_eq_true_eq]
      intro l hl
      exact Or.inr (le_of_lt (ha l hl))
    | false =>
      rw [List.find?_cons_of_neg _ (by simp [hs])]
      have h := ih hrest
      cases hf : rest.find? (fun l => supports l) with
      | none => simp [yieldsHighestSupported, hs]
      | some level =>
        rw [hf] at h
        simp only [yieldsHighestSupported, Bool.and_eq_true, List.contains_iff_exists_mem_beq,
          List.all_eq_true, Bool.or_eq_true, Bool.not_eq_true', decide_eq_true_eq,
          List.mem_cons] at h ⊢
        obtain ⟨⟨⟨x, hx, hxl⟩, hsl⟩, hall⟩ := h
        refine ⟨⟨⟨x, Or.inr hx, hxl⟩, hsl⟩, ?_⟩
        rintro l (rfl | hl)
        · exact Or.inl hs
        · exact hall l hl

/-- A supported level of `target_levels` above which no level is supported is the first
supported level of the list. -/
theorem find_highest_supported (supports : D3D_FEATURE_LEVEL → Bool) (level : D3D_FEATURE_LEVEL)
    (hmem : level ∈ target_levels) (hsup : supports level = true)
    (hmax : ∀ l ∈ target_levels, supports l = true → l.version ≤ level.version) :
    target_levels.find? (fun l => supports l) = some level := by
  obtain ⟨as, bs, hsplit⟩ := List.append_of_mem hmem
  rw [List.find?_eq_some]
  refine ⟨hsup, as, bs, hsplit, ?_⟩
  intro a ha
  have hp := target_levels_descending
  rw [hsplit] at hp
  have hlt : level.version < a.version :=
    (List.pairwise_append.mp hp).2.2 a ha level (List.mem_cons_self _ _)
  cases hs : supports a with
  | false => simp
  | true =>
    have := hmax a (by rw [hsplit]; exact List.mem_append_left _ ha) hs
    omega

/-- C22: device creation offers the suffixes of [12.2, 12.1, 12.0, 11.1, 11.0, 10.1, 10.0]
that start at the positions 0, 1, 2, 3, 4, in that order, attempt `j` offering the last
`7 - j` levels; it makes at least one and at most five attempts, every attempt before the
last one made has failed, the level negotiated is the answer of the last attempt made, and
it stops before the fifth attempt only on a success.  It fails exactly when all five
attempts fail.  If every attempt that succeeds yields the highest level of its offered list
that the system supports, and an attempt fails only when the highest level it offers is not
supported, then the negotiated level, whichever attempt has produced it, is a supported
level of the list and no supported level of the whole list is higher: it is the first
supported level of the descending list; and when the negotiation fails, none of the five
highest levels is supported. -/
theorem feature_level_negotiation (create : CreateDevice) :
    (∃ k : Nat, 1 ≤ k ∧ k ≤ 5
      ∧ (createD3D11 create).2.offered = (List.range k).map (fun j => target_levels.drop j)
      ∧ (∀ j : Nat, j + 1 < k → create (target_levels.drop j) = none)
      ∧ (createD3D11 create).2.level = create (target_levels.drop (k - 1))
      ∧ (k < 5 → (createD3D11 create).2.level ≠ none))
    ∧ (∀ j : Nat, j < 5 → (target_levels.drop j).length = 7 - j
        ∧ target_levels.drop j <:+ target_levels)
    ∧ ((createD3D11 create).1 = false ↔
        ∀ j : Nat, j < 5 → create (target_levels.drop j) = none)
    ∧ ((createD3D11 create).1 = false ↔ (createD3D11 create).2.level = none)
    ∧ ∀ supports : D3D_FEATURE_LEVEL → Bool,
        (∀ j : Nat, j < 5 → yieldsHighestSupported supports (target_levels.drop j)
          (create (target_levels.drop j)) = true) →
        match (createD3D11 create).2.level with
        | some level =>
          level ∈ target_levels ∧ supports level = true
          ∧ (∀ l ∈ target_levels, supports l = true → l.version ≤ level.version)
          ∧ target_levels.find? (fun l => supports l) = some level
        | none => ∀ l ∈ target_levels.take 5, supports l = false := by
  obtain ⟨k, hk, hoff, hfail, hnone, hsome⟩ := createDeviceLoop_spec create 5 0
  simp only [zero_add] at hoff hfail hnone hsome
  have hpair : (createD3D11 create).2 = createDeviceLoop create 0 5 := by
    unfold createD3D11
    simp only
    split <;> rfl
  have hres : (createD3D11 create).1 = false ↔ (createDeviceLoop create 0 5).level = none := by
    unfold createD3D11
    simp only
    cases (createDeviceLoop create 0 5).level <;> simp
  rw [hpair]
  have hk1 : 1 ≤ k := by
    cases hl : (createDeviceLoop create 0 5).level with
    | none => have := (hnone hl).1; omega
    | some level => have := (hsome level hl).1; omega
  refine ⟨⟨k, hk1, hk, hoff, hfail, ?_, ?_⟩, ?_, ?_, hres, ?_⟩
  · cases hl : (createDeviceLoop create 0 5).level with
    | none =>
      obtain ⟨h1, h2⟩ := hnone hl
      exact (h2 (k - 1) (by omega)).symm
    | some level => exact ((hsome level hl).2).symm
  · intro hk5
    cases hl : (createDeviceLoop create 0 5).level with
    | none => have := (hnone hl).1; omega
    | some level => simp
  · intro j hj
    refine ⟨?_, List.drop_suffix j target_levels⟩
    interval_cases j <;> rfl
  · rw [hres]
    constructor
    · intro hl
      exact (hnone hl).2
    · intro hall
      cases hl : (createDeviceLoop create 0 5).level with
      | none => rfl
      | some level =>
        have h2 := (hsome level hl).2
        rw [hall (k - 1) (by omega)] at h2
        exact absurd h2 (by simp)
  · intro supports hyield
    have hhead : ∀ (j : Nat) (l : D3D_FEATURE_LEVEL), j < 5 →
        create (target_levels.drop j) = none → target_levels[j]? = some l →
        supports l = false := by
      intro j l hj hc hl
      have hy := hyield j hj
      rw [hc] at hy
      exact yieldsHighestSupported_none supports j l hl hy
    cases hl : (createDeviceLoop create 0 5).level with
    | none =>
      have hall := (hnone hl).2
      intro l hmem
      obtain ⟨i, hi⟩ := List.mem_iff_getElem?.mp hmem
      obtain ⟨hlen, _⟩ := List.getElem?_eq_some_iff.mp hi
      have hi5 : i < 5 := by
        simp only [List.length_take] at hlen
        omega
      rw [List.getElem?_take_of_lt hi5] at hi
      exact hhead i l hi5 (hall i hi5) hi
    | some level =>
      obtain ⟨hkpos, hck⟩ := hsome level hl
      have hyk := hyield (k - 1) (by omega)
      rw [hck] at hyk
      obtain ⟨hmem, hsup, hmax⟩ := yieldsHighestSupported_some _ _ _ hyk
      have hall : ∀ l ∈ target_levels, supports l = true → l.version ≤ level.version := ?_
      · exact ⟨List.mem_of_mem_drop hmem, hsup, hall,
          find_highest_supported supports level (List.mem_of_mem_drop hmem) hsup hall⟩
      intro l hlmem hls
      obtain ⟨i, hi⟩ := List.mem_iff_getElem?.mp hlmem
      rcases Nat.lt_or_ge i (k - 1) with hlt | hge
      · have := hhead i l (by omega) (hfail i (by omega)) hi
        rw [this] at hls
        exact absurd hls (by decide)
      · apply hmax l _ hls
        have hi2 : (target_levels.drop (k - 1))[i - (k - 1)]? = some l := by
          rw [List.getElem?_drop]
          rw [show k - 1 + (i - (k - 1)) = i by omega]
          exact hi
        exact List.mem_iff_getElem?.mpr ⟨_, hi2⟩

/-- The theorem `feature_level_negotiation` on a system like Windows 7: four attempts fail,
the fifth, offering [11.0, 10.1, 10.0], succeeds and negotiates 11.0. -/
theorem feature_level_negotiation_witness :
    (∀ j : Nat, j < 5 →
      yieldsHighestSupported (fun l => decide (l.version ≤ 110)) (target_levels.drop j)
        (windows_7_system (target_levels.drop j)) = true)
    ∧ (createD3D11 windows_7_system).2.offered.length = 5
    ∧ (createD3D11 windows_7_system).2.level = some D3D_FEATURE_LEVEL.LEVEL_11_0
    ∧ match (createD3D11 windows_7_system).2.level with
      | some level =>
        level ∈ target_levels
        ∧ (fun l : D3D_FEATURE_LEVEL => decide (l.version ≤ 110)) level = true
        ∧ (∀ l ∈ target_levels,
            (fun l : D3D_FEATURE_LEVEL => decide (l.version ≤ 110)) l = true →
            l.version ≤ level.version)
        ∧ target_levels.find?
            (fun l => (fun l : D3D_FEATURE_LEVEL => decide (l.version ≤ 110)) l) = some level
      | none => ∀ l ∈ target_levels.take 5,
          (fun l : D3D_FEATURE_LEVEL => decide (l.version ≤ 110)) l = false :=
  ⟨by decide, by decide, by decide,
    (feature_level_negotiation windows_7_system).2.2.2.2
      (fun l => decide (l.version ≤ 110)) (by decide)⟩


/-! ### C23: the choice of the adapter -/

/-- The probe creates a device exactly when one of the five attempts succeeds. -/
theorem createDeviceLoop_isSome (create : CreateDevice) :
    (createDeviceLoop create 0 5).level.isSome
      = (List.range 5).any (fun offset => (create (target_levels.drop offset)).isSome) := by
  simp only [createDeviceLoop, List.range_succ, List.range_zero, List.nil_append,
    List.cons_append, List.any_cons, List.any_nil, Bool.or_false]
  cases create (target_levels.drop 0) <;> cases create (target_levels.drop (0 + 1))
    <;> cases create (target_levels.drop (0 + 1 + 1))
    <;> cases create (target_levels.drop (0 + 1 + 1 + 1))
    <;> cases create (target_levels.drop (0 + 1 + 1 + 1 + 1)) <;> rfl

theorem probeAdapter_isSome (flag : DXGI_ADAPTER_FLAG) (idx : Nat) (a : IDXGIAdapter1) :
    (probeAdapter flag idx a).isSome = a.isCandidate flag := by
  unfold probeAdapter IDXGIAdapter1.isCandidate
  simp only [createDeviceLoop_isSome]
  cases a.GetDesc1 with
  | none => simp
  | some desc_ =>
    simp only
    by_cases h1 : desc_.Flags &&& flag.SOFTWARE = 0 <;>
    by_cases h2 : desc_.Flags &&& flag.REMOTE = 0 <;>
    cases (List.range 5).any (fun offset => (a.D3D11CreateDevice (target_levels.drop offset)).isSome) <;>
    simp [h1, h2]

theorem probeAdapter_fields (flag : DXGI_ADAPTER_FLAG) (idx : Nat) (a : IDXGIAdapter1)
    (c : AdapterCandidate) (h : probeAdapter flag idx a = some c) :
    c.adapter = idx ∧ c.adapter_name = a.name := by
  unfold probeAdapter at h
  unfold IDXGIAdapter1.name
  cases hd : a.GetDesc1 with
  | none => simp [hd] at h
  | some desc_ =>
    simp only [hd] at h ⊢
    by_cases hs : desc_.Flags &&& flag.SOFTWARE ≠ 0 ∨ desc_.Flags &&& flag.REMOTE ≠ 0
    · simp [hs] at h
    · by_cases hp : (createDeviceLoop a.D3D11CreateDevice 0 5).level.isSome = true
      · simp only [hs, hp, if_false, if_true, Option.some.injEq] at h
        subst h
        exact ⟨rfl, rfl⟩
      · simp [hs, hp] at h

/-- The candidate that the enumeration appends for an adapter that is a candidate. -/
theorem probeAdapter_eq (flag : DXGI_ADAPTER_FLAG) (idx : Nat) (a : IDXGIAdapter1) :
    probeAdapter flag idx a
      = if a.isCandidate flag then
          some ⟨idx, a.name,
            (createDeviceLoop a.D3D11CreateDevice 0 5).level.getD D3D_FEATURE_LEVEL.LEVEL_10_0,
            a.outputs.any id⟩
        else none := by
  unfold probeAdapter IDXGIAdapter1.isCandidate IDXGIAdapter1.name
  rw [← createDeviceLoop_isSome]
  cases a.GetDesc1 with
  | none => simp
  | some desc_ =>
    simp only
    by_cases h1 : desc_.Flags &&& flag.SOFTWARE = 0 <;>
    by_cases h2 : desc_.Flags &&& flag.REMOTE = 0 <;>
    cases (createDeviceLoop a.D3D11CreateDevice 0 5).level <;>
    simp [h1, h2]

theorem enumerateCandidates_eq (flag : DXGI_ADAPTER_FLAG) (adapters : List IDXGIAdapter1) :
    ∀ idx : Nat, enumerateCandidates flag idx adapters
      = ((adapters.enumFrom idx).filter (fun ia => ia.2.isCandidate flag)).map
          (fun ia => (⟨ia.1, ia.2.name,
            (createDeviceLoop ia.2.D3D11CreateDevice 0 5).level.getD
              D3D_FEATURE_LEVEL.LEVEL_10_0,
            ia.2.outputs.any id⟩ : AdapterCandidate)) := by
  induction adapters with
  | nil => intro idx; rfl
  | cons a rest ih =>
    intro idx
    rw [enumerateCandidates, probeAdapter_eq, List.enumFrom_cons, List.filter_cons]
    by_cases hc : a.isCandidate flag = true
    · simp only [hc, if_true, List.map_cons, ih (idx + 1)]
    · simp only [hc, if_false, Bool.false_eq_true, ih (idx + 1)]

theorem selectPreferred_eq (d : Device_D3D11) (cs : List AdapterCandidate) :
    selectPreferred d cs
      = match cs.find? (fun v => decide (v.adapter_name = d.preferred_adapter_name)) with
        | some v => { d with dxgi_adapter := some v.adapter, dxgi_adapter_name := v.adapter_name }
        | none => d := by
  induction cs with
  | nil => rfl
  | cons v rest ih =>
    rw [selectPreferred, List.find?_cons]
    by_cases h : v.adapter_name = d.preferred_adapter_name
    · simp [h]
    · simp only [h, if_false, decide_False, ih]

/-- C23: when no adapter is selected yet, as in the constructor, `selectAdapter` records
the names of the candidates in enumeration order, fails exactly when there is no candidate,
and selects the first candidate named like the preferred adapter if there is one and the
first candidate otherwise; a candidate being an enumerated adapter for which one of the
five attempts creates a Direct3D 11 device, whose description can be read and carries
neither the SOFTWARE nor the REMOTE flag. -/
theorem adapter_selection_rule (flag : DXGI_ADAPTER_FLAG) (adapters : List IDXGIAdapter1)
    (d : Device_D3D11) (hnull : d.dxgi_adapter = none) :
    (selectAdapter flag adapters d).2.dxgi_adapter_names
        = (candidateAdapters flag adapters).map (fun ia => ia.2.name)
    ∧ ((selectAdapter flag adapters d).1 = false ↔ candidateAdapters flag adapters = [])
    ∧ (selectAdapter flag adapters d).2.dxgi_adapter
        = (specifiedAdapter d.preferred_adapter_name (candidateAdapters flag adapters)).map
            (fun ia => ia.1)
    ∧ ∀ ia : Nat × IDXGIAdapter1,
        specifiedAdapter d.preferred_adapter_name (candidateAdapters flag adapters) = some ia →
        (selectAdapter flag adapters d).2.dxgi_adapter_name = ia.2.name := by
  unfold selectAdapter specifiedAdapter candidateAdapters
  simp only [enumerateCandidates_eq, selectPreferred_eq, List.find?_map, Function.comp_def]
  generalize (adapters.enumFrom 0).filter (fun ia => ia.2.isCandidate flag) = cands
  cases hfind : cands.find? (fun ia => decide (ia.2.name = d.preferred_adapter_name)) with
  | some ia =>
    have hne : cands ≠ [] := by
      intro h
      rw [h] at hfind
      simp at hfind
    cases cands with
    | nil => exact absurd rfl hne
    | cons c rest =>
      simp only [Option.map_some', List.map_cons, Option.isNone_some, Bool.false_eq_true,
        if_false, Option.isSome_some, if_true, List.map_map, Function.comp_def]
      refine ⟨trivial, ?_, trivial, ?_⟩
      · simp
      · intro ia1 h
        simp only [Option.some.injEq] at h
        rw [← h]
  | none =>
    cases cands with
    | nil => simp [hnull]
    | cons c rest =>
      simp only [Option.map_none', hnull, Option.isNone_none, if_true, List.map_cons,
        Option.isSome_some, List.map_map, Function.comp_def, List.head?_cons, Option.map_some']
      refine ⟨trivial, ?_, trivial, ?_⟩
      · simp
      · intro ia1 h
        simp only [Option.some.injEq] at h
        rw [← h]

/-- The theorem `adapter_selection_rule` on the sample system with `Card B` preferred: the
software adapter and the adapter without a description are no candidates, the recorded
names are those of the two cards, and the second card is selected. -/
theorem adapter_selection_rule_witness :
    (Device_D3D11.initial "Card B").dxgi_adapter = none
    ∧ (selectAdapter DXGI_ADAPTER_FLAG.sdk sampleAdapters
        (Device_D3D11.initial "Card B")).2.dxgi_adapter_names
        = (candidateAdapters DXGI_ADAPTER_FLAG.sdk sampleAdapters).map (fun ia => ia.2.name)
    ∧ (selectAdapter DXGI_ADAPTER_FLAG.sdk sampleAdapters
        (Device_D3D11.initial "Card B")).2.dxgi_adapter_names = ["Card A", "Card B"]
    ∧ (selectAdapter DXGI_ADAPTER_FLAG.sdk sampleAdapters
        (Device_D3D11.initial "Card B")).2.dxgi_adapter = some 2
    ∧ (selectAdapter DXGI_ADAPTER_FLAG.sdk sampleAdapters
        (Device_D3D11.initial "Card C")).2.dxgi_adapter = some 1 :=
  ⟨rfl,
    (adapter_selection_rule DXGI_ADAPTER_FLAG.sdk sampleAdapters
      (Device_D3D11.initial "Card B") rfl).1,
    by decide, by decide, by decide⟩

/-- Why `adapter_selection_rule` asks for a device object without an adapter: the function
does not reset `dxgi_adapter`, so an adapter selected before would be kept when no candidate
is found.  In the sources `selectAdapter` runs once, from the constructor. -/
theorem selectAdapter_keeps_earlier_adapter :
    (selectAdapter DXGI_ADAPTER_FLAG.sdk [] ⟨"Card B", some 7, "Card Z", []⟩).1 = true
    ∧ (selectAdapter DXGI_ADAPTER_FLAG.sdk [] ⟨"Card B", some 7, "Card Z", []⟩).2.dxgi_adapter
        = some 7 := by
  decide


/-! ### C24: the vertices of `drawTriangle` and `drawQuad` -/

/-- With the six entries of the table at `t` numbers and the stack ending just below
`base`, the block reads the vertex of the table and leaves the stack as it was. -/
theorem readVertexAt_exact (t : Int) (L : lua_State) (fields : List (LuaValue × LuaValue))
    (a : Nat → ℚ) (h0 : 0 < t) (ht : L.valueAt t = .table fields)
    (hnum : ∀ k : Nat, 1 ≤ k → k ≤ 6 →
      L.env.tonumber? (rawget fields (LuaValue.number (k : ℚ))) = some (a k)) :
    readVertexAt t ((L.stack.length : Int) + 1) L
      = (.ok ⟨a 1, a 2, a 3, toUInt32 (a 6), a 4, a 5⟩, L) := by
  have hin := valueAt_table_inside L t h0 fields ht
  have hkeep : ∀ more : List LuaValue,
      stackValueAt (L.stack ++ more) t = .table fields := by
    intro more
    rw [stackValueAt_append_left _ _ _ h0 hin]
    exact ht
  have h1 := hnum 1 (by omega) (by omega)
  have h2 := hnum 2 (by omega) (by omega)
  have h3 := hnum 3 (by omega) (by omega)
  have h4 := hnum 4 (by omega) (by omega)
  have h5 := hnum 5 (by omega) (by omega)
  have h6 := hnum 6 (by omega) (by omega)
  simp only [Nat.cast_ofNat, Nat.cast_one] at h1 h2 h3 h4 h5 h6
  have e0 := stackValueAt_append_right L.stack
    [rawget fields (.number 1), rawget fields (.number 2), rawget fields (.number 3),
      rawget fields (.number 4), rawget fields (.number 5), rawget fields (.number 6)] 0
  have e1 := stackValueAt_append_right L.stack
    [rawget fields (.number 1), rawget fields (.number 2), rawget fields (.number 3),
      rawget fields (.number 4), rawget fields (.number 5), rawget fields (.number 6)] 1
  have e2 := stackValueAt_append_right L.stack
    [rawget fields (.number 1), rawget fields (.number 2), rawget fields (.number 3),
      rawget fields (.number 4), rawget fields (.number 5), rawget fields (.number 6)] 2
  have e3 := stackValueAt_append_right L.stack
    [rawget fields (.number 1), rawget fields (.number 2), rawget fields (.number 3),
      rawget fields (.number 4), rawget fields (.number 5), rawget fields (.number 6)] 3
  have e4 := stackValueAt_append_right L.stack
    [rawget fields (.number 1), rawget fields (.number 2), rawget fields (.number 3),
      rawget fields (.number 4), rawget fields (.number 5), rawget fields (.number 6)] 4
  have e5 := stackValueAt_append_right L.stack
    [rawget fields (.number 1), rawget fields (.number 2), rawget fields (.number 3),
      rawget fields (.number 4), rawget fields (.number 5), rawget fields (.number 6)] 5
  simp only [Nat.cast_ofNat, Nat.cast_one, Nat.cast_zero, add_zero, List.getElem?_cons_zero,
    List.getElem?_cons_succ, Option.getD_some] at e0 e1 e2 e3 e4 e5
  have ht0 : stackValueAt L.stack t = .table fields := ht
  unfold readVertexAt
  simp only [lua_rawgeti_bind, lua_State.valueAt, List.append_assoc, List.singleton_append,
    List.cons_append, List.nil_append, ht0, hkeep, luaL_checknumber_bind,
    Int.cast_ofNat, Int.cast_one, e0, e1, e2, e3, e4, e5, h1, h2, h3, h4, h5, h6, lua_pop_bind]
  simp [luaM_pure_apply]

theorem readVertexAt_bind_exact {β : Type} (t base : Int) (L : lua_State)
    (fields : List (LuaValue × LuaValue)) (a : Nat → ℚ) (f : DrawVertex → LuaM β)
    (hbase : base = (L.stack.length : Int) + 1) (h0 : 0 < t)
    (ht : L.valueAt t = .table fields)
    (hnum : ∀ k : Nat, 1 ≤ k → k ≤ 6 →
      L.env.tonumber? (rawget fields (LuaValue.number (k : ℚ))) = some (a k)) :
    (readVertexAt t base >>= f) L = f ⟨a 1, a 2, a 3, toUInt32 (a 6), a 4, a 5⟩ L := by
  subst hbase
  exact luaM_bind_of_ok _ _ _ _ _ (readVertexAt_exact t L fields a h0 ht hnum)

/-- With exactly three tables of six numbers on the stack and nothing else, `drawTriangle`
forwards, for each table, the entries 1 to 6 as (x, y, z, u, v, color), the colour converted
to 32 bits. -/
theorem drawTriangle_exact_arguments (L : lua_State)
    (f1 f2 f3 : List (LuaValue × LuaValue)) (a1 a2 a3 : Nat → ℚ)
    (hscope : L.renderer.scope = true)
    (hstack : L.stack = [.table f1, .table f2, .table f3])
    (h1 : ∀ k : Nat, 1 ≤ k → k ≤ 6 →
      L.env.tonumber? (rawget f1 (LuaValue.number (k : ℚ))) = some (a1 k))
    (h2 : ∀ k : Nat, 1 ≤ k → k ≤ 6 →
      L.env.tonumber? (rawget f2 (LuaValue.number (k : ℚ))) = some (a2 k))
    (h3 : ∀ k : Nat, 1 ≤ k → k ≤ 6 →
      L.env.tonumber? (rawget f3 (LuaValue.number (k : ℚ))) = some (a3 k)) :
    (lib_drawTriangle L).1 = .ok 0
    ∧ (lib_drawTriangle L).2.calls = L.calls ++
        [Call.drawTriangle ⟨a1 1, a1 2, a1 3, toUInt32 (a1 6), a1 4, a1 5⟩
          ⟨a2 1, a2 2, a2 3, toUInt32 (a2 6), a2 4, a2 5⟩
          ⟨a3 1, a3 2, a3 3, toUInt32 (a3 6), a3 4, a3 5⟩] := by
  have hlen : (4 : Int) = (L.stack.length : Int) + 1 := by rw [hstack]; rfl
  have ht1 : L.valueAt 1 = .table f1 := by
    unfold lua_State.valueAt
    rw [hstack]
    rfl
  have ht2 : L.valueAt 2 = .table f2 := by
    unfold lua_State.valueAt
    rw [hstack]
    rfl
  have ht3 : L.valueAt 3 = .table f3 := by
    unfold lua_State.valueAt
    rw [hstack]
    rfl
  unfold lib_drawTriangle
  rw [validate_render_scope_bind, if_pos hscope,
    readVertexAt_bind_exact 1 4 L f1 a1 _ hlen (by decide) ht1 h1,
    readVertexAt_bind_exact 2 4 L f2 a2 _ hlen (by decide) ht2 h2,
    readVertexAt_bind_exact 3 4 L f3 a3 _ hlen (by decide) ht3 h3]
  exact ⟨rfl, rfl⟩

/-- The same for `drawQuad` with exactly four tables of six numbers. -/
theorem drawQuad_exact_arguments (L : lua_State)
    (f1 f2 f3 f4 : List (LuaValue × LuaValue)) (a1 a2 a3 a4 : Nat → ℚ)
    (hscope : L.renderer.scope = true)
    (hstack : L.stack = [.table f1, .table f2, .table f3, .table f4])
    (h1 : ∀ k : Nat, 1 ≤ k → k ≤ 6 →
      L.env.tonumber? (rawget f1 (LuaValue.number (k : ℚ))) = some (a1 k))
    (h2 : ∀ k : Nat, 1 ≤ k → k ≤ 6 →
      L.env.tonumber? (rawget f2 (LuaValue.number (k : ℚ))) = some (a2 k))
    (h3 : ∀ k : Nat, 1 ≤ k → k ≤ 6 →
      L.env.tonumber? (rawget f3 (LuaValue.number (k : ℚ))) = some (a3 k))
    (h4 : ∀ k : Nat, 1 ≤ k → k ≤ 6 →
      L.env.tonumber? (rawget f4 (LuaValue.number (k : ℚ))) = some (a4 k)) :
    (lib_drawQuad L).1 = .ok 0
    ∧ (lib_drawQuad L).2.calls = L.calls ++
        [Call.drawQuad ⟨a1 1, a1 2, a1 3, toUInt32 (a1 6), a1 4, a1 5⟩
          ⟨a2 1, a2 2, a2 3, toUInt32 (a2 6), a2 4, a2 5⟩
          ⟨a3 1, a3 2, a3 3, toUInt32 (a3 6), a3 4, a3 5⟩
          ⟨a4 1, a4 2, a4 3, toUInt32 (a4 6), a4 4, a4 5⟩] := by
  have hlen : (5 : Int) = (L.stack.length : Int) + 1 := by rw [hstack]; rfl
  have ht1 : L.valueAt 1 = .table f1 := by
    unfold lua_State.valueAt
    rw [hstack]
    rfl
  have ht2 : L.valueAt 2 = .table f2 := by
    unfold lua_State.valueAt
    rw [hstack]
    rfl
  have ht3 : L.valueAt 3 = .table f3 := by
    unfold lua_State.valueAt
    rw [hstack]
    rfl
  have ht4 : L.valueAt 4 = .table f4 := by
    unfold lua_State.valueAt
    rw [hstack]
    rfl
  unfold lib_drawQuad
  rw [validate_render_scope_bind, if_pos hscope,
    readVertexAt_bind_exact 1 5 L f1 a1 _ hlen (by decide) ht1 h1,
    readVertexAt_bind_exact 2 5 L f2 a2 _ hlen (by decide) ht2 h2,
    readVertexAt_bind_exact 3 5 L f3 a3 _ hlen (by decide) ht3 h3,
    readVertexAt_bind_exact 4 5 L f4 a4 _ hlen (by decide) ht4 h4]
  exact ⟨rfl, rfl⟩

/-- C24, at the failing input: with exactly three tables `drawTriangle` forwards the entries
of each table as (x, y, z, u, v, color); with one more argument, `drawTriangle(v1, v2, v3,
0)`, the reads at the stack indices 4 to 9 start at that argument, and every vertex reaches
the renderer as (0, entry 1, entry 2, entry 3, entry 4, entry 5).  `drawQuad` with a fifth
argument that is a string fails on it with an argument error and draws nothing. -/
theorem extra_argument_shifts_vertices :
    (lib_drawTriangle triangleCall).2.calls
        = [Call.drawTriangle ⟨1, 2, 3, 6, 4, 5⟩ ⟨11, 12, 13, 16, 14, 15⟩
            ⟨21, 22, 23, 26, 24, 25⟩]
    ∧ (lib_drawTriangle triangleWithExtraArgument).1 = .ok 0
    ∧ (lib_drawTriangle triangleWithExtraArgument).2.calls
        = [Call.drawTriangle ⟨0, 1, 2, 5, 3, 4⟩ ⟨0, 11, 12, 15, 13, 14⟩
            ⟨0, 21, 22, 25, 23, 24⟩]
    ∧ (lib_drawQuad quadWithExtraArgument).1 = .error (LuaError.badArgument 5 "number")
    ∧ (lib_drawQuad quadWithExtraArgument).2.calls = [] := by
  decide!


/-! ### Conversions to `float` -/

theorem luaL_checkfloat_bind {β : Type} (i : Int) (f : ℚ → LuaM β) (L : lua_State) :
    (luaL_checkfloat i >>= f) L = match L.env.tonumber? (L.valueAt i) with
      | some d =>
        if |d| ≤ FLT_MAX then f (roundFloat d) L
        else (.error (LuaError.undefinedBehaviour
          "conversion to float of a number outside the range of float"), L)
      | none => (.error (LuaError.badArgument i "number"), L) := by
  rw [luaM_bind_apply, luaL_checkfloat, luaL_checknumber_bind]
  cases L.env.tonumber? (L.valueAt i) with
  | none => rfl
  | some d =>
    simp only [static_cast_float]
    by_cases h : |d| ≤ FLT_MAX
    · rw [if_pos h, if_pos h]
    · rw [if_neg h, if_neg h]

/-- Sample values of the conversion: the integers up to `2^24` and the halves, quarters and so
on that 24 binary digits can hold are kept; `2^24 + 1` lies half way between two values and
goes to the even one; values too small for the smallest step go to 0. -/
theorem roundFloat_samples :
    roundFloat 0 = 0 ∧ roundFloat 1 = 1 ∧ roundFloat (-1) = -1 ∧ roundFloat (-2) = -2
    ∧ roundFloat 10 = 10 ∧ roundFloat (1 / 2) = 1 / 2 ∧ roundFloat 16777216 = 16777216
    ∧ roundFloat 16777217 = 16777216 ∧ roundFloat 16777219 = 16777220
    ∧ roundFloat (1 / 10) = 13421773 / 134217728
    ∧ roundFloat (1 / 2 ^ 200) = 0 ∧ roundFloat FLT_MAX = FLT_MAX := by
  decide!

/-! ### C25: the fog mode of `SetFog` -/

/-- What `api_setFogState` does: it returns, after exactly one `setFogState` call chosen by
the two numbers. -/
theorem api_setFogState_calls (start stop : ℚ) (color : Color4B) (L : lua_State) :
    (api_setFogState start stop color L).1 = .ok ()
    ∧ (api_setFogState start stop color L).2.calls = L.calls ++ [
        if start = stop then Call.setFogState FogState.Disable ⟨0⟩ 0 0
        else if start = -1 then Call.setFogState FogState.Exp color stop 0
        else if start = -2 then Call.setFogState FogState.Exp2 color stop 0
        else Call.setFogState FogState.Linear color start stop] := by
  unfold api_setFogState
  by_cases h1 : start = stop
  · rw [if_neg (not_not.mpr h1), if_pos h1]
    exact ⟨rfl, rfl⟩
  · rw [if_pos h1, if_neg h1]
    by_cases h2 : start = -1
    · rw [if_pos h2, if_pos h2]
      exact ⟨rfl, rfl⟩
    · rw [if_neg h2, if_neg h2]
      by_cases h3 : start = -2
      · rw [if_pos h3, if_pos h3]
        exact ⟨rfl, rfl⟩
      · rw [if_neg h3, if_neg h3]
        exact ⟨rfl, rfl⟩

theorem api_setFogState_bind {β : Type} (start stop : ℚ) (color : Color4B)
    (f : Unit → LuaM β) (L : lua_State) :
    (api_setFogState start stop color >>= f) L
      = f () (api_setFogState start stop color L).2 := by
  rw [luaM_bind_apply]
  have h := (api_setFogState_calls start stop color L).1
  revert h
  cases api_setFogState start stop color L with
  | mk res L1 =>
    intro h
    simp only at h
    subst h
    rfl

/-- What a call of `SetFog` that returns has done: one `setFogState` call, chosen by the two
numbers as `float`. -/
theorem compat_SetFog_calls (L : lua_State) (k : Nat)
    (hok : (compat_SetFog L).1 = .ok k) :
    ∃ a b : ℚ, ∃ color : Color4B,
      (2 ≤ L.stack.length → L.env.tonumber? (L.valueAt 1) = some a
        ∧ L.env.tonumber? (L.valueAt 2) = some b ∧ |a| ≤ FLT_MAX ∧ |b| ≤ FLT_MAX)
      ∧ (L.stack.length = 2 → color = ⟨0xFF000000⟩)
      ∧ (3 ≤ L.stack.length → (L.valueAt 3).color? = some color)
      ∧ (compat_SetFog L).2.calls = L.calls ++ [
          if L.stack.length < 2 ∨ roundFloat a = roundFloat b then
            Call.setFogState FogState.Disable ⟨0⟩ 0 0
          else if roundFloat a = -1 then
            Call.setFogState FogState.Exp color (roundFloat b) 0
          else if roundFloat a = -2 then
            Call.setFogState FogState.Exp2 color (roundFloat b) 0
          else Call.setFogState FogState.Linear color (roundFloat a) (roundFloat b)] := by
  unfold compat_SetFog at hok ⊢
  rw [lua_gettop_bind] at hok ⊢
  by_cases h3 : L.stack.length ≥ 3
  · rw [if_pos h3] at hok ⊢
    simp only [luaL_checkfloat_bind, ColorWrapper_Cast_bind] at hok ⊢
    cases h1 : L.env.tonumber? (L.valueAt 1) with
    | none => simp [h1] at hok
    | some a =>
      by_cases ha : |a| ≤ FLT_MAX
      swap
      · simp [h1, ha] at hok
      cases h2 : L.env.tonumber? (L.valueAt 2) with
      | none => simp [h1, h2, ha] at hok
      | some b =>
        by_cases hb : |b| ≤ FLT_MAX
        swap
        · simp [h1, h2, ha, hb] at hok
        cases hc : (L.valueAt 3).color? with
        | none => simp [h1, h2, ha, hb, hc] at hok
        | some color =>
          refine ⟨a, b, color, fun _ => ⟨rfl, rfl, ha, hb⟩, fun h => by omega, fun _ => rfl, ?_⟩
          simp only [if_pos ha, if_pos hb, api_setFogState_bind]
          have hlt : ¬ L.stack.length < 2 := by omega
          simp only [hlt, false_or]
          exact (api_setFogState_calls (roundFloat a) (roundFloat b) color L).2
  · by_cases h2 : L.stack.length = 2
    · rw [if_neg h3, if_pos h2] at hok ⊢
      simp only [luaL_checkfloat_bind] at hok ⊢
      cases h1 : L.env.tonumber? (L.valueAt 1) with
      | none => simp [h1] at hok
      | some a =>
        by_cases ha : |a| ≤ FLT_MAX
        swap
        · simp [h1, ha] at hok
        cases h2n : L.env.tonumber? (L.valueAt 2) with
        | none => simp [h1, h2n, ha] at hok
        | some b =>
          by_cases hb : |b| ≤ FLT_MAX
          swap
          · simp [h1, h2n, ha, hb] at hok
          refine ⟨a, b, ⟨0xFF000000⟩, fun _ => ⟨rfl, rfl, ha, hb⟩, fun _ => rfl,
            fun h => by omega, ?_⟩
          simp only [if_pos ha, if_pos hb, api_setFogState_bind]
          have hlt : ¬ L.stack.length < 2 := by omega
          simp only [hlt, false_or]
          exact (api_setFogState_calls (roundFloat a) (roundFloat b) ⟨0xFF000000⟩ L).2
    · rw [if_neg h3, if_neg h2] at hok ⊢
      refine ⟨0, 0, ⟨0⟩, fun h => by omega, fun h => absurd h h2, fun h => by omega, ?_⟩
      simp only [api_setFogState_bind]
      have hlt : L.stack.length < 2 := by omega
      simp only [hlt, true_or, if_true]
      exact (api_setFogState_calls 0 0 ⟨0⟩ L).2

theorem compat_SetFog_of_numbers (L : lua_State) (a b : ℚ)
    (h1 : L.env.tonumber? (L.valueAt 1) = some a) (h2 : L.env.tonumber? (L.valueAt 2) = some b)
    (ha : |a| ≤ FLT_MAX) (hb : |b| ≤ FLT_MAX) (hlen : 2 ≤ L.stack.length)
    (hcol : 3 ≤ L.stack.length → ∃ c, (L.valueAt 3).color? = some c) :
    (compat_SetFog L).1 = .ok 0 := by
  unfold compat_SetFog
  rw [lua_gettop_bind]
  by_cases h3 : L.stack.length ≥ 3
  · obtain ⟨c, hc⟩ := hcol h3
    rw [if_pos h3]
    simp only [luaL_checkfloat_bind, ColorWrapper_Cast_bind, h1, h2, hc, if_pos ha, if_pos hb,
      api_setFogState_bind]
    rfl
  · have h2l : L.stack.length = 2 := by omega
    rw [if_neg h3, if_pos h2l]
    simp only [luaL_checkfloat_bind, h1, h2, if_pos ha, if_pos hb, api_setFogState_bind]
    rfl

theorem compat_SetFog_of_few (L : lua_State) (hlen : L.stack.length < 2) :
    (compat_SetFog L).1 = .ok 0 := by
  unfold compat_SetFog
  rw [lua_gettop_bind]
  have h3 : ¬ L.stack.length ≥ 3 := by omega
  have h2 : ¬ L.stack.length = 2 := by omega
  rw [if_neg h3, if_neg h2]
  simp only [api_setFogState_bind]
  rfl

theorem compat_SetFog_result (L : lua_State) (k : Nat)
    (hok : (compat_SetFog L).1 = .ok k) : k = 0 := by
  unfold compat_SetFog at hok
  rw [lua_gettop_bind] at hok
  by_cases h3 : L.stack.length ≥ 3
  · rw [if_pos h3] at hok
    simp only [luaL_checkfloat_bind, ColorWrapper_Cast_bind] at hok
    repeat' split at hok
    all_goals first
      | (simp only [reduceCtorEq] at hok)
      | (simp only [api_setFogState_bind] at hok
         exact (Except.ok.inj hok).symm)
  · by_cases h2 : L.stack.length = 2
    · rw [if_neg h3, if_pos h2] at hok
      simp only [luaL_checkfloat_bind] at hok
      repeat' split at hok
      all_goals first
        | (simp only [reduceCtorEq] at hok)
        | (simp only [api_setFogState_bind] at hok
           exact (Except.ok.inj hok).symm)
    · rw [if_neg h3, if_neg h2] at hok
      simp only [api_setFogState_bind] at hok
      exact (Except.ok.inj hok).symm

/-- C25, amended: for every call of `SetFog` whose first two arguments, when there are two
and they are numbers, lie within the range of `float`: the call returns when fewer than two
arguments are given, and when the first two arguments are numbers and the third, if there
is one, is a colour object.  A call that returns has made exactly one `setFogState` call,
chosen by `start` and `end`, the first two arguments converted to `float`: the disabled
state (mode Disable, zero colour, both parameters 0) when fewer than two arguments are given
or `start` equals `end`; otherwise Exp with density `end` when `start` is -1, Exp2 with
density `end` when `start` is -2, and Linear with (near, far) = (`start`, `end`) in every
other case.  The colour is the third argument when there is one and 0xFF000000 when there
are exactly two arguments. -/
theorem setFog_mode_selection (L : lua_State)
    (hrange : ∀ (i : Nat) (d : ℚ), 1 ≤ i → i ≤ 2 → 2 ≤ L.stack.length →
      L.env.tonumber? (L.valueAt i) = some d → |d| ≤ FLT_MAX) :
    ((L.stack.length < 2
        ∨ ∃ a b : ℚ, L.env.tonumber? (L.valueAt 1) = some a
            ∧ L.env.tonumber? (L.valueAt 2) = some b
            ∧ (3 ≤ L.stack.length → ∃ c, (L.valueAt 3).color? = some c)) →
      (compat_SetFog L).1 = .ok 0)
    ∧ ∀ k : Nat, (compat_SetFog L).1 = .ok k →
      k = 0 ∧ ∃ a b : ℚ, ∃ color : Color4B,
        (2 ≤ L.stack.length → L.env.tonumber? (L.valueAt 1) = some a
          ∧ L.env.tonumber? (L.valueAt 2) = some b)
        ∧ (L.stack.length = 2 → color = ⟨0xFF000000⟩)
        ∧ (3 ≤ L.stack.length → (L.valueAt 3).color? = some color)
        ∧ (compat_SetFog L).2.calls = L.calls ++ [
            if L.stack.length < 2 ∨ roundFloat a = roundFloat b then
              Call.setFogState FogState.Disable ⟨0⟩ 0 0
            else if roundFloat a = -1 then
              Call.setFogState FogState.Exp color (roundFloat b) 0
            else if roundFloat a = -2 then
              Call.setFogState FogState.Exp2 color (roundFloat b) 0
            else Call.setFogState FogState.Linear color (roundFloat a) (roundFloat b)] := by
  constructor
  · rintro (hfew | ⟨a, b, h1, h2, hcol⟩)
    · exact compat_SetFog_of_few L hfew
    · by_cases hlen : 2 ≤ L.stack.length
      · exact compat_SetFog_of_numbers L a b h1 h2
          (hrange 1 a (by omega) (by omega) hlen (by simpa using h1))
          (hrange 2 b (by omega) (by omega) hlen (by simpa using h2)) hlen hcol
      · exact compat_SetFog_of_few L (by omega)
  · intro k hok
    obtain ⟨a, b, color, hnum, hcol2, hcol3, hcalls⟩ := compat_SetFog_calls L k hok
    exact ⟨compat_SetFog_result L k hok, a, b, color,
      fun h => ⟨(hnum h).1, (hnum h).2.1⟩, hcol2, hcol3, hcalls⟩

/-- The theorem `setFog_mode_selection` at `SetFog(-1, 10)`: two numbers, start -1; the call
returns and has selected Exp with density 10 and the colour 0xFF000000. -/
theorem setFog_mode_selection_witness :
    (∀ (i : Nat) (d : ℚ), 1 ≤ i → i ≤ 2 →
      2 ≤ (luaCall Renderer.fresh [.number (-1), .number 10]).stack.length →
      (luaCall Renderer.fresh [.number (-1), .number 10]).env.tonumber?
        ((luaCall Renderer.fresh [.number (-1), .number 10]).valueAt i) = some d →
      |d| ≤ FLT_MAX)
    ∧ (compat_SetFog (luaCall Renderer.fresh [.number (-1), .number 10])).1 = .ok 0
    ∧ (compat_SetFog (luaCall Renderer.fresh [.number (-1), .number 10])).2.calls
        = [Call.setFogState FogState.Exp ⟨0xFF000000⟩ 10 0] := by
  have hrange : ∀ (i : Nat) (d : ℚ), 1 ≤ i → i ≤ 2 →
      2 ≤ (luaCall Renderer.fresh [.number (-1), .number 10]).stack.length →
      (luaCall Renderer.fresh [.number (-1), .number 10]).env.tonumber?
        ((luaCall Renderer.fresh [.number (-1), .number 10]).valueAt i) = some d →
      |d| ≤ FLT_MAX := by
    intro i d h1 h2 _ h
    interval_cases i
    · have hd : some (-1 : ℚ) = some d := h
      cases hd
      decide!
    · have hd : some (10 : ℚ) = some d := h
      cases hd
      decide!
  exact ⟨hrange,
    (setFog_mode_selection _ hrange).1
      (Or.inr ⟨-1, 10, rfl, rfl, fun h => absurd h (by decide)⟩),
    by decide!⟩

/-- C25, as stated, fails: `SetFog(16777216, 16777217)` has a start that differs from its
end, and fog is disabled, since both numbers are the `float` 16777216; and
`SetFog(-1 - 2^-30, 2)` has a start that is not -1, and the mode is Exp (density 2) and not
Linear, since the start is the `float` -1. -/
theorem setFog_compares_floats :
    (16777216 : ℚ) ≠ 16777217
    ∧ (compat_SetFog (luaCall Renderer.fresh [.number 16777216, .number 16777217])).1 = .ok 0
    ∧ (compat_SetFog (luaCall Renderer.fresh [.number 16777216, .number 16777217])).2.calls
        = [Call.setFogState FogState.Disable ⟨0⟩ 0 0]
    ∧ (-1073741825 / 1073741824 : ℚ) ≠ -1
    ∧ (compat_SetFog (luaCall Renderer.fresh
          [.number (-1073741825 / 1073741824), .number 2])).1 = .ok 0
    ∧ (compat_SetFog (luaCall Renderer.fresh
          [.number (-1073741825 / 1073741824), .number 2])).2.calls
        = [Call.setFogState FogState.Exp ⟨0xFF000000⟩ 2 0] := by
  decide!


/-! ### C26: the depth range of `setPerspective` -/

/-- A call of `setPerspective` whose numbers lie within the range of `float` either has
thirteen numbers with 0 < znear < zfar as `float`, or fails and leaves the state as it was:
with the argument error of the first argument read that is not a number, or, the arguments
1-9, 12 and 13 being numbers without 0 < znear < zfar, with the error 'invalid parameters'. -/
theorem lib_setPerspective_fails_or_valid (L : lua_State)
    (hrange : ∀ (i : Nat) (d : ℚ), 1 ≤ i → i ≤ 13 →
      L.env.tonumber? (L.valueAt i) = some d → |d| ≤ FLT_MAX) :
    (∃ a : Nat → ℚ,
      (∀ i : Nat, 1 ≤ i → i ≤ 13 → L.env.tonumber? (L.valueAt i) = some (a i))
      ∧ 0 < roundFloat (a 12) ∧ roundFloat (a 12) < roundFloat (a 13))
    ∨ ((lib_setPerspective L).2 = L
      ∧ ((∃ i : Nat, 1 ≤ i ∧ i ≤ 13 ∧ L.env.tonumber? (L.valueAt i) = none
          ∧ (lib_setPerspective L).1 = .error (LuaError.badArgument i "number"))
        ∨ ∃ a : Nat → ℚ,
          (∀ i : Nat, 1 ≤ i → i ≤ 13 → i ≠ 10 → i ≠ 11 →
            L.env.tonumber? (L.valueAt i) = some (a i))
          ∧ ¬ (0 < roundFloat (a 12) ∧ roundFloat (a 12) < roundFloat (a 13))
          ∧ (lib_setPerspective L).1 = .error (LuaError.raised
            ("invalid parameters, require (0 < znear < far), receive (znear = "
              ++ L.env.number2str (roundFloat (a 12)) ++ ", zfar = "
              ++ L.env.number2str (roundFloat (a 13)) ++ ")")))) := by
  have hr : ∀ (i : Int) (d : ℚ), 1 ≤ i → i ≤ 13 →
      L.env.tonumber? (L.valueAt i) = some d → |d| ≤ FLT_MAX := by
    intro i d h1 h13 h
    have hi : ((i.toNat : Nat) : Int) = i := Int.toNat_of_nonneg (by omega)
    refine hrange i.toNat d (by omega) (by omega) ?_
    rw [hi]
    exact h
  unfold lib_setPerspective
  simp only [luaL_checkfloat_bind]
  rcases h1 : L.env.tonumber? (L.valueAt 1) with _ | d1
  · exact Or.inr ⟨rfl, Or.inl ⟨1, by decide, by decide, h1, rfl⟩⟩
  simp only [if_pos (hr 1 d1 (by decide) (by decide) h1)]
  rcases h2 : L.env.tonumber? (L.valueAt 2) with _ | d2
  · exact Or.inr ⟨rfl, Or.inl ⟨2, by decide, by decide, h2, rfl⟩⟩
  simp only [if_pos (hr 2 d2 (by decide) (by decide) h2)]
  rcases h3 : L.env.tonumber? (L.valueAt 3) with _ | d3
  · exact Or.inr ⟨rfl, Or.inl ⟨3, by decide, by decide, h3, rfl⟩⟩
  simp only [if_pos (hr 3 d3 (by decide) (by decide) h3)]
  rcases h4 : L.env.tonumber? (L.valueAt 4) with _ | d4
  · exact Or.inr ⟨rfl, Or.inl ⟨4, by decide, by decide, h4, rfl⟩⟩
  simp only [if_pos (hr 4 d4 (by decide) (by decide) h4)]
  rcases h5 : L.env.tonumber? (L.valueAt 5) with _ | d5
  · exact Or.inr ⟨rfl, Or.inl ⟨5, by decide, by decide, h5, rfl⟩⟩
  simp only [if_pos (hr 5 d5 (by decide) (by decide) h5)]
  rcases h6 : L.env.tonumber? (L.valueAt 6) with _ | d6
  · exact Or.inr ⟨rfl, Or.inl ⟨6, by decide, by decide, h6, rfl⟩⟩
  simp only [if_pos (hr 6 d6 (by decide) (by decide) h6)]
  rcases h7 : L.env.tonumber? (L.valueAt 7) with _ | d7
  · exact Or.inr ⟨rfl, Or.inl ⟨7, by decide, by decide, h7, rfl⟩⟩
  simp only [if_pos (hr 7 d7 (by decide) (by decide) h7)]
  rcases h8 : L.env.tonumber? (L.valueAt 8) with _ | d8
  · exact Or.inr ⟨rfl, Or.inl ⟨8, by decide, by decide, h8, rfl⟩⟩
  simp only [if_pos (hr 8 d8 (by decide) (by decide) h8)]
  rcases h9 : L.env.tonumber? (L.valueAt 9) with _ | d9
  · exact Or.inr ⟨rfl, Or.inl ⟨9, by decide, by decide, h9, rfl⟩⟩
  simp only [if_pos (hr 9 d9 (by decide) (by decide) h9)]
  rcases h12 : L.env.tonumber? (L.valueAt 12) with _ | d12
  · exact Or.inr ⟨rfl, Or.inl ⟨12, by decide, by decide, h12, rfl⟩⟩
  simp only [if_pos (hr 12 d12 (by decide) (by decide) h12)]
  rcases h13 : L.env.tonumber? (L.valueAt 13) with _ | d13
  · exact Or.inr ⟨rfl, Or.inl ⟨13, by decide, by decide, h13, rfl⟩⟩
  simp only [if_pos (hr 13 d13 (by decide) (by decide) h13)]
  simp only [luaM_ite_apply]
  by_cases hc : roundFloat d12 ≤ 0 ∨ roundFloat d13 ≤ roundFloat d12
  · rw [if_pos hc]
    refine Or.inr ⟨rfl, Or.inr
      ⟨fun i => [d1, d2, d3, d4, d5, d6, d7, d8, d9, 0, 0, d12, d13].getD (i - 1) 0,
        ?_, ?_, rfl⟩⟩
    · intro i hi1 hi13 hi10 hi11
      interval_cases i
      all_goals simp only [Nat.cast_ofNat, Nat.cast_one]
      all_goals first
        | exact h1 | exact h2 | exact h3 | exact h4 | exact h5 | exact h6 | exact h7
        | exact h8 | exact h9 | exact h12 | exact h13
        | exact absurd rfl hi10 | exact absurd rfl hi11
    · rintro ⟨hpos, hlt⟩
      rcases hc with h | h
      · exact absurd hpos (not_lt.mpr h)
      · exact absurd hlt (not_lt.mpr h)
  rw [if_neg hc]
  simp only [luaL_checkfloat_bind]
  rcases h10 : L.env.tonumber? (L.valueAt 10) with _ | d10
  · exact Or.inr ⟨rfl, Or.inl ⟨10, by decide, by decide, h10, rfl⟩⟩
  simp only [if_pos (hr 10 d10 (by decide) (by decide) h10)]
  rcases h11 : L.env.tonumber? (L.valueAt 11) with _ | d11
  · exact Or.inr ⟨rfl, Or.inl ⟨11, by decide, by decide, h11, rfl⟩⟩
  refine Or.inl ⟨fun i => [d1, d2, d3, d4, d5, d6, d7, d8, d9, d10, d11, d12, d13].getD (i - 1) 0,
    ?_, ?_, ?_⟩
  · intro i hi1 hi13
    interval_cases i
    all_goals simp only [Nat.cast_ofNat, Nat.cast_one]
    all_goals first
      | exact h1 | exact h2 | exact h3 | exact h4 | exact h5 | exact h6 | exact h7
      | exact h8 | exact h9 | exact h10 | exact h11 | exact h12 | exact h13
  · push_neg at hc
    exact hc.1
  · push_neg at hc
    exact hc.2

/-- C26, amended: for every call of `setPerspective` whose numbers lie within the range of
`float`, with znear and zfar the arguments 12 and 13 converted to `float`: when all
thirteen arguments are numbers and 0 < znear < zfar, the call returns after exactly one
call of the renderer, setPerspective(eye, lookat, headup, fov, aspect, znear, zfar) with the
arguments 1-3, 4-6, 7-9, 10, 11, 12 and 13 converted to `float`; in every other case the
renderer is not called and the call fails: with the error 'invalid parameters, require
(0 < znear < far)', followed by the two values received, when the arguments 1-9, 12 and 13
are numbers and 0 < znear < zfar does not hold, and otherwise with the argument error of an
argument that is not a number. -/
theorem setPerspective_depth_range (L : lua_State)
    (hrange : ∀ (i : Nat) (d : ℚ), 1 ≤ i → i ≤ 13 →
      L.env.tonumber? (L.valueAt i) = some d → |d| ≤ FLT_MAX) :
    (∀ a : Nat → ℚ,
      (∀ i : Nat, 1 ≤ i → i ≤ 13 → L.env.tonumber? (L.valueAt i) = some (a i)) →
      0 < roundFloat (a 12) → roundFloat (a 12) < roundFloat (a 13) →
      (lib_setPerspective L).1 = .ok 0
      ∧ (lib_setPerspective L).2.calls = L.calls ++
          [Call.setPerspective ⟨roundFloat (a 1), roundFloat (a 2), roundFloat (a 3)⟩
            ⟨roundFloat (a 4), roundFloat (a 5), roundFloat (a 6)⟩
            ⟨roundFloat (a 7), roundFloat (a 8), roundFloat (a 9)⟩
            (roundFloat (a 10)) (roundFloat (a 11)) (roundFloat (a 12)) (roundFloat (a 13))])
    ∧ ((¬ ∃ a : Nat → ℚ,
        (∀ i : Nat, 1 ≤ i → i ≤ 13 → L.env.tonumber? (L.valueAt i) = some (a i))
        ∧ 0 < roundFloat (a 12) ∧ roundFloat (a 12) < roundFloat (a 13)) →
      (lib_setPerspective L).2.calls = L.calls
      ∧ ((∃ i : Nat, 1 ≤ i ∧ i ≤ 13 ∧ L.env.tonumber? (L.valueAt i) = none
          ∧ (lib_setPerspective L).1 = .error (LuaError.badArgument i "number"))
        ∨ ∃ a : Nat → ℚ,
          (∀ i : Nat, 1 ≤ i → i ≤ 13 → i ≠ 10 → i ≠ 11 →
            L.env.tonumber? (L.valueAt i) = some (a i))
          ∧ ¬ (0 < roundFloat (a 12) ∧ roundFloat (a 12) < roundFloat (a 13))
          ∧ (lib_setPerspective L).1 = .error (LuaError.raised
            ("invalid parameters, require (0 < znear < far), receive (znear = "
              ++ L.env.number2str (roundFloat (a 12)) ++ ", zfar = "
              ++ L.env.number2str (roundFloat (a 13)) ++ ")"))))
    ∧ (∀ a : Nat → ℚ,
      (∀ i : Nat, 1 ≤ i → i ≤ 13 → i ≠ 10 → i ≠ 11 →
        L.env.tonumber? (L.valueAt i) = some (a i)) →
      ¬ (0 < roundFloat (a 12) ∧ roundFloat (a 12) < roundFloat (a 13)) →
      (lib_setPerspective L).1 = .error (LuaError.raised
        ("invalid parameters, require (0 < znear < far), receive (znear = "
          ++ L.env.number2str (roundFloat (a 12)) ++ ", zfar = "
          ++ L.env.number2str (roundFloat (a 13)) ++ ")"))) := by
  refine ⟨?_, ?_, ?_⟩
  · intro a hargs hpos hlt
    have h1 := hargs 1 (by omega) (by omega)
    have h2 := hargs 2 (by omega) (by omega)
    have h3 := hargs 3 (by omega) (by omega)
    have h4 := hargs 4 (by omega) (by omega)
    have h5 := hargs 5 (by omega) (by omega)
    have h6 := hargs 6 (by omega) (by omega)
    have h7 := hargs 7 (by omega) (by omega)
    have h8 := hargs 8 (by omega) (by omega)
    have h9 := hargs 9 (by omega) (by omega)
    have h10 := hargs 10 (by omega) (by omega)
    have h11 := hargs 11 (by omega) (by omega)
    have h12 := hargs 12 (by omega) (by omega)
    have h13 := hargs 13 (by omega) (by omega)
    have r1 := hrange 1 _ (by omega) (by omega) h1
    have r2 := hrange 2 _ (by omega) (by omega) h2
    have r3 := hrange 3 _ (by omega) (by omega) h3
    have r4 := hrange 4 _ (by omega) (by omega) h4
    have r5 := hrange 5 _ (by omega) (by omega) h5
    have r6 := hrange 6 _ (by omega) (by omega) h6
    have r7 := hrange 7 _ (by omega) (by omega) h7
    have r8 := hrange 8 _ (by omega) (by omega) h8
    have r9 := hrange 9 _ (by omega) (by omega) h9
    have r10 := hrange 10 _ (by omega) (by omega) h10
    have r11 := hrange 11 _ (by omega) (by omega) h11
    have r12 := hrange 12 _ (by omega) (by omega) h12
    have r13 := hrange 13 _ (by omega) (by omega) h13
    simp only [Nat.cast_ofNat, Nat.cast_one] at h1 h2 h3 h4 h5 h6 h7 h8 h9 h10 h11 h12 h13
    have hc : ¬ (roundFloat (a 12) ≤ 0 ∨ roundFloat (a 13) ≤ roundFloat (a 12)) := by
      rintro (h | h)
      · exact absurd hpos (not_lt.mpr h)
      · exact absurd hlt (not_lt.mpr h)
    unfold lib_setPerspective
    simp only [luaL_checkfloat_bind, h1, h2, h3, h4, h5, h6, h7, h8, h9, h12, h13,
      if_pos r1, if_pos r2, if_pos r3, if_pos r4, if_pos r5, if_pos r6, if_pos r7, if_pos r8,
      if_pos r9, if_pos r12, if_pos r13, luaM_ite_apply]
    rw [if_neg hc]
    simp only [luaL_checkfloat_bind, h10, h11, if_pos r10, if_pos r11]
    exact ⟨rfl, rfl⟩
  · intro hno
    rcases lib_setPerspective_fails_or_valid L hrange with hyes | ⟨hsame, herr⟩
    · exact absurd hyes hno
    · exact ⟨by rw [hsame], herr⟩
  · intro a hargs hbad
    have h1 := hargs 1 (by omega) (by omega) (by omega) (by omega)
    have h2 := hargs 2 (by omega) (by omega) (by omega) (by omega)
    have h3 := hargs 3 (by omega) (by omega) (by omega) (by omega)
    have h4 := hargs 4 (by omega) (by omega) (by omega) (by omega)
    have h5 := hargs 5 (by omega) (by omega) (by omega) (by omega)
    have h6 := hargs 6 (by omega) (by omega) (by omega) (by omega)
    have h7 := hargs 7 (by omega) (by omega) (by omega) (by omega)
    have h8 := hargs 8 (by omega) (by omega) (by omega) (by omega)
    have h9 := hargs 9 (by omega) (by omega) (by omega) (by omega)
    have h12 := hargs 12 (by omega) (by omega) (by omega) (by omega)
    have h13 := hargs 13 (by omega) (by omega) (by omega) (by omega)
    have r1 := hrange 1 _ (by omega) (by omega) h1
    have r2 := hrange 2 _ (by omega) (by omega) h2
    have r3 := hrange 3 _ (by omega) (by omega) h3
    have r4 := hrange 4 _ (by omega) (by omega) h4
    have r5 := hrange 5 _ (by omega) (by omega) h5
    have r6 := hrange 6 _ (by omega) (by omega) h6
    have r7 := hrange 7 _ (by omega) (by omega) h7
    have r8 := hrange 8 _ (by omega) (by omega) h8
    have r9 := hrange 9 _ (by omega) (by omega) h9
    have r12 := hrange 12 _ (by omega) (by omega) h12
    have r13 := hrange 13 _ (by omega) (by omega) h13
    simp only [Nat.cast_ofNat, Nat.cast_one] at h1 h2 h3 h4 h5 h6 h7 h8 h9 h12 h13
    have hc : roundFloat (a 12) ≤ 0 ∨ roundFloat (a 13) ≤ roundFloat (a 12) := by
      by_contra hn
      push_neg at hn
      exact hbad hn
    unfold lib_setPerspective
    simp only [luaL_checkfloat_bind, h1, h2, h3, h4, h5, h6, h7, h8, h9, h12, h13,
      if_pos r1, if_pos r2, if_pos r3, if_pos r4, if_pos r5, if_pos r6, if_pos r7, if_pos r8,
      if_pos r9, if_pos r12, if_pos r13, luaM_ite_apply]
    rw [if_pos hc]
    simp only [lua_number2str_bind, luaL_error_apply]


/-- The theorem `setPerspective_depth_range` at a call with the depth range (1, 100): the
renderer is called with the thirteen numbers. -/
theorem setPerspective_depth_range_witness :
    (∀ (i : Nat) (d : ℚ), 1 ≤ i → i ≤ 13 →
      (luaCall Renderer.closed (perspectiveArgs 1 100)).env.tonumber?
          ((luaCall Renderer.closed (perspectiveArgs 1 100)).valueAt i) = some d →
      |d| ≤ FLT_MAX)
    ∧ (lib_setPerspective (luaCall Renderer.closed (perspectiveArgs 1 100))).1 = .ok 0
    ∧ (lib_setPerspective (luaCall Renderer.closed (perspectiveArgs 1 100))).2.calls
        = [Call.setPerspective ⟨1, 2, 3⟩ ⟨4, 5, 6⟩ ⟨7, 8, 9⟩ 10 11 1 100] := by
  have hargs : ∀ i : Nat, 1 ≤ i → i ≤ 13 →
      (luaCall Renderer.closed (perspectiveArgs 1 100)).env.tonumber?
          ((luaCall Renderer.closed (perspectiveArgs 1 100)).valueAt i)
        = some (((perspectiveArgs 1 100).map
            (fun v => (sampleEnv.tonumber? v).getD 0)).getD (i - 1) 0) := by
    intro i h1 h13
    interval_cases i <;> rfl
  have hrange : ∀ (i : Nat) (d : ℚ), 1 ≤ i → i ≤ 13 →
      (luaCall Renderer.closed (perspectiveArgs 1 100)).env.tonumber?
          ((luaCall Renderer.closed (perspectiveArgs 1 100)).valueAt i) = some d →
      |d| ≤ FLT_MAX := by
    intro i d h1 h13 h
    rw [hargs i h1 h13] at h
    cases h
    interval_cases i <;> decide!
  have h := (setPerspective_depth_range _ hrange).1 _ hargs (by decide!) (by decide!)
  refine ⟨hrange, h.1, ?_⟩
  rw [h.2]
  decide!

/-- C26, as stated, fails: with the depth range (16777216, 16777217), where
0 < znear < zfar, `setPerspective` raises 'invalid parameters' and the renderer is not
called, since both numbers are the `float` 16777216; with the depth range (1, 100) and no
number as argument 10 the renderer is not called either, and the error is the argument
error of `luaL_checknumber`; and with the depth range (1, 16777217) the renderer is called
with zfar = 16777216, not with argument 13 unchanged. -/
theorem setPerspective_rejects_valid_range :
    (lib_setPerspective (luaCall Renderer.closed (perspectiveArgs 1 16777217))).2.calls
        = [Call.setPerspective ⟨1, 2, 3⟩ ⟨4, 5, 6⟩ ⟨7, 8, 9⟩ 10 11 1 16777216]
    ∧ (0 : ℚ) < 16777216 ∧ (16777216 : ℚ) < 16777217
    ∧ (lib_setPerspective (luaCall Renderer.closed (perspectiveArgs 16777216 16777217))).1
        = .error (LuaError.raised
          ("invalid parameters, require (0 < znear < far), receive (znear = "
            ++ sampleEnv.number2str 16777216 ++ ", zfar = "
            ++ sampleEnv.number2str 16777216 ++ ")"))
    ∧ (lib_setPerspective (luaCall Renderer.closed (perspectiveArgs 16777216 16777217))).2.calls
        = []
    ∧ (lib_setPerspective (luaCall Renderer.closed
          [.number 1, .number 2, .number 3, .number 4, .number 5, .number 6, .number 7,
            .number 8, .number 9, .nil, .number 11, .number 1, .number 100])).1
        = .error (LuaError.badArgument 10 "number")
    ∧ (lib_setPerspective (luaCall Renderer.closed
          [.number 1, .number 2, .number 3, .number 4, .number 5, .number 6, .number 7,
            .number 8, .number 9, .nil, .number 11, .number 1, .number 100])).2.calls
        = [] := by
  decide!


/-! ### C27: the blend state of a blend mode -/

/-- C27: `translate_blend_3d` is a total function of the blend mode whose value is fixed by
the blend equation alone: the `Mul*` and `Add*` variants of Alpha, Add, RevSub, Sub, Min,
Max, Mutiply and Screen give the same `BlendState` (Alpha, Add, RevSub, Sub, Min, Max, Mul,
Screen), `AlphaBal` gives Inv, `One` gives One, every value the switch does not name gives
Alpha, and no value gives Disable or Hue. -/
theorem translate_blend_3d_by_equation :
    (translate_blend_3d BlendMode.MulAlpha = BlendState.Alpha
      ∧ translate_blend_3d BlendMode.AddAlpha = BlendState.Alpha)
    ∧ (translate_blend_3d BlendMode.MulAdd = BlendState.Add
      ∧ translate_blend_3d BlendMode.AddAdd = BlendState.Add)
    ∧ (translate_blend_3d BlendMode.MulRev = BlendState.RevSub
      ∧ translate_blend_3d BlendMode.AddRev = BlendState.RevSub)
    ∧ (translate_blend_3d BlendMode.MulSub = BlendState.Sub
      ∧ translate_blend_3d BlendMode.AddSub = BlendState.Sub)
    ∧ (translate_blend_3d BlendMode.MulMin = BlendState.Min
      ∧ translate_blend_3d BlendMode.AddMin = BlendState.Min)
    ∧ (translate_blend_3d BlendMode.MulMax = BlendState.Max
      ∧ translate_blend_3d BlendMode.AddMax = BlendState.Max)
    ∧ (translate_blend_3d BlendMode.MulMutiply = BlendState.Mul
      ∧ translate_blend_3d BlendMode.AddMutiply = BlendState.Mul)
    ∧ (translate_blend_3d BlendMode.MulScreen = BlendState.Screen
      ∧ translate_blend_3d BlendMode.AddScreen = BlendState.Screen)
    ∧ translate_blend_3d BlendMode.AlphaBal = BlendState.Inv
    ∧ translate_blend_3d BlendMode.One = BlendState.One
    ∧ (∀ value : Nat, translate_blend_3d (BlendMode.other value) = BlendState.Alpha)
    ∧ ∀ blend : BlendMode, translate_blend_3d blend ≠ BlendState.Disable
        ∧ translate_blend_3d blend ≠ BlendState.Hue := by
  and_intros
  all_goals first | rfl | skip
  · intro value
    rfl
  · intro blend
    cases blend <;> refine ⟨?_, ?_⟩ <;> (simp only [translate_blend_3d]; decide)


/-! ### C28: the blob written as an array -/

/-- A byte is written as `0x` and its two hexadecimal digits. -/
theorem format_hex_byte : ∀ v : Nat, v < 256 →
    format_hex v = ['0', 'x', Nat.digitChar (v / 16), Nat.digitChar (v % 16)] := by
  decide!

/-- The hexadecimal digits are lowercase, and reading a digit gives its value back. -/
theorem hexValue_digitChar : ∀ d : Nat, d < 16 →
    hexValue? (Nat.digitChar d) = some d ∧ Nat.digitChar d ∈ "0123456789abcdef".toList := by
  decide

theorem readLiteralsFrom_blank (cs : List Char) :
    readLiteralsFrom .between (' ' :: cs) = readLiteralsFrom .between cs := by
  rw [readLiteralsFrom, if_pos (by decide)]

theorem readLiteralsFrom_newline (cs : List Char) :
    readLiteralsFrom .between ('\n' :: cs) = readLiteralsFrom .between cs := by
  rw [readLiteralsFrom, if_pos (by decide)]

theorem readLiteralsFrom_digit (value : Option Nat) (d : Nat) (hd : d < 16) (cs : List Char) :
    readLiteralsFrom (.digits value) (Nat.digitChar d :: cs)
      = readLiteralsFrom (.digits (some (16 * value.getD 0 + d))) cs := by
  simp only [readLiteralsFrom, (hexValue_digitChar d hd).1]

/-- Reading a written byte back, up to the comma after it. -/
theorem readLiteralsFrom_format_hex (v : Nat) (hv : v < 256) (cs : List Char) :
    readLiteralsFrom .between (format_hex v ++ ',' :: cs)
      = (readLiteralsFrom .between cs).map (fun ns => v :: ns) := by
  rw [format_hex_byte v hv]
  simp only [List.cons_append, List.nil_append]
  rw [readLiteralsFrom, if_neg (by decide), if_pos rfl, readLiteralsFrom, if_pos rfl,
    readLiteralsFrom_digit none (v / 16) (by omega),
    readLiteralsFrom_digit _ (v % 16) (Nat.mod_lt _ (by omega)), readLiteralsFrom]
  have hcomma : hexValue? ',' = none := by decide
  rw [hcomma]
  simp only [Option.getD_none, Option.getD_some, Nat.mul_zero, Nat.zero_add]
  rw [if_pos (by decide)]
  have hvalue : 16 * (v / 16) + v % 16 = v := Nat.div_add_mod v 16
  rw [hvalue]

theorem format_row_eq (a b c d : Nat) :
    format_row a b c d
      = ' ' :: ' ' :: ' ' :: ' ' :: ' ' :: ' ' :: ' ' :: ' ' ::
          (format_hex a ++ ',' :: ' ' :: (format_hex b ++ ',' :: ' ' ::
            (format_hex c ++ ',' :: ' ' :: (format_hex d ++ [',', '\n'])))) := by
  have h1 : "        ".toList = [' ', ' ', ' ', ' ', ' ', ' ', ' ', ' '] := rfl
  have h2 : ", ".toList = [',', ' '] := rfl
  have h3 : ",\n".toList = [',', '\n'] := rfl
  unfold format_row
  rw [h1, h2, h3]
  simp only [List.cons_append, List.nil_append, List.append_assoc]

/-- Reading a written row back gives its four bytes. -/
theorem readLiteralsFrom_format_row (a b c d : Nat) (ha : a < 256) (hb : b < 256)
    (hc : c < 256) (hd : d < 256) (cs : List Char) :
    readLiteralsFrom .between (format_row a b c d ++ cs)
      = (readLiteralsFrom .between cs).map (fun ns => a :: b :: c :: d :: ns) := by
  rw [format_row_eq]
  simp only [List.cons_append, List.nil_append, List.append_assoc, readLiteralsFrom_blank]
  rw [readLiteralsFrom_format_hex a ha, readLiteralsFrom_blank,
    readLiteralsFrom_format_hex b hb, readLiteralsFrom_blank,
    readLiteralsFrom_format_hex c hc, readLiteralsFrom_blank,
    readLiteralsFrom_format_hex d hd, readLiteralsFrom_newline]
  cases readLiteralsFrom .between cs <;> rfl

/-- The rows written for a blob of whole rows: row `k` holds the bytes `4k .. 4k+3`, and
reading the rows back gives the bytes. -/
theorem write_blob_rows_spec : ∀ (n : Nat) (bytes : List Nat), bytes.length = n →
    bytes.length % 4 = 0 → (∀ b ∈ bytes, b < 256) →
    write_blob_rows bytes = .ok ((List.range (bytes.length / 4)).map (fun k =>
        format_row (bytes.getD (4 * k) 0) (bytes.getD (4 * k + 1) 0)
          (bytes.getD (4 * k + 2) 0) (bytes.getD (4 * k + 3) 0)))
    ∧ readLiterals ((List.range (bytes.length / 4)).map (fun k =>
        format_row (bytes.getD (4 * k) 0) (bytes.getD (4 * k + 1) 0)
          (bytes.getD (4 * k + 2) 0) (bytes.getD (4 * k + 3) 0))) = some bytes := by
  intro n
  induction n using Nat.strong_induction_on with
  | _ n ih =>
    intro bytes hlen hmod hbyte
    match bytes, hlen, hmod, hbyte with
    | [], _, _, _ => exact ⟨rfl, rfl⟩
    | [_], _, hmod, _ => simp at hmod
    | [_, _], _, hmod, _ => simp at hmod
    | [_, _, _], _, hmod, _ => simp at hmod
    | a :: b :: c :: d :: rest, hlen, hmod, hbyte =>
      have hrest : rest.length % 4 = 0 := by
        simp only [List.length_cons] at hmod
        omega
      have hlt : rest.length < n := by
        simp only [List.length_cons] at hlen
        omega
      obtain ⟨h1, h2⟩ := ih rest.length hlt rest rfl hrest
        (fun x hx => hbyte x (by simp [hx]))
      have hdiv : (a :: b :: c :: d :: rest).length / 4 = rest.length / 4 + 1 := by
        simp only [List.length_cons]
        omega
      have hrows : (List.range ((a :: b :: c :: d :: rest).length / 4)).map (fun k =>
          format_row ((a :: b :: c :: d :: rest).getD (4 * k) 0)
            ((a :: b :: c :: d :: rest).getD (4 * k + 1) 0)
            ((a :: b :: c :: d :: rest).getD (4 * k + 2) 0)
            ((a :: b :: c :: d :: rest).getD (4 * k + 3) 0))
          = format_row a b c d :: (List.range (rest.length / 4)).map (fun k =>
              format_row (rest.getD (4 * k) 0) (rest.getD (4 * k + 1) 0)
                (rest.getD (4 * k + 2) 0) (rest.getD (4 * k + 3) 0)) := by
        rw [hdiv, List.range_succ_eq_map, List.map_cons, List.map_map]
        congr 1
      rw [hrows]
      constructor
      · rw [write_blob_rows, h1]
      · unfold readLiterals at h2 ⊢
        rw [List.flatten_cons, readLiteralsFrom_format_row a b c d
          (hbyte a (by simp)) (hbyte b (by simp)) (hbyte c (by simp)) (hbyte d (by simp)), h2]
        rfl

/-- C28: for a blob of `n` bytes, `n` a multiple of 4, `write_blob_to_file` returns true
and writes, between the line that opens the array and the line that closes it, exactly
`n / 4` data lines; line `k` lists the bytes `4k .. 4k+3` in order, each as `0x` followed by
exactly two lowercase hexadecimal digits; reading the literals of the data lines back, in
order, gives the `n` bytes of the blob. -/
theorem write_blob_round_trip (blob : List Nat) (config : output_config_t)
    (hsize : blob.length % 4 = 0) (hbyte : ∀ b ∈ blob, b < 256) :
    ∃ rows : List (List Char),
      write_blob_to_file blob config
        = .ok (true, blob_header_lines config ++ rows ++ blob_footer_lines)
      ∧ rows.length = blob.length / 4
      ∧ (∀ k : Nat, k < blob.length / 4 →
          rows[k]? = some (format_row (blob.getD (4 * k) 0) (blob.getD (4 * k + 1) 0)
            (blob.getD (4 * k + 2) 0) (blob.getD (4 * k + 3) 0)))
      ∧ (∀ b ∈ blob, ∃ high low : Char,
          high ∈ "0123456789abcdef".toList ∧ low ∈ "0123456789abcdef".toList
          ∧ format_hex b = ['0', 'x', high, low])
      ∧ readLiterals rows = some blob := by
  obtain ⟨h1, h2⟩ := write_blob_rows_spec blob.length blob rfl hsize hbyte
  refine ⟨_, ?_, ?_, ?_, ?_, h2⟩
  · unfold write_blob_to_file
    rw [h1]
  · simp
  · intro k hk
    simp [hk]
  · intro b hb
    have hlt := hbyte b hb
    exact ⟨Nat.digitChar (b / 16), Nat.digitChar (b % 16),
      (hexValue_digitChar (b / 16) (by omega)).2,
      (hexValue_digitChar (b % 16) (Nat.mod_lt _ (by omega))).2,
      format_hex_byte b hlt⟩

/-- The theorem `write_blob_round_trip` on a blob of four bytes, which is written as one
data line. -/
theorem write_blob_round_trip_witness :
    [0, 10, 255, 16].length % 4 = 0 ∧ (∀ b ∈ [0, 10, 255, 16], b < 256)
    ∧ write_blob_rows [0, 10, 255, 16] = .ok ["        0x00, 0x0a, 0xff, 0x10,\n".toList]
    ∧ (blob_header_lines ⟨"shaders", "blob", "blob.hpp"⟩).getLast?
        = some "    static unsigned char const blob[] = \x7b\n".toList
    ∧ blob_footer_lines.head? = some "    \x7d;\n".toList
    ∧ ∃ rows : List (List Char),
      write_blob_to_file [0, 10, 255, 16] ⟨"shaders", "blob", "blob.hpp"⟩
        = .ok (true, blob_header_lines ⟨"shaders", "blob", "blob.hpp"⟩ ++ rows
            ++ blob_footer_lines)
      ∧ rows.length = [0, 10, 255, 16].length / 4
      ∧ (∀ k : Nat, k < [0, 10, 255, 16].length / 4 →
          rows[k]? = some (format_row ([0, 10, 255, 16].getD (4 * k) 0)
            ([0, 10, 255, 16].getD (4 * k + 1) 0)
            ([0, 10, 255, 16].getD (4 * k + 2) 0) ([0, 10, 255, 16].getD (4 * k + 3) 0)))
      ∧ (∀ b ∈ [0, 10, 255, 16], ∃ high low : Char,
          high ∈ "0123456789abcdef".toList ∧ low ∈ "0123456789abcdef".toList
          ∧ format_hex b = ['0', 'x', high, low])
      ∧ readLiterals rows = some [0, 10, 255, 16] :=
  ⟨by decide, by decide, by decide!, by decide!, by decide!,
    write_blob_round_trip [0, 10, 255, 16] ⟨"shaders", "blob", "blob.hpp"⟩
      (by decide) (by decide)⟩


/-! ### C29: reading a file in chunks -/

theorem chunkSizes_step (n : Nat) (h : 64 < n) : chunkSizes n = 64 :: chunkSizes (n - 64) := by
  unfold chunkSizes
  have h1 : n ≠ 0 := by omega
  have h2 : n - 64 ≠ 0 := by omega
  rw [if_neg h1, if_neg h2]
  have h3 : (n - 1) / 64 = (n - 64 - 1) / 64 + 1 := by omega
  rw [h3, List.replicate_succ, List.cons_append]
  congr 2
  congr 1
  omega

theorem chunkSizes_last (n : Nat) (h0 : 0 < n) (h : n ≤ 64) : chunkSizes n = [n] := by
  unfold chunkSizes
  have h1 : n ≠ 0 := by omega
  rw [if_neg h1]
  have h3 : (n - 1) / 64 = 0 := by omega
  rw [h3]
  simp

/-- The loop reads what is left of the file in chunks, as long as the position and the size
still to read add up to the size of the file. -/
theorem read_file_loop_spec (contents : List Nat) :
    ∀ (size_to_read position : Nat) (buffer storage reads : List Nat),
      position + size_to_read = contents.length → buffer.length = 64 →
      read_file_loop ⟨contents, position⟩ buffer storage reads size_to_read
        = (storage ++ contents.drop position, reads ++ chunkSizes size_to_read) := by
  intro size_to_read
  induction size_to_read using Nat.strong_induction_on with
  | _ n ih =>
    intro position buffer storage reads hpos hbuf
    rw [read_file_loop]
    by_cases h0 : n > 0
    · rw [if_pos h0]
      by_cases h64 : n > 64
      · rw [if_pos h64]
        have hchunk : ((contents.drop position).take 64).length = 64 := by
          rw [List.length_take, List.length_drop]
          omega
        have hstep : (ifstream.read ⟨contents, position⟩ buffer 64)
            = (⟨contents, position + 64⟩, (contents.drop position).take 64) := by
          have hb : buffer.drop 64 = [] := List.drop_of_length_le (by omega)
          simp only [ifstream.read, hchunk, hb, List.append_nil]
        rw [hstep]
        simp only
        rw [ih (n - 64) (by omega) (position + 64) _ _ _ (by omega) hchunk]
        rw [chunkSizes_step n h64]
        simp only [List.append_assoc, List.singleton_append, Prod.mk.injEq, and_true]
        rw [List.take_of_length_le (le_of_eq hchunk)]
        congr 1
        rw [← List.drop_drop]
        exact List.take_append_drop 64 (contents.drop position)
      · rw [if_neg h64]
        have hchunk : ((contents.drop position).take n).length = n := by
          rw [List.length_take, List.length_drop]
          omega
        have hstep : (ifstream.read ⟨contents, position⟩ buffer n)
            = (⟨contents, position + n⟩,
                (contents.drop position).take n ++ buffer.drop n) := by
          simp only [ifstream.read, hchunk]
        rw [hstep]
        simp only [Nat.sub_self]
        rw [read_file_loop, if_neg (by omega)]
        rw [chunkSizes_last n h0 (by omega)]
        simp only [Prod.mk.injEq, and_true]
        rw [List.take_append_of_le_length (by omega), List.take_of_length_le (le_of_eq hchunk)]
        rw [List.take_of_length_le (by rw [List.length_drop]; omega)]
    · rw [if_neg h0]
      have hn : n = 0 := by omega
      subst hn
      simp only [add_zero] at hpos
      rw [List.drop_of_length_le (by omega)]
      simp [chunkSizes]

/-- C29: for a file of `n` bytes that can be opened, `read_file` returns true with the
bytes of the file appended, in order, to the previous content of the storage; it asks
`file.read` for 64 bytes while more than 64 remain and then once for what remains, at least
one and at most 64 bytes; for an empty file it reads nothing and leaves the storage as it
was.  The function is total: the loop ends for every file size. -/
theorem read_file_appends_contents (open? : String → Option (List Nat)) (path : String)
    (contents storage : List Nat) (hopen : open? path = some contents) :
    read_file open? path storage
        = ⟨true, storage ++ contents, chunkSizes contents.length⟩
    ∧ (contents.length = 0 →
        read_file open? path storage = ⟨true, storage, []⟩)
    ∧ (0 < contents.length →
        ∃ q r : Nat, 0 < r ∧ r ≤ 64 ∧ 64 * q + r = contents.length
          ∧ (read_file open? path storage).reads = List.replicate q 64 ++ [r]) := by
  have hmain : read_file open? path storage
      = ⟨true, storage ++ contents, chunkSizes contents.length⟩ := by
    unfold read_file
    rw [hopen]
    simp only
    rw [read_file_loop_spec contents contents.length 0 _ storage [] (by omega) (by simp)]
    simp
  refine ⟨hmain, ?_, ?_⟩
  · intro h0
    rw [hmain, h0]
    have hnil : contents = [] := List.length_eq_zero.mp h0
    simp [hnil, chunkSizes]
  · intro hpos
    rw [hmain]
    refine ⟨(contents.length - 1) / 64, contents.length - 64 * ((contents.length - 1) / 64),
      by omega, by omega, by omega, ?_⟩
    simp only [chunkSizes]
    rw [if_neg (by omega)]

/-- The theorem `read_file_appends_contents` on a file of 130 bytes: two reads of 64 bytes
and one of 2 bytes. -/
theorem read_file_appends_contents_witness :
    sampleFiles "shader.hlsl" = some (List.range 130)
    ∧ read_file sampleFiles "shader.hlsl" [7]
        = ⟨true, [7] ++ List.range 130, chunkSizes (List.range 130).length⟩
    ∧ chunkSizes (List.range 130).length = [64, 64, 2] :=
  ⟨by simp [sampleFiles],
    (read_file_appends_contents sampleFiles "shader.hlsl" (List.range 130) [7]
      (by simp [sampleFiles])).1,
    by simp [chunkSizes]⟩


/-! ### C30: the flags of a compile profile -/

theorem ite_or_flag (b : Bool) (flags x : Nat) :
    (if b = true then flags ||| x else flags) = flags ||| (if b = true then x else 0) := by
  cases b <;> simp

theorem level_or_flag (K : D3DCOMPILE) (level : optimization_level) (flags : Nat) :
    (if level = optimization_level.level0 then flags ||| K.OPTIMIZATION_LEVEL0
      else if level = optimization_level.level1 then flags ||| K.OPTIMIZATION_LEVEL1
      else if level = optimization_level.level2 then flags ||| K.OPTIMIZATION_LEVEL2
      else if level = optimization_level.level3 then flags ||| K.OPTIMIZATION_LEVEL3
      else flags) = flags ||| K.levelFlag level := by
  unfold D3DCOMPILE.levelFlag
  split_ifs <;> simp

/-- The result of `to_flags` as one bitwise OR: the flags of the options, each taken when
the option is enabled, and the flag of the optimization level. -/
theorem to_flags_eq (K : D3DCOMPILE) (p : compile_profile_t) :
    p.to_flags K
      = ((CompileOption.all.map (fun o => if p.enabled o = true then K.optionFlag o else 0)).foldl
          (fun flags flag => flags ||| flag) 0 ||| K.levelFlag p.optimization_level)
        % 4294967296 := by
  unfold compile_profile_t.to_flags
  simp -zeta only [ite_or_flag, level_or_flag]
  rfl

theorem and_ite_flag (b : Bool) (x y : Nat) :
    x &&& (if b = true then y else 0) = if b = true then x &&& y else 0 := by
  cases b <;> simp

theorem to_flags_lt (K : D3DCOMPILE) (p : compile_profile_t) (hsep : K.separate = true) :
    (CompileOption.all.map (fun o => if p.enabled o = true then K.optionFlag o else 0)).foldl
        (fun flags flag => flags ||| flag) 0 ||| K.levelFlag p.optimization_level
      < 2 ^ 32 := by
  simp only [D3DCOMPILE.separate, CompileOption.all, List.all_cons, List.all_nil,
    Bool.and_true, Bool.and_eq_true, decide_eq_true_eq, D3DCOMPILE.optionFlag,
    D3DCOMPILE.levelFlags] at hsep
  simp only [CompileOption.all, List.map_cons, List.map_nil, List.foldl_cons, List.foldl_nil,
    compile_profile_t.enabled, D3DCOMPILE.optionFlag, D3DCOMPILE.levelFlag]
  have hz : (0 : Nat) < 2 ^ 32 := by norm_num
  have hite : ∀ (b : Bool) (x : Nat), x < 4294967296 → (if b = true then x else 0) < 2 ^ 32 := by
    intro b x hx
    cases b
    · simp
    · simpa using hx
  repeat' apply Nat.or_lt_two_pow
  all_goals first
    | exact hz
    | (apply hite; omega)
    | (split_ifs <;> omega)

/-- The bits of the flag of an option in the OR of `to_flags`: the flag when the option is
enabled, nothing when it is not. -/
theorem and_optionFlag (K : D3DCOMPILE) (p : compile_profile_t) (hsep : K.separate = true)
    (o : CompileOption) :
    K.optionFlag o &&&
        ((CompileOption.all.map
            (fun o => if p.enabled o = true then K.optionFlag o else 0)).foldl
          (fun flags flag => flags ||| flag) 0 ||| K.levelFlag p.optimization_level)
      = if p.enabled o = true then K.optionFlag o else 0 := by
  simp [D3DCOMPILE.separate, CompileOption.all, D3DCOMPILE.optionFlag,
    D3DCOMPILE.levelFlags] at hsep
  have hlevel : K.optionFlag o &&& K.levelFlag p.optimization_level = 0 := by
    unfold D3DCOMPILE.levelFlag
    cases o <;> simp only [D3DCOMPILE.optionFlag] <;> split_ifs <;> simp [hsep]
  simp only [CompileOption.all, List.map_cons, List.map_nil, List.foldl_cons, List.foldl_nil,
    compile_profile_t.enabled, Nat.and_or_distrib_left, hlevel, and_ite_flag, Nat.and_zero,
    Nat.or_zero, Nat.zero_or]
  cases o <;> simp [D3DCOMPILE.optionFlag, compile_profile_t.enabled, hsep]

theorem optionFlag_ne_zero (K : D3DCOMPILE) (hsep : K.separate = true) (o : CompileOption) :
    K.optionFlag o ≠ 0 := by
  simp [D3DCOMPILE.separate, CompileOption.all, D3DCOMPILE.optionFlag,
    D3DCOMPILE.levelFlags] at hsep
  cases o <;> simp [D3DCOMPILE.optionFlag, hsep]

/-- C30: `to_flags` returns the bitwise OR of the flags of the enabled boolean options and
of the flag of the selected optimization level (no flag for `unspecified`).  With constants
as in d3dcompiler.h, where the flag of every boolean option has bits of its own, the bits of
the flag of an option are all set in the result when the option is enabled and all clear
when it is not. -/
theorem to_flags_is_or_of_enabled (K : D3DCOMPILE) (p : compile_profile_t)
    (hsep : K.separate = true) :
    p.to_flags K
      = (CompileOption.all.map (fun o => if p.enabled o = true then K.optionFlag o else 0)).foldl
          (fun flags flag => flags ||| flag) 0 ||| K.levelFlag p.optimization_level
    ∧ ∀ o : CompileOption,
        (p.to_flags K &&& K.optionFlag o = K.optionFlag o ↔ p.enabled o = true)
        ∧ (p.to_flags K &&& K.optionFlag o = 0 ↔ p.enabled o = false) := by
  have heq : p.to_flags K
      = (CompileOption.all.map (fun o => if p.enabled o = true then K.optionFlag o else 0)).foldl
          (fun flags flag => flags ||| flag) 0 ||| K.levelFlag p.optimization_level := by
    rw [to_flags_eq]
    exact Nat.mod_eq_of_lt (to_flags_lt K p hsep)
  refine ⟨heq, fun o => ?_⟩
  have hne := optionFlag_ne_zero K hsep o
  rw [heq, Nat.and_comm, and_optionFlag K p hsep o]
  cases p.enabled o
  · simp only [Bool.false_eq_true, if_false, iff_false, iff_true, and_true]
    exact fun h => hne h.symm
  · simp only [if_true, iff_true, true_and, Bool.true_eq_false, iff_false]
    exact hne

/-- The theorem `to_flags_is_or_of_enabled` with the constants of d3dcompiler.h, and the
flags of the two standard profiles. -/
theorem to_flags_is_or_of_enabled_witness :
    D3DCOMPILE.sdk.separate = true
    ∧ compile_profile_t.standard_debug.to_flags D3DCOMPILE.sdk = 264197
    ∧ compile_profile_t.standard_release.to_flags D3DCOMPILE.sdk = 297472
    ∧ ∀ o : CompileOption,
        (compile_profile_t.standard_release.to_flags D3DCOMPILE.sdk
            &&& D3DCOMPILE.sdk.optionFlag o = D3DCOMPILE.sdk.optionFlag o
          ↔ compile_profile_t.standard_release.enabled o = true)
        ∧ (compile_profile_t.standard_release.to_flags D3DCOMPILE.sdk
            &&& D3DCOMPILE.sdk.optionFlag o = 0
          ↔ compile_profile_t.standard_release.enabled o = false) :=
  ⟨by decide, by decide, by decide,
    (to_flags_is_or_of_enabled D3DCOMPILE.sdk compile_profile_t.standard_release
      (by decide)).2⟩

end LuaSTG
